import Mathlib

/-!
Verification of a toy secp256k1 library: a prime field `Zp` over the secp256k1
field prime `P` and the elliptic-curve group of points on `y² = x³ + 7`.

Field elements are embedded as their canonical `Nat` value; the 256-bit
unsigned integer collaborator is embedded as `Nat` with explicit wrapping
at `2 ^ 256`.
-/

set_option maxRecDepth 40000

namespace Secp

/-- The size of the 256-bit unsigned integer type: `2 ^ 256`. -/
def U256.size : Nat := 2 ^ 256

/-- Embeds `U256::overflowing_add`: wrapping sum together with the overflow flag. -/
def U256.overflowing_add (a b : Nat) : Nat × Bool :=
  ((a + b) % U256.size, decide (U256.size ≤ a + b))

/-- Embeds `U256::wrapping_add` (from the `U256Ext` helper trait). -/
def U256.wrapping_add (a b : Nat) : Nat :=
  (U256.overflowing_add a b).1

/-- Embeds `U256::overflowing_sub`: wrapping difference together with the borrow flag. -/
def U256.overflowing_sub (a b : Nat) : Nat × Bool :=
  (if b ≤ a then a - b else a + U256.size - b, decide (a < b))

/-- Embeds `U256::wrapping_sub` (from the `U256Ext` helper trait). -/
def U256.wrapping_sub (a b : Nat) : Nat :=
  (U256.overflowing_sub a b).1

/-- Embeds `U256::wrapping_shl` by one helper trait method: `self << rhs`, dropping high bits. -/
def U256.wrapping_shl (a k : Nat) : Nat :=
  (a * 2 ^ k) % U256.size

/-- Embeds `U256([w0, w1, w2, w3])`: four 64-bit limbs, least significant first. -/
def wordsToNat (w0 w1 w2 w3 : Nat) : Nat :=
  w0 + 2 ^ 64 * w1 + 2 ^ 128 * w2 + 2 ^ 192 * w3

/-- The secp256k1 field prime, the `P` constant of the library. -/
def P : Nat :=
  wordsToNat 0xFFFFFFFEFFFFFC2F 0xFFFFFFFFFFFFFFFF 0xFFFFFFFFFFFFFFFF 0xFFFFFFFFFFFFFFFF

/-- Embeds `Zp::ZERO`. -/
def Zp.ZERO : Nat := 0

/-- Embeds `Zp::wrapping_from`: converts `value % P` to a field element. -/
def Zp.wrapping_from (value : Nat) : Nat :=
  if P ≤ value then U256.wrapping_sub value P else value

/-- Embeds `Zp::checked_from`: validates that the value is canonical. -/
def Zp.checked_from (value : Nat) : Option Nat :=
  if P ≤ value then none else some value

/-- Embeds `Zp::is_zero`. -/
def Zp.is_zero (a : Nat) : Bool := decide (a = 0)

/-- Embeds `impl Add for Zp`: raw 256-bit sum, with `P` subtracted back on
overflow or a non-canonical result. -/
def Zp.add (a b : Nat) : Nat :=
  let r := U256.overflowing_add a b
  if r.2 || decide (P ≤ r.1) then U256.wrapping_sub r.1 P else r.1

/-- Embeds `impl Sub for Zp`: raw 256-bit difference, with `P` added back on
borrow or a non-canonical result. -/
def Zp.sub (a b : Nat) : Nat :=
  let r := U256.overflowing_sub a b
  if r.2 || decide (P ≤ r.1) then U256.wrapping_add r.1 P else r.1

/-- Embeds `impl Neg for Zp`: zero maps to zero, any other value `v` to `P - v`. -/
def Zp.neg (a : Nat) : Nat :=
  if Zp.is_zero a then a else P - a

/-- Modelled from the spec: the external 256-bit integer collaborator's
extended-Euclidean step state, used by `U256::mod_inverse`, which is not part
of this repository.  One step of the classical extended Euclidean algorithm,
with explicit fuel; the state tracks remainders `r0, r1` and the Bezout
coefficients `t0, t1` of the inverted value. -/
def egcd (fuel : Nat) (r0 r1 : Nat) (t0 t1 : Int) : Nat × Int :=
  match fuel with
  | 0 => (r0, t0)
  | fuel + 1 =>
    if r1 = 0 then (r0, t0)
    else egcd fuel r1 (r0 % r1) t1 (t0 - (r0 / r1 : Nat) * t1)

/-- Modelled from the spec: `U256::mod_inverse`, the external collaborator's
"generic extended-Euclidean modular inverse with respect to an arbitrary odd
modulus"; not part of this repository.  Runs the extended Euclidean algorithm
on `(m, a)` and returns the Bezout coefficient of `a` reduced to `[0, m)`. -/
def mod_inverse (a m : Nat) : Nat :=
  ((egcd (a + 1) m a 0 1).2 % (m : Int)).toNat

/-- One iteration count worth of `impl Mul<U256> for Zp`'s double-and-add loop:
double the accumulator, add the multiplicand on a set top bit, shift the
multiplier left. -/
def Zp.mulLoop (a : Nat) : Nat → Nat → Nat → Nat
  | 0, res, _ => res
  | fuel + 1, res, rhs =>
    let res1 := Zp.add res res
    let res2 := if rhs.testBit 255 then Zp.add res1 a else res1
    Zp.mulLoop a fuel res2 (U256.wrapping_shl rhs 1)

/-- Embeds `impl Mul<U256> for Zp`: double-and-add over exactly 256 bit positions,
most significant first. -/
def Zp.mulU256 (a rhs : Nat) : Nat :=
  Zp.mulLoop a 256 Zp.ZERO rhs

/-- Embeds `impl Mul<u64> for Zp`: widens the multiplier and multiplies. -/
def Zp.mulU64 (a rhs : Nat) : Nat :=
  Zp.mulU256 a rhs

/-- Embeds `impl Mul for Zp`: multiplies by the canonical value of the right operand. -/
def Zp.mul (a b : Nat) : Nat :=
  Zp.mulU256 a b

/-- Embeds `Zp::multiplicative_inverse`: delegates to the collaborator's
`mod_inverse` against modulus `P`. -/
def Zp.multiplicative_inverse (a : Nat) : Nat :=
  mod_inverse a P

/-- Embeds `impl Div for Zp`: multiply by the multiplicative inverse of the divisor. -/
def Zp.div (a b : Nat) : Nat :=
  Zp.mul a (Zp.multiplicative_inverse b)

/-- Secp256k1 curve point: a pair of field elements. -/
structure Point where
  x : Nat
  y : Nat
deriving DecidableEq

/-- Embeds `Point::AT_INFINITY`: the `(0, 0)` sentinel for the neutral element. -/
def Point.AT_INFINITY : Point := ⟨0, 0⟩

/-- The curve parameter `B = 7`. -/
def B : Nat := 7

/-- Embeds `Point::is_at_infinity`. -/
def Point.is_at_infinity (pt : Point) : Bool :=
  Zp.is_zero pt.x && Zp.is_zero pt.y

/-- Embeds `Point::new`: accepts the sentinel or a pair satisfying
`y * y == x * x * x + B`, rejecting anything else. -/
def Point.new (x y : Nat) : Option Point :=
  if (Zp.is_zero x && Zp.is_zero y) || decide (Zp.mul y y = Zp.add (Zp.mul (Zp.mul x x) x) B) then
    some ⟨x, y⟩
  else
    none

/-- Embeds `impl Neg for Point`: negate the `y` coordinate. -/
def Point.neg (pt : Point) : Point :=
  ⟨pt.x, Zp.neg pt.y⟩

/-- Embeds `impl Add for Point`: the library's short-Weierstrass group law.
`q` is bound to `self` and `p` to `rhs`, exactly as in the source. -/
def Point.add (self rhs : Point) : Point :=
  if self.is_at_infinity then rhs
  else if rhs.is_at_infinity then self
  else if self = Point.neg rhs then Point.AT_INFINITY
  else
    let q := self
    let p := rhs
    let lambda :=
      if p = q then Zp.div (Zp.mulU64 (Zp.mul p.x p.x) 3) (Zp.mulU64 p.y 2)
      else Zp.div (Zp.sub q.y p.y) (Zp.sub q.x p.x)
    let x := Zp.sub (Zp.sub (Zp.mul lambda lambda) p.x) q.x
    let y := Zp.sub (Zp.mul lambda (Zp.sub p.x x)) p.y
    ⟨x, y⟩

/-- The generator `G` of secp256k1, with its published coordinates. -/
def G : Point :=
  ⟨wordsToNat 0x59F2815B16F81798 0x029BFCDB2DCE28D9 0x55A06295CE870B07 0x79BE667EF9DCBBAC,
   wordsToNat 0x9C47D08FFB10D4B8 0xFD17B448A6855419 0x5DA4FBFC0E1108A8 0x483ADA7726A3C465⟩

/-- Embeds `SECP256K1_GROUP_ORDER`: the published curve order `n`. -/
def SECP256K1_GROUP_ORDER : Nat :=
  wordsToNat 0xBFD25E8CD0364141 0xBAAEDCE6AF48A03B 0xFFFFFFFFFFFFFFFE 0xFFFFFFFFFFFFFFFF

/-- One iteration count worth of `impl Mul<U256> for Point`'s double-and-add
loop: double the accumulator, add the multiplicand point on a set top bit,
shift the multiplier left. -/
def Point.mulLoop (self : Point) : Nat → Point → Nat → Point
  | 0, res, _ => res
  | fuel + 1, res, rhs =>
    let res1 := Point.add res res
    let res2 := if rhs.testBit 255 then Point.add res1 self else res1
    Point.mulLoop self fuel res2 (U256.wrapping_shl rhs 1)

/-- Embeds `impl Mul<U256> for Point`: double-and-add over exactly 256 bit positions,
most significant first. -/
def Point.mulU256 (self : Point) (rhs : Nat) : Point :=
  Point.mulLoop self 256 Point.AT_INFINITY rhs

/-- Embeds `impl Mul<u64> for Point`: widens the multiplier and multiplies. -/
def Point.mulU64 (self : Point) (rhs : Nat) : Point :=
  Point.mulU256 self rhs

/-- Embeds `Point::scalar_multiplicative_inverse`: the collaborator's `mod_inverse`
against the group order. -/
def Point.scalar_multiplicative_inverse (scalar : Nat) : Nat :=
  mod_inverse scalar SECP256K1_GROUP_ORDER

/-- Validity of a point value: coordinates are canonical field elements and
the pair is either the sentinel or passes the curve check of `Point::new`. -/
def Point.Valid (pt : Point) : Prop :=
  pt.x < P ∧ pt.y < P ∧
    ((pt.x = 0 ∧ pt.y = 0) ∨ Zp.mul pt.y pt.y = Zp.add (Zp.mul (Zp.mul pt.x pt.x) pt.x) B)

instance (pt : Point) : Decidable pt.Valid := by
  unfold Point.Valid; infer_instance

/-! ### Basic facts about the constants -/

theorem P_val : P = 115792089237316195423570985008687907853269984665640564039457584007908834671663 := by
  decide

theorem size_val : U256.size = 115792089237316195423570985008687907853269984665640564039457584007913129639936 := by
  decide

theorem order_val : SECP256K1_GROUP_ORDER = 115792089237316195423570985008687907852837564279074904382605163141518161494337 := by
  decide

theorem P_pos : 0 < P := by rw [P_val]; norm_num

theorem P_lt_size : P < U256.size := by rw [P_val, size_val]; norm_num

theorem size_lt_two_P : U256.size < 2 * P := by rw [P_val, size_val]; norm_num

/-! ### Canonical-form characterization of the field operations (C7, C8) -/

theorem mod_id (x m : Nat) (h : x < m) : x % m = x :=
  Nat.mod_eq_of_lt h

theorem mod_sub (x m : Nat) (h1 : m ≤ x) (h2 : x < 2 * m) : x % m = x - m := by
  rw [Nat.mod_eq_sub_mod h1, Nat.mod_eq_of_lt (by omega)]

theorem Zp.add_eq (a b : Nat) (ha : a < P) (hb : b < P) :
    Zp.add a b = (a + b) % P := by
  have hP := P_lt_size
  have h2P := size_lt_two_P
  have hpos := P_pos
  simp only [Zp.add, U256.overflowing_add, U256.wrapping_sub, U256.overflowing_sub,
    Bool.or_eq_true, decide_eq_true_eq]
  rcases Nat.lt_or_ge (a + b) U256.size with h | h
  · rw [mod_id _ _ h]
    rcases Nat.lt_or_ge (a + b) P with h2 | h2
    · rw [if_neg (by omega), mod_id _ _ h2]
    · rw [if_pos (by omega), if_pos h2, mod_sub _ _ h2 (by omega)]
  · rw [mod_sub _ _ h (by omega), if_pos (by omega), if_neg (by omega),
      mod_sub _ _ (by omega) (by omega)]
    omega

theorem Zp.add_lt (a b : Nat) (ha : a < P) (hb : b < P) :
    Zp.add a b < P := by
  rw [Zp.add_eq a b ha hb]
  exact Nat.mod_lt _ P_pos

theorem Zp.sub_eq (a b : Nat) (ha : a < P) (hb : b < P) :
    Zp.sub a b = (a + (P - b)) % P := by
  have hP := P_lt_size
  have h2P := size_lt_two_P
  have hpos := P_pos
  simp only [Zp.sub, U256.overflowing_sub, U256.wrapping_add, U256.overflowing_add,
    Bool.or_eq_true, decide_eq_true_eq]
  rcases Nat.lt_or_ge a b with h | h
  · rw [if_neg (show ¬ b ≤ a by omega)]
    rw [if_pos (show a < b ∨ P ≤ a + U256.size - b from Or.inl h)]
    rw [mod_sub _ _ (by omega) (by omega), mod_id _ _ (by omega)]
    omega
  · rw [if_pos (show b ≤ a from h)]
    rw [if_neg (show ¬ (a < b ∨ P ≤ a - b) by omega)]
    rw [mod_sub _ _ (by omega) (by omega)]
    omega

theorem Zp.sub_lt (a b : Nat) (ha : a < P) (hb : b < P) :
    Zp.sub a b < P := by
  rw [Zp.sub_eq a b ha hb]
  exact Nat.mod_lt _ P_pos

theorem Zp.neg_eq (a : Nat) (ha : a < P) :
    Zp.neg a = (P - a) % P := by
  have hpos := P_pos
  simp only [Zp.neg, Zp.is_zero, decide_eq_true_eq]
  split_ifs with h
  · rw [h, Nat.sub_zero, Nat.mod_self]
  · rw [mod_id _ _ (by omega)]

theorem Zp.neg_lt (a : Nat) (ha : a < P) : Zp.neg a < P := by
  rw [Zp.neg_eq a ha]
  exact Nat.mod_lt _ P_pos

theorem Zp.wrapping_from_eq (v : Nat) (hv : v < U256.size) :
    Zp.wrapping_from v = v % P := by
  have hP := P_lt_size
  have h2P := size_lt_two_P
  simp only [Zp.wrapping_from, U256.wrapping_sub, U256.overflowing_sub]
  rcases Nat.lt_or_ge v P with h | h
  · rw [if_neg (by omega), mod_id _ _ h]
  · rw [if_pos h, if_pos h, mod_sub _ _ h (by omega)]

/-! ### Double-and-add field multiplication refines modular multiplication (C6) -/

theorem div_mul_two (x k : Nat) : x * 2 / (k * 2) = x / k := by
  rw [Nat.mul_comm k 2, ← Nat.div_div_eq_div_mul]
  congr 1
  omega

theorem testBit255_iff (rhs : Nat) (h : rhs < U256.size) :
    Nat.testBit rhs 255 = true ↔ 2 ^ 255 ≤ rhs := by
  rw [size_val] at h
  rw [Nat.testBit_to_div_mod, decide_eq_true_eq]
  omega

theorem Zp.mulLoop_eq (a : Nat) (ha : a < P) :
    ∀ fuel, fuel ≤ 256 → ∀ res rhs, res < P → rhs < U256.size →
      Zp.mulLoop a fuel res rhs = (res * 2 ^ fuel + a * (rhs / 2 ^ (256 - fuel))) % P := by
  intro fuel
  induction fuel with
  | zero =>
    intro _ res rhs hres hrhs
    have h0 : rhs / 2 ^ (256 - 0) = 0 :=
      Nat.div_eq_of_lt (by simp only [Nat.sub_zero]; rw [size_val] at hrhs; omega)
    show res = _
    rw [h0, Nat.mul_zero, Nat.add_zero, pow_zero, Nat.mul_one, mod_id _ _ hres]
  | succ fuel ih =>
    intro hle res rhs hres hrhs
    have hfuel : fuel ≤ 256 := Nat.le_of_succ_le hle
    have hfuel' : fuel ≤ 255 := by omega
    have hsize : U256.size = 2 ^ 256 := by rw [size_val]; norm_num
    have hadd1 : Zp.add res res = (res + res) % P := Zp.add_eq _ _ hres hres
    have hlt1 : Zp.add res res < P := Zp.add_lt _ _ hres hres
    show Zp.mulLoop a fuel
        (if rhs.testBit 255 then Zp.add (Zp.add res res) a else Zp.add res res)
        (U256.wrapping_shl rhs 1) = _
    have hshl : U256.wrapping_shl rhs 1 = rhs * 2 % U256.size := by
      simp [U256.wrapping_shl]
    have hshl_lt : U256.wrapping_shl rhs 1 < U256.size :=
      hshl ▸ Nat.mod_lt _ (by rw [hsize]; positivity)
    by_cases hbit : Nat.testBit rhs 255 = true
    · have hhi : 2 ^ 255 ≤ rhs := (testBit255_iff rhs hrhs).mp hbit
      have hshl2 : U256.wrapping_shl rhs 1 = rhs * 2 - 2 ^ 256 := by
        rw [hshl, hsize, mod_sub _ _ (by omega) (by rw [size_val] at hrhs; omega)]
      rw [if_pos hbit]
      have hres2 : Zp.add (Zp.add res res) a < P := Zp.add_lt _ _ hlt1 ha
      rw [ih hfuel _ _ hres2 hshl_lt]
      have hdiv : U256.wrapping_shl rhs 1 / 2 ^ (256 - fuel) = (rhs - 2 ^ 255) / 2 ^ (255 - fuel) := by
        rw [hshl2]
        have e1 : rhs * 2 - 2 ^ 256 = (rhs - 2 ^ 255) * 2 := by omega
        have hexp : 256 - fuel = (255 - fuel) + 1 := by omega
        have e2 : (2 : Nat) ^ (256 - fuel) = 2 ^ (255 - fuel) * 2 := by
          rw [hexp, pow_succ]
        rw [e1, e2, div_mul_two]
      have hdiv2 : rhs / 2 ^ (255 - fuel) = (rhs - 2 ^ 255) / 2 ^ (255 - fuel) + 2 ^ fuel := by
        have e3 : rhs = (rhs - 2 ^ 255) + 2 ^ (255 - fuel) * 2 ^ fuel := by
          rw [← pow_add]
          have : 255 - fuel + fuel = 255 := by omega
          rw [this]
          omega
        conv_lhs => rw [e3]
        rw [Nat.add_mul_div_left _ _ (by positivity)]
      have hmod : 256 - (fuel + 1) = 255 - fuel := by omega
      rw [hmod, hdiv, hdiv2]
      rw [Zp.add_eq _ _ hlt1 ha, hadd1]
      have hcong : ((res + res) % P + a) % P * 2 ^ fuel + a * ((rhs - 2 ^ 255) / 2 ^ (255 - fuel))
          ≡ (res + res + a) * 2 ^ fuel + a * ((rhs - 2 ^ 255) / 2 ^ (255 - fuel)) [MOD P] := by
        apply Nat.ModEq.add_right
        apply Nat.ModEq.mul_right
        calc ((res + res) % P + a) % P ≡ (res + res) % P + a [MOD P] := Nat.mod_modEq _ _
          _ ≡ res + res + a [MOD P] := (Nat.mod_modEq _ _).add_right a
      rw [Nat.ModEq] at hcong
      rw [hcong]
      congr 1
      ring
    · have hlo : rhs < 2 ^ 255 := by
        rcases Nat.lt_or_ge rhs (2 ^ 255) with h | h
        · exact h
        · exact absurd ((testBit255_iff rhs hrhs).mpr h) hbit
      have hshl2 : U256.wrapping_shl rhs 1 = rhs * 2 := by
        rw [hshl, hsize, mod_id _ _ (by omega)]
      rw [if_neg hbit]
      rw [ih hfuel _ _ hlt1 hshl_lt]
      have hdiv : U256.wrapping_shl rhs 1 / 2 ^ (256 - fuel) = rhs / 2 ^ (255 - fuel) := by
        rw [hshl2]
        have hexp : 256 - fuel = (255 - fuel) + 1 := by omega
        have e2 : (2 : Nat) ^ (256 - fuel) = 2 ^ (255 - fuel) * 2 := by
          rw [hexp, pow_succ]
        rw [e2, div_mul_two]
      have hmod : 256 - (fuel + 1) = 255 - fuel := by omega
      rw [hmod, hdiv, hadd1]
      have hcong : (res + res) % P * 2 ^ fuel + a * (rhs / 2 ^ (255 - fuel))
          ≡ (res + res) * 2 ^ fuel + a * (rhs / 2 ^ (255 - fuel)) [MOD P] :=
        Nat.ModEq.add_right _ ((Nat.mod_modEq _ _).mul_right _)
      rw [Nat.ModEq] at hcong
      rw [hcong]
      congr 1
      ring

theorem Zp.mulU256_eq (a k : Nat) (ha : a < P) (hk : k < U256.size) :
    Zp.mulU256 a k = a * k % P := by
  unfold Zp.mulU256
  rw [Zp.mulLoop_eq a ha 256 le_rfl Zp.ZERO k (by rw [Zp.ZERO]; exact P_pos) hk]
  simp [Zp.ZERO]

theorem Zp.mulU256_lt (a k : Nat) (ha : a < P) (hk : k < U256.size) :
    Zp.mulU256 a k < P := by
  rw [Zp.mulU256_eq a k ha hk]
  exact Nat.mod_lt _ P_pos

/-! ### Correctness of the modelled extended-Euclidean modular inverse -/

theorem egcd_spec (m a : Nat) : ∀ fuel r0 r1 : Nat, ∀ t0 t1 : Int, r1 < fuel →
    (a : Int) * t0 ≡ (r0 : Int) [ZMOD (m : Int)] →
    (a : Int) * t1 ≡ (r1 : Int) [ZMOD (m : Int)] →
    (egcd fuel r0 r1 t0 t1).1 = Nat.gcd r0 r1 ∧
      (a : Int) * (egcd fuel r0 r1 t0 t1).2 ≡ ((egcd fuel r0 r1 t0 t1).1 : Int)
        [ZMOD (m : Int)] := by
  intro fuel
  induction fuel with
  | zero =>
    intro r0 r1 t0 t1 h
    omega
  | succ fuel ih =>
    intro r0 r1 t0 t1 hlt h0 h1
    by_cases hz : r1 = 0
    · subst hz
      simp only [egcd, if_pos rfl]
      exact ⟨(Nat.gcd_zero_right r0).symm, h0⟩
    · have hstep : egcd (fuel + 1) r0 r1 t0 t1
          = egcd fuel r1 (r0 % r1) t1 (t0 - (r0 / r1 : Nat) * t1) := by
        simp only [egcd, if_neg hz]
      have hr1pos : 0 < r1 := Nat.pos_of_ne_zero hz
      have hmodlt : r0 % r1 < fuel := lt_of_lt_of_le (Nat.mod_lt r0 hr1pos) (by omega)
      have hcast : ((r0 % r1 : Nat) : Int) = (r0 : Int) - ((r0 / r1 : Nat) : Int) * (r1 : Int) := by
        have hdm := Nat.div_add_mod r0 r1
        rw [mul_comm]
        omega
      have h2 : (a : Int) * (t0 - (r0 / r1 : Nat) * t1) ≡ ((r0 % r1 : Nat) : Int)
          [ZMOD (m : Int)] := by
        rw [hcast]
        have := h0.sub (h1.mul_left ((r0 / r1 : Nat) : Int))
        calc (a : Int) * (t0 - (r0 / r1 : Nat) * t1)
            = (a : Int) * t0 - ((r0 / r1 : Nat) : Int) * ((a : Int) * t1) := by ring
          _ ≡ (r0 : Int) - ((r0 / r1 : Nat) : Int) * (r1 : Int) [ZMOD (m : Int)] :=
              h0.sub (h1.mul_left _)
      obtain ⟨hg, hc⟩ := ih r1 (r0 % r1) t1 (t0 - (r0 / r1 : Nat) * t1) hmodlt h1 h2
      refine ⟨?_, ?_⟩
      · rw [hstep, hg, Nat.gcd_comm r1 (r0 % r1), ← Nat.gcd_rec r1 r0, Nat.gcd_comm r1 r0]
      · rw [hstep]
        exact hc

theorem mod_inverse_lt (a m : Nat) (hm : 0 < m) : mod_inverse a m < m := by
  unfold mod_inverse
  have hmz : (m : Int) ≠ 0 := by exact_mod_cast hm.ne'
  have h1 : 0 ≤ (egcd (a + 1) m a 0 1).2 % (m : Int) := Int.emod_nonneg _ hmz
  have h2 : (egcd (a + 1) m a 0 1).2 % (m : Int) < m := Int.emod_lt_of_pos _ (by exact_mod_cast hm)
  omega

theorem mod_inverse_spec (a m : Nat) (hm : 1 < m) (h : Nat.gcd m a = 1) :
    a * mod_inverse a m % m = 1 := by
  have h0 : (a : Int) * 0 ≡ (m : Int) [ZMOD (m : Int)] := by
    unfold Int.ModEq
    simp
  have h1 : (a : Int) * 1 ≡ (a : Int) [ZMOD (m : Int)] := by
    rw [mul_one]
  obtain ⟨hg, hc⟩ := egcd_spec m a (a + 1) m a 0 1 (by omega) h0 h1
  rw [hg, h] at hc
  set t := (egcd (a + 1) m a 0 1).2 with ht
  have hmz : (m : Int) ≠ 0 := by positivity
  have htm : t % (m : Int) ≡ t [ZMOD (m : Int)] := Int.emod_emod_of_dvd t dvd_rfl
  have hnn : 0 ≤ t % (m : Int) := Int.emod_nonneg _ hmz
  have hcast : ((mod_inverse a m : Nat) : Int) = t % (m : Int) := by
    unfold mod_inverse
    rw [← ht, Int.toNat_of_nonneg hnn]
  have hfin : (a : Int) * (mod_inverse a m : Nat) ≡ 1 [ZMOD (m : Int)] := by
    rw [hcast]
    exact (htm.mul_left (a : Int)).trans hc
  have heq : (a : Int) * ((mod_inverse a m : Nat) : Int) % (m : Int) = 1 % (m : Int) := hfin
  have hone : (1 : Int) % (m : Int) = 1 := Int.emod_eq_of_lt (by norm_num) (by exact_mod_cast hm)
  have hfin2 : ((a * mod_inverse a m % m : Nat) : Int) = 1 := by
    push_cast
    rw [heq, hone]
  exact_mod_cast hfin2

/-! ### Derived canonical-form lemmas for composed field operations -/

theorem Zp.mul_eq (a b : Nat) (ha : a < P) (hb : b < P) : Zp.mul a b = a * b % P :=
  Zp.mulU256_eq a b ha (hb.trans P_lt_size)

theorem Zp.mul_lt (a b : Nat) (ha : a < P) (hb : b < P) : Zp.mul a b < P :=
  Zp.mulU256_lt a b ha (hb.trans P_lt_size)

theorem Zp.mulU64_eq (a k : Nat) (ha : a < P) (hk : k < U256.size) :
    Zp.mulU64 a k = a * k % P :=
  Zp.mulU256_eq a k ha hk

theorem Zp.div_eq (a b : Nat) (ha : a < P) :
    Zp.div a b = a * mod_inverse b P % P := by
  unfold Zp.div Zp.mul Zp.multiplicative_inverse
  exact Zp.mulU256_eq _ _ ha ((mod_inverse_lt b P P_pos).trans P_lt_size)

theorem Zp.div_lt (a b : Nat) (ha : a < P) : Zp.div a b < P := by
  rw [Zp.div_eq a b ha]
  exact Nat.mod_lt _ P_pos

/-! ### A fast mirror of the point operations, for kernel evaluation -/

/-- Canonical coordinates: both are reduced field values. -/
def Canon (pt : Point) : Prop := pt.x < P ∧ pt.y < P

/-- Forces a natural number to a literal before continuing; keeps kernel
reduction shallow on long loops. -/
def seqNat {α : Type} (x : Nat) (k : Nat → α) : α :=
  match x with
  | 0 => k 0
  | n + 1 => k (n + 1)

theorem seqNat_eq {α : Type} (x : Nat) (k : Nat → α) : seqNat x k = k x := by
  cases x <;> rfl

/-- Forces an integer to a literal before continuing. -/
def seqInt {α : Type} (x : Int) (k : Int → α) : α :=
  match x with
  | Int.ofNat n => k (Int.ofNat n)
  | Int.negSucc n => k (Int.negSucc n)

theorem seqInt_eq {α : Type} (x : Int) (k : Int → α) : seqInt x k = k x := by
  cases x <;> rfl

/-- Evaluation twin of `egcd` that forces its state each step. -/
def egcdF (fuel : Nat) (r0 r1 : Nat) (t0 t1 : Int) : Nat × Int :=
  match fuel with
  | 0 => (r0, t0)
  | fuel + 1 =>
    if r1 = 0 then (r0, t0)
    else
      seqNat (r0 % r1) fun r2 =>
        seqInt (t0 - (r0 / r1 : Nat) * t1) fun t2 =>
          egcdF fuel r1 r2 t1 t2

theorem egcdF_eq : ∀ fuel r0 r1 t0 t1, egcdF fuel r0 r1 t0 t1 = egcd fuel r0 r1 t0 t1 := by
  intro fuel
  induction fuel with
  | zero => intro r0 r1 t0 t1; rfl
  | succ fuel ih =>
    intro r0 r1 t0 t1
    show (if r1 = 0 then (r0, t0) else _) = _
    unfold egcd
    by_cases h : r1 = 0
    · rw [if_pos h, if_pos h]
    · rw [if_neg h, if_neg h, seqNat_eq, seqInt_eq, ih]

/-- Evaluation twin of `mod_inverse`. -/
def mod_inverseF (a m : Nat) : Nat :=
  ((egcdF (a + 1) m a 0 1).2 % (m : Int)).toNat

theorem mod_inverseF_eq (a m : Nat) : mod_inverseF a m = mod_inverse a m := by
  unfold mod_inverseF mod_inverse
  rw [egcdF_eq]

/-- Evaluation twin of `Point.neg` on canonical coordinates. -/
def Point.negFast (pt : Point) : Point :=
  ⟨pt.x, (P - pt.y) % P⟩

theorem Point.neg_eq_fast (pt : Point) (h : pt.y < P) : Point.neg pt = Point.negFast pt := by
  unfold Point.neg Point.negFast
  rw [Zp.neg_eq pt.y h]

/-- Evaluation twin of `Point.add` on canonical coordinates: the same branch
structure, with every field operation replaced by a single modular operation. -/
def Point.addFast (self rhs : Point) : Point :=
  if self.is_at_infinity then rhs
  else if rhs.is_at_infinity then self
  else if self = Point.negFast rhs then Point.AT_INFINITY
  else
    let lambda :=
      if rhs = self then
        ((rhs.x * rhs.x % P) * 3 % P) * mod_inverseF (rhs.y * 2 % P) P % P
      else
        ((self.y + (P - rhs.y)) % P) * mod_inverseF ((self.x + (P - rhs.x)) % P) P % P
    seqNat lambda fun lambda =>
      seqNat (((lambda * lambda % P + (P - rhs.x)) % P + (P - self.x)) % P) fun x =>
        ⟨x, (lambda * ((rhs.x + (P - x)) % P) % P + (P - rhs.y)) % P⟩

theorem Point.add_fast_eq (self rhs : Point) (hs : Canon self) (hr : Canon rhs) :
    Point.add self rhs = Point.addFast self rhs ∧ Canon (Point.add self rhs) := by
  obtain ⟨hsx, hsy⟩ := hs
  obtain ⟨hrx, hry⟩ := hr
  have h3 : (3 : Nat) < U256.size := by rw [size_val]; norm_num
  have h2 : (2 : Nat) < U256.size := by rw [size_val]; norm_num
  simp only [Point.add, Point.addFast, Point.neg_eq_fast rhs hry, seqNat_eq]
  split_ifs with h1 hb2 hneg heq
  · exact ⟨rfl, hrx, hry⟩
  · exact ⟨rfl, hsx, hsy⟩
  · exact ⟨rfl, P_pos, P_pos⟩
  · -- point doubling branch
    rw [Zp.mul_eq rhs.x rhs.x hrx hrx]
    rw [Zp.mulU64_eq _ 3 (Nat.mod_lt _ P_pos) h3]
    rw [Zp.mulU64_eq rhs.y 2 hry h2]
    rw [Zp.div_eq _ _ (Nat.mod_lt _ P_pos)]
    rw [mod_inverseF_eq]
    rw [Zp.mul_eq _ _ (Nat.mod_lt _ P_pos) (Nat.mod_lt _ P_pos)]
    rw [Zp.sub_eq _ rhs.x (Nat.mod_lt _ P_pos) hrx]
    rw [Zp.sub_eq _ self.x (Nat.mod_lt _ P_pos) hsx]
    rw [Zp.sub_eq rhs.x _ hrx (Nat.mod_lt _ P_pos)]
    rw [Zp.mul_eq _ _ (Nat.mod_lt _ P_pos) (Nat.mod_lt _ P_pos)]
    rw [Zp.sub_eq _ rhs.y (Nat.mod_lt _ P_pos) hry]
    exact ⟨rfl, Nat.mod_lt _ P_pos, Nat.mod_lt _ P_pos⟩
  · -- distinct-points branch
    rw [Zp.sub_eq self.y rhs.y hsy hry]
    rw [Zp.sub_eq self.x rhs.x hsx hrx]
    rw [Zp.div_eq _ _ (Nat.mod_lt _ P_pos)]
    rw [mod_inverseF_eq]
    rw [Zp.mul_eq _ _ (Nat.mod_lt _ P_pos) (Nat.mod_lt _ P_pos)]
    rw [Zp.sub_eq _ rhs.x (Nat.mod_lt _ P_pos) hrx]
    rw [Zp.sub_eq _ self.x (Nat.mod_lt _ P_pos) hsx]
    rw [Zp.sub_eq rhs.x _ hrx (Nat.mod_lt _ P_pos)]
    rw [Zp.mul_eq _ _ (Nat.mod_lt _ P_pos) (Nat.mod_lt _ P_pos)]
    rw [Zp.sub_eq _ rhs.y (Nat.mod_lt _ P_pos) hry]
    exact ⟨rfl, Nat.mod_lt _ P_pos, Nat.mod_lt _ P_pos⟩

theorem Point.add_canon (self rhs : Point) (hs : Canon self) (hr : Canon rhs) :
    Canon (Point.add self rhs) :=
  (Point.add_fast_eq self rhs hs hr).2

/-- Evaluation twin of `Point.mulLoop`, forcing the accumulator each step. -/
def Point.mulLoopF (self : Point) : Nat → Point → Nat → Point
  | 0, res, _ => res
  | fuel + 1, res, rhs =>
    let res1 := Point.addFast res res
    let res2 := if rhs.testBit 255 then Point.addFast res1 self else res1
    seqNat res2.x fun a =>
      seqNat res2.y fun b =>
        Point.mulLoopF self fuel ⟨a, b⟩ (U256.wrapping_shl rhs 1)

theorem Point.mulLoopF_eq (self : Point) (hs : Canon self) :
    ∀ fuel res rhs, Canon res →
      Point.mulLoopF self fuel res rhs = Point.mulLoop self fuel res rhs := by
  intro fuel
  induction fuel with
  | zero => intro res rhs _; rfl
  | succ fuel ih =>
    intro res rhs hres
    obtain ⟨e1, c1⟩ := Point.add_fast_eq res res hres hres
    show (seqNat _ fun a => seqNat _ fun b => Point.mulLoopF self fuel ⟨a, b⟩ _) = _
    rw [seqNat_eq, seqNat_eq]
    show Point.mulLoopF self fuel
        ⟨(if rhs.testBit 255 then Point.addFast (Point.addFast res res) self
            else Point.addFast res res).x,
         (if rhs.testBit 255 then Point.addFast (Point.addFast res res) self
            else Point.addFast res res).y⟩ (U256.wrapping_shl rhs 1) = _
    rw [← e1]
    by_cases hbit : rhs.testBit 255 = true
    · obtain ⟨e2, c2⟩ := Point.add_fast_eq (Point.add res res) self c1 hs
      rw [hbit]
      show Point.mulLoopF self fuel
          ⟨(Point.addFast (Point.add res res) self).x,
           (Point.addFast (Point.add res res) self).y⟩ (U256.wrapping_shl rhs 1) = _
      rw [← e2, ih _ _ c2]
      show _ = Point.mulLoop self fuel
        (if rhs.testBit 255 then Point.add (Point.add res res) self else Point.add res res)
        (U256.wrapping_shl rhs 1)
      rw [hbit]
      rfl
    · have hbit' : rhs.testBit 255 = false := by
        revert hbit
        cases rhs.testBit 255 <;> simp
      rw [hbit']
      show Point.mulLoopF self fuel
          ⟨(Point.add res res).x, (Point.add res res).y⟩ (U256.wrapping_shl rhs 1) = _
      rw [ih _ _ c1]
      show _ = Point.mulLoop self fuel
        (if rhs.testBit 255 then Point.add (Point.add res res) self else Point.add res res)
        (U256.wrapping_shl rhs 1)
      rw [hbit']
      rfl

theorem Point.mulU256_fast (self : Point) (hs : Canon self) (rhs : Nat) :
    Point.mulU256 self rhs = Point.mulLoopF self 256 Point.AT_INFINITY rhs := by
  unfold Point.mulU256
  rw [Point.mulLoopF_eq self hs 256 Point.AT_INFINITY rhs ⟨P_pos, P_pos⟩]

/-! ### Primality of the field modulus, by a verified Lucas certificate chain -/

/-- Fast modular exponentiation by squaring, with explicit fuel. -/
def powMod (fuel a e m : Nat) : Nat :=
  match fuel with
  | 0 => 1 % m
  | fuel + 1 =>
    if e = 0 then 1 % m
    else
      seqNat (powMod fuel (a * a % m) (e / 2) m) fun h =>
        if e % 2 = 1 then h * a % m else h

theorem powMod_eq : ∀ fuel e a m, 0 < m → e < 2 ^ fuel → powMod fuel a e m = a ^ e % m := by
  intro fuel
  induction fuel with
  | zero =>
    intro e a m hm he
    have h0 : e = 0 := by omega
    subst h0
    simp [powMod]
  | succ fuel ih =>
    intro e a m hm he
    show (if e = 0 then 1 % m else _) = _
    by_cases h0 : e = 0
    · subst h0
      simp
    · rw [if_neg h0, seqNat_eq]
      have hp : (2 : Nat) ^ (fuel + 1) = 2 ^ fuel * 2 := pow_succ 2 fuel
      have he2 : e / 2 < 2 ^ fuel := by omega
      rw [ih (e / 2) (a * a % m) m hm he2, ← Nat.pow_mod]
      by_cases hodd : e % 2 = 1
      · rw [if_pos hodd]
        have h2e : 2 * (e / 2) + 1 = e := by omega
        have hpow : (a * a) ^ (e / 2) * a = a ^ e := by
          rw [← pow_two, ← pow_mul, ← pow_succ, h2e]
        calc (a * a) ^ (e / 2) % m * a % m
            = (a * a) ^ (e / 2) * a % m := (Nat.mod_modEq _ m).mul_right a
          _ = a ^ e % m := by rw [hpow]
      · rw [if_neg hodd]
        have h2e : 2 * (e / 2) = e := by omega
        congr 1
        rw [← pow_two, ← pow_mul, h2e]

theorem powMod_lt (fuel a e m : Nat) (hm : 0 < m) (he : e < 2 ^ fuel) :
    powMod fuel a e m < m := by
  rw [powMod_eq fuel e a m hm he]
  exact Nat.mod_lt _ hm

theorem zmod_pow_eq (m a e : Nat) (hm : 0 < m) (he : e < 2 ^ 300) :
    ((a : ZMod m)) ^ e = ((powMod 300 a e m : Nat) : ZMod m) := by
  rw [powMod_eq 300 e a m hm he, ZMod.natCast_mod, Nat.cast_pow]

theorem cast_ne_one (n c : Nat) (hn : 1 < n) (hc : c < n) (hne : c ≠ 1) :
    ((c : Nat) : ZMod n) ≠ 1 := by
  have hf : Fact (1 < n) := ⟨hn⟩
  intro h
  have hval := congrArg ZMod.val h
  rw [ZMod.val_natCast_of_lt hc, ZMod.val_one] at hval
  exact hne hval

theorem prime_dvd_list_prod {p : Nat} (hp : Prime p) :
    ∀ l : List Nat, p ∣ l.prod → ∃ a ∈ l, p ∣ a := by
  intro l
  induction l with
  | nil =>
    intro h
    simp only [List.prod_nil] at h
    exact absurd h hp.not_dvd_one
  | cons x xs ih =>
    intro h
    rw [List.prod_cons] at h
    rcases hp.dvd_mul.mp h with h | h
    · exact ⟨x, List.mem_cons_self x xs, h⟩
    · obtain ⟨a, ha, hd⟩ := ih h
      exact ⟨a, List.mem_cons_of_mem x ha, hd⟩

/-- A verified Lucas primality certificate: `a` has full order modulo `n`,
witnessed through a complete prime factor list of `n - 1`. -/
theorem lucas_cert (n a : Nat) (qs : List Nat) (hn : 1 < n)
    (hsz : n - 1 < 2 ^ 300)
    (hprod : n - 1 = qs.prod)
    (hq : ∀ q ∈ qs, Nat.Prime q)
    (hpow : powMod 300 a (n - 1) n = 1)
    (hne : ∀ q ∈ qs, powMod 300 a ((n - 1) / q) n ≠ 1) :
    Nat.Prime n := by
  have hn0 : 0 < n := by omega
  apply lucas_primality n (a : ZMod n)
  · rw [zmod_pow_eq n a (n - 1) hn0 hsz, hpow, Nat.cast_one]
  · intro q hqp hdvd
    have hdvd2 : q ∣ qs.prod := hprod ▸ hdvd
    obtain ⟨x, hx, hqx⟩ := prime_dvd_list_prod hqp.prime qs hdvd2
    have hqeq : q = x := (Nat.prime_dvd_prime_iff_eq hqp (hq x hx)).mp hqx
    subst hqeq
    rw [zmod_pow_eq n a ((n - 1) / q) hn0 (lt_of_le_of_lt (Nat.div_le_self _ _) hsz)]
    exact cast_ne_one n _ hn
      (powMod_lt 300 a _ n hn0 (lt_of_le_of_lt (Nat.div_le_self _ _) hsz)) (hne q hx)

theorem prime_13331831 : Nat.Prime 13331831 :=
  lucas_cert 13331831 13 [2, 5, 971, 1373]
    (by norm_num) (by decide) (by decide)
    (by intro q hq; fin_cases hq <;> norm_num)
    (by decide) (by decide)

theorem prime_7240687 : Nat.Prime 7240687 :=
  lucas_cert 7240687 3 [2, 3, 1206781]
    (by norm_num) (by decide) (by decide)
    (by intro q hq; fin_cases hq <;> norm_num)
    (by decide) (by decide)

theorem prime_107590001 : Nat.Prime 107590001 :=
  lucas_cert 107590001 3 [2, 2, 2, 2, 5, 5, 5, 5, 7, 29, 53]
    (by norm_num) (by decide) (by decide)
    (by intro q hq; fin_cases hq <;> norm_num)
    (by decide) (by decide)

theorem prime_173378833005251801 : Nat.Prime 173378833005251801 :=
  lucas_cert 173378833005251801 6 [2, 2, 2, 5, 5, 2621, 24809, 13331831]
    (by norm_num) (by decide) (by decide)
    (by intro q hq; fin_cases hq <;> first | exact prime_13331831 | norm_num)
    (by decide) (by decide)

theorem prime_22149492674086928081353 : Nat.Prime 22149492674086928081353 :=
  lucas_cert 22149492674086928081353 5 [2, 2, 2, 3, 5323, 173378833005251801]
    (by norm_num) (by decide) (by decide)
    (by intro q hq; fin_cases hq <;> first | exact prime_173378833005251801 | norm_num)
    (by decide) (by decide)

theorem prime_132896956044521568488119 : Nat.Prime 132896956044521568488119 :=
  lucas_cert 132896956044521568488119 6 [2, 3, 22149492674086928081353]
    (by norm_num) (by decide) (by decide)
    (by intro q hq; fin_cases hq <;> first | exact prime_22149492674086928081353 | norm_num)
    (by decide) (by decide)

theorem prime_p2cert : Nat.Prime 255515944373312847190720520512484175977 :=
  lucas_cert 255515944373312847190720520512484175977 3
    [2, 2, 2, 7, 7, 11, 1627, 2657, 4423, 41201, 96557, 7240687, 107590001]
    (by norm_num) (by decide) (by decide)
    (by
      intro q hq
      fin_cases hq <;>
        first
          | exact prime_7240687
          | exact prime_107590001
          | norm_num)
    (by decide) (by decide)

theorem prime_Fcert :
    Nat.Prime 205115282021455665897114700593932402728804164701536103180137503955397371 :=
  lucas_cert 205115282021455665897114700593932402728804164701536103180137503955397371 10
    [2, 3, 5, 29, 29, 31, 7723, 132896956044521568488119,
      255515944373312847190720520512484175977]
    (by norm_num) (by decide) (by decide)
    (by
      intro q hq
      fin_cases hq <;>
        first
          | exact prime_132896956044521568488119
          | exact prime_p2cert
          | norm_num)
    (by decide) (by decide)

theorem P_prime : Nat.Prime P := by
  rw [P_val]
  exact lucas_cert
    115792089237316195423570985008687907853269984665640564039457584007908834671663 3
    [2, 3, 7, 13441,
      205115282021455665897114700593932402728804164701536103180137503955397371]
    (by norm_num) (by decide) (by decide)
    (by
      intro q hq
      fin_cases hq <;> first | exact prime_Fcert | norm_num)
    (by decide) (by decide)

/-! ### The secp256k1 curve over the prime field, via Mathlib -/

instance P_fact : Fact (Nat.Prime P) := ⟨P_prime⟩

instance P_neZero : NeZero P := ⟨P_pos.ne'⟩

/-- The short-Weierstrass curve `y² = x³ + 7` over `ZMod P`. -/
def W : WeierstrassCurve.Affine (ZMod P) :=
  { a₁ := 0, a₂ := 0, a₃ := 0, a₄ := 0, a₆ := 7 }

theorem cast_inj_of_lt {a b : Nat} (ha : a < P) (hb : b < P)
    (h : (a : ZMod P) = (b : ZMod P)) : a = b := by
  have hv := congrArg ZMod.val h
  rwa [ZMod.val_natCast_of_lt ha, ZMod.val_natCast_of_lt hb] at hv

theorem natCast_ne_zero (c : Nat) (h0 : 0 < c) (hc : c < P) : (c : ZMod P) ≠ 0 := by
  intro h
  have hv := congrArg ZMod.val h
  rw [ZMod.val_natCast_of_lt hc, ZMod.val_zero] at hv
  omega

theorem two_ne_zero' : (2 : ZMod P) ≠ 0 := by
  have h := natCast_ne_zero 2 (by norm_num) (by rw [P_val]; norm_num)
  simpa using h

theorem three_ne_zero' : (3 : ZMod P) ≠ 0 := by
  have h := natCast_ne_zero 3 (by norm_num) (by rw [P_val]; norm_num)
  simpa using h

theorem seven_ne_zero' : (7 : ZMod P) ≠ 0 := by
  have h := natCast_ne_zero 7 (by norm_num) (by rw [P_val]; norm_num)
  simpa using h

theorem W_equation_iff (x y : ZMod P) : W.Equation x y ↔ y ^ 2 = x ^ 3 + 7 := by
  rw [WeierstrassCurve.Affine.equation_iff]
  show y ^ 2 + W.a₁ * x * y + W.a₃ * y = x ^ 3 + W.a₂ * x ^ 2 + W.a₄ * x + W.a₆ ↔ _
  simp only [W]
  constructor <;> intro h <;> linear_combination h

theorem W_negY (x y : ZMod P) : W.negY x y = -y := by
  show -y - W.a₁ * x - W.a₃ = -y
  simp only [W]
  ring

theorem W_nonsingular (x y : ZMod P) (h : W.Equation x y) : W.Nonsingular x y := by
  rw [WeierstrassCurve.Affine.nonsingular_iff]
  refine ⟨h, ?_⟩
  by_contra hcon
  push_neg at hcon
  obtain ⟨h1, h2⟩ := hcon
  have ha1 : W.a₁ = (0 : ZMod P) := rfl
  have ha2 : W.a₂ = (0 : ZMod P) := rfl
  have ha3 : W.a₃ = (0 : ZMod P) := rfl
  have ha4 : W.a₄ = (0 : ZMod P) := rfl
  have hy : y = 0 := by
    have h2y : (2 : ZMod P) * y = 0 := by linear_combination h2 - ha3 - x * ha1
    rcases mul_eq_zero.mp h2y with hh | hh
    · exact absurd hh two_ne_zero'
    · exact hh
  have hx : x = 0 := by
    have h3x : (3 : ZMod P) * x ^ 2 = 0 := by
      linear_combination -h1 - ha4 - 2 * x * ha2 + y * ha1
    rcases mul_eq_zero.mp h3x with hh | hh
    · exact absurd hh three_ne_zero'
    · exact pow_eq_zero_iff (by norm_num) |>.mp hh
  rw [W_equation_iff, hx, hy] at h
  apply seven_ne_zero'
  linear_combination -h

theorem curve_check_iff (x y : Nat) (hx : x < P) (hy : y < P) :
    (Zp.mul y y = Zp.add (Zp.mul (Zp.mul x x) x) B) ↔
      ((y : ZMod P)) ^ 2 = ((x : ZMod P)) ^ 3 + 7 := by
  have hB : B < P := by rw [P_val]; norm_num [B]
  rw [Zp.mul_eq y y hy hy, Zp.mul_eq x x hx hx,
      Zp.mul_eq _ x (Nat.mod_lt _ P_pos) hx, Zp.add_eq _ B (Nat.mod_lt _ P_pos) hB]
  constructor
  · intro h
    have hm : ((y * y : Nat) : ZMod P) = (((x * x % P) * x % P + B : Nat) : ZMod P) :=
      (ZMod.natCast_eq_natCast_iff _ _ _).mpr h
    push_cast [ZMod.natCast_mod, B] at hm
    linear_combination hm
  · intro h
    apply (ZMod.natCast_eq_natCast_iff _ _ _).mp
    push_cast [ZMod.natCast_mod, B]
    linear_combination h

open Classical in
/-- Map a library point value to a nonsingular rational point of `W`: the
sentinel and any non-curve pair go to the point at infinity. -/
noncomputable def toEC (pt : Point) : W.Point :=
  if h : W.Nonsingular (pt.x : ZMod P) (pt.y : ZMod P) then
    WeierstrassCurve.Affine.Point.some h
  else 0

theorem sentinel_not_nonsingular : ¬ W.Nonsingular ((0 : Nat) : ZMod P) ((0 : Nat) : ZMod P) := by
  intro h
  have heq := h.1
  rw [W_equation_iff] at heq
  apply seven_ne_zero'
  push_cast at heq
  linear_combination -heq

theorem toEC_infinity : toEC Point.AT_INFINITY = 0 := by
  unfold toEC
  exact dif_neg sentinel_not_nonsingular

/-- On a valid non-sentinel point the map yields the affine point with the
cast coordinates. -/
theorem toEC_some (pt : Point) (h : pt.Valid) (hns : ¬ (pt.x = 0 ∧ pt.y = 0)) :
    ∃ hw : W.Nonsingular (pt.x : ZMod P) (pt.y : ZMod P),
      toEC pt = WeierstrassCurve.Affine.Point.some hw := by
  obtain ⟨hx, hy, hcase⟩ := h
  rcases hcase with hc | hc
  · exact absurd hc hns
  · have heq : ((pt.y : ZMod P)) ^ 2 = ((pt.x : ZMod P)) ^ 3 + 7 :=
      (curve_check_iff pt.x pt.y hx hy).mp hc
    have hw : W.Nonsingular (pt.x : ZMod P) (pt.y : ZMod P) :=
      W_nonsingular _ _ ((W_equation_iff _ _).mpr heq)
    refine ⟨hw, ?_⟩
    unfold toEC
    exact dif_pos hw

/-! ### Casting the field operations into `ZMod P` -/

theorem zp_add_cast (a b : Nat) (ha : a < P) (hb : b < P) :
    ((Zp.add a b : Nat) : ZMod P) = (a : ZMod P) + (b : ZMod P) := by
  rw [Zp.add_eq a b ha hb, ZMod.natCast_mod]
  push_cast
  ring

theorem zp_sub_cast (a b : Nat) (ha : a < P) (hb : b < P) :
    ((Zp.sub a b : Nat) : ZMod P) = (a : ZMod P) - (b : ZMod P) := by
  rw [Zp.sub_eq a b ha hb, ZMod.natCast_mod, Nat.cast_add, Nat.cast_sub hb.le,
    ZMod.natCast_self]
  ring

theorem zp_neg_cast (a : Nat) (ha : a < P) :
    ((Zp.neg a : Nat) : ZMod P) = -(a : ZMod P) := by
  rw [Zp.neg_eq a ha, ZMod.natCast_mod, Nat.cast_sub ha.le, ZMod.natCast_self]
  ring

theorem zp_mul_cast (a b : Nat) (ha : a < P) (hb : b < P) :
    ((Zp.mul a b : Nat) : ZMod P) = (a : ZMod P) * (b : ZMod P) := by
  rw [Zp.mul_eq a b ha hb, ZMod.natCast_mod]
  push_cast
  ring

theorem zp_mulU64_cast (a k : Nat) (ha : a < P) (hk : k < U256.size) :
    ((Zp.mulU64 a k : Nat) : ZMod P) = (a : ZMod P) * (k : ZMod P) := by
  rw [Zp.mulU64_eq a k ha hk, ZMod.natCast_mod]
  push_cast
  ring

theorem gcd_P_of_ne_zero (b : Nat) (hb : b < P) (hb0 : b ≠ 0) : Nat.gcd P b = 1 := by
  have := P_prime.coprime_iff_not_dvd.mpr (fun hdvd => by
    have := Nat.le_of_dvd (Nat.pos_of_ne_zero hb0) hdvd
    omega)
  exact this

theorem mod_inverse_cast (b : Nat) (hb : b < P) (hb0 : b ≠ 0) :
    ((mod_inverse b P : Nat) : ZMod P) = ((b : ZMod P))⁻¹ := by
  have hspec := mod_inverse_spec b P (by have := P_prime.two_le; omega)
    (gcd_P_of_ne_zero b hb hb0)
  have hz : (b : ZMod P) * ((mod_inverse b P : Nat) : ZMod P) = 1 := by
    have hcast := congrArg (fun t : Nat => (t : ZMod P)) hspec
    simp only [ZMod.natCast_mod, Nat.cast_mul, Nat.cast_one] at hcast
    exact hcast
  exact eq_inv_of_mul_eq_one_left (by rw [mul_comm] at hz; exact hz)

theorem zp_div_cast (a b : Nat) (ha : a < P) (hb : b < P) (hb0 : b ≠ 0) :
    ((Zp.div a b : Nat) : ZMod P) = (a : ZMod P) / (b : ZMod P) := by
  rw [Zp.div_eq a b ha, ZMod.natCast_mod]
  push_cast
  rw [mod_inverse_cast b hb hb0, div_eq_mul_inv]

theorem is_at_infinity_iff (pt : Point) :
    pt.is_at_infinity = true ↔ pt.x = 0 ∧ pt.y = 0 := by
  simp [Point.is_at_infinity, Zp.is_zero]

theorem point_eta (pt : Point) : pt = ⟨pt.x, pt.y⟩ := rfl

theorem some_congr {x y x' y' : ZMod P} (hx : x = x') (hy : y = y')
    (h : W.Nonsingular x y) (h' : W.Nonsingular x' y') :
    WeierstrassCurve.Affine.Point.some h = WeierstrassCurve.Affine.Point.some h' := by
  subst hx
  subst hy
  rfl

theorem point_eq_of_cast {p q : Point} (hpx : p.x < P) (hpy : p.y < P)
    (hqx : q.x < P) (hqy : q.y < P)
    (hx : (p.x : ZMod P) = (q.x : ZMod P)) (hy : (p.y : ZMod P) = (q.y : ZMod P)) : p = q := by
  have h1 := cast_inj_of_lt hpx hqx hx
  have h2 := cast_inj_of_lt hpy hqy hy
  exact congrArg₂ Point.mk h1 h2

theorem toEC_of_nonsingular (pt : Point)
    (hw : W.Nonsingular (pt.x : ZMod P) (pt.y : ZMod P)) :
    toEC pt = WeierstrassCurve.Affine.Point.some hw := by
  unfold toEC
  exact dif_pos hw

theorem valid_equation (pt : Point) (h : pt.Valid) (hns : ¬ (pt.x = 0 ∧ pt.y = 0)) :
    ((pt.y : ZMod P)) ^ 2 = ((pt.x : ZMod P)) ^ 3 + 7 := by
  obtain ⟨hx, hy, hcase⟩ := h
  exact (curve_check_iff pt.x pt.y hx hy).mp (hcase.resolve_left hns)

theorem W_a1 : W.a₁ = (0 : ZMod P) := rfl

theorem W_a2 : W.a₂ = (0 : ZMod P) := rfl

theorem W_a3 : W.a₃ = (0 : ZMod P) := rfl

theorem W_a4 : W.a₄ = (0 : ZMod P) := rfl

theorem two_lt_size : (2 : Nat) < U256.size := by rw [size_val]; norm_num

theorem three_lt_size : (3 : Nat) < U256.size := by rw [size_val]; norm_num

/-- The library's point addition agrees with the Mathlib group law on valid
points, and validity is preserved. -/
theorem toEC_add (self rhs : Point) (hs : self.Valid) (hr : rhs.Valid) :
    toEC (Point.add self rhs) = toEC self + toEC rhs ∧ (Point.add self rhs).Valid := by
  obtain ⟨hsx, hsy, hscase⟩ := hs
  obtain ⟨hrx, hry, hrcase⟩ := hr
  by_cases h1 : self.is_at_infinity = true
  · obtain ⟨hx0, hy0⟩ := (is_at_infinity_iff self).mp h1
    have hself0 : toEC self = 0 := by
      unfold toEC
      exact dif_neg (by rw [hx0, hy0]; exact sentinel_not_nonsingular)
    have hadd : Point.add self rhs = rhs := by
      simp only [Point.add, h1, if_true]
    rw [hadd, hself0, zero_add]
    exact ⟨rfl, hrx, hry, hrcase⟩
  · by_cases h2 : rhs.is_at_infinity = true
    · obtain ⟨hx0, hy0⟩ := (is_at_infinity_iff rhs).mp h2
      have hrhs0 : toEC rhs = 0 := by
        unfold toEC
        exact dif_neg (by rw [hx0, hy0]; exact sentinel_not_nonsingular)
      have hadd : Point.add self rhs = self := by
        simp only [Point.add, h2, if_true]
        rw [if_neg h1]
      rw [hadd, hrhs0, add_zero]
      exact ⟨rfl, hsx, hsy, hscase⟩
    · have hsent_s : ¬ (self.x = 0 ∧ self.y = 0) := fun hc => h1 ((is_at_infinity_iff self).mpr hc)
      have hsent_r : ¬ (rhs.x = 0 ∧ rhs.y = 0) := fun hc => h2 ((is_at_infinity_iff rhs).mpr hc)
      obtain ⟨hw1, he1⟩ := toEC_some self ⟨hsx, hsy, hscase⟩ hsent_s
      obtain ⟨hw2, he2⟩ := toEC_some rhs ⟨hrx, hry, hrcase⟩ hsent_r
      have heqs := valid_equation self ⟨hsx, hsy, hscase⟩ hsent_s
      have heqr := valid_equation rhs ⟨hrx, hry, hrcase⟩ hsent_r
      by_cases h3 : self = Point.neg rhs
      · have hadd : Point.add self rhs = Point.AT_INFINITY := by
          simp only [Point.add]
          rw [if_neg h1, if_neg h2, if_pos h3]
        have hx' : self.x = rhs.x := by
          have h := congrArg Point.x h3
          exact h
        have hxeq : (self.x : ZMod P) = (rhs.x : ZMod P) := by
          rw [hx']
        have hyeq : (self.y : ZMod P) = W.negY (rhs.x : ZMod P) (rhs.y : ZMod P) := by
          rw [W_negY]
          have hy : self.y = Zp.neg rhs.y := by
            have h := congrArg Point.y h3
            exact h
          rw [hy, zp_neg_cast rhs.y hry]
        rw [hadd, toEC_infinity, he1, he2]
        exact ⟨(WeierstrassCurve.Affine.Point.add_of_Y_eq hxeq hyeq).symm,
          P_pos, P_pos, Or.inl ⟨rfl, rfl⟩⟩
      · -- main additive branch
        have hxy : (self.x : ZMod P) = (rhs.x : ZMod P) →
            (self.y : ZMod P) ≠ W.negY (rhs.x : ZMod P) (rhs.y : ZMod P) := by
          intro hx hy
          apply h3
          rw [W_negY] at hy
          have hyn : (self.y : ZMod P) = ((Zp.neg rhs.y : Nat) : ZMod P) := by
            rw [zp_neg_cast rhs.y hry]
            exact hy
          exact point_eq_of_cast hsx hsy hrx (Zp.neg_lt rhs.y hry) hx hyn
        have hsum : WeierstrassCurve.Affine.Point.some hw1 + WeierstrassCurve.Affine.Point.some hw2
            = WeierstrassCurve.Affine.Point.some
                (WeierstrassCurve.Affine.nonsingular_add hw1 hw2 hxy) :=
          WeierstrassCurve.Affine.Point.add_of_imp hxy
        rw [he1, he2, hsum]
        have hadd : Point.add self rhs = ⟨Zp.sub (Zp.sub (Zp.mul
            (if rhs = self then Zp.div (Zp.mulU64 (Zp.mul rhs.x rhs.x) 3) (Zp.mulU64 rhs.y 2)
              else Zp.div (Zp.sub self.y rhs.y) (Zp.sub self.x rhs.x))
            (if rhs = self then Zp.div (Zp.mulU64 (Zp.mul rhs.x rhs.x) 3) (Zp.mulU64 rhs.y 2)
              else Zp.div (Zp.sub self.y rhs.y) (Zp.sub self.x rhs.x))) rhs.x) self.x,
            Zp.sub (Zp.mul
              (if rhs = self then Zp.div (Zp.mulU64 (Zp.mul rhs.x rhs.x) 3) (Zp.mulU64 rhs.y 2)
                else Zp.div (Zp.sub self.y rhs.y) (Zp.sub self.x rhs.x))
              (Zp.sub rhs.x (Zp.sub (Zp.sub (Zp.mul
                (if rhs = self then Zp.div (Zp.mulU64 (Zp.mul rhs.x rhs.x) 3) (Zp.mulU64 rhs.y 2)
                  else Zp.div (Zp.sub self.y rhs.y) (Zp.sub self.x rhs.x))
                (if rhs = self then Zp.div (Zp.mulU64 (Zp.mul rhs.x rhs.x) 3) (Zp.mulU64 rhs.y 2)
                  else Zp.div (Zp.sub self.y rhs.y) (Zp.sub self.x rhs.x))) rhs.x) self.x))) rhs.y⟩ := by
          simp only [Point.add]
          rw [if_neg h1, if_neg h2, if_neg h3]
        rw [hadd]
        -- canonical bound and cast of the slope, by branch
        have hslope : (if rhs = self then Zp.div (Zp.mulU64 (Zp.mul rhs.x rhs.x) 3) (Zp.mulU64 rhs.y 2)
              else Zp.div (Zp.sub self.y rhs.y) (Zp.sub self.x rhs.x)) < P ∧
            (((if rhs = self then Zp.div (Zp.mulU64 (Zp.mul rhs.x rhs.x) 3) (Zp.mulU64 rhs.y 2)
              else Zp.div (Zp.sub self.y rhs.y) (Zp.sub self.x rhs.x)) : Nat) : ZMod P)
              = W.slope (self.x : ZMod P) (rhs.x : ZMod P) (self.y : ZMod P) (rhs.y : ZMod P) := by
          by_cases h4 : rhs = self
          · rw [if_pos h4]
            have hy0 : rhs.y ≠ 0 := by
              intro hz
              apply h3
              have hxx : self.x = rhs.x := by rw [← h4]
              have hyy : self.y = rhs.y := by rw [← h4]
              have hstruct : Point.neg rhs = (⟨rhs.x, rhs.y⟩ : Point) := by
                show (⟨rhs.x, Zp.neg rhs.y⟩ : Point) = _
                rw [hz]
                rfl
              rw [hstruct, ← hxx, ← hyy]
            have hnum_lt : Zp.mulU64 (Zp.mul rhs.x rhs.x) 3 < P := by
              rw [Zp.mulU64_eq _ 3 (Zp.mul_lt _ _ hrx hrx) three_lt_size]
              exact Nat.mod_lt _ P_pos
            have hden_lt : Zp.mulU64 rhs.y 2 < P := by
              rw [Zp.mulU64_eq _ 2 hry two_lt_size]
              exact Nat.mod_lt _ P_pos
            have hden_cast : ((Zp.mulU64 rhs.y 2 : Nat) : ZMod P)
                = (rhs.y : ZMod P) * 2 := by
              rw [zp_mulU64_cast rhs.y 2 hry two_lt_size]
              push_cast
              ring
            have hden_ne : Zp.mulU64 rhs.y 2 ≠ 0 := by
              intro hz
              have hcz : ((Zp.mulU64 rhs.y 2 : Nat) : ZMod P) = 0 := by
                rw [hz]
                exact Nat.cast_zero
              rw [hden_cast] at hcz
              rcases mul_eq_zero.mp hcz with hh | hh
              · exact natCast_ne_zero rhs.y (Nat.pos_of_ne_zero hy0) hry hh
              · exact two_ne_zero' hh
            refine ⟨Zp.div_lt _ _ hnum_lt, ?_⟩
            rw [zp_div_cast _ _ hnum_lt hden_lt hden_ne]
            rw [zp_mulU64_cast _ 3 (Zp.mul_lt _ _ hrx hrx) three_lt_size,
              zp_mul_cast rhs.x rhs.x hrx hrx, hden_cast]
            have hxx : (self.x : ZMod P) = (rhs.x : ZMod P) := by rw [h4]
            have hyy : (self.y : ZMod P) = (rhs.y : ZMod P) := by rw [h4]
            rw [WeierstrassCurve.Affine.slope_of_Y_ne hxx (hxy hxx)]
            rw [W_negY, W_a1, W_a2, W_a4]
            rw [show (self.y : ZMod P) - -(self.y : ZMod P) = (rhs.y : ZMod P) * 2 from by
              rw [hyy]; ring]
            congr 1
            push_cast
            rw [hxx]
            ring
          · rw [if_neg h4]
            have hxne : (self.x : ZMod P) ≠ (rhs.x : ZMod P) := by
              intro hx
              rcases WeierstrassCurve.Affine.Y_eq_of_X_eq hw1.1 hw2.1 hx with hyy | hyy
              · exact h4 (point_eq_of_cast hrx hry hsx hsy hx.symm hyy.symm)
              · exact hxy hx hyy
            have hden_ne : Zp.sub self.x rhs.x ≠ 0 := by
              intro hz
              have hcz : ((Zp.sub self.x rhs.x : Nat) : ZMod P) = 0 := by
                rw [hz]
                exact Nat.cast_zero
              rw [zp_sub_cast self.x rhs.x hsx hrx] at hcz
              exact hxne (by linear_combination hcz)
            refine ⟨Zp.div_lt _ _ (Zp.sub_lt _ _ hsy hry), ?_⟩
            rw [zp_div_cast _ _ (Zp.sub_lt _ _ hsy hry) (Zp.sub_lt _ _ hsx hrx) hden_ne]
            rw [zp_sub_cast self.y rhs.y hsy hry, zp_sub_cast self.x rhs.x hsx hrx]
            rw [WeierstrassCurve.Affine.slope_of_X_ne hxne]
        obtain ⟨hLlt, hLcast⟩ := hslope
        set Lnat := (if rhs = self then Zp.div (Zp.mulU64 (Zp.mul rhs.x rhs.x) 3) (Zp.mulU64 rhs.y 2)
          else Zp.div (Zp.sub self.y rhs.y) (Zp.sub self.x rhs.x)) with hLnat
        set L := W.slope (self.x : ZMod P) (rhs.x : ZMod P) (self.y : ZMod P) (rhs.y : ZMod P)
          with hLdef
        -- the line through both points
        have hline : L * ((self.x : ZMod P) - (rhs.x : ZMod P))
            = (self.y : ZMod P) - (rhs.y : ZMod P) := by
          by_cases h4 : rhs = self
          · rw [h4]
            ring
          · have hxne : (self.x : ZMod P) ≠ (rhs.x : ZMod P) := by
              intro hx
              rcases WeierstrassCurve.Affine.Y_eq_of_X_eq hw1.1 hw2.1 hx with hyy | hyy
              · exact h4 (point_eq_of_cast hrx hry hsx hsy hx.symm hyy.symm)
              · exact hxy hx hyy
            rw [hLdef, WeierstrassCurve.Affine.slope_of_X_ne hxne]
            exact div_mul_cancel₀ _ (sub_ne_zero.mpr hxne)
        -- coordinates
        have hXlt : Zp.sub (Zp.sub (Zp.mul Lnat Lnat) rhs.x) self.x < P :=
          Zp.sub_lt _ _ (Zp.sub_lt _ _ (Zp.mul_lt _ _ hLlt hLlt) hrx) hsx
        have hXcast : ((Zp.sub (Zp.sub (Zp.mul Lnat Lnat) rhs.x) self.x : Nat) : ZMod P)
            = W.addX (self.x : ZMod P) (rhs.x : ZMod P) L := by
          rw [zp_sub_cast _ self.x (Zp.sub_lt _ _ (Zp.mul_lt _ _ hLlt hLlt) hrx) hsx,
            zp_sub_cast _ rhs.x (Zp.mul_lt _ _ hLlt hLlt) hrx,
            zp_mul_cast Lnat Lnat hLlt hLlt, hLcast]
          show _ = L ^ 2 + W.a₁ * L - W.a₂ - _ - _
          linear_combination W_a2 - L * W_a1
        set Xnat := Zp.sub (Zp.sub (Zp.mul Lnat Lnat) rhs.x) self.x with hXnat
        have hYlt : Zp.sub (Zp.mul Lnat (Zp.sub rhs.x Xnat)) rhs.y < P :=
          Zp.sub_lt _ _ (Zp.mul_lt _ _ hLlt (Zp.sub_lt _ _ hrx hXlt)) hry
        have hYcast : ((Zp.sub (Zp.mul Lnat (Zp.sub rhs.x Xnat)) rhs.y : Nat) : ZMod P)
            = W.addY (self.x : ZMod P) (rhs.x : ZMod P) (self.y : ZMod P) L := by
          rw [zp_sub_cast _ rhs.y (Zp.mul_lt _ _ hLlt (Zp.sub_lt _ _ hrx hXlt)) hry,
            zp_mul_cast Lnat _ hLlt (Zp.sub_lt _ _ hrx hXlt),
            zp_sub_cast rhs.x Xnat hrx hXlt, hLcast, hXcast]
          show _ = W.negY _ (W.negAddY _ _ _ _)
          rw [W_negY]
          show _ = -(L * (W.addX _ _ L - _) + _)
          linear_combination -hline
        have hwr := WeierstrassCurve.Affine.nonsingular_add hw1 hw2 hxy
        have hwr' : W.Nonsingular ((Xnat : Nat) : ZMod P)
            ((Zp.sub (Zp.mul Lnat (Zp.sub rhs.x Xnat)) rhs.y : Nat) : ZMod P) := by
          rw [hXcast, hYcast]
          exact hwr
        constructor
        · rw [toEC_of_nonsingular _ hwr']
          exact some_congr hXcast hYcast hwr' hwr
        · refine ⟨hXlt, hYlt, Or.inr ?_⟩
          apply (curve_check_iff _ _ hXlt hYlt).mpr
          have heq := hwr'.1
          rw [W_equation_iff] at heq
          exact heq

/-- The library's point negation agrees with the Mathlib group negation on
valid points, and validity is preserved. -/
theorem toEC_neg (pt : Point) (h : pt.Valid) :
    toEC (Point.neg pt) = -(toEC pt) ∧ (Point.neg pt).Valid := by
  obtain ⟨hx, hy, hcase⟩ := h
  by_cases hsent : pt.x = 0 ∧ pt.y = 0
  · have h2 : Zp.neg pt.y = pt.y := by rw [hsent.2]; rfl
    have hneg : Point.neg pt = pt := (congrArg (Point.mk pt.x) h2).trans (point_eta pt).symm
    have h0 : toEC pt = 0 := by
      unfold toEC
      exact dif_neg (by rw [hsent.1, hsent.2]; exact sentinel_not_nonsingular)
    rw [hneg, h0, neg_zero]
    exact ⟨rfl, hx, hy, hcase⟩
  · obtain ⟨hw, he⟩ := toEC_some pt ⟨hx, hy, hcase⟩ hsent
    have hycast : ((Zp.neg pt.y : Nat) : ZMod P)
        = W.negY (pt.x : ZMod P) (pt.y : ZMod P) := by
      rw [W_negY, zp_neg_cast pt.y hy]
    have hw' : W.Nonsingular ((Point.neg pt).x : ZMod P) ((Point.neg pt).y : ZMod P) := by
      show W.Nonsingular (pt.x : ZMod P) ((Zp.neg pt.y : Nat) : ZMod P)
      rw [hycast]
      exact WeierstrassCurve.Affine.nonsingular_neg hw
    constructor
    · rw [toEC_of_nonsingular _ hw', he, WeierstrassCurve.Affine.Point.neg_some]
      exact some_congr rfl hycast hw' (WeierstrassCurve.Affine.nonsingular_neg hw)
    · refine ⟨hx, Zp.neg_lt pt.y hy, Or.inr ?_⟩
      apply (curve_check_iff _ _ hx (Zp.neg_lt pt.y hy)).mpr
      have heq := hw'.1
      rw [W_equation_iff] at heq
      exact heq

theorem valid_infinity : Point.AT_INFINITY.Valid :=
  ⟨P_pos, P_pos, Or.inl ⟨rfl, rfl⟩⟩

/-- Loop invariant for double-and-add point multiplication. -/
theorem toEC_mulLoop (self : Point) (hs : self.Valid) :
    ∀ fuel, fuel ≤ 256 → ∀ res rhs, res.Valid → rhs < U256.size →
      toEC (Point.mulLoop self fuel res rhs)
          = 2 ^ fuel • toEC res + (rhs / 2 ^ (256 - fuel)) • toEC self ∧
        (Point.mulLoop self fuel res rhs).Valid := by
  intro fuel
  induction fuel with
  | zero =>
    intro _ res rhs hres hrhs
    have h0 : rhs / 2 ^ (256 - 0) = 0 :=
      Nat.div_eq_of_lt (by simp only [Nat.sub_zero]; rw [size_val] at hrhs; omega)
    rw [h0]
    show toEC res = 2 ^ 0 • toEC res + 0 • toEC self ∧ res.Valid
    rw [pow_zero, one_smul, zero_nsmul, add_zero]
    exact ⟨rfl, hres⟩
  | succ fuel ih =>
    intro hle res rhs hres hrhs
    have hfuel : fuel ≤ 256 := Nat.le_of_succ_le hle
    have hsize : U256.size = 2 ^ 256 := by rw [size_val]; norm_num
    obtain ⟨he1, hv1⟩ := toEC_add res res hres hres
    have hshl : U256.wrapping_shl rhs 1 = rhs * 2 % U256.size := by
      simp [U256.wrapping_shl]
    have hshl_lt : U256.wrapping_shl rhs 1 < U256.size :=
      hshl ▸ Nat.mod_lt _ (by rw [hsize]; positivity)
    show toEC (Point.mulLoop self fuel
        (if rhs.testBit 255 then Point.add (Point.add res res) self else Point.add res res)
        (U256.wrapping_shl rhs 1)) = _ ∧
      (Point.mulLoop self fuel
        (if rhs.testBit 255 then Point.add (Point.add res res) self else Point.add res res)
        (U256.wrapping_shl rhs 1)).Valid
    by_cases hbit : Nat.testBit rhs 255 = true
    · have hhi : 2 ^ 255 ≤ rhs := (testBit255_iff rhs hrhs).mp hbit
      have hshl2 : U256.wrapping_shl rhs 1 = rhs * 2 - 2 ^ 256 := by
        rw [hshl, hsize, mod_sub _ _ (by omega) (by rw [size_val] at hrhs; omega)]
      obtain ⟨he2, hv2⟩ := toEC_add (Point.add res res) self hv1 hs
      rw [if_pos hbit]
      obtain ⟨hloop, hvloop⟩ := ih hfuel _ (U256.wrapping_shl rhs 1) hv2 hshl_lt
      refine ⟨?_, hvloop⟩
      rw [hloop, he2, he1]
      have hdiv : U256.wrapping_shl rhs 1 / 2 ^ (256 - fuel)
          = (rhs - 2 ^ 255) / 2 ^ (255 - fuel) := by
        rw [hshl2]
        have e1 : rhs * 2 - 2 ^ 256 = (rhs - 2 ^ 255) * 2 := by omega
        have hexp : 256 - fuel = (255 - fuel) + 1 := by omega
        have e2 : (2 : Nat) ^ (256 - fuel) = 2 ^ (255 - fuel) * 2 := by
          rw [hexp, pow_succ]
        rw [e1, e2, div_mul_two]
      have hdiv2 : rhs / 2 ^ (255 - fuel) = (rhs - 2 ^ 255) / 2 ^ (255 - fuel) + 2 ^ fuel := by
        have e3 : rhs = (rhs - 2 ^ 255) + 2 ^ (255 - fuel) * 2 ^ fuel := by
          rw [← pow_add]
          have h55 : 255 - fuel + fuel = 255 := by omega
          rw [h55]
          omega
        conv_lhs => rw [e3]
        rw [Nat.add_mul_div_left _ _ (by positivity)]
      have hmod : 256 - (fuel + 1) = 255 - fuel := by omega
      rw [hmod, hdiv, hdiv2]
      have hp2 : (2 : Nat) ^ (fuel + 1) = 2 ^ fuel + 2 ^ fuel := by
        rw [pow_succ]
        omega
      rw [nsmul_add, nsmul_add, add_nsmul, hp2, add_nsmul]
      abel
    · have hlo : rhs < 2 ^ 255 := by
        rcases Nat.lt_or_ge rhs (2 ^ 255) with h | h
        · exact h
        · exact absurd ((testBit255_iff rhs hrhs).mpr h) hbit
      have hshl2 : U256.wrapping_shl rhs 1 = rhs * 2 := by
        rw [hshl, hsize, mod_id _ _ (by omega)]
      rw [if_neg hbit]
      obtain ⟨hloop, hvloop⟩ := ih hfuel _ (U256.wrapping_shl rhs 1) hv1 hshl_lt
      refine ⟨?_, hvloop⟩
      rw [hloop, he1]
      have hdiv : U256.wrapping_shl rhs 1 / 2 ^ (256 - fuel) = rhs / 2 ^ (255 - fuel) := by
        rw [hshl2]
        have hexp : 256 - fuel = (255 - fuel) + 1 := by omega
        have e2 : (2 : Nat) ^ (256 - fuel) = 2 ^ (255 - fuel) * 2 := by
          rw [hexp, pow_succ]
        rw [e2, div_mul_two]
      have hmod : 256 - (fuel + 1) = 255 - fuel := by omega
      rw [hmod, hdiv]
      have hp2 : (2 : Nat) ^ (fuel + 1) = 2 ^ fuel + 2 ^ fuel := by
        rw [pow_succ]
        omega
      rw [nsmul_add, hp2, add_nsmul]

/-- Scalar multiplication corresponds to `ℕ`-scalar action on the group. -/
theorem toEC_mulU256 (self : Point) (hs : self.Valid) (k : Nat) (hk : k < U256.size) :
    toEC (Point.mulU256 self k) = k • toEC self ∧ (Point.mulU256 self k).Valid := by
  obtain ⟨hloop, hv⟩ := toEC_mulLoop self hs 256 le_rfl Point.AT_INFINITY k valid_infinity hk
  refine ⟨?_, hv⟩
  unfold Point.mulU256
  rw [hloop, toEC_infinity, nsmul_zero, zero_add]
  congr 1
  simp

theorem toEC_inj {p q : Point} (hp : p.Valid) (hq : q.Valid) (h : toEC p = toEC q) :
    p = q := by
  obtain ⟨hpx, hpy, hpcase⟩ := hp
  obtain ⟨hqx, hqy, hqcase⟩ := hq
  by_cases hps : p.x = 0 ∧ p.y = 0
  · by_cases hqs : q.x = 0 ∧ q.y = 0
    · rw [point_eta p, point_eta q, hps.1, hps.2, hqs.1, hqs.2]
    · obtain ⟨hw, he⟩ := toEC_some q ⟨hqx, hqy, hqcase⟩ hqs
      have hp0 : toEC p = 0 := by
        unfold toEC
        exact dif_neg (by rw [hps.1, hps.2]; exact sentinel_not_nonsingular)
      rw [hp0, he] at h
      exact absurd h.symm (WeierstrassCurve.Affine.Point.some_ne_zero hw)
  · by_cases hqs : q.x = 0 ∧ q.y = 0
    · obtain ⟨hw, he⟩ := toEC_some p ⟨hpx, hpy, hpcase⟩ hps
      have hq0 : toEC q = 0 := by
        unfold toEC
        exact dif_neg (by rw [hqs.1, hqs.2]; exact sentinel_not_nonsingular)
      rw [hq0, he] at h
      exact absurd h (WeierstrassCurve.Affine.Point.some_ne_zero hw)
    · obtain ⟨hw1, he1⟩ := toEC_some p ⟨hpx, hpy, hpcase⟩ hps
      obtain ⟨hw2, he2⟩ := toEC_some q ⟨hqx, hqy, hqcase⟩ hqs
      rw [he1, he2] at h
      injection h with hx hy
      exact point_eq_of_cast hpx hpy hqx hqy hx hy

theorem G_valid : G.Valid := by
  refine ⟨by decide, by decide, Or.inr ?_⟩
  exact (curve_check_iff _ _ (by decide) (by decide)).mpr (by decide)

theorem ne_infinity_iff (pt : Point) :
    pt ≠ Point.AT_INFINITY ↔ ¬ (pt.x = 0 ∧ pt.y = 0) := by
  constructor
  · intro h hc
    apply h
    rw [point_eta pt, hc.1, hc.2]
    rfl
  · intro h heq
    apply h
    rw [heq]
    exact ⟨rfl, rfl⟩

/-- A certified inverse: any value passing the product check is the
extended-Euclidean inverse. -/
theorem mod_inverseF_eq_of (d v : Nat) (hd : d < P) (hv : v < P) (h : d * v % P = 1) :
    mod_inverseF d P = v := by
  have hd0 : d ≠ 0 := by
    intro h0
    rw [h0] at h
    simp at h
  rw [mod_inverseF_eq]
  have hg : Nat.gcd P d = 1 := gcd_P_of_ne_zero d hd hd0
  have h1 : ((mod_inverse d P : Nat) : ZMod P) = ((v : Nat) : ZMod P) := by
    rw [mod_inverse_cast d hd hd0]
    symm
    apply eq_inv_of_mul_eq_one_left
    have hcast := congrArg (fun t : Nat => (t : ZMod P)) h
    simp only [ZMod.natCast_mod, Nat.cast_mul, Nat.cast_one] at hcast
    rw [mul_comm] at hcast
    exact hcast
  exact cast_inj_of_lt (mod_inverse_lt d P P_pos) hv h1

theorem addFast_inf_left (B : Point) : Point.addFast Point.AT_INFINITY B = B := by
  unfold Point.addFast
  rw [if_pos (by decide)]

theorem addFast_neg_case (A B : Point) (h1 : A.is_at_infinity = false)
    (h2 : B.is_at_infinity = false) (h3 : A = Point.negFast B) :
    Point.addFast A B = Point.AT_INFINITY := by
  unfold Point.addFast
  rw [if_neg (by rw [h1]; exact Bool.false_ne_true),
    if_neg (by rw [h2]; exact Bool.false_ne_true), if_pos h3]

theorem addFast_dbl (A : Point) (v : Nat)
    (h1 : A.is_at_infinity = false)
    (h2 : ¬ A = Point.negFast A)
    (hv : v < P) (hinv : A.y * 2 % P * v % P = 1) :
    Point.addFast A A =
      (fun l => (fun x =>
          (⟨x, (l * ((A.x + (P - x)) % P) % P + (P - A.y)) % P⟩ : Point))
        (((l * l % P + (P - A.x)) % P + (P - A.x)) % P))
      (A.x * A.x % P * 3 % P * v % P) := by
  have einv : mod_inverseF (A.y * 2 % P) P = v :=
    mod_inverseF_eq_of _ v (Nat.mod_lt _ P_pos) hv hinv
  unfold Point.addFast
  rw [if_neg (by rw [h1]; exact Bool.false_ne_true),
    if_neg (by rw [h1]; exact Bool.false_ne_true), if_neg h2, if_pos rfl, seqNat_eq,
    seqNat_eq, einv]

theorem addFast_distinct (A B : Point) (v : Nat)
    (h1 : A.is_at_infinity = false) (h2 : B.is_at_infinity = false)
    (h3 : ¬ A = Point.negFast B) (h4 : ¬ B = A)
    (hv : v < P) (hinv : (A.x + (P - B.x)) % P * v % P = 1) :
    Point.addFast A B =
      (fun l => (fun x =>
          (⟨x, (l * ((B.x + (P - x)) % P) % P + (P - B.y)) % P⟩ : Point))
        (((l * l % P + (P - B.x)) % P + (P - A.x)) % P))
      ((A.y + (P - B.y)) % P * v % P) := by
  have einv : mod_inverseF ((A.x + (P - B.x)) % P) P = v :=
    mod_inverseF_eq_of _ v (Nat.mod_lt _ P_pos) hv hinv
  unfold Point.addFast
  rw [if_neg (by rw [h1]; exact Bool.false_ne_true),
    if_neg (by rw [h2]; exact Bool.false_ne_true), if_neg h3, if_neg h4, seqNat_eq,
    seqNat_eq, einv]

theorem mulLoopF_step (fuel : Nat) (res res2 : Point) (rhs rhs2 : Nat)
    (hstep : (if rhs.testBit 255 then Point.addFast (Point.addFast res res) G
        else Point.addFast res res) = res2)
    (hshl : U256.wrapping_shl rhs 1 = rhs2) :
    Point.mulLoopF G (fuel + 1) res rhs = Point.mulLoopF G fuel res2 rhs2 := by
  show (seqNat _ fun a => seqNat _ fun b =>
    Point.mulLoopF G fuel ⟨a, b⟩ (U256.wrapping_shl rhs 1)) = _
  rw [seqNat_eq, seqNat_eq, hstep, hshl]

set_option maxHeartbeats 1600000 in
/-- Segment 1 of the certified double-and-add trace of the generator
multiplied by the group order: iterations 1 to 16, each point
addition discharged through a precomputed modular-inverse certificate. -/
theorem mulG_seg1 : Point.mulLoopF G 256 Point.AT_INFINITY 115792089237316195423570985008687907852837564279074904382605163141518161494337 =
    Point.mulLoopF G 240 ⟨99577865136541581272716647070755930256937866979919505697200229537979796287440, 114265960071829761056315993662300488440859353008900857147698204927759003357952⟩ 115792089237316195423570985008687879514167530698569292559203683947280739663872 := by
  have t1 : Point.mulLoopF G 256 Point.AT_INFINITY 115792089237316195423570985008687907852837564279074904382605163141518161494337 =
      Point.mulLoopF G 255 ⟨55066263022277343669578718895168534326250603453777594175500187360389116729240, 32670510020758816978083085130507043184471273380659243275938904335757337482424⟩ 115792089237316195423570985008687907852405143892509244725752742275123193348738 :=
    mulLoopF_step 255 Point.AT_INFINITY ⟨55066263022277343669578718895168534326250603453777594175500187360389116729240, 32670510020758816978083085130507043184471273380659243275938904335757337482424⟩ 115792089237316195423570985008687907852837564279074904382605163141518161494337 115792089237316195423570985008687907852405143892509244725752742275123193348738
      (by decide)
      (by decide)
  have d2 : Point.addFast ⟨55066263022277343669578718895168534326250603453777594175500187360389116729240, 32670510020758816978083085130507043184471273380659243275938904335757337482424⟩ ⟨55066263022277343669578718895168534326250603453777594175500187360389116729240, 32670510020758816978083085130507043184471273380659243275938904335757337482424⟩ = ⟨89565891926547004231252920425935692360644145829622209833684329913297188986597, 12158399299693830322967808612713398636155367887041628176798871954788371653930⟩ :=
    (addFast_dbl ⟨55066263022277343669578718895168534326250603453777594175500187360389116729240, 32670510020758816978083085130507043184471273380659243275938904335757337482424⟩
      83174505189910067536517124096019359197644205712500122884473429251812128958118
      (by decide) (by decide) (by decide) (by decide)).trans (by decide)
  have e2 : Point.addFast ⟨89565891926547004231252920425935692360644145829622209833684329913297188986597, 12158399299693830322967808612713398636155367887041628176798871954788371653930⟩ G = ⟨112711660439710606056748659173929673102114977341539408544630613555209775888121, 25583027980570883691656905877401976406448868254816295069919888960541586679410⟩ :=
    (addFast_distinct ⟨89565891926547004231252920425935692360644145829622209833684329913297188986597, 12158399299693830322967808612713398636155367887041628176798871954788371653930⟩ G
      78060072781723966975414539546189491444417828441135743216757131184955262264836
      (by decide) (by decide) (by decide) (by decide)
      (by decide) (by decide)).trans (by decide)
  have t2 : Point.mulLoopF G 255 ⟨55066263022277343669578718895168534326250603453777594175500187360389116729240, 32670510020758816978083085130507043184471273380659243275938904335757337482424⟩ 115792089237316195423570985008687907852405143892509244725752742275123193348738 =
      Point.mulLoopF G 254 ⟨112711660439710606056748659173929673102114977341539408544630613555209775888121, 25583027980570883691656905877401976406448868254816295069919888960541586679410⟩ 115792089237316195423570985008687907851540303119377925412047900542333257057540 :=
    mulLoopF_step 254 ⟨55066263022277343669578718895168534326250603453777594175500187360389116729240, 32670510020758816978083085130507043184471273380659243275938904335757337482424⟩ ⟨112711660439710606056748659173929673102114977341539408544630613555209775888121, 25583027980570883691656905877401976406448868254816295069919888960541586679410⟩ 115792089237316195423570985008687907852405143892509244725752742275123193348738 115792089237316195423570985008687907851540303119377925412047900542333257057540
      (by
      rw [(by decide : Nat.testBit 115792089237316195423570985008687907852405143892509244725752742275123193348738 255 = true), if_pos rfl, d2]
      exact e2)
      (by decide)
  have d3 : Point.addFast ⟨112711660439710606056748659173929673102114977341539408544630613555209775888121, 25583027980570883691656905877401976406448868254816295069919888960541586679410⟩ ⟨112711660439710606056748659173929673102114977341539408544630613555209775888121, 25583027980570883691656905877401976406448868254816295069919888960541586679410⟩ = ⟨115780575977492633039504758427830329241728645270042306223540962614150928364886, 78735063515800386211891312544505775871260717697865196436804966483607426560663⟩ :=
    (addFast_dbl ⟨112711660439710606056748659173929673102114977341539408544630613555209775888121, 25583027980570883691656905877401976406448868254816295069919888960541586679410⟩
      9353868060111872221654086834948535914619495738340840677382925020160633793107
      (by decide) (by decide) (by decide) (by decide)).trans (by decide)
  have e3 : Point.addFast ⟨115780575977492633039504758427830329241728645270042306223540962614150928364886, 78735063515800386211891312544505775871260717697865196436804966483607426560663⟩ G = ⟨41948375291644419605210209193538855353224492619856392092318293986323063962044, 48361766907851246668144012348516735800090617714386977531302791340517493990618⟩ :=
    (addFast_distinct ⟨115780575977492633039504758427830329241728645270042306223540962614150928364886, 78735063515800386211891312544505775871260717697865196436804966483607426560663⟩ G
      86117266903295014149579802081608258257840915406062263308531701251512410957134
      (by decide) (by decide) (by decide) (by decide)
      (by decide) (by decide)).trans (by decide)
  have t3 : Point.mulLoopF G 254 ⟨112711660439710606056748659173929673102114977341539408544630613555209775888121, 25583027980570883691656905877401976406448868254816295069919888960541586679410⟩ 115792089237316195423570985008687907851540303119377925412047900542333257057540 =
      Point.mulLoopF G 253 ⟨41948375291644419605210209193538855353224492619856392092318293986323063962044, 48361766907851246668144012348516735800090617714386977531302791340517493990618⟩ 115792089237316195423570985008687907849810621573115286784638217076753384475144 :=
    mulLoopF_step 253 ⟨112711660439710606056748659173929673102114977341539408544630613555209775888121, 25583027980570883691656905877401976406448868254816295069919888960541586679410⟩ ⟨41948375291644419605210209193538855353224492619856392092318293986323063962044, 48361766907851246668144012348516735800090617714386977531302791340517493990618⟩ 115792089237316195423570985008687907851540303119377925412047900542333257057540 115792089237316195423570985008687907849810621573115286784638217076753384475144
      (by
      rw [(by decide : Nat.testBit 115792089237316195423570985008687907851540303119377925412047900542333257057540 255 = true), if_pos rfl, d3]
      exact e3)
      (by decide)
  have d4 : Point.addFast ⟨41948375291644419605210209193538855353224492619856392092318293986323063962044, 48361766907851246668144012348516735800090617714386977531302791340517493990618⟩ ⟨41948375291644419605210209193538855353224492619856392092318293986323063962044, 48361766907851246668144012348516735800090617714386977531302791340517493990618⟩ = ⟨33301309993451753050311554695703528430361259803437469669590207169100761277412, 91711666877231500617203373035680263572492971120307578300405368749466283229019⟩ :=
    (addFast_dbl ⟨41948375291644419605210209193538855353224492619856392092318293986323063962044, 48361766907851246668144012348516735800090617714386977531302791340517493990618⟩
      20039789448416557584259861277369825914705815058492502793360560444963269206399
      (by decide) (by decide) (by decide) (by decide)).trans (by decide)
  have e4 : Point.addFast ⟨33301309993451753050311554695703528430361259803437469669590207169100761277412, 91711666877231500617203373035680263572492971120307578300405368749466283229019⟩ G = ⟨97505755694356382817881959832717013755620551362654128955029190924747025549326, 39856815248295663243990443767776362321337592747889787217974905533720651000664⟩ :=
    (addFast_distinct ⟨33301309993451753050311554695703528430361259803437469669590207169100761277412, 91711666877231500617203373035680263572492971120307578300405368749466283229019⟩ G
      105327482425389026973301807265989548849394316000093506151681857749893845795761
      (by decide) (by decide) (by decide) (by decide)
      (by decide) (by decide)).trans (by decide)
  have t4 : Point.mulLoopF G 253 ⟨41948375291644419605210209193538855353224492619856392092318293986323063962044, 48361766907851246668144012348516735800090617714386977531302791340517493990618⟩ 115792089237316195423570985008687907849810621573115286784638217076753384475144 =
      Point.mulLoopF G 252 ⟨97505755694356382817881959832717013755620551362654128955029190924747025549326, 39856815248295663243990443767776362321337592747889787217974905533720651000664⟩ 115792089237316195423570985008687907846351258480590009529818850145593639310352 :=
    mulLoopF_step 252 ⟨41948375291644419605210209193538855353224492619856392092318293986323063962044, 48361766907851246668144012348516735800090617714386977531302791340517493990618⟩ ⟨97505755694356382817881959832717013755620551362654128955029190924747025549326, 39856815248295663243990443767776362321337592747889787217974905533720651000664⟩ 115792089237316195423570985008687907849810621573115286784638217076753384475144 115792089237316195423570985008687907846351258480590009529818850145593639310352
      (by
      rw [(by decide : Nat.testBit 115792089237316195423570985008687907849810621573115286784638217076753384475144 255 = true), if_pos rfl, d4]
      exact e4)
      (by decide)
  have d5 : Point.addFast ⟨97505755694356382817881959832717013755620551362654128955029190924747025549326, 39856815248295663243990443767776362321337592747889787217974905533720651000664⟩ ⟨97505755694356382817881959832717013755620551362654128955029190924747025549326, 39856815248295663243990443767776362321337592747889787217974905533720651000664⟩ = ⟨49378132684229722274313556995573891527709373183446262831552359577455015004672, 78123232289538034746933569305416412888858560602643272431489024958214987548923⟩ :=
    (addFast_dbl ⟨97505755694356382817881959832717013755620551362654128955029190924747025549326, 39856815248295663243990443767776362321337592747889787217974905533720651000664⟩
      93676827357127998828687195341580718392291471665897177168977920581899185748320
      (by decide) (by decide) (by decide) (by decide)).trans (by decide)
  have e5 : Point.addFast ⟨49378132684229722274313556995573891527709373183446262831552359577455015004672, 78123232289538034746933569305416412888858560602643272431489024958214987548923⟩ G = ⟨48009403158434809478298710137233764200988036438868259456275038304221065242292, 101379581344212856035375194820281365028426536613141130008386086305632315345538⟩ :=
    (addFast_distinct ⟨49378132684229722274313556995573891527709373183446262831552359577455015004672, 78123232289538034746933569305416412888858560602643272431489024958214987548923⟩ G
      112394850209957968460284869004484027626910800110953182196130555826762722193386
      (by decide) (by decide) (by decide) (by decide)
      (by decide) (by decide)).trans (by decide)
  have t5 : Point.mulLoopF G 252 ⟨97505755694356382817881959832717013755620551362654128955029190924747025549326, 39856815248295663243990443767776362321337592747889787217974905533720651000664⟩ 115792089237316195423570985008687907846351258480590009529818850145593639310352 =
      Point.mulLoopF G 251 ⟨48009403158434809478298710137233764200988036438868259456275038304221065242292, 101379581344212856035375194820281365028426536613141130008386086305632315345538⟩ 115792089237316195423570985008687907839432532295539455020180116283274148980768 :=
    mulLoopF_step 251 ⟨97505755694356382817881959832717013755620551362654128955029190924747025549326, 39856815248295663243990443767776362321337592747889787217974905533720651000664⟩ ⟨48009403158434809478298710137233764200988036438868259456275038304221065242292, 101379581344212856035375194820281365028426536613141130008386086305632315345538⟩ 115792089237316195423570985008687907846351258480590009529818850145593639310352 115792089237316195423570985008687907839432532295539455020180116283274148980768
      (by
      rw [(by decide : Nat.testBit 115792089237316195423570985008687907846351258480590009529818850145593639310352 255 = true), if_pos rfl, d5]
      exact e5)
      (by decide)
  have d6 : Point.addFast ⟨48009403158434809478298710137233764200988036438868259456275038304221065242292, 101379581344212856035375194820281365028426536613141130008386086305632315345538⟩ ⟨48009403158434809478298710137233764200988036438868259456275038304221065242292, 101379581344212856035375194820281365028426536613141130008386086305632315345538⟩ = ⟨7470696802146976875048795875680307511987987110754117830917946933599684326041, 35498370868222357101075189419100726924131867018781426271212491175192595798687⟩ :=
    (addFast_dbl ⟨48009403158434809478298710137233764200988036438868259456275038304221065242292, 101379581344212856035375194820281365028426536613141130008386086305632315345538⟩
      107658401526453324935936541926573726232266163370999459473309833038043931883535
      (by decide) (by decide) (by decide) (by decide)).trans (by decide)
  have e6 : Point.addFast ⟨7470696802146976875048795875680307511987987110754117830917946933599684326041, 35498370868222357101075189419100726924131867018781426271212491175192595798687⟩ G = ⟨103082696326686084252692006348842617458364360484939043050040089399696685644264, 40612530833850030770560071666434436443194162318210174699750855405684277524469⟩ :=
    (addFast_distinct ⟨7470696802146976875048795875680307511987987110754117830917946933599684326041, 35498370868222357101075189419100726924131867018781426271212491175192595798687⟩ G
      51042406391513185397376851835454919617694072599297612178612113896371064367402
      (by decide) (by decide) (by decide) (by decide)
      (by decide) (by decide)).trans (by decide)
  have t6 : Point.mulLoopF G 251 ⟨48009403158434809478298710137233764200988036438868259456275038304221065242292, 101379581344212856035375194820281365028426536613141130008386086305632315345538⟩ 115792089237316195423570985008687907839432532295539455020180116283274148980768 =
      Point.mulLoopF G 250 ⟨103082696326686084252692006348842617458364360484939043050040089399696685644264, 40612530833850030770560071666434436443194162318210174699750855405684277524469⟩ 115792089237316195423570985008687907825595079925438346000902648558635168321600 :=
    mulLoopF_step 250 ⟨48009403158434809478298710137233764200988036438868259456275038304221065242292, 101379581344212856035375194820281365028426536613141130008386086305632315345538⟩ ⟨103082696326686084252692006348842617458364360484939043050040089399696685644264, 40612530833850030770560071666434436443194162318210174699750855405684277524469⟩ 115792089237316195423570985008687907839432532295539455020180116283274148980768 115792089237316195423570985008687907825595079925438346000902648558635168321600
      (by
      rw [(by decide : Nat.testBit 115792089237316195423570985008687907839432532295539455020180116283274148980768 255 = true), if_pos rfl, d6]
      exact e6)
      (by decide)
  have d7 : Point.addFast ⟨103082696326686084252692006348842617458364360484939043050040089399696685644264, 40612530833850030770560071666434436443194162318210174699750855405684277524469⟩ ⟨103082696326686084252692006348842617458364360484939043050040089399696685644264, 40612530833850030770560071666434436443194162318210174699750855405684277524469⟩ = ⟨49739765455947337879790908850139477504649012398313168454724745098982761739033, 71531864240966930926898922546635941869813841859894270770914769905489190838066⟩ :=
    (addFast_dbl ⟨103082696326686084252692006348842617458364360484939043050040089399696685644264, 40612530833850030770560071666434436443194162318210174699750855405684277524469⟩
      30599262521010969342255855719690738059407997315524977451947004181587033650642
      (by decide) (by decide) (by decide) (by decide)).trans (by decide)
  have e7 : Point.addFast ⟨49739765455947337879790908850139477504649012398313168454724745098982761739033, 71531864240966930926898922546635941869813841859894270770914769905489190838066⟩ G = ⟨59757199831985803063258861155590945323274916778537213861841761251128847378561, 3265850877202437352564708587060002316627909249385655507505588671348225171796⟩ :=
    (addFast_distinct ⟨49739765455947337879790908850139477504649012398313168454724745098982761739033, 71531864240966930926898922546635941869813841859894270770914769905489190838066⟩ G
      17663830206310518516313823351520583010416103214043372606678623673253290481295
      (by decide) (by decide) (by decide) (by decide)
      (by decide) (by decide)).trans (by decide)
  have t7 : Point.mulLoopF G 250 ⟨103082696326686084252692006348842617458364360484939043050040089399696685644264, 40612530833850030770560071666434436443194162318210174699750855405684277524469⟩ 115792089237316195423570985008687907825595079925438346000902648558635168321600 =
      Point.mulLoopF G 249 ⟨59757199831985803063258861155590945323274916778537213861841761251128847378561, 3265850877202437352564708587060002316627909249385655507505588671348225171796⟩ 115792089237316195423570985008687907797920175185236127962347713109357207003264 :=
    mulLoopF_step 249 ⟨103082696326686084252692006348842617458364360484939043050040089399696685644264, 40612530833850030770560071666434436443194162318210174699750855405684277524469⟩ ⟨59757199831985803063258861155590945323274916778537213861841761251128847378561, 3265850877202437352564708587060002316627909249385655507505588671348225171796⟩ 115792089237316195423570985008687907825595079925438346000902648558635168321600 115792089237316195423570985008687907797920175185236127962347713109357207003264
      (by
      rw [(by decide : Nat.testBit 115792089237316195423570985008687907825595079925438346000902648558635168321600 255 = true), if_pos rfl, d7]
      exact e7)
      (by decide)
  have d8 : Point.addFast ⟨59757199831985803063258861155590945323274916778537213861841761251128847378561, 3265850877202437352564708587060002316627909249385655507505588671348225171796⟩ ⟨59757199831985803063258861155590945323274916778537213861841761251128847378561, 3265850877202437352564708587060002316627909249385655507505588671348225171796⟩ = ⟨39048226050737083614040617721217157354131877742605504762042212999754192445011, 12303682557151135337396725652016408676403616515703583160730197030562020466293⟩ :=
    (addFast_dbl ⟨59757199831985803063258861155590945323274916778537213861841761251128847378561, 3265850877202437352564708587060002316627909249385655507505588671348225171796⟩
      75119108495272772209561077266104032693151128029193519228412019538766052357147
      (by decide) (by decide) (by decide) (by decide)).trans (by decide)
  have e8 : Point.addFast ⟨39048226050737083614040617721217157354131877742605504762042212999754192445011, 12303682557151135337396725652016408676403616515703583160730197030562020466293⟩ G = ⟨12312385769684547396095365029355369071957339694349689622296638024179682296192, 29045073188889159330506972844502087256824914692696728592611344825524969277689⟩ :=
    (addFast_distinct ⟨39048226050737083614040617721217157354131877742605504762042212999754192445011, 12303682557151135337396725652016408676403616515703583160730197030562020466293⟩ G
      44978807017665805768003282393212623632248853323744383681456213471884044612025
      (by decide) (by decide) (by decide) (by decide)
      (by decide) (by decide)).trans (by decide)
  have t8 : Point.mulLoopF G 249 ⟨59757199831985803063258861155590945323274916778537213861841761251128847378561, 3265850877202437352564708587060002316627909249385655507505588671348225171796⟩ 115792089237316195423570985008687907797920175185236127962347713109357207003264 =
      Point.mulLoopF G 248 ⟨12312385769684547396095365029355369071957339694349689622296638024179682296192, 29045073188889159330506972844502087256824914692696728592611344825524969277689⟩ 115792089237316195423570985008687907742570365704831691885237842210801284366592 :=
    mulLoopF_step 248 ⟨59757199831985803063258861155590945323274916778537213861841761251128847378561, 3265850877202437352564708587060002316627909249385655507505588671348225171796⟩ ⟨12312385769684547396095365029355369071957339694349689622296638024179682296192, 29045073188889159330506972844502087256824914692696728592611344825524969277689⟩ 115792089237316195423570985008687907797920175185236127962347713109357207003264 115792089237316195423570985008687907742570365704831691885237842210801284366592
      (by
      rw [(by decide : Nat.testBit 115792089237316195423570985008687907797920175185236127962347713109357207003264 255 = true), if_pos rfl, d8]
      exact e8)
      (by decide)
  have d9 : Point.addFast ⟨12312385769684547396095365029355369071957339694349689622296638024179682296192, 29045073188889159330506972844502087256824914692696728592611344825524969277689⟩ ⟨12312385769684547396095365029355369071957339694349689622296638024179682296192, 29045073188889159330506972844502087256824914692696728592611344825524969277689⟩ = ⟨50007848197623170752760865718142146931988990122741246686313859505378527369827, 1180284656011960669982361481714661532044518037724235794877600679200830847027⟩ :=
    (addFast_dbl ⟨12312385769684547396095365029355369071957339694349689622296638024179682296192, 29045073188889159330506972844502087256824914692696728592611344825524969277689⟩
      33510176351969146018165398992387453675676320193974207554055021892474906349138
      (by decide) (by decide) (by decide) (by decide)).trans (by decide)
  have e9 : Point.addFast ⟨50007848197623170752760865718142146931988990122741246686313859505378527369827, 1180284656011960669982361481714661532044518037724235794877600679200830847027⟩ G = ⟨64576477938603242864175688719582979937377221185498131417909028480620374455851, 20705314253016183882776822003415859022086198187082337930049701670070453690139⟩ :=
    (addFast_distinct ⟨50007848197623170752760865718142146931988990122741246686313859505378527369827, 1180284656011960669982361481714661532044518037724235794877600679200830847027⟩ G
      32268615118559632542255793108834990221536629958841957076321627656710368042810
      (by decide) (by decide) (by decide) (by decide)
      (by decide) (by decide)).trans (by decide)
  have t9 : Point.mulLoopF G 248 ⟨12312385769684547396095365029355369071957339694349689622296638024179682296192, 29045073188889159330506972844502087256824914692696728592611344825524969277689⟩ 115792089237316195423570985008687907742570365704831691885237842210801284366592 =
      Point.mulLoopF G 247 ⟨64576477938603242864175688719582979937377221185498131417909028480620374455851, 20705314253016183882776822003415859022086198187082337930049701670070453690139⟩ 115792089237316195423570985008687907631870746744022819731018100413689439093248 :=
    mulLoopF_step 247 ⟨12312385769684547396095365029355369071957339694349689622296638024179682296192, 29045073188889159330506972844502087256824914692696728592611344825524969277689⟩ ⟨64576477938603242864175688719582979937377221185498131417909028480620374455851, 20705314253016183882776822003415859022086198187082337930049701670070453690139⟩ 115792089237316195423570985008687907742570365704831691885237842210801284366592 115792089237316195423570985008687907631870746744022819731018100413689439093248
      (by
      rw [(by decide : Nat.testBit 115792089237316195423570985008687907742570365704831691885237842210801284366592 255 = true), if_pos rfl, d9]
      exact e9)
      (by decide)
  have d10 : Point.addFast ⟨64576477938603242864175688719582979937377221185498131417909028480620374455851, 20705314253016183882776822003415859022086198187082337930049701670070453690139⟩ ⟨64576477938603242864175688719582979937377221185498131417909028480620374455851, 20705314253016183882776822003415859022086198187082337930049701670070453690139⟩ = ⟨85659388360038944044662927026947545587776571777413959537951143225757872424146, 55044018045565304935582999776905236340233929346800657542857723493644788513378⟩ :=
    (addFast_dbl ⟨64576477938603242864175688719582979937377221185498131417909028480620374455851, 20705314253016183882776822003415859022086198187082337930049701670070453690139⟩
      33188433948510501797120606076268882469581504894292415275115053628472017314192
      (by decide) (by decide) (by decide) (by decide)).trans (by decide)
  have e10 : Point.addFast ⟨85659388360038944044662927026947545587776571777413959537951143225757872424146, 55044018045565304935582999776905236340233929346800657542857723493644788513378⟩ G = ⟨90298937194335276667727138861693096527162756736282331952377049573841222516234, 8411943968061953383391859795282289661205931295409679174588129172188532695583⟩ :=
    (addFast_distinct ⟨85659388360038944044662927026947545587776571777413959537951143225757872424146, 55044018045565304935582999776905236340233929346800657542857723493644788513378⟩ G
      51895080273969590973033848867193385371214172974463145184899476248217412637982
      (by decide) (by decide) (by decide) (by decide)
      (by decide) (by decide)).trans (by decide)
  have t10 : Point.mulLoopF G 247 ⟨64576477938603242864175688719582979937377221185498131417909028480620374455851, 20705314253016183882776822003415859022086198187082337930049701670070453690139⟩ 115792089237316195423570985008687907631870746744022819731018100413689439093248 =
      Point.mulLoopF G 246 ⟨90298937194335276667727138861693096527162756736282331952377049573841222516234, 8411943968061953383391859795282289661205931295409679174588129172188532695583⟩ 115792089237316195423570985008687907410471508822405075422578616819465748546560 :=
    mulLoopF_step 246 ⟨64576477938603242864175688719582979937377221185498131417909028480620374455851, 20705314253016183882776822003415859022086198187082337930049701670070453690139⟩ ⟨90298937194335276667727138861693096527162756736282331952377049573841222516234, 8411943968061953383391859795282289661205931295409679174588129172188532695583⟩ 115792089237316195423570985008687907631870746744022819731018100413689439093248 115792089237316195423570985008687907410471508822405075422578616819465748546560
      (by
      rw [(by decide : Nat.testBit 115792089237316195423570985008687907631870746744022819731018100413689439093248 255 = true), if_pos rfl, d10]
      exact e10)
      (by decide)
  have d11 : Point.addFast ⟨90298937194335276667727138861693096527162756736282331952377049573841222516234, 8411943968061953383391859795282289661205931295409679174588129172188532695583⟩ ⟨90298937194335276667727138861693096527162756736282331952377049573841222516234, 8411943968061953383391859795282289661205931295409679174588129172188532695583⟩ = ⟨43623540594846685715746579736863605790726087452264984331335369968673641493718, 14800225391331876599746572639092026998678092119774355396021588006880777649093⟩ :=
    (addFast_dbl ⟨90298937194335276667727138861693096527162756736282331952377049573841222516234, 8411943968061953383391859795282289661205931295409679174588129172188532695583⟩
      41040676310784575356215213874829361375128292577433492426408364774805007256312
      (by decide) (by decide) (by decide) (by decide)).trans (by decide)
  have e11 : Point.addFast ⟨43623540594846685715746579736863605790726087452264984331335369968673641493718, 14800225391331876599746572639092026998678092119774355396021588006880777649093⟩ G = ⟨55473143378173086206919725552257545104362930926827125220157528804323235463534, 9936048220140744122788394839680004149074916123989654415664353761848673071408⟩ :=
    (addFast_distinct ⟨43623540594846685715746579736863605790726087452264984331335369968673641493718, 14800225391331876599746572639092026998678092119774355396021588006880777649093⟩ G
      105551922497592095530114759324567171701328867067012185366888667990072874571627
      (by decide) (by decide) (by decide) (by decide)
      (by decide) (by decide)).trans (by decide)
  have t11 : Point.mulLoopF G 246 ⟨90298937194335276667727138861693096527162756736282331952377049573841222516234, 8411943968061953383391859795282289661205931295409679174588129172188532695583⟩ 115792089237316195423570985008687907410471508822405075422578616819465748546560 =
      Point.mulLoopF G 245 ⟨55473143378173086206919725552257545104362930926827125220157528804323235463534, 9936048220140744122788394839680004149074916123989654415664353761848673071408⟩ 115792089237316195423570985008687906967673032979169586805699649631018367453184 :=
    mulLoopF_step 245 ⟨90298937194335276667727138861693096527162756736282331952377049573841222516234, 8411943968061953383391859795282289661205931295409679174588129172188532695583⟩ ⟨55473143378173086206919725552257545104362930926827125220157528804323235463534, 9936048220140744122788394839680004149074916123989654415664353761848673071408⟩ 115792089237316195423570985008687907410471508822405075422578616819465748546560 115792089237316195423570985008687906967673032979169586805699649631018367453184
      (by
      rw [(by decide : Nat.testBit 115792089237316195423570985008687907410471508822405075422578616819465748546560 255 = true), if_pos rfl, d11]
      exact e11)
      (by decide)
  have d12 : Point.addFast ⟨55473143378173086206919725552257545104362930926827125220157528804323235463534, 9936048220140744122788394839680004149074916123989654415664353761848673071408⟩ ⟨55473143378173086206919725552257545104362930926827125220157528804323235463534, 9936048220140744122788394839680004149074916123989654415664353761848673071408⟩ = ⟨30510556657222575443745274985178208416018281475912267090843918354758236115119, 87579943617923378748072270064547989138096125159486586223717004081423009101057⟩ :=
    (addFast_dbl ⟨55473143378173086206919725552257545104362930926827125220157528804323235463534, 9936048220140744122788394839680004149074916123989654415664353761848673071408⟩
      16320292969028621210893198643318041117364829478188336295377142025394144234676
      (by decide) (by decide) (by decide) (by decide)).trans (by decide)
  have e12 : Point.addFast ⟨30510556657222575443745274985178208416018281475912267090843918354758236115119, 87579943617923378748072270064547989138096125159486586223717004081423009101057⟩ G = ⟨70620163506976111171066173961856210080659139929929089024144375783710733217672, 60707605052923732375620988065125934494722916954686011896369305439279242056010⟩ :=
    (addFast_distinct ⟨30510556657222575443745274985178208416018281475912267090843918354758236115119, 87579943617923378748072270064547989138096125159486586223717004081423009101057⟩ G
      98914539653443418406042253083258236924386488837341382829352095938061765765172
      (by decide) (by decide) (by decide) (by decide)
      (by decide) (by decide)).trans (by decide)
  have t12 : Point.mulLoopF G 245 ⟨55473143378173086206919725552257545104362930926827125220157528804323235463534, 9936048220140744122788394839680004149074916123989654415664353761848673071408⟩ 115792089237316195423570985008687906967673032979169586805699649631018367453184 =
      Point.mulLoopF G 244 ⟨70620163506976111171066173961856210080659139929929089024144375783710733217672, 60707605052923732375620988065125934494722916954686011896369305439279242056010⟩ 115792089237316195423570985008687906082076081292698609571941715254123605266432 :=
    mulLoopF_step 244 ⟨55473143378173086206919725552257545104362930926827125220157528804323235463534, 9936048220140744122788394839680004149074916123989654415664353761848673071408⟩ ⟨70620163506976111171066173961856210080659139929929089024144375783710733217672, 60707605052923732375620988065125934494722916954686011896369305439279242056010⟩ 115792089237316195423570985008687906967673032979169586805699649631018367453184 115792089237316195423570985008687906082076081292698609571941715254123605266432
      (by
      rw [(by decide : Nat.testBit 115792089237316195423570985008687906967673032979169586805699649631018367453184 255 = true), if_pos rfl, d12]
      exact e12)
      (by decide)
  have d13 : Point.addFast ⟨70620163506976111171066173961856210080659139929929089024144375783710733217672, 60707605052923732375620988065125934494722916954686011896369305439279242056010⟩ ⟨70620163506976111171066173961856210080659139929929089024144375783710733217672, 60707605052923732375620988065125934494722916954686011896369305439279242056010⟩ = ⟨24542970979829946167433707845276906257554819072094280762941955814895178649906, 37221184375992242687184237195941922493507651719172418637798196728389302142467⟩ :=
    (addFast_dbl ⟨70620163506976111171066173961856210080659139929929089024144375783710733217672, 60707605052923732375620988065125934494722916954686011896369305439279242056010⟩
      46595242976881410890003806650242453160373435809472819706475015586815187490301
      (by decide) (by decide) (by decide) (by decide)).trans (by decide)
  have e13 : Point.addFast ⟨24542970979829946167433707845276906257554819072094280762941955814895178649906, 37221184375992242687184237195941922493507651719172418637798196728389302142467⟩ G = ⟨42045853577571703764792139907643277683355835090174363111191927931790230099350, 13984773110628668008779650281005183916403290918166346725002388368229391516595⟩ :=
    (addFast_distinct ⟨24542970979829946167433707845276906257554819072094280762941955814895178649906, 37221184375992242687184237195941922493507651719172418637798196728389302142467⟩ G
      49731609758139600523326296075537310609247170420331078090328185290607713572619
      (by decide) (by decide) (by decide) (by decide)
      (by decide) (by decide)).trans (by decide)
  have t13 : Point.mulLoopF G 244 ⟨70620163506976111171066173961856210080659139929929089024144375783710733217672, 60707605052923732375620988065125934494722916954686011896369305439279242056010⟩ 115792089237316195423570985008687906082076081292698609571941715254123605266432 =
      Point.mulLoopF G 243 ⟨42045853577571703764792139907643277683355835090174363111191927931790230099350, 13984773110628668008779650281005183916403290918166346725002388368229391516595⟩ 115792089237316195423570985008687904310882177919756655104425846500334080892928 :=
    mulLoopF_step 243 ⟨70620163506976111171066173961856210080659139929929089024144375783710733217672, 60707605052923732375620988065125934494722916954686011896369305439279242056010⟩ ⟨42045853577571703764792139907643277683355835090174363111191927931790230099350, 13984773110628668008779650281005183916403290918166346725002388368229391516595⟩ 115792089237316195423570985008687906082076081292698609571941715254123605266432 115792089237316195423570985008687904310882177919756655104425846500334080892928
      (by
      rw [(by decide : Nat.testBit 115792089237316195423570985008687906082076081292698609571941715254123605266432 255 = true), if_pos rfl, d13]
      exact e13)
      (by decide)
  have d14 : Point.addFast ⟨42045853577571703764792139907643277683355835090174363111191927931790230099350, 13984773110628668008779650281005183916403290918166346725002388368229391516595⟩ ⟨42045853577571703764792139907643277683355835090174363111191927931790230099350, 13984773110628668008779650281005183916403290918166346725002388368229391516595⟩ = ⟨2554122816962644488320770692103412316840422933775171299983856823352189986839, 64508163694865999918615565047099503425678115525400303810260348883302317681497⟩ :=
    (addFast_dbl ⟨42045853577571703764792139907643277683355835090174363111191927931790230099350, 13984773110628668008779650281005183916403290918166346725002388368229391516595⟩
      44981277565070520492795612598964762543456063807281350054685477953410197829530
      (by decide) (by decide) (by decide) (by decide)).trans (by decide)
  have e14 : Point.addFast ⟨2554122816962644488320770692103412316840422933775171299983856823352189986839, 64508163694865999918615565047099503425678115525400303810260348883302317681497⟩ G = ⟨13767946009808845291392969101935645745350913715299505202974191487289959180437, 90978430016154903090489832638622821738675748616804614557060509195182176674995⟩ :=
    (addFast_distinct ⟨2554122816962644488320770692103412316840422933775171299983856823352189986839, 64508163694865999918615565047099503425678115525400303810260348883302317681497⟩ G
      105839073887103770589737371924032293174640512655961400520119298736703092539676
      (by decide) (by decide) (by decide) (by decide)
      (by decide) (by decide)).trans (by decide)
  have t14 : Point.mulLoopF G 243 ⟨42045853577571703764792139907643277683355835090174363111191927931790230099350, 13984773110628668008779650281005183916403290918166346725002388368229391516595⟩ 115792089237316195423570985008687904310882177919756655104425846500334080892928 =
      Point.mulLoopF G 242 ⟨13767946009808845291392969101935645745350913715299505202974191487289959180437, 90978430016154903090489832638622821738675748616804614557060509195182176674995⟩ 115792089237316195423570985008687900768494371173872746169394108992755032145920 :=
    mulLoopF_step 242 ⟨42045853577571703764792139907643277683355835090174363111191927931790230099350, 13984773110628668008779650281005183916403290918166346725002388368229391516595⟩ ⟨13767946009808845291392969101935645745350913715299505202974191487289959180437, 90978430016154903090489832638622821738675748616804614557060509195182176674995⟩ 115792089237316195423570985008687904310882177919756655104425846500334080892928 115792089237316195423570985008687900768494371173872746169394108992755032145920
      (by
      rw [(by decide : Nat.testBit 115792089237316195423570985008687904310882177919756655104425846500334080892928 255 = true), if_pos rfl, d14]
      exact e14)
      (by decide)
  have d15 : Point.addFast ⟨13767946009808845291392969101935645745350913715299505202974191487289959180437, 90978430016154903090489832638622821738675748616804614557060509195182176674995⟩ ⟨13767946009808845291392969101935645745350913715299505202974191487289959180437, 90978430016154903090489832638622821738675748616804614557060509195182176674995⟩ = ⟨62423603145765122765063804182128866552102108847914574376856707306607462516687, 68978037619454251076647963288346594710185013684374248088793184695280482351099⟩ :=
    (addFast_dbl ⟨13767946009808845291392969101935645745350913715299505202974191487289959180437, 90978430016154903090489832638622821738675748616804614557060509195182176674995⟩
      85731849155897953662441191115159649105514100695232843538328619470136534859856
      (by decide) (by decide) (by decide) (by decide)).trans (by decide)
  have e15 : Point.addFast ⟨62423603145765122765063804182128866552102108847914574376856707306607462516687, 68978037619454251076647963288346594710185013684374248088793184695280482351099⟩ G = ⟨38561149147252379024325758906499302252004434730168179261302402442679469785317, 11294907072514232649536739093704057047069059956209817067283436083364266784853⟩ :=
    (addFast_distinct ⟨62423603145765122765063804182128866552102108847914574376856707306607462516687, 68978037619454251076647963288346594710185013684374248088793184695280482351099⟩ G
      13104747089871247702127128369947373814051791896460346251866749466795353818786
      (by decide) (by decide) (by decide) (by decide)
      (by decide) (by decide)).trans (by decide)
  have t15 : Point.mulLoopF G 242 ⟨13767946009808845291392969101935645745350913715299505202974191487289959180437, 90978430016154903090489832638622821738675748616804614557060509195182176674995⟩ 115792089237316195423570985008687900768494371173872746169394108992755032145920 =
      Point.mulLoopF G 241 ⟨38561149147252379024325758906499302252004434730168179261302402442679469785317, 11294907072514232649536739093704057047069059956209817067283436083364266784853⟩ 115792089237316195423570985008687893683718757682104928299330633977596934651904 :=
    mulLoopF_step 241 ⟨13767946009808845291392969101935645745350913715299505202974191487289959180437, 90978430016154903090489832638622821738675748616804614557060509195182176674995⟩ ⟨38561149147252379024325758906499302252004434730168179261302402442679469785317, 11294907072514232649536739093704057047069059956209817067283436083364266784853⟩ 115792089237316195423570985008687900768494371173872746169394108992755032145920 115792089237316195423570985008687893683718757682104928299330633977596934651904
      (by
      rw [(by decide : Nat.testBit 115792089237316195423570985008687900768494371173872746169394108992755032145920 255 = true), if_pos rfl, d15]
      exact e15)
      (by decide)
  have d16 : Point.addFast ⟨38561149147252379024325758906499302252004434730168179261302402442679469785317, 11294907072514232649536739093704057047069059956209817067283436083364266784853⟩ ⟨38561149147252379024325758906499302252004434730168179261302402442679469785317, 11294907072514232649536739093704057047069059956209817067283436083364266784853⟩ = ⟨85010409161557322831390150637359377772938975875771482833495599159228370495771, 38647048419729339696063674712711757833424244307845803421625064117940015861035⟩ :=
    (addFast_dbl ⟨38561149147252379024325758906499302252004434730168179261302402442679469785317, 11294907072514232649536739093704057047069059956209817067283436083364266784853⟩
      89203164736788245679758402033069044586660900344832569301852492952994819273656
      (by decide) (by decide) (by decide) (by decide)).trans (by decide)
  have e16 : Point.addFast ⟨85010409161557322831390150637359377772938975875771482833495599159228370495771, 38647048419729339696063674712711757833424244307845803421625064117940015861035⟩ G = ⟨99577865136541581272716647070755930256937866979919505697200229537979796287440, 114265960071829761056315993662300488440859353008900857147698204927759003357952⟩ :=
    (addFast_distinct ⟨85010409161557322831390150637359377772938975875771482833495599159228370495771, 38647048419729339696063674712711757833424244307845803421625064117940015861035⟩ G
      61927997408705771714705850967785123275235291594850361590928516496942350470809
      (by decide) (by decide) (by decide) (by decide)
      (by decide) (by decide)).trans (by decide)
  have t16 : Point.mulLoopF G 241 ⟨38561149147252379024325758906499302252004434730168179261302402442679469785317, 11294907072514232649536739093704057047069059956209817067283436083364266784853⟩ 115792089237316195423570985008687893683718757682104928299330633977596934651904 =
      Point.mulLoopF G 240 ⟨99577865136541581272716647070755930256937866979919505697200229537979796287440, 114265960071829761056315993662300488440859353008900857147698204927759003357952⟩ 115792089237316195423570985008687879514167530698569292559203683947280739663872 :=
    mulLoopF_step 240 ⟨38561149147252379024325758906499302252004434730168179261302402442679469785317, 11294907072514232649536739093704057047069059956209817067283436083364266784853⟩ ⟨99577865136541581272716647070755930256937866979919505697200229537979796287440, 114265960071829761056315993662300488440859353008900857147698204927759003357952⟩ 115792089237316195423570985008687893683718757682104928299330633977596934651904 115792089237316195423570985008687879514167530698569292559203683947280739663872
      (by
      rw [(by decide : Nat.testBit 115792089237316195423570985008687893683718757682104928299330633977596934651904 255 = true), if_pos rfl, d16]
      exact e16)
      (by decide)
  rw [t1, t2, t3, t4, t5, t6, t7, t8, t9, t10, t11, t12, t13, t14, t15, t16]

set_option maxHeartbeats 1600000 in
/-- Segment 2 of the certified double-and-add trace of the generator
multiplied by the group order: iterations 17 to 32, each point
addition discharged through a precomputed modular-inverse certificate. -/
theorem mulG_seg2 : Point.mulLoopF G 240 ⟨99577865136541581272716647070755930256937866979919505697200229537979796287440, 114265960071829761056315993662300488440859353008900857147698204927759003357952⟩ 115792089237316195423570985008687879514167530698569292559203683947280739663872 =
    Point.mulLoopF G 224 ⟨84353664740444228439011026249523093615980163880775352006601710044671436206174, 70086162059883113165357350924185928534033735369058967403519437240021815150764⟩ 115792089237316195423570985006830676434846798682792834119863210403603658309632 := by
  have d17 : Point.addFast ⟨99577865136541581272716647070755930256937866979919505697200229537979796287440, 114265960071829761056315993662300488440859353008900857147698204927759003357952⟩ ⟨99577865136541581272716647070755930256937866979919505697200229537979796287440, 114265960071829761056315993662300488440859353008900857147698204927759003357952⟩ = ⟨36435715186901038354170876031682488190364049577414774870305120530490557821827, 8637074366679063504129435922707352687292204602031223914386957899572692641878⟩ :=
    (addFast_dbl ⟨99577865136541581272716647070755930256937866979919505697200229537979796287440, 114265960071829761056315993662300488440859353008900857147698204927759003357952⟩
      104288027662835619315206135951959866299378684578330848688238049413483142437100
      (by decide) (by decide) (by decide) (by decide)).trans (by decide)
  have e17 : Point.addFast ⟨36435715186901038354170876031682488190364049577414774870305120530490557821827, 8637074366679063504129435922707352687292204602031223914386957899572692641878⟩ G = ⟨86903564112910030090284977633022116173647036058966815189304691576712084315529, 55388769771385125142052941154588941890249400964823553571003972354703739404156⟩ :=
    (addFast_distinct ⟨36435715186901038354170876031682488190364049577414774870305120530490557821827, 8637074366679063504129435922707352687292204602031223914386957899572692641878⟩ G
      69675746707473115137657174853987322437069816200305844253661902713033970975171
      (by decide) (by decide) (by decide) (by decide)
      (by decide) (by decide)).trans (by decide)
  have t17 : Point.mulLoopF G 240 ⟨99577865136541581272716647070755930256937866979919505697200229537979796287440, 114265960071829761056315993662300488440859353008900857147698204927759003357952⟩ 115792089237316195423570985008687879514167530698569292559203683947280739663872 =
      Point.mulLoopF G 239 ⟨86903564112910030090284977633022116173647036058966815189304691576712084315529, 55388769771385125142052941154588941890249400964823553571003972354703739404156⟩ 115792089237316195423570985008687851175065076731498021078949783886648349687808 :=
    mulLoopF_step 239 ⟨99577865136541581272716647070755930256937866979919505697200229537979796287440, 114265960071829761056315993662300488440859353008900857147698204927759003357952⟩ ⟨86903564112910030090284977633022116173647036058966815189304691576712084315529, 55388769771385125142052941154588941890249400964823553571003972354703739404156⟩ 115792089237316195423570985008687879514167530698569292559203683947280739663872 115792089237316195423570985008687851175065076731498021078949783886648349687808
      (by
      rw [(by decide : Nat.testBit 115792089237316195423570985008687879514167530698569292559203683947280739663872 255 = true), if_pos rfl, d17]
      exact e17)
      (by decide)
  have d18 : Point.addFast ⟨86903564112910030090284977633022116173647036058966815189304691576712084315529, 55388769771385125142052941154588941890249400964823553571003972354703739404156⟩ ⟨86903564112910030090284977633022116173647036058966815189304691576712084315529, 55388769771385125142052941154588941890249400964823553571003972354703739404156⟩ = ⟨49179455464164824139725592951503878250951089835688914565057486486359418440591, 3640593583306203984936719106135423523395416054012278303034155974442378522246⟩ :=
    (addFast_dbl ⟨86903564112910030090284977633022116173647036058966815189304691576712084315529, 55388769771385125142052941154588941890249400964823553571003972354703739404156⟩
      29041678898170915229896907594571157533406967580688711800530836146410709952389
      (by decide) (by decide) (by decide) (by decide)).trans (by decide)
  have e18 : Point.addFast ⟨49179455464164824139725592951503878250951089835688914565057486486359418440591, 3640593583306203984936719106135423523395416054012278303034155974442378522246⟩ G = ⟨114368339517595894528471256576694169209833665944431108245592288269952807974335, 60588904147139458644067308658527826102547991222112598009997346852806185874519⟩ :=
    (addFast_distinct ⟨49179455464164824139725592951503878250951089835688914565057486486359418440591, 3640593583306203984936719106135423523395416054012278303034155974442378522246⟩ G
      33366700198182788047929040208434369591912280307823854971008634871069194210446
      (by decide) (by decide) (by decide) (by decide)
      (by decide) (by decide)).trans (by decide)
  have t18 : Point.mulLoopF G 239 ⟨86903564112910030090284977633022116173647036058966815189304691576712084315529, 55388769771385125142052941154588941890249400964823553571003972354703739404156⟩ 115792089237316195423570985008687851175065076731498021078949783886648349687808 =
      Point.mulLoopF G 238 ⟨114368339517595894528471256576694169209833665944431108245592288269952807974335, 60588904147139458644067308658527826102547991222112598009997346852806185874519⟩ 115792089237316195423570985008687794496860168797355478118441983765383569735680 :=
    mulLoopF_step 238 ⟨86903564112910030090284977633022116173647036058966815189304691576712084315529, 55388769771385125142052941154588941890249400964823553571003972354703739404156⟩ ⟨114368339517595894528471256576694169209833665944431108245592288269952807974335, 60588904147139458644067308658527826102547991222112598009997346852806185874519⟩ 115792089237316195423570985008687851175065076731498021078949783886648349687808 115792089237316195423570985008687794496860168797355478118441983765383569735680
      (by
      rw [(by decide : Nat.testBit 115792089237316195423570985008687851175065076731498021078949783886648349687808 255 = true), if_pos rfl, d18]
      exact e18)
      (by decide)
  have d19 : Point.addFast ⟨114368339517595894528471256576694169209833665944431108245592288269952807974335, 60588904147139458644067308658527826102547991222112598009997346852806185874519⟩ ⟨114368339517595894528471256576694169209833665944431108245592288269952807974335, 60588904147139458644067308658527826102547991222112598009997346852806185874519⟩ = ⟨58982417934110660596823471849191671231568454206192675008645658876692427951251, 53688624195140367056175818674784466456919562918469530899293395343986237368836⟩ :=
    (addFast_dbl ⟨114368339517595894528471256576694169209833665944431108245592288269952807974335, 60588904147139458644067308658527826102547991222112598009997346852806185874519⟩
      47712814845490733870788946422053597314800679078790301716067033847952639766973
      (by decide) (by decide) (by decide) (by decide)).trans (by decide)
  have e19 : Point.addFast ⟨58982417934110660596823471849191671231568454206192675008645658876692427951251, 53688624195140367056175818674784466456919562918469530899293395343986237368836⟩ G = ⟨16764825956992030827226399999933654633682344769217150020857374619797439438412, 4492618557281089108226121751941313038670955039626023074149078852078654636576⟩ :=
    (addFast_distinct ⟨58982417934110660596823471849191671231568454206192675008645658876692427951251, 53688624195140367056175818674784466456919562918469530899293395343986237368836⟩ G
      109844873823218775147250958851098175950195697777573527763526304637651606521879
      (by decide) (by decide) (by decide) (by decide)
      (by decide) (by decide)).trans (by decide)
  have t19 : Point.mulLoopF G 238 ⟨114368339517595894528471256576694169209833665944431108245592288269952807974335, 60588904147139458644067308658527826102547991222112598009997346852806185874519⟩ 115792089237316195423570985008687794496860168797355478118441983765383569735680 =
      Point.mulLoopF G 237 ⟨16764825956992030827226399999933654633682344769217150020857374619797439438412, 4492618557281089108226121751941313038670955039626023074149078852078654636576⟩ 115792089237316195423570985008687681140450352929070392197426383522854009831424 :=
    mulLoopF_step 237 ⟨114368339517595894528471256576694169209833665944431108245592288269952807974335, 60588904147139458644067308658527826102547991222112598009997346852806185874519⟩ ⟨16764825956992030827226399999933654633682344769217150020857374619797439438412, 4492618557281089108226121751941313038670955039626023074149078852078654636576⟩ 115792089237316195423570985008687794496860168797355478118441983765383569735680 115792089237316195423570985008687681140450352929070392197426383522854009831424
      (by
      rw [(by decide : Nat.testBit 115792089237316195423570985008687794496860168797355478118441983765383569735680 255 = true), if_pos rfl, d19]
      exact e19)
      (by decide)
  have d20 : Point.addFast ⟨16764825956992030827226399999933654633682344769217150020857374619797439438412, 4492618557281089108226121751941313038670955039626023074149078852078654636576⟩ ⟨16764825956992030827226399999933654633682344769217150020857374619797439438412, 4492618557281089108226121751941313038670955039626023074149078852078654636576⟩ = ⟨41603442898059026765648524399499425394044905251903534726947731584448441667879, 76411564319167294147276580352611306960404923511160609414064328617474238633935⟩ :=
    (addFast_dbl ⟨16764825956992030827226399999933654633682344769217150020857374619797439438412, 4492618557281089108226121751941313038670955039626023074149078852078654636576⟩
      62891269560334068996146874685456110286304144359925647753469131346668979926207
      (by decide) (by decide) (by decide) (by decide)).trans (by decide)
  have e20 : Point.addFast ⟨41603442898059026765648524399499425394044905251903534726947731584448441667879, 76411564319167294147276580352611306960404923511160609414064328617474238633935⟩ G = ⟨104007230024138097090948149659763199575194016234070308325055906261614968815132, 91091772053168005390178532621516018714557476720574102219479290117706682654⟩ :=
    (addFast_distinct ⟨41603442898059026765648524399499425394044905251903534726947731584448441667879, 76411564319167294147276580352611306960404923511160609414064328617474238633935⟩ G
      106058022110928019246192744220627540512098692563879495402815722013116219455885
      (by decide) (by decide) (by decide) (by decide)
      (by decide) (by decide)).trans (by decide)
  have t20 : Point.mulLoopF G 237 ⟨16764825956992030827226399999933654633682344769217150020857374619797439438412, 4492618557281089108226121751941313038670955039626023074149078852078654636576⟩ 115792089237316195423570985008687681140450352929070392197426383522854009831424 =
      Point.mulLoopF G 236 ⟨104007230024138097090948149659763199575194016234070308325055906261614968815132, 91091772053168005390178532621516018714557476720574102219479290117706682654⟩ 115792089237316195423570985008687454427630721192500220355395183037794890022912 :=
    mulLoopF_step 236 ⟨16764825956992030827226399999933654633682344769217150020857374619797439438412, 4492618557281089108226121751941313038670955039626023074149078852078654636576⟩ ⟨104007230024138097090948149659763199575194016234070308325055906261614968815132, 91091772053168005390178532621516018714557476720574102219479290117706682654⟩ 115792089237316195423570985008687681140450352929070392197426383522854009831424 115792089237316195423570985008687454427630721192500220355395183037794890022912
      (by
      rw [(by decide : Nat.testBit 115792089237316195423570985008687681140450352929070392197426383522854009831424 255 = true), if_pos rfl, d20]
      exact e20)
      (by decide)
  have d21 : Point.addFast ⟨104007230024138097090948149659763199575194016234070308325055906261614968815132, 91091772053168005390178532621516018714557476720574102219479290117706682654⟩ ⟨104007230024138097090948149659763199575194016234070308325055906261614968815132, 91091772053168005390178532621516018714557476720574102219479290117706682654⟩ = ⟨8754452457322980476752351623555041658860626847432982457194224184645047188864, 47091014034206509089265638451260101859842568320427416468638804274007536725637⟩ :=
    (addFast_dbl ⟨104007230024138097090948149659763199575194016234070308325055906261614968815132, 91091772053168005390178532621516018714557476720574102219479290117706682654⟩
      91658523592254913926968107875605233463842046010148833667726409085885840882213
      (by decide) (by decide) (by decide) (by decide)).trans (by decide)
  have e21 : Point.addFast ⟨8754452457322980476752351623555041658860626847432982457194224184645047188864, 47091014034206509089265638451260101859842568320427416468638804274007536725637⟩ G = ⟨108906521939303271890786672718094082960815203344293084280978198224607207227869, 24253399226517067573407539302247738756662749380689040409814474662543795768438⟩ :=
    (addFast_distinct ⟨8754452457322980476752351623555041658860626847432982457194224184645047188864, 47091014034206509089265638451260101859842568320427416468638804274007536725637⟩ G
      38623248500701154133296517568242423388312680769548971447909146045516206555393
      (by decide) (by decide) (by decide) (by decide)
      (by decide) (by decide)).trans (by decide)
  have t21 : Point.mulLoopF G 236 ⟨104007230024138097090948149659763199575194016234070308325055906261614968815132, 91091772053168005390178532621516018714557476720574102219479290117706682654⟩ 115792089237316195423570985008687454427630721192500220355395183037794890022912 =
      Point.mulLoopF G 235 ⟨108906521939303271890786672718094082960815203344293084280978198224607207227869, 24253399226517067573407539302247738756662749380689040409814474662543795768438⟩ 115792089237316195423570985008687001001991457719359876671332782067676650405888 :=
    mulLoopF_step 235 ⟨104007230024138097090948149659763199575194016234070308325055906261614968815132, 91091772053168005390178532621516018714557476720574102219479290117706682654⟩ ⟨108906521939303271890786672718094082960815203344293084280978198224607207227869, 24253399226517067573407539302247738756662749380689040409814474662543795768438⟩ 115792089237316195423570985008687454427630721192500220355395183037794890022912 115792089237316195423570985008687001001991457719359876671332782067676650405888
      (by
      rw [(by decide : Nat.testBit 115792089237316195423570985008687454427630721192500220355395183037794890022912 255 = true), if_pos rfl, d21]
      exact e21)
      (by decide)
  have d22 : Point.addFast ⟨108906521939303271890786672718094082960815203344293084280978198224607207227869, 24253399226517067573407539302247738756662749380689040409814474662543795768438⟩ ⟨108906521939303271890786672718094082960815203344293084280978198224607207227869, 24253399226517067573407539302247738756662749380689040409814474662543795768438⟩ = ⟨30154596844949084320514937503653361249833880773948578737318410638974864213754, 62944736575679106993162607760656702431637392482393003553571697621993913005164⟩ :=
    (addFast_dbl ⟨108906521939303271890786672718094082960815203344293084280978198224607207227869, 24253399226517067573407539302247738756662749380689040409814474662543795768438⟩
      75412461919549996751534840607513177584010379713387441949860346139246820598206
      (by decide) (by decide) (by decide) (by decide)).trans (by decide)
  have e22 : Point.addFast ⟨30154596844949084320514937503653361249833880773948578737318410638974864213754, 62944736575679106993162607760656702431637392482393003553571697621993913005164⟩ G = ⟨111646320771837793905471902645877503463808119643917998618802532922579167513396, 16385423434183482045408034246915100636904982837448447619823452169095393589511⟩ :=
    (addFast_distinct ⟨30154596844949084320514937503653361249833880773948578737318410638974864213754, 62944736575679106993162607760656702431637392482393003553571697621993913005164⟩ G
      74117515315788572763064756346006385515319926062905710055139085389914355408678
      (by decide) (by decide) (by decide) (by decide)
      (by decide) (by decide)).trans (by decide)
  have t22 : Point.mulLoopF G 235 ⟨108906521939303271890786672718094082960815203344293084280978198224607207227869, 24253399226517067573407539302247738756662749380689040409814474662543795768438⟩ 115792089237316195423570985008687001001991457719359876671332782067676650405888 =
      Point.mulLoopF G 234 ⟨111646320771837793905471902645877503463808119643917998618802532922579167513396, 16385423434183482045408034246915100636904982837448447619823452169095393589511⟩ 115792089237316195423570985008686094150712930773079189303207980127440171171840 :=
    mulLoopF_step 234 ⟨108906521939303271890786672718094082960815203344293084280978198224607207227869, 24253399226517067573407539302247738756662749380689040409814474662543795768438⟩ ⟨111646320771837793905471902645877503463808119643917998618802532922579167513396, 16385423434183482045408034246915100636904982837448447619823452169095393589511⟩ 115792089237316195423570985008687001001991457719359876671332782067676650405888 115792089237316195423570985008686094150712930773079189303207980127440171171840
      (by
      rw [(by decide : Nat.testBit 115792089237316195423570985008687001001991457719359876671332782067676650405888 255 = true), if_pos rfl, d22]
      exact e22)
      (by decide)
  have d23 : Point.addFast ⟨111646320771837793905471902645877503463808119643917998618802532922579167513396, 16385423434183482045408034246915100636904982837448447619823452169095393589511⟩ ⟨111646320771837793905471902645877503463808119643917998618802532922579167513396, 16385423434183482045408034246915100636904982837448447619823452169095393589511⟩ = ⟨1962123058402140385089231710319503752575062731100747496823472542361234160837, 69120743264221429270171367095972398904016908048863347212172062435824289890515⟩ :=
    (addFast_dbl ⟨111646320771837793905471902645877503463808119643917998618802532922579167513396, 16385423434183482045408034246915100636904982837448447619823452169095393589511⟩
      114970506737067728822969461918981109512782292210241730653395369642702694966759
      (by decide) (by decide) (by decide) (by decide)).trans (by decide)
  have e23 : Point.addFast ⟨1962123058402140385089231710319503752575062731100747496823472542361234160837, 69120743264221429270171367095972398904016908048863347212172062435824289890515⟩ G = ⟨10574233200634167553938203927903836369052185347177241629122984852281785289888, 95318921153385818767752498756320496384570852127123153739102694686618555948969⟩ :=
    (addFast_distinct ⟨1962123058402140385089231710319503752575062731100747496823472542361234160837, 69120743264221429270171367095972398904016908048863347212172062435824289890515⟩ G
      84039648126557662874554219835467032940214243236081172698718202710589575488747
      (by decide) (by decide) (by decide) (by decide)
      (by decide) (by decide)).trans (by decide)
  have t23 : Point.mulLoopF G 234 ⟨111646320771837793905471902645877503463808119643917998618802532922579167513396, 16385423434183482045408034246915100636904982837448447619823452169095393589511⟩ 115792089237316195423570985008686094150712930773079189303207980127440171171840 =
      Point.mulLoopF G 233 ⟨10574233200634167553938203927903836369052185347177241629122984852281785289888, 95318921153385818767752498756320496384570852127123153739102694686618555948969⟩ 115792089237316195423570985008684280448155876880517814566958376246967212703744 :=
    mulLoopF_step 233 ⟨111646320771837793905471902645877503463808119643917998618802532922579167513396, 16385423434183482045408034246915100636904982837448447619823452169095393589511⟩ ⟨10574233200634167553938203927903836369052185347177241629122984852281785289888, 95318921153385818767752498756320496384570852127123153739102694686618555948969⟩ 115792089237316195423570985008686094150712930773079189303207980127440171171840 115792089237316195423570985008684280448155876880517814566958376246967212703744
      (by
      rw [(by decide : Nat.testBit 115792089237316195423570985008686094150712930773079189303207980127440171171840 255 = true), if_pos rfl, d23]
      exact e23)
      (by decide)
  have d24 : Point.addFast ⟨10574233200634167553938203927903836369052185347177241629122984852281785289888, 95318921153385818767752498756320496384570852127123153739102694686618555948969⟩ ⟨10574233200634167553938203927903836369052185347177241629122984852281785289888, 95318921153385818767752498756320496384570852127123153739102694686618555948969⟩ = ⟨70351020045372268602564079704011849229407832010151167509139255605637531375072, 463345816341627185100430731395890364892737042411533063373903654161367792049⟩ :=
    (addFast_dbl ⟨10574233200634167553938203927903836369052185347177241629122984852281785289888, 95318921153385818767752498756320496384570852127123153739102694686618555948969⟩
      108270634262633009375622359872774119185445409266322848280345946222389006482434
      (by decide) (by decide) (by decide) (by decide)).trans (by decide)
  have e24 : Point.addFast ⟨70351020045372268602564079704011849229407832010151167509139255605637531375072, 463345816341627185100430731395890364892737042411533063373903654161367792049⟩ G = ⟨74243244981999165375829477376323166010852672515139975696463755270880389937637, 110259244318399368395134502763292603946586577058366215301351007252051788455649⟩ :=
    (addFast_distinct ⟨70351020045372268602564079704011849229407832010151167509139255605637531375072, 463345816341627185100430731395890364892737042411533063373903654161367792049⟩ G
      40312556365041560547261266072334392484383337917179281189946014243136842526521
      (by decide) (by decide) (by decide) (by decide)
      (by decide) (by decide)).trans (by decide)
  have t24 : Point.mulLoopF G 233 ⟨10574233200634167553938203927903836369052185347177241629122984852281785289888, 95318921153385818767752498756320496384570852127123153739102694686618555948969⟩ 115792089237316195423570985008684280448155876880517814566958376246967212703744 =
      Point.mulLoopF G 232 ⟨74243244981999165375829477376323166010852672515139975696463755270880389937637, 110259244318399368395134502763292603946586577058366215301351007252051788455649⟩ 115792089237316195423570985008680653043041769095395065094459168486021295767552 :=
    mulLoopF_step 232 ⟨10574233200634167553938203927903836369052185347177241629122984852281785289888, 95318921153385818767752498756320496384570852127123153739102694686618555948969⟩ ⟨74243244981999165375829477376323166010852672515139975696463755270880389937637, 110259244318399368395134502763292603946586577058366215301351007252051788455649⟩ 115792089237316195423570985008684280448155876880517814566958376246967212703744 115792089237316195423570985008680653043041769095395065094459168486021295767552
      (by
      rw [(by decide : Nat.testBit 115792089237316195423570985008684280448155876880517814566958376246967212703744 255 = true), if_pos rfl, d24]
      exact e24)
      (by decide)
  have d25 : Point.addFast ⟨74243244981999165375829477376323166010852672515139975696463755270880389937637, 110259244318399368395134502763292603946586577058366215301351007252051788455649⟩ ⟨74243244981999165375829477376323166010852672515139975696463755270880389937637, 110259244318399368395134502763292603946586577058366215301351007252051788455649⟩ = ⟨85447549486025717305454650850786440421997404856052238051325168296986846084383, 10323768137667918843700589358082196676171981425638545075906064807904862910497⟩ :=
    (addFast_dbl ⟨74243244981999165375829477376323166010852672515139975696463755270880389937637, 110259244318399368395134502763292603946586577058366215301351007252051788455649⟩
      26182708531905877427260507538215861623130373458261745642594139277942197540713
      (by decide) (by decide) (by decide) (by decide)).trans (by decide)
  have e25 : Point.addFast ⟨85447549486025717305454650850786440421997404856052238051325168296986846084383, 10323768137667918843700589358082196676171981425638545075906064807904862910497⟩ G = ⟨104720462100734090131397952123567976943840802394537491227226794162707887324285, 33067427991305648864372754160623483902729224061819002083248033405305806523630⟩ :=
    (addFast_distinct ⟨85447549486025717305454650850786440421997404856052238051325168296986846084383, 10323768137667918843700589358082196676171981425638545075906064807904862910497⟩ G
      7210483481453388228763091696964238481303985533360999834825705931603878274936
      (by decide) (by decide) (by decide) (by decide)
      (by decide) (by decide)).trans (by decide)
  have t25 : Point.mulLoopF G 232 ⟨74243244981999165375829477376323166010852672515139975696463755270880389937637, 110259244318399368395134502763292603946586577058366215301351007252051788455649⟩ 115792089237316195423570985008680653043041769095395065094459168486021295767552 =
      Point.mulLoopF G 231 ⟨104720462100734090131397952123567976943840802394537491227226794162707887324285, 33067427991305648864372754160623483902729224061819002083248033405305806523630⟩ 115792089237316195423570985008673398232813553525149566149460752964129461895168 :=
    mulLoopF_step 231 ⟨74243244981999165375829477376323166010852672515139975696463755270880389937637, 110259244318399368395134502763292603946586577058366215301351007252051788455649⟩ ⟨104720462100734090131397952123567976943840802394537491227226794162707887324285, 33067427991305648864372754160623483902729224061819002083248033405305806523630⟩ 115792089237316195423570985008680653043041769095395065094459168486021295767552 115792089237316195423570985008673398232813553525149566149460752964129461895168
      (by
      rw [(by decide : Nat.testBit 115792089237316195423570985008680653043041769095395065094459168486021295767552 255 = true), if_pos rfl, d25]
      exact e25)
      (by decide)
  have d26 : Point.addFast ⟨104720462100734090131397952123567976943840802394537491227226794162707887324285, 33067427991305648864372754160623483902729224061819002083248033405305806523630⟩ ⟨104720462100734090131397952123567976943840802394537491227226794162707887324285, 33067427991305648864372754160623483902729224061819002083248033405305806523630⟩ = ⟨72156019040338453068688889760663011288405581324183581866355522326620064304264, 110775090191646575702617115449451718184276446816551303481170772441944746606447⟩ :=
    (addFast_dbl ⟨104720462100734090131397952123567976943840802394537491227226794162707887324285, 33067427991305648864372754160623483902729224061819002083248033405305806523630⟩
      103045851376847980671343451301932436828425002709501020735615087866734037104446
      (by decide) (by decide) (by decide) (by decide)).trans (by decide)
  have e26 : Point.addFast ⟨72156019040338453068688889760663011288405581324183581866355522326620064304264, 110775090191646575702617115449451718184276446816551303481170772441944746606447⟩ G = ⟨62024131697899430324820788837693451213081984096051227198528188904291543584211, 142185428742939471886030281683930263111473502450741459705787877179054834182⟩ :=
    (addFast_distinct ⟨72156019040338453068688889760663011288405581324183581866355522326620064304264, 110775090191646575702617115449451718184276446816551303481170772441944746606447⟩ G
      61733280504679553264681642734155952078368751850451935982367910580710886992121
      (by decide) (by decide) (by decide) (by decide)
      (by decide) (by decide)).trans (by decide)
  have t26 : Point.mulLoopF G 231 ⟨104720462100734090131397952123567976943840802394537491227226794162707887324285, 33067427991305648864372754160623483902729224061819002083248033405305806523630⟩ 115792089237316195423570985008673398232813553525149566149460752964129461895168 =
      Point.mulLoopF G 230 ⟨62024131697899430324820788837693451213081984096051227198528188904291543584211, 142185428742939471886030281683930263111473502450741459705787877179054834182⟩ 115792089237316195423570985008658888612357122384658568259463921920345794150400 :=
    mulLoopF_step 230 ⟨104720462100734090131397952123567976943840802394537491227226794162707887324285, 33067427991305648864372754160623483902729224061819002083248033405305806523630⟩ ⟨62024131697899430324820788837693451213081984096051227198528188904291543584211, 142185428742939471886030281683930263111473502450741459705787877179054834182⟩ 115792089237316195423570985008673398232813553525149566149460752964129461895168 115792089237316195423570985008658888612357122384658568259463921920345794150400
      (by
      rw [(by decide : Nat.testBit 115792089237316195423570985008673398232813553525149566149460752964129461895168 255 = true), if_pos rfl, d26]
      exact e26)
      (by decide)
  have d27 : Point.addFast ⟨62024131697899430324820788837693451213081984096051227198528188904291543584211, 142185428742939471886030281683930263111473502450741459705787877179054834182⟩ ⟨62024131697899430324820788837693451213081984096051227198528188904291543584211, 142185428742939471886030281683930263111473502450741459705787877179054834182⟩ = ⟨34405472285151776287646464599235329404143980057703686806525650460644217366993, 40760280235457149508285912338231419643867814835034002322532482672312200706088⟩ :=
    (addFast_dbl ⟨62024131697899430324820788837693451213081984096051227198528188904291543584211, 142185428742939471886030281683930263111473502450741459705787877179054834182⟩
      97561478266846951436097594205915118945393311107228781857039970284614578834839
      (by decide) (by decide) (by decide) (by decide)).trans (by decide)
  have e27 : Point.addFast ⟨34405472285151776287646464599235329404143980057703686806525650460644217366993, 40760280235457149508285912338231419643867814835034002322532482672312200706088⟩ G = ⟨12611268426084905099074077995756251763323139454222655222779532663383097501112, 90724296018943181017010225769322762143052909758482214462723619576869823288395⟩ :=
    (addFast_distinct ⟨34405472285151776287646464599235329404143980057703686806525650460644217366993, 40760280235457149508285912338231419643867814835034002322532482672312200706088⟩ G
      12075611505712473321692398131364447959441480003964019090620477009365007091356
      (by decide) (by decide) (by decide) (by decide)
      (by decide) (by decide)).trans (by decide)
  have t27 : Point.mulLoopF G 230 ⟨62024131697899430324820788837693451213081984096051227198528188904291543584211, 142185428742939471886030281683930263111473502450741459705787877179054834182⟩ 115792089237316195423570985008658888612357122384658568259463921920345794150400 =
      Point.mulLoopF G 229 ⟨12611268426084905099074077995756251763323139454222655222779532663383097501112, 90724296018943181017010225769322762143052909758482214462723619576869823288395⟩ 115792089237316195423570985008629869371444260103676572479470259832778458660864 :=
    mulLoopF_step 229 ⟨62024131697899430324820788837693451213081984096051227198528188904291543584211, 142185428742939471886030281683930263111473502450741459705787877179054834182⟩ ⟨12611268426084905099074077995756251763323139454222655222779532663383097501112, 90724296018943181017010225769322762143052909758482214462723619576869823288395⟩ 115792089237316195423570985008658888612357122384658568259463921920345794150400 115792089237316195423570985008629869371444260103676572479470259832778458660864
      (by
      rw [(by decide : Nat.testBit 115792089237316195423570985008658888612357122384658568259463921920345794150400 255 = true), if_pos rfl, d27]
      exact e27)
      (by decide)
  have d28 : Point.addFast ⟨12611268426084905099074077995756251763323139454222655222779532663383097501112, 90724296018943181017010225769322762143052909758482214462723619576869823288395⟩ ⟨12611268426084905099074077995756251763323139454222655222779532663383097501112, 90724296018943181017010225769322762143052909758482214462723619576869823288395⟩ = ⟨87801553449739980540643913936772401673853212947329795528151524787214133581645, 33608956682307224091814946414262788815835948708071319539586654044960415025685⟩ :=
    (addFast_dbl ⟨12611268426084905099074077995756251763323139454222655222779532663383097501112, 90724296018943181017010225769322762143052909758482214462723619576869823288395⟩
      47311063404028837943853228783396779881636629811635673308388675303352437653027
      (by decide) (by decide) (by decide) (by decide)).trans (by decide)
  have e28 : Point.addFast ⟨87801553449739980540643913936772401673853212947329795528151524787214133581645, 33608956682307224091814946414262788815835948708071319539586654044960415025685⟩ G = ⟨36441801302806618484038906762766908306697395008217419414017649305421238822064, 106819920335407981491505420347768958799539175113579525933191638145241450448183⟩ :=
    (addFast_distinct ⟨87801553449739980540643913936772401673853212947329795528151524787214133581645, 33608956682307224091814946414262788815835948708071319539586654044960415025685⟩ G
      52290005809295709548255217507196767155178998469957824047537104610406850454298
      (by decide) (by decide) (by decide) (by decide)
      (by decide) (by decide)).trans (by decide)
  have t28 : Point.mulLoopF G 229 ⟨12611268426084905099074077995756251763323139454222655222779532663383097501112, 90724296018943181017010225769322762143052909758482214462723619576869823288395⟩ 115792089237316195423570985008629869371444260103676572479470259832778458660864 =
      Point.mulLoopF G 228 ⟨36441801302806618484038906762766908306697395008217419414017649305421238822064, 106819920335407981491505420347768958799539175113579525933191638145241450448183⟩ 115792089237316195423570985008571830889618535541712580919482935657643787681792 :=
    mulLoopF_step 228 ⟨12611268426084905099074077995756251763323139454222655222779532663383097501112, 90724296018943181017010225769322762143052909758482214462723619576869823288395⟩ ⟨36441801302806618484038906762766908306697395008217419414017649305421238822064, 106819920335407981491505420347768958799539175113579525933191638145241450448183⟩ 115792089237316195423570985008629869371444260103676572479470259832778458660864 115792089237316195423570985008571830889618535541712580919482935657643787681792
      (by
      rw [(by decide : Nat.testBit 115792089237316195423570985008629869371444260103676572479470259832778458660864 255 = true), if_pos rfl, d28]
      exact e28)
      (by decide)
  have d29 : Point.addFast ⟨36441801302806618484038906762766908306697395008217419414017649305421238822064, 106819920335407981491505420347768958799539175113579525933191638145241450448183⟩ ⟨36441801302806618484038906762766908306697395008217419414017649305421238822064, 106819920335407981491505420347768958799539175113579525933191638145241450448183⟩ = ⟨111988131058937448194763801387463295525474680822898932982682339523153157405161, 40301705049154970513129265823352961855770560918320982116052898440313533683132⟩ :=
    (addFast_dbl ⟨36441801302806618484038906762766908306697395008217419414017649305421238822064, 106819920335407981491505420347768958799539175113579525933191638145241450448183⟩
      58582946475547320991020929277282713514795537988169043268741627854527429064278
      (by decide) (by decide) (by decide) (by decide)).trans (by decide)
  have e29 : Point.addFast ⟨111988131058937448194763801387463295525474680822898932982682339523153157405161, 40301705049154970513129265823352961855770560918320982116052898440313533683132⟩ G = ⟨80337034580085343336831257055102863352326094278921049492381321683152479437374, 75364661087141464846620199387025251116282522995857758640951665718895786563855⟩ :=
    (addFast_distinct ⟨111988131058937448194763801387463295525474680822898932982682339523153157405161, 40301705049154970513129265823352961855770560918320982116052898440313533683132⟩ G
      59472145087677599649511359421613824484925006294921053949951906108862577471624
      (by decide) (by decide) (by decide) (by decide)
      (by decide) (by decide)).trans (by decide)
  have t29 : Point.mulLoopF G 228 ⟨36441801302806618484038906762766908306697395008217419414017649305421238822064, 106819920335407981491505420347768958799539175113579525933191638145241450448183⟩ 115792089237316195423570985008571830889618535541712580919482935657643787681792 =
      Point.mulLoopF G 227 ⟨80337034580085343336831257055102863352326094278921049492381321683152479437374, 75364661087141464846620199387025251116282522995857758640951665718895786563855⟩ 115792089237316195423570985008455753925967086417784597799508287307374445723648 :=
    mulLoopF_step 227 ⟨36441801302806618484038906762766908306697395008217419414017649305421238822064, 106819920335407981491505420347768958799539175113579525933191638145241450448183⟩ ⟨80337034580085343336831257055102863352326094278921049492381321683152479437374, 75364661087141464846620199387025251116282522995857758640951665718895786563855⟩ 115792089237316195423570985008571830889618535541712580919482935657643787681792 115792089237316195423570985008455753925967086417784597799508287307374445723648
      (by
      rw [(by decide : Nat.testBit 115792089237316195423570985008571830889618535541712580919482935657643787681792 255 = true), if_pos rfl, d29]
      exact e29)
      (by decide)
  have d30 : Point.addFast ⟨80337034580085343336831257055102863352326094278921049492381321683152479437374, 75364661087141464846620199387025251116282522995857758640951665718895786563855⟩ ⟨80337034580085343336831257055102863352326094278921049492381321683152479437374, 75364661087141464846620199387025251116282522995857758640951665718895786563855⟩ = ⟨77630584367899737581614192833341346015629377152983092864558196837763234093952, 45107943671876432976855308702197355500739393558654510322726488792285511017021⟩ :=
    (addFast_dbl ⟨80337034580085343336831257055102863352326094278921049492381321683152479437374, 75364661087141464846620199387025251116282522995857758640951665718895786563855⟩
      30275364919568691130524959662645513422373274991878144719442280255654530332844
      (by decide) (by decide) (by decide) (by decide)).trans (by decide)
  have e30 : Point.addFast ⟨77630584367899737581614192833341346015629377152983092864558196837763234093952, 45107943671876432976855308702197355500739393558654510322726488792285511017021⟩ G = ⟨98808769268288401091776356539111618323561650502753032872040207481016176746585, 57348905681741736449347826461323526260799239080013317537150991069879844172059⟩ :=
    (addFast_distinct ⟨77630584367899737581614192833341346015629377152983092864558196837763234093952, 45107943671876432976855308702197355500739393558654510322726488792285511017021⟩ G
      8516081915160751741662130354356573355558165371610549266191161535532344902999
      (by decide) (by decide) (by decide) (by decide)
      (by decide) (by decide)).trans (by decide)
  have t30 : Point.mulLoopF G 227 ⟨80337034580085343336831257055102863352326094278921049492381321683152479437374, 75364661087141464846620199387025251116282522995857758640951665718895786563855⟩ 115792089237316195423570985008455753925967086417784597799508287307374445723648 =
      Point.mulLoopF G 226 ⟨98808769268288401091776356539111618323561650502753032872040207481016176746585, 57348905681741736449347826461323526260799239080013317537150991069879844172059⟩ 115792089237316195423570985008223599998664188169928631559558990606835761807360 :=
    mulLoopF_step 226 ⟨80337034580085343336831257055102863352326094278921049492381321683152479437374, 75364661087141464846620199387025251116282522995857758640951665718895786563855⟩ ⟨98808769268288401091776356539111618323561650502753032872040207481016176746585, 57348905681741736449347826461323526260799239080013317537150991069879844172059⟩ 115792089237316195423570985008455753925967086417784597799508287307374445723648 115792089237316195423570985008223599998664188169928631559558990606835761807360
      (by
      rw [(by decide : Nat.testBit 115792089237316195423570985008455753925967086417784597799508287307374445723648 255 = true), if_pos rfl, d30]
      exact e30)
      (by decide)
  have d31 : Point.addFast ⟨98808769268288401091776356539111618323561650502753032872040207481016176746585, 57348905681741736449347826461323526260799239080013317537150991069879844172059⟩ ⟨98808769268288401091776356539111618323561650502753032872040207481016176746585, 57348905681741736449347826461323526260799239080013317537150991069879844172059⟩ = ⟨20810020398336095747347553120160639689140323236499728723806100930204305062716, 111786856392580481228617461441831333062267131784253405457341382174728347270203⟩ :=
    (addFast_dbl ⟨98808769268288401091776356539111618323561650502753032872040207481016176746585, 57348905681741736449347826461323526260799239080013317537150991069879844172059⟩
      68443444690551537014225626520908249710262500513405585270927473912520660001239
      (by decide) (by decide) (by decide) (by decide)).trans (by decide)
  have e31 : Point.addFast ⟨20810020398336095747347553120160639689140323236499728723806100930204305062716, 111786856392580481228617461441831333062267131784253405457341382174728347270203⟩ G = ⟨18845197221170589343906318257608747345355704040405879359276255241170402932467, 35869855410725365793927656664169024200680894402224297472548781181062428830648⟩ :=
    (addFast_distinct ⟨20810020398336095747347553120160639689140323236499728723806100930204305062716, 111786856392580481228617461441831333062267131784253405457341382174728347270203⟩ G
      25217662077677364762353271771466956451147520466009057116772072413037404874498
      (by decide) (by decide) (by decide) (by decide)
      (by decide) (by decide)).trans (by decide)
  have t31 : Point.mulLoopF G 226 ⟨98808769268288401091776356539111618323561650502753032872040207481016176746585, 57348905681741736449347826461323526260799239080013317537150991069879844172059⟩ 115792089237316195423570985008223599998664188169928631559558990606835761807360 =
      Point.mulLoopF G 225 ⟨18845197221170589343906318257608747345355704040405879359276255241170402932467, 35869855410725365793927656664169024200680894402224297472548781181062428830648⟩ 115792089237316195423570985007759292144058391674216699079660397205758393974784 :=
    mulLoopF_step 225 ⟨98808769268288401091776356539111618323561650502753032872040207481016176746585, 57348905681741736449347826461323526260799239080013317537150991069879844172059⟩ ⟨18845197221170589343906318257608747345355704040405879359276255241170402932467, 35869855410725365793927656664169024200680894402224297472548781181062428830648⟩ 115792089237316195423570985008223599998664188169928631559558990606835761807360 115792089237316195423570985007759292144058391674216699079660397205758393974784
      (by
      rw [(by decide : Nat.testBit 115792089237316195423570985008223599998664188169928631559558990606835761807360 255 = true), if_pos rfl, d31]
      exact e31)
      (by decide)
  have d32 : Point.addFast ⟨18845197221170589343906318257608747345355704040405879359276255241170402932467, 35869855410725365793927656664169024200680894402224297472548781181062428830648⟩ ⟨18845197221170589343906318257608747345355704040405879359276255241170402932467, 35869855410725365793927656664169024200680894402224297472548781181062428830648⟩ = ⟨90949817519017928733856968873405164634420201919327802812513847650753686266295, 9356047464962796837952799238114438707917513759623320046946808654518349103675⟩ :=
    (addFast_dbl ⟨18845197221170589343906318257608747345355704040405879359276255241170402932467, 35869855410725365793927656664169024200680894402224297472548781181062428830648⟩
      112860117357500078210957987373093588953317963004633007353944951735299569565534
      (by decide) (by decide) (by decide) (by decide)).trans (by decide)
  have e32 : Point.addFast ⟨90949817519017928733856968873405164634420201919327802812513847650753686266295, 9356047464962796837952799238114438707917513759623320046946808654518349103675⟩ G = ⟨84353664740444228439011026249523093615980163880775352006601710044671436206174, 70086162059883113165357350924185928534033735369058967403519437240021815150764⟩ :=
    (addFast_distinct ⟨90949817519017928733856968873405164634420201919327802812513847650753686266295, 9356047464962796837952799238114438707917513759623320046946808654518349103675⟩ G
      55231509279527621049829328997641853015124835898637021818668686847445623698585
      (by decide) (by decide) (by decide) (by decide)
      (by decide) (by decide)).trans (by decide)
  have t32 : Point.mulLoopF G 225 ⟨18845197221170589343906318257608747345355704040405879359276255241170402932467, 35869855410725365793927656664169024200680894402224297472548781181062428830648⟩ 115792089237316195423570985007759292144058391674216699079660397205758393974784 =
      Point.mulLoopF G 224 ⟨84353664740444228439011026249523093615980163880775352006601710044671436206174, 70086162059883113165357350924185928534033735369058967403519437240021815150764⟩ 115792089237316195423570985006830676434846798682792834119863210403603658309632 :=
    mulLoopF_step 224 ⟨18845197221170589343906318257608747345355704040405879359276255241170402932467, 35869855410725365793927656664169024200680894402224297472548781181062428830648⟩ ⟨84353664740444228439011026249523093615980163880775352006601710044671436206174, 70086162059883113165357350924185928534033735369058967403519437240021815150764⟩ 115792089237316195423570985007759292144058391674216699079660397205758393974784 115792089237316195423570985006830676434846798682792834119863210403603658309632
      (by
      rw [(by decide : Nat.testBit 115792089237316195423570985007759292144058391674216699079660397205758393974784 255 = true), if_pos rfl, d32]
      exact e32)
      (by decide)
  rw [t17, t18, t19, t20, t21, t22, t23, t24, t25, t26, t27, t28, t29, t30, t31, t32]

set_option maxHeartbeats 1600000 in
/-- Segment 3 of the certified double-and-add trace of the generator
multiplied by the group order: iterations 33 to 48, each point
addition discharged through a precomputed modular-inverse certificate. -/
theorem mulG_seg3 : Point.mulLoopF G 224 ⟨84353664740444228439011026249523093615980163880775352006601710044671436206174, 70086162059883113165357350924185928534033735369058967403519437240021815150764⟩ 115792089237316195423570985006830676434846798682792834119863210403603658309632 =
    Point.mulLoopF G 208 ⟨47119192025632717632907581858528586457442080615549196722885994194867158565269, 29898981333524044590423333584147941655821162762817868116860386379872252316369⟩ 115792089237316195423570863293169670071353412756812553502589051982400026836992 := by
  have d33 : Point.addFast ⟨84353664740444228439011026249523093615980163880775352006601710044671436206174, 70086162059883113165357350924185928534033735369058967403519437240021815150764⟩ ⟨84353664740444228439011026249523093615980163880775352006601710044671436206174, 70086162059883113165357350924185928534033735369058967403519437240021815150764⟩ = ⟨80165801576909001438362949295731076179291498923046823273682197892218350744285, 76335834519925401711137354859550513378698968333179465902206077829238143510536⟩ :=
    (addFast_dbl ⟨84353664740444228439011026249523093615980163880775352006601710044671436206174, 70086162059883113165357350924185928534033735369058967403519437240021815150764⟩
      39624879694008004203550874182045314080257716327747920004655198357760446214784
      (by decide) (by decide) (by decide) (by decide)).trans (by decide)
  have e33 : Point.addFast ⟨80165801576909001438362949295731076179291498923046823273682197892218350744285, 76335834519925401711137354859550513378698968333179465902206077829238143510536⟩ G = ⟨78786821699487426359958361314721033359681161432763421555767370942299619039021, 5319715014792745020232243091392043996150399641965446038153158973083985020189⟩ :=
    (addFast_distinct ⟨80165801576909001438362949295731076179291498923046823273682197892218350744285, 76335834519925401711137354859550513378698968333179465902206077829238143510536⟩ G
      20248728964191415282799855165325736956508744544836871335952657640081268302827
      (by decide) (by decide) (by decide) (by decide)
      (by decide) (by decide)).trans (by decide)
  have t33 : Point.mulLoopF G 224 ⟨84353664740444228439011026249523093615980163880775352006601710044671436206174, 70086162059883113165357350924185928534033735369058967403519437240021815150764⟩ 115792089237316195423570985006830676434846798682792834119863210403603658309632 =
      Point.mulLoopF G 223 ⟨78786821699487426359958361314721033359681161432763421555767370942299619039021, 5319715014792745020232243091392043996150399641965446038153158973083985020189⟩ 115792089237316195423570985004973445016423612699945104200268836799294186979328 :=
    mulLoopF_step 223 ⟨84353664740444228439011026249523093615980163880775352006601710044671436206174, 70086162059883113165357350924185928534033735369058967403519437240021815150764⟩ ⟨78786821699487426359958361314721033359681161432763421555767370942299619039021, 5319715014792745020232243091392043996150399641965446038153158973083985020189⟩ 115792089237316195423570985006830676434846798682792834119863210403603658309632 115792089237316195423570985004973445016423612699945104200268836799294186979328
      (by
      rw [(by decide : Nat.testBit 115792089237316195423570985006830676434846798682792834119863210403603658309632 255 = true), if_pos rfl, d33]
      exact e33)
      (by decide)
  have d34 : Point.addFast ⟨78786821699487426359958361314721033359681161432763421555767370942299619039021, 5319715014792745020232243091392043996150399641965446038153158973083985020189⟩ ⟨78786821699487426359958361314721033359681161432763421555767370942299619039021, 5319715014792745020232243091392043996150399641965446038153158973083985020189⟩ = ⟨6640879059451107400668994910367423273239675908526418456634827562014153095554, 16656084350024245636578739882750977578666420118719493088948778874962246828092⟩ :=
    (addFast_dbl ⟨78786821699487426359958361314721033359681161432763421555767370942299619039021, 5319715014792745020232243091392043996150399641965446038153158973083985020189⟩
      59012393844595731169517652691655886243595915185983939358073841614623822862872
      (by decide) (by decide) (by decide) (by decide)).trans (by decide)
  have e34 : Point.addFast ⟨6640879059451107400668994910367423273239675908526418456634827562014153095554, 16656084350024245636578739882750977578666420118719493088948778874962246828092⟩ G = ⟨51084216215854742185447728919040420759357021777868958318771834217272767850104, 78331107085374416240605228008162631849581432157984467314899883018819017109442⟩ :=
    (addFast_distinct ⟨6640879059451107400668994910367423273239675908526418456634827562014153095554, 16656084350024245636578739882750977578666420118719493088948778874962246828092⟩ G
      4922002518919995581739902735763383838793188927250479060631600237099743832787
      (by decide) (by decide) (by decide) (by decide)
      (by decide) (by decide)).trans (by decide)
  have t34 : Point.mulLoopF G 223 ⟨78786821699487426359958361314721033359681161432763421555767370942299619039021, 5319715014792745020232243091392043996150399641965446038153158973083985020189⟩ 115792089237316195423570985004973445016423612699945104200268836799294186979328 =
      Point.mulLoopF G 222 ⟨51084216215854742185447728919040420759357021777868958318771834217272767850104, 78331107085374416240605228008162631849581432157984467314899883018819017109442⟩ 115792089237316195423570985001258982179577240734249644361080089590675244318720 :=
    mulLoopF_step 222 ⟨78786821699487426359958361314721033359681161432763421555767370942299619039021, 5319715014792745020232243091392043996150399641965446038153158973083985020189⟩ ⟨51084216215854742185447728919040420759357021777868958318771834217272767850104, 78331107085374416240605228008162631849581432157984467314899883018819017109442⟩ 115792089237316195423570985004973445016423612699945104200268836799294186979328 115792089237316195423570985001258982179577240734249644361080089590675244318720
      (by
      rw [(by decide : Nat.testBit 115792089237316195423570985004973445016423612699945104200268836799294186979328 255 = true), if_pos rfl, d34]
      exact e34)
      (by decide)
  have d35 : Point.addFast ⟨51084216215854742185447728919040420759357021777868958318771834217272767850104, 78331107085374416240605228008162631849581432157984467314899883018819017109442⟩ ⟨51084216215854742185447728919040420759357021777868958318771834217272767850104, 78331107085374416240605228008162631849581432157984467314899883018819017109442⟩ = ⟨6104333560982801750737167610152472263839869549390924044852295641736108706769, 78621548981452345354215410654924805929807326019527883265514166817378707114425⟩ :=
    (addFast_dbl ⟨51084216215854742185447728919040420759357021777868958318771834217272767850104, 78331107085374416240605228008162631849581432157984467314899883018819017109442⟩
      87369070148248910263658955274055097938181001452243372818199813975343669677046
      (by decide) (by decide) (by decide) (by decide)).trans (by decide)
  have e35 : Point.addFast ⟨6104333560982801750737167610152472263839869549390924044852295641736108706769, 78621548981452345354215410654924805929807326019527883265514166817378707114425⟩ G = ⟨101881490194341123433053360705451383998244198252606420280948901936911256787670, 44367514053649508411744762306791305818845094849984739359442905797406620122959⟩ :=
    (addFast_distinct ⟨6104333560982801750737167610152472263839869549390924044852295641736108706769, 78621548981452345354215410654924805929807326019527883265514166817378707114425⟩ G
      62287386104675977409168071783196960954649526284453019552654872818576246171332
      (by decide) (by decide) (by decide) (by decide)
      (by decide) (by decide)).trans (by decide)
  have t35 : Point.mulLoopF G 222 ⟨51084216215854742185447728919040420759357021777868958318771834217272767850104, 78331107085374416240605228008162631849581432157984467314899883018819017109442⟩ 115792089237316195423570985001258982179577240734249644361080089590675244318720 =
      Point.mulLoopF G 221 ⟨101881490194341123433053360705451383998244198252606420280948901936911256787670, 44367514053649508411744762306791305818845094849984739359442905797406620122959⟩ 115792089237316195423570984993830056505884496802858724682702595173437358997504 :=
    mulLoopF_step 221 ⟨51084216215854742185447728919040420759357021777868958318771834217272767850104, 78331107085374416240605228008162631849581432157984467314899883018819017109442⟩ ⟨101881490194341123433053360705451383998244198252606420280948901936911256787670, 44367514053649508411744762306791305818845094849984739359442905797406620122959⟩ 115792089237316195423570985001258982179577240734249644361080089590675244318720 115792089237316195423570984993830056505884496802858724682702595173437358997504
      (by
      rw [(by decide : Nat.testBit 115792089237316195423570985001258982179577240734249644361080089590675244318720 255 = true), if_pos rfl, d35]
      exact e35)
      (by decide)
  have d36 : Point.addFast ⟨101881490194341123433053360705451383998244198252606420280948901936911256787670, 44367514053649508411744762306791305818845094849984739359442905797406620122959⟩ ⟨101881490194341123433053360705451383998244198252606420280948901936911256787670, 44367514053649508411744762306791305818845094849984739359442905797406620122959⟩ = ⟨72622737785382157972293581796884978955237137932797132472520473658902709194863, 102009070360335568818105812634070137744792572755398451007546090582237970948158⟩ :=
    (addFast_dbl ⟨101881490194341123433053360705451383998244198252606420280948901936911256787670, 44367514053649508411744762306791305818845094849984739359442905797406620122959⟩
      89968764310820318352177196104296581657626488353298466112209016556551923946157
      (by decide) (by decide) (by decide) (by decide)).trans (by decide)
  have e36 : Point.addFast ⟨72622737785382157972293581796884978955237137932797132472520473658902709194863, 102009070360335568818105812634070137744792572755398451007546090582237970948158⟩ G = ⟨108186501298667440324417308757865113542802023824881537474980381631937107316877, 63310118941092471115074693732147258898283779694854829214131142349658492287466⟩ :=
    (addFast_distinct ⟨72622737785382157972293581796884978955237137932797132472520473658902709194863, 102009070360335568818105812634070137744792572755398451007546090582237970948158⟩ G
      62734043034585644459749925449855799274445247268008436579727063071488158895118
      (by decide) (by decide) (by decide) (by decide)
      (by decide) (by decide)).trans (by decide)
  have t36 : Point.mulLoopF G 221 ⟨101881490194341123433053360705451383998244198252606420280948901936911256787670, 44367514053649508411744762306791305818845094849984739359442905797406620122959⟩ 115792089237316195423570984993830056505884496802858724682702595173437358997504 =
      Point.mulLoopF G 220 ⟨108186501298667440324417308757865113542802023824881537474980381631937107316877, 63310118941092471115074693732147258898283779694854829214131142349658492287466⟩ 115792089237316195423570984978972205158499008940076885325947606338961588355072 :=
    mulLoopF_step 220 ⟨101881490194341123433053360705451383998244198252606420280948901936911256787670, 44367514053649508411744762306791305818845094849984739359442905797406620122959⟩ ⟨108186501298667440324417308757865113542802023824881537474980381631937107316877, 63310118941092471115074693732147258898283779694854829214131142349658492287466⟩ 115792089237316195423570984993830056505884496802858724682702595173437358997504 115792089237316195423570984978972205158499008940076885325947606338961588355072
      (by
      rw [(by decide : Nat.testBit 115792089237316195423570984993830056505884496802858724682702595173437358997504 255 = true), if_pos rfl, d36]
      exact e36)
      (by decide)
  have d37 : Point.addFast ⟨108186501298667440324417308757865113542802023824881537474980381631937107316877, 63310118941092471115074693732147258898283779694854829214131142349658492287466⟩ ⟨108186501298667440324417308757865113542802023824881537474980381631937107316877, 63310118941092471115074693732147258898283779694854829214131142349658492287466⟩ = ⟨48655180756401952563195082279654957604316002505827577219942869921321751128861, 97291120313074231530618555836615705807948356857451373112413245902983466101059⟩ :=
    (addFast_dbl ⟨108186501298667440324417308757865113542802023824881537474980381631937107316877, 63310118941092471115074693732147258898283779694854829214131142349658492287466⟩
      89176071478437563791342711859312947128202072845467728264249188786613850117441
      (by decide) (by decide) (by decide) (by decide)).trans (by decide)
  have e37 : Point.addFast ⟨48655180756401952563195082279654957604316002505827577219942869921321751128861, 97291120313074231530618555836615705807948356857451373112413245902983466101059⟩ G = ⟨41840549403235821005936376557352193994166403867190819820032881789242463772387, 91599793511646498876074856482065333446029515868815501551438758011145207656662⟩ :=
    (addFast_distinct ⟨48655180756401952563195082279654957604316002505827577219942869921321751128861, 97291120313074231530618555836615705807948356857451373112413245902983466101059⟩ G
      96202994979897854002009999380069382395616445986695003368358644830478769149698
      (by decide) (by decide) (by decide) (by decide)
      (by decide) (by decide)).trans (by decide)
  have t37 : Point.mulLoopF G 220 ⟨108186501298667440324417308757865113542802023824881537474980381631937107316877, 63310118941092471115074693732147258898283779694854829214131142349658492287466⟩ 115792089237316195423570984978972205158499008940076885325947606338961588355072 =
      Point.mulLoopF G 219 ⟨41840549403235821005936376557352193994166403867190819820032881789242463772387, 91599793511646498876074856482065333446029515868815501551438758011145207656662⟩ 115792089237316195423570984949256502463728033214513206612437628670010047070208 :=
    mulLoopF_step 219 ⟨108186501298667440324417308757865113542802023824881537474980381631937107316877, 63310118941092471115074693732147258898283779694854829214131142349658492287466⟩ ⟨41840549403235821005936376557352193994166403867190819820032881789242463772387, 91599793511646498876074856482065333446029515868815501551438758011145207656662⟩ 115792089237316195423570984978972205158499008940076885325947606338961588355072 115792089237316195423570984949256502463728033214513206612437628670010047070208
      (by
      rw [(by decide : Nat.testBit 115792089237316195423570984978972205158499008940076885325947606338961588355072 255 = true), if_pos rfl, d37]
      exact e37)
      (by decide)
  have d38 : Point.addFast ⟨41840549403235821005936376557352193994166403867190819820032881789242463772387, 91599793511646498876074856482065333446029515868815501551438758011145207656662⟩ ⟨41840549403235821005936376557352193994166403867190819820032881789242463772387, 91599793511646498876074856482065333446029515868815501551438758011145207656662⟩ = ⟨56377479331234977770329009137430545920492087896250089799036482837003835540510, 80530348230364405650449753389862585892817309545369834661303035603699603135547⟩ :=
    (addFast_dbl ⟨41840549403235821005936376557352193994166403867190819820032881789242463772387, 91599793511646498876074856482065333446029515868815501551438758011145207656662⟩
      72028398955921073759006075366133189282213851378815051165743941532451268061216
      (by decide) (by decide) (by decide) (by decide)).trans (by decide)
  have e38 : Point.addFast ⟨56377479331234977770329009137430545920492087896250089799036482837003835540510, 80530348230364405650449753389862585892817309545369834661303035603699603135547⟩ G = ⟨63352015426960813423588234979587872893332988593351717712364360562138643073272, 10169316594674782582541153430920739293971349526724878133836652234329189877930⟩ :=
    (addFast_distinct ⟨56377479331234977770329009137430545920492087896250089799036482837003835540510, 80530348230364405650449753389862585892817309545369834661303035603699603135547⟩ G
      23248894076109310377236407774567899891339577023250627752820209086161221013092
      (by decide) (by decide) (by decide) (by decide)
      (by decide) (by decide)).trans (by decide)
  have t38 : Point.mulLoopF G 219 ⟨41840549403235821005936376557352193994166403867190819820032881789242463772387, 91599793511646498876074856482065333446029515868815501551438758011145207656662⟩ 115792089237316195423570984949256502463728033214513206612437628670010047070208 =
      Point.mulLoopF G 218 ⟨63352015426960813423588234979587872893332988593351717712364360562138643073272, 10169316594674782582541153430920739293971349526724878133836652234329189877930⟩ 115792089237316195423570984889825097074186081763385849185417673332106964500480 :=
    mulLoopF_step 218 ⟨41840549403235821005936376557352193994166403867190819820032881789242463772387, 91599793511646498876074856482065333446029515868815501551438758011145207656662⟩ ⟨63352015426960813423588234979587872893332988593351717712364360562138643073272, 10169316594674782582541153430920739293971349526724878133836652234329189877930⟩ 115792089237316195423570984949256502463728033214513206612437628670010047070208 115792089237316195423570984889825097074186081763385849185417673332106964500480
      (by
      rw [(by decide : Nat.testBit 115792089237316195423570984949256502463728033214513206612437628670010047070208 255 = true), if_pos rfl, d38]
      exact e38)
      (by decide)
  have d39 : Point.addFast ⟨63352015426960813423588234979587872893332988593351717712364360562138643073272, 10169316594674782582541153430920739293971349526724878133836652234329189877930⟩ ⟨63352015426960813423588234979587872893332988593351717712364360562138643073272, 10169316594674782582541153430920739293971349526724878133836652234329189877930⟩ = ⟨86963922874072934531973726620394294338750118517098759196217273303551714758022, 15904800472330128320991459649025856989347833832662117279451935014248327595023⟩ :=
    (addFast_dbl ⟨63352015426960813423588234979587872893332988593351717712364360562138643073272, 10169316594674782582541153430920739293971349526724878133836652234329189877930⟩
      8306421459734380596039217309113896469295401247411636196867625896796427193960
      (by decide) (by decide) (by decide) (by decide)).trans (by decide)
  have e39 : Point.addFast ⟨86963922874072934531973726620394294338750118517098759196217273303551714758022, 15904800472330128320991459649025856989347833832662117279451935014248327595023⟩ G = ⟨5157663532647024709058703558880972226898893793719326391369739345775154833986, 113912624721758006719586097032895394583220050415069887922138870474924061396341⟩ :=
    (addFast_distinct ⟨86963922874072934531973726620394294338750118517098759196217273303551714758022, 15904800472330128320991459649025856989347833832662117279451935014248327595023⟩ G
      103542851353766088367081240813237551832376702322660513476716004218533442844183
      (by decide) (by decide) (by decide) (by decide)
      (by decide) (by decide)).trans (by decide)
  have t39 : Point.mulLoopF G 218 ⟨63352015426960813423588234979587872893332988593351717712364360562138643073272, 10169316594674782582541153430920739293971349526724878133836652234329189877930⟩ 115792089237316195423570984889825097074186081763385849185417673332106964500480 =
      Point.mulLoopF G 217 ⟨5157663532647024709058703558880972226898893793719326391369739345775154833986, 113912624721758006719586097032895394583220050415069887922138870474924061396341⟩ 115792089237316195423570984770962286295102178861131134331377762656300799361024 :=
    mulLoopF_step 217 ⟨63352015426960813423588234979587872893332988593351717712364360562138643073272, 10169316594674782582541153430920739293971349526724878133836652234329189877930⟩ ⟨5157663532647024709058703558880972226898893793719326391369739345775154833986, 113912624721758006719586097032895394583220050415069887922138870474924061396341⟩ 115792089237316195423570984889825097074186081763385849185417673332106964500480 115792089237316195423570984770962286295102178861131134331377762656300799361024
      (by
      rw [(by decide : Nat.testBit 115792089237316195423570984889825097074186081763385849185417673332106964500480 255 = true), if_pos rfl, d39]
      exact e39)
      (by decide)
  have d40 : Point.addFast ⟨5157663532647024709058703558880972226898893793719326391369739345775154833986, 113912624721758006719586097032895394583220050415069887922138870474924061396341⟩ ⟨5157663532647024709058703558880972226898893793719326391369739345775154833986, 113912624721758006719586097032895394583220050415069887922138870474924061396341⟩ = ⟨60537605175888573997755622755827334964843975807348773966081281345074259696174, 47969208433274056705210024700995180533588788070064226139284899472411574468228⟩ :=
    (addFast_dbl ⟨5157663532647024709058703558880972226898893793719326391369739345775154833986, 113912624721758006719586097032895394583220050415069887922138870474924061396341⟩
      11412901815878272075751291424916588219191535032413466875001716903477593920308
      (by decide) (by decide) (by decide) (by decide)).trans (by decide)
  have e40 : Point.addFast ⟨60537605175888573997755622755827334964843975807348773966081281345074259696174, 47969208433274056705210024700995180533588788070064226139284899472411574468228⟩ G = ⟨63519181026141007708570613843793256029666128081784122045328541660410391135764, 18841109871223992361754566695531629734555656575900577624493448027097481966396⟩ :=
    (addFast_distinct ⟨60537605175888573997755622755827334964843975807348773966081281345074259696174, 47969208433274056705210024700995180533588788070064226139284899472411574468228⟩ G
      73396052294395419871968399605614710017608875370228403141023832751609408784407
      (by decide) (by decide) (by decide) (by decide)
      (by decide) (by decide)).trans (by decide)
  have t40 : Point.mulLoopF G 217 ⟨5157663532647024709058703558880972226898893793719326391369739345775154833986, 113912624721758006719586097032895394583220050415069887922138870474924061396341⟩ 115792089237316195423570984770962286295102178861131134331377762656300799361024 =
      Point.mulLoopF G 216 ⟨63519181026141007708570613843793256029666128081784122045328541660410391135764, 18841109871223992361754566695531629734555656575900577624493448027097481966396⟩ 115792089237316195423570984533236664736934373056621704623297941304688469082112 :=
    mulLoopF_step 216 ⟨5157663532647024709058703558880972226898893793719326391369739345775154833986, 113912624721758006719586097032895394583220050415069887922138870474924061396341⟩ ⟨63519181026141007708570613843793256029666128081784122045328541660410391135764, 18841109871223992361754566695531629734555656575900577624493448027097481966396⟩ 115792089237316195423570984770962286295102178861131134331377762656300799361024 115792089237316195423570984533236664736934373056621704623297941304688469082112
      (by
      rw [(by decide : Nat.testBit 115792089237316195423570984770962286295102178861131134331377762656300799361024 255 = true), if_pos rfl, d40]
      exact e40)
      (by decide)
  have d41 : Point.addFast ⟨63519181026141007708570613843793256029666128081784122045328541660410391135764, 18841109871223992361754566695531629734555656575900577624493448027097481966396⟩ ⟨63519181026141007708570613843793256029666128081784122045328541660410391135764, 18841109871223992361754566695531629734555656575900577624493448027097481966396⟩ = ⟨39123723826742477023334312005250712410798266824370854073009566451795451256950, 107904919985765160957891901582792619223613265050688213247502367119066233831097⟩ :=
    (addFast_dbl ⟨63519181026141007708570613843793256029666128081784122045328541660410391135764, 18841109871223992361754566695531629734555656575900577624493448027097481966396⟩
      87120205127615126671301190144630292613425757385681064936183953992909743584883
      (by decide) (by decide) (by decide) (by decide)).trans (by decide)
  have e41 : Point.addFast ⟨39123723826742477023334312005250712410798266824370854073009566451795451256950, 107904919985765160957891901582792619223613265050688213247502367119066233831097⟩ G = ⟨109098191835617829931311332415435405515436192854838289338195833623815872505729, 102142942366987985705818808665619507205743981580306361914988706516689453563845⟩ :=
    (addFast_distinct ⟨39123723826742477023334312005250712410798266824370854073009566451795451256950, 107904919985765160957891901582792619223613265050688213247502367119066233831097⟩ G
      93080922346283374101773479290477713019476506693940090014946384527571150446385
      (by decide) (by decide) (by decide) (by decide)
      (by decide) (by decide)).trans (by decide)
  have t41 : Point.mulLoopF G 216 ⟨63519181026141007708570613843793256029666128081784122045328541660410391135764, 18841109871223992361754566695531629734555656575900577624493448027097481966396⟩ 115792089237316195423570984533236664736934373056621704623297941304688469082112 =
      Point.mulLoopF G 215 ⟨109098191835617829931311332415435405515436192854838289338195833623815872505729, 102142942366987985705818808665619507205743981580306361914988706516689453563845⟩ 115792089237316195423570984057785421620598761447602845207138298601463808524288 :=
    mulLoopF_step 215 ⟨63519181026141007708570613843793256029666128081784122045328541660410391135764, 18841109871223992361754566695531629734555656575900577624493448027097481966396⟩ ⟨109098191835617829931311332415435405515436192854838289338195833623815872505729, 102142942366987985705818808665619507205743981580306361914988706516689453563845⟩ 115792089237316195423570984533236664736934373056621704623297941304688469082112 115792089237316195423570984057785421620598761447602845207138298601463808524288
      (by
      rw [(by decide : Nat.testBit 115792089237316195423570984533236664736934373056621704623297941304688469082112 255 = true), if_pos rfl, d41]
      exact e41)
      (by decide)
  have d42 : Point.addFast ⟨109098191835617829931311332415435405515436192854838289338195833623815872505729, 102142942366987985705818808665619507205743981580306361914988706516689453563845⟩ ⟨109098191835617829931311332415435405515436192854838289338195833623815872505729, 102142942366987985705818808665619507205743981580306361914988706516689453563845⟩ = ⟨112718568214016488677309102918060906387264485871033480078560737579484098988389, 112264719213274482572626504819915992176028239505918426357175437239115073362748⟩ :=
    (addFast_dbl ⟨109098191835617829931311332415435405515436192854838289338195833623815872505729, 102142942366987985705818808665619507205743981580306361914988706516689453563845⟩
      79694899695875478665277318481592845968162956154180953564927982313990981866785
      (by decide) (by decide) (by decide) (by decide)).trans (by decide)
  have e42 : Point.addFast ⟨112718568214016488677309102918060906387264485871033480078560737579484098988389, 112264719213274482572626504819915992176028239505918426357175437239115073362748⟩ G = ⟨15377009659810193645280303237419457622495622589299748270518264548077736821180, 27094675093175431575733833937341496207434055280027732278509679643237186475527⟩ :=
    (addFast_distinct ⟨112718568214016488677309102918060906387264485871033480078560737579484098988389, 112264719213274482572626504819915992176028239505918426357175437239115073362748⟩ G
      105262192837105382077480672434010810021172653769001041907998454436095316744051
      (by decide) (by decide) (by decide) (by decide)
      (by decide) (by decide)).trans (by decide)
  have t42 : Point.mulLoopF G 215 ⟨109098191835617829931311332415435405515436192854838289338195833623815872505729, 102142942366987985705818808665619507205743981580306361914988706516689453563845⟩ 115792089237316195423570984057785421620598761447602845207138298601463808524288 =
      Point.mulLoopF G 214 ⟨15377009659810193645280303237419457622495622589299748270518264548077736821180, 27094675093175431575733833937341496207434055280027732278509679643237186475527⟩ 115792089237316195423570983106882935387927538229565126374819013195014487408640 :=
    mulLoopF_step 214 ⟨109098191835617829931311332415435405515436192854838289338195833623815872505729, 102142942366987985705818808665619507205743981580306361914988706516689453563845⟩ ⟨15377009659810193645280303237419457622495622589299748270518264548077736821180, 27094675093175431575733833937341496207434055280027732278509679643237186475527⟩ 115792089237316195423570984057785421620598761447602845207138298601463808524288 115792089237316195423570983106882935387927538229565126374819013195014487408640
      (by
      rw [(by decide : Nat.testBit 115792089237316195423570984057785421620598761447602845207138298601463808524288 255 = true), if_pos rfl, d42]
      exact e42)
      (by decide)
  have d43 : Point.addFast ⟨15377009659810193645280303237419457622495622589299748270518264548077736821180, 27094675093175431575733833937341496207434055280027732278509679643237186475527⟩ ⟨15377009659810193645280303237419457622495622589299748270518264548077736821180, 27094675093175431575733833937341496207434055280027732278509679643237186475527⟩ = ⟨52371922675392882244519135204175732451736309858317458967092656710041638341236, 90863686354241717572427554434078268602042559165260705751432089814349648783003⟩ :=
    (addFast_dbl ⟨15377009659810193645280303237419457622495622589299748270518264548077736821180, 27094675093175431575733833937341496207434055280027732278509679643237186475527⟩
      8472849880048050234787765573325469089549312164067897555120067893591717733663
      (by decide) (by decide) (by decide) (by decide)).trans (by decide)
  have e43 : Point.addFast ⟨52371922675392882244519135204175732451736309858317458967092656710041638341236, 90863686354241717572427554434078268602042559165260705751432089814349648783003⟩ G = ⟨107422602657025406535734111254364800515382541964724737065812282508253339884595, 84171559167207029248973000237810291379236814767140330348639130899969103480⟩ :=
    (addFast_distinct ⟨52371922675392882244519135204175732451736309858317458967092656710041638341236, 90863686354241717572427554434078268602042559165260705751432089814349648783003⟩ G
      66897427942494746343372897552154166058946693053749306767883170413344126425677
      (by decide) (by decide) (by decide) (by decide)
      (by decide) (by decide)).trans (by decide)
  have t43 : Point.mulLoopF G 214 ⟨15377009659810193645280303237419457622495622589299748270518264548077736821180, 27094675093175431575733833937341496207434055280027732278509679643237186475527⟩ 115792089237316195423570983106882935387927538229565126374819013195014487408640 =
      Point.mulLoopF G 213 ⟨107422602657025406535734111254364800515382541964724737065812282508253339884595, 84171559167207029248973000237810291379236814767140330348639130899969103480⟩ 115792089237316195423570981205077962922585091793489688710180442382115845177344 :=
    mulLoopF_step 213 ⟨15377009659810193645280303237419457622495622589299748270518264548077736821180, 27094675093175431575733833937341496207434055280027732278509679643237186475527⟩ ⟨107422602657025406535734111254364800515382541964724737065812282508253339884595, 84171559167207029248973000237810291379236814767140330348639130899969103480⟩ 115792089237316195423570983106882935387927538229565126374819013195014487408640 115792089237316195423570981205077962922585091793489688710180442382115845177344
      (by
      rw [(by decide : Nat.testBit 115792089237316195423570983106882935387927538229565126374819013195014487408640 255 = true), if_pos rfl, d43]
      exact e43)
      (by decide)
  have d44 : Point.addFast ⟨107422602657025406535734111254364800515382541964724737065812282508253339884595, 84171559167207029248973000237810291379236814767140330348639130899969103480⟩ ⟨107422602657025406535734111254364800515382541964724737065812282508253339884595, 84171559167207029248973000237810291379236814767140330348639130899969103480⟩ = ⟨59699381188873538978925964311772949078785741358613866608602146624397147526817, 101690592240885176263116006739876751513633266803810926724797418467448012171998⟩ :=
    (addFast_dbl ⟨107422602657025406535734111254364800515382541964724737065812282508253339884595, 84171559167207029248973000237810291379236814767140330348639130899969103480⟩
      107974503754426808876120156111519990739008771173139452046045035088219466922277
      (by decide) (by decide) (by decide) (by decide)).trans (by decide)
  have e44 : Point.addFast ⟨59699381188873538978925964311772949078785741358613866608602146624397147526817, 101690592240885176263116006739876751513633266803810926724797418467448012171998⟩ G = ⟨77265759825955786027635281740235295824531006130105304258065849979355034950036, 90729097695007136872335239623056846880197797584964922705641849091888847875501⟩ :=
    (addFast_distinct ⟨59699381188873538978925964311772949078785741358613866608602146624397147526817, 101690592240885176263116006739876751513633266803810926724797418467448012171998⟩ G
      46940574050051535764439002850856135763016178909011339322312137166855347148085
      (by decide) (by decide) (by decide) (by decide)
      (by decide) (by decide)).trans (by decide)
  have t44 : Point.mulLoopF G 213 ⟨107422602657025406535734111254364800515382541964724737065812282508253339884595, 84171559167207029248973000237810291379236814767140330348639130899969103480⟩ 115792089237316195423570981205077962922585091793489688710180442382115845177344 =
      Point.mulLoopF G 212 ⟨77265759825955786027635281740235295824531006130105304258065849979355034950036, 90729097695007136872335239623056846880197797584964922705641849091888847875501⟩ 115792089237316195423570977401468017991900198921338813380903300756318560714752 :=
    mulLoopF_step 212 ⟨107422602657025406535734111254364800515382541964724737065812282508253339884595, 84171559167207029248973000237810291379236814767140330348639130899969103480⟩ ⟨77265759825955786027635281740235295824531006130105304258065849979355034950036, 90729097695007136872335239623056846880197797584964922705641849091888847875501⟩ 115792089237316195423570981205077962922585091793489688710180442382115845177344 115792089237316195423570977401468017991900198921338813380903300756318560714752
      (by
      rw [(by decide : Nat.testBit 115792089237316195423570981205077962922585091793489688710180442382115845177344 255 = true), if_pos rfl, d44]
      exact e44)
      (by decide)
  have d45 : Point.addFast ⟨77265759825955786027635281740235295824531006130105304258065849979355034950036, 90729097695007136872335239623056846880197797584964922705641849091888847875501⟩ ⟨77265759825955786027635281740235295824531006130105304258065849979355034950036, 90729097695007136872335239623056846880197797584964922705641849091888847875501⟩ = ⟨61665684910924105238490734101312249538218623599653817008409989526066855240450, 83123631370445031657012289580250549858617742056292044455820028810950266085597⟩ :=
    (addFast_dbl ⟨77265759825955786027635281740235295824531006130105304258065849979355034950036, 90729097695007136872335239623056846880197797584964922705641849091888847875501⟩
      29203523472196727197170950970591252213144829350763224580449767949687581412994
      (by decide) (by decide) (by decide) (by decide)).trans (by decide)
  have e45 : Point.addFast ⟨61665684910924105238490734101312249538218623599653817008409989526066855240450, 83123631370445031657012289580250549858617742056292044455820028810950266085597⟩ G = ⟨4500320906608482585183335947656247634868630827461375269202834033027819464910, 104211989909448110144879939968299215121688906052472274321946962961205437278111⟩ :=
    (addFast_distinct ⟨61665684910924105238490734101312249538218623599653817008409989526066855240450, 83123631370445031657012289580250549858617742056292044455820028810950266085597⟩ G
      68067729895296220715452820303865815080629743375130046132041674450184655400965
      (by decide) (by decide) (by decide) (by decide)
      (by decide) (by decide)).trans (by decide)
  have t45 : Point.mulLoopF G 212 ⟨77265759825955786027635281740235295824531006130105304258065849979355034950036, 90729097695007136872335239623056846880197797584964922705641849091888847875501⟩ 115792089237316195423570977401468017991900198921338813380903300756318560714752 =
      Point.mulLoopF G 211 ⟨4500320906608482585183335947656247634868630827461375269202834033027819464910, 104211989909448110144879939968299215121688906052472274321946962961205437278111⟩ 115792089237316195423570969794248128130530413177037062722349017504723991789568 :=
    mulLoopF_step 211 ⟨77265759825955786027635281740235295824531006130105304258065849979355034950036, 90729097695007136872335239623056846880197797584964922705641849091888847875501⟩ ⟨4500320906608482585183335947656247634868630827461375269202834033027819464910, 104211989909448110144879939968299215121688906052472274321946962961205437278111⟩ 115792089237316195423570977401468017991900198921338813380903300756318560714752 115792089237316195423570969794248128130530413177037062722349017504723991789568
      (by
      rw [(by decide : Nat.testBit 115792089237316195423570977401468017991900198921338813380903300756318560714752 255 = true), if_pos rfl, d45]
      exact e45)
      (by decide)
  have d46 : Point.addFast ⟨4500320906608482585183335947656247634868630827461375269202834033027819464910, 104211989909448110144879939968299215121688906052472274321946962961205437278111⟩ ⟨4500320906608482585183335947656247634868630827461375269202834033027819464910, 104211989909448110144879939968299215121688906052472274321946962961205437278111⟩ = ⟨91119336096975228661925752172504480583117084714278180735028768383779256665886, 50621721069314838560716458175618938003576740936449866695910955866596296013663⟩ :=
    (addFast_dbl ⟨4500320906608482585183335947656247634868630827461375269202834033027819464910, 104211989909448110144879939968299215121688906052472274321946962961205437278111⟩
      71497866318472107191294674966989948294124119645618269927216297703955632573191
      (by decide) (by decide) (by decide) (by decide)).trans (by decide)
  have e46 : Point.addFast ⟨91119336096975228661925752172504480583117084714278180735028768383779256665886, 50621721069314838560716458175618938003576740936449866695910955866596296013663⟩ G = ⟨53440279094232565328940155475881441719147860603260759839578171040853408602481, 98068830247800156157588953193533450789051331777340650434423723470027939517270⟩ :=
    (addFast_distinct ⟨91119336096975228661925752172504480583117084714278180735028768383779256665886, 50621721069314838560716458175618938003576740936449866695910955866596296013663⟩ G
      89126952413996957215754158610319969589099580957090712128362655974425527522858
      (by decide) (by decide) (by decide) (by decide)
      (by decide) (by decide)).trans (by decide)
  have t46 : Point.mulLoopF G 211 ⟨4500320906608482585183335947656247634868630827461375269202834033027819464910, 104211989909448110144879939968299215121688906052472274321946962961205437278111⟩ 115792089237316195423570969794248128130530413177037062722349017504723991789568 =
      Point.mulLoopF G 210 ⟨53440279094232565328940155475881441719147860603260759839578171040853408602481, 98068830247800156157588953193533450789051331777340650434423723470027939517270⟩ 115792089237316195423570954579808348407790841688433561405240451001534853939200 :=
    mulLoopF_step 210 ⟨4500320906608482585183335947656247634868630827461375269202834033027819464910, 104211989909448110144879939968299215121688906052472274321946962961205437278111⟩ ⟨53440279094232565328940155475881441719147860603260759839578171040853408602481, 98068830247800156157588953193533450789051331777340650434423723470027939517270⟩ 115792089237316195423570969794248128130530413177037062722349017504723991789568 115792089237316195423570954579808348407790841688433561405240451001534853939200
      (by
      rw [(by decide : Nat.testBit 115792089237316195423570969794248128130530413177037062722349017504723991789568 255 = true), if_pos rfl, d46]
      exact e46)
      (by decide)
  have d47 : Point.addFast ⟨53440279094232565328940155475881441719147860603260759839578171040853408602481, 98068830247800156157588953193533450789051331777340650434423723470027939517270⟩ ⟨53440279094232565328940155475881441719147860603260759839578171040853408602481, 98068830247800156157588953193533450789051331777340650434423723470027939517270⟩ = ⟨78795741355709339182080548039734400054366443265473202726966589474372837994278, 10875685131577777059773649573171571891652320435690122795895187069743764331267⟩ :=
    (addFast_dbl ⟨53440279094232565328940155475881441719147860603260759839578171040853408602481, 98068830247800156157588953193533450789051331777340650434423723470027939517270⟩
      47042734319255675384773206347668454784670952061091484913368460306284729252539
      (by decide) (by decide) (by decide) (by decide)).trans (by decide)
  have e47 : Point.addFast ⟨78795741355709339182080548039734400054366443265473202726966589474372837994278, 10875685131577777059773649573171571891652320435690122795895187069743764331267⟩ G = ⟨60055742674463988873363819260128189528088326854467209125742521133182239361570, 57637149012363319946370367430926320610594542269007008300536735861057988247166⟩ :=
    (addFast_distinct ⟨78795741355709339182080548039734400054366443265473202726966589474372837994278, 10875685131577777059773649573171571891652320435690122795895187069743764331267⟩ G
      42247384697158103238668303656547190623432523124527194968249951450250435807499
      (by decide) (by decide) (by decide) (by decide)
      (by decide) (by decide)).trans (by decide)
  have t47 : Point.mulLoopF G 210 ⟨53440279094232565328940155475881441719147860603260759839578171040853408602481, 98068830247800156157588953193533450789051331777340650434423723470027939517270⟩ 115792089237316195423570954579808348407790841688433561405240451001534853939200 =
      Point.mulLoopF G 209 ⟨60055742674463988873363819260128189528088326854467209125742521133182239361570, 57637149012363319946370367430926320610594542269007008300536735861057988247166⟩ 115792089237316195423570924150928788962311698711226558771023317995156578238464 :=
    mulLoopF_step 209 ⟨53440279094232565328940155475881441719147860603260759839578171040853408602481, 98068830247800156157588953193533450789051331777340650434423723470027939517270⟩ ⟨60055742674463988873363819260128189528088326854467209125742521133182239361570, 57637149012363319946370367430926320610594542269007008300536735861057988247166⟩ 115792089237316195423570954579808348407790841688433561405240451001534853939200 115792089237316195423570924150928788962311698711226558771023317995156578238464
      (by
      rw [(by decide : Nat.testBit 115792089237316195423570954579808348407790841688433561405240451001534853939200 255 = true), if_pos rfl, d47]
      exact e47)
      (by decide)
  have d48 : Point.addFast ⟨60055742674463988873363819260128189528088326854467209125742521133182239361570, 57637149012363319946370367430926320610594542269007008300536735861057988247166⟩ ⟨60055742674463988873363819260128189528088326854467209125742521133182239361570, 57637149012363319946370367430926320610594542269007008300536735861057988247166⟩ = ⟨50137683907731180290707439083475228633686508396902709908565918946088663350997, 102931791768343180877344407976776151990316648355922173828809563117501142301679⟩ :=
    (addFast_dbl ⟨60055742674463988873363819260128189528088326854467209125742521133182239361570, 57637149012363319946370367430926320610594542269007008300536735861057988247166⟩
      71929404859659451768445184796501546191017745540451184300318428702969118645050
      (by decide) (by decide) (by decide) (by decide)).trans (by decide)
  have e48 : Point.addFast ⟨50137683907731180290707439083475228633686508396902709908565918946088663350997, 102931791768343180877344407976776151990316648355922173828809563117501142301679⟩ G = ⟨47119192025632717632907581858528586457442080615549196722885994194867158565269, 29898981333524044590423333584147941655821162762817868116860386379872252316369⟩ :=
    (addFast_distinct ⟨50137683907731180290707439083475228633686508396902709908565918946088663350997, 102931791768343180877344407976776151990316648355922173828809563117501142301679⟩ G
      63203587231876674093579351567393223945267136434589683744698290805312307698438
      (by decide) (by decide) (by decide) (by decide)
      (by decide) (by decide)).trans (by decide)
  have t48 : Point.mulLoopF G 209 ⟨60055742674463988873363819260128189528088326854467209125742521133182239361570, 57637149012363319946370367430926320610594542269007008300536735861057988247166⟩ 115792089237316195423570924150928788962311698711226558771023317995156578238464 =
      Point.mulLoopF G 208 ⟨47119192025632717632907581858528586457442080615549196722885994194867158565269, 29898981333524044590423333584147941655821162762817868116860386379872252316369⟩ 115792089237316195423570863293169670071353412756812553502589051982400026836992 :=
    mulLoopF_step 208 ⟨60055742674463988873363819260128189528088326854467209125742521133182239361570, 57637149012363319946370367430926320610594542269007008300536735861057988247166⟩ ⟨47119192025632717632907581858528586457442080615549196722885994194867158565269, 29898981333524044590423333584147941655821162762817868116860386379872252316369⟩ 115792089237316195423570924150928788962311698711226558771023317995156578238464 115792089237316195423570863293169670071353412756812553502589051982400026836992
      (by
      rw [(by decide : Nat.testBit 115792089237316195423570924150928788962311698711226558771023317995156578238464 255 = true), if_pos rfl, d48]
      exact e48)
      (by decide)
  rw [t33, t34, t35, t36, t37, t38, t39, t40, t41, t42, t43, t44, t45, t46, t47, t48]

set_option maxHeartbeats 1600000 in
/-- Segment 4 of the certified double-and-add trace of the generator
multiplied by the group order: iterations 49 to 64, each point
addition discharged through a precomputed modular-inverse certificate. -/
theorem mulG_seg4 : Point.mulLoopF G 208 ⟨47119192025632717632907581858528586457442080615549196722885994194867158565269, 29898981333524044590423333584147941655821162762817868116860386379872252316369⟩ 115792089237316195423570863293169670071353412756812553502589051982400026836992 =
    Point.mulLoopF G 192 ⟨22103564225080446607870885038642619297116411945151334988292469497259080155623, 87221748030493249802157529909219195243606877670052731797952720158686957464281⟩ 115792089237316195415594236805456632168813367713142019823342759981207835901952 := by
  have d49 : Point.addFast ⟨47119192025632717632907581858528586457442080615549196722885994194867158565269, 29898981333524044590423333584147941655821162762817868116860386379872252316369⟩ ⟨47119192025632717632907581858528586457442080615549196722885994194867158565269, 29898981333524044590423333584147941655821162762817868116860386379872252316369⟩ = ⟨70426633635535645166837853475332085771576504984690726274218526995751104838007, 15310766722071161040308772500649581381875944844144185517466821701351493986899⟩ :=
    (addFast_dbl ⟨47119192025632717632907581858528586457442080615549196722885994194867158565269, 29898981333524044590423333584147941655821162762817868116860386379872252316369⟩
      78618095145877253502077560561127208295224065689116489225897712158626754517838
      (by decide) (by decide) (by decide) (by decide)).trans (by decide)
  have e49 : Point.addFast ⟨70426633635535645166837853475332085771576504984690726274218526995751104838007, 15310766722071161040308772500649581381875944844144185517466821701351493986899⟩ G = ⟨33579316150562254917123655624416169549235572082519748276329368862423613971908, 15870266314050460654831388350136724734603418051791704676873620717795608698669⟩ :=
    (addFast_distinct ⟨70426633635535645166837853475332085771576504984690726274218526995751104838007, 15310766722071161040308772500649581381875944844144185517466821701351493986899⟩ G
      36505863084796527419192858289609061391604236310184638276024152068825085710752
      (by decide) (by decide) (by decide) (by decide)
      (by decide) (by decide)).trans (by decide)
  have t49 : Point.mulLoopF G 208 ⟨47119192025632717632907581858528586457442080615549196722885994194867158565269, 29898981333524044590423333584147941655821162762817868116860386379872252316369⟩ 115792089237316195423570863293169670071353412756812553502589051982400026836992 =
      Point.mulLoopF G 207 ⟨33579316150562254917123655624416169549235572082519748276329368862423613971908, 15870266314050460654831388350136724734603418051791704676873620717795608698669⟩ 115792089237316195423570741577651432289436840847984542965720519956886924034048 :=
    mulLoopF_step 207 ⟨47119192025632717632907581858528586457442080615549196722885994194867158565269, 29898981333524044590423333584147941655821162762817868116860386379872252316369⟩ ⟨33579316150562254917123655624416169549235572082519748276329368862423613971908, 15870266314050460654831388350136724734603418051791704676873620717795608698669⟩ 115792089237316195423570863293169670071353412756812553502589051982400026836992 115792089237316195423570741577651432289436840847984542965720519956886924034048
      (by
      rw [(by decide : Nat.testBit 115792089237316195423570863293169670071353412756812553502589051982400026836992 255 = true), if_pos rfl, d49]
      exact e49)
      (by decide)
  have d50 : Point.addFast ⟨33579316150562254917123655624416169549235572082519748276329368862423613971908, 15870266314050460654831388350136724734603418051791704676873620717795608698669⟩ ⟨33579316150562254917123655624416169549235572082519748276329368862423613971908, 15870266314050460654831388350136724734603418051791704676873620717795608698669⟩ = ⟨106800929121833440351588335011746448779020556317866315524556853554414651243820, 52678293233076386350316818746816878632252094815109635025997969472484057680330⟩ :=
    (addFast_dbl ⟨33579316150562254917123655624416169549235572082519748276329368862423613971908, 15870266314050460654831388350136724734603418051791704676873620717795608698669⟩
      63052652303974544271323834468830869565910246158240071154817592738008657355104
      (by decide) (by decide) (by decide) (by decide)).trans (by decide)
  have e50 : Point.addFast ⟨106800929121833440351588335011746448779020556317866315524556853554414651243820, 52678293233076386350316818746816878632252094815109635025997969472484057680330⟩ G = ⟨62218197907063307193964062142071510020393887285361307887395322132195482001448, 1113758504648573412036784197233300074750585484666764739201350210808642335177⟩ :=
    (addFast_distinct ⟨106800929121833440351588335011746448779020556317866315524556853554414651243820, 52678293233076386350316818746816878632252094815109635025997969472484057680330⟩ G
      65570482786749066732875569796742753033983273948868132763069587071254266028408
      (by decide) (by decide) (by decide) (by decide)
      (by decide) (by decide)).trans (by decide)
  have t50 : Point.mulLoopF G 207 ⟨33579316150562254917123655624416169549235572082519748276329368862423613971908, 15870266314050460654831388350136724734603418051791704676873620717795608698669⟩ 115792089237316195423570741577651432289436840847984542965720519956886924034048 =
      Point.mulLoopF G 206 ⟨62218197907063307193964062142071510020393887285361307887395322132195482001448, 1113758504648573412036784197233300074750585484666764739201350210808642335177⟩ 115792089237316195423570498146614956725603697030328521891983455905860718428160 :=
    mulLoopF_step 206 ⟨33579316150562254917123655624416169549235572082519748276329368862423613971908, 15870266314050460654831388350136724734603418051791704676873620717795608698669⟩ ⟨62218197907063307193964062142071510020393887285361307887395322132195482001448, 1113758504648573412036784197233300074750585484666764739201350210808642335177⟩ 115792089237316195423570741577651432289436840847984542965720519956886924034048 115792089237316195423570498146614956725603697030328521891983455905860718428160
      (by
      rw [(by decide : Nat.testBit 115792089237316195423570741577651432289436840847984542965720519956886924034048 255 = true), if_pos rfl, d50]
      exact e50)
      (by decide)
  have d51 : Point.addFast ⟨62218197907063307193964062142071510020393887285361307887395322132195482001448, 1113758504648573412036784197233300074750585484666764739201350210808642335177⟩ ⟨62218197907063307193964062142071510020393887285361307887395322132195482001448, 1113758504648573412036784197233300074750585484666764739201350210808642335177⟩ = ⟨76532176990148606029323662430947464439918825978361051506009383931143160407969, 55608814195171352325481339298938589757761013569783261306797723050425648592648⟩ :=
    (addFast_dbl ⟨62218197907063307193964062142071510020393887285361307887395322132195482001448, 1113758504648573412036784197233300074750585484666764739201350210808642335177⟩
      86325080989020818838707673694107028929313638388908543576438590037878654351046
      (by decide) (by decide) (by decide) (by decide)).trans (by decide)
  have e51 : Point.addFast ⟨76532176990148606029323662430947464439918825978361051506009383931143160407969, 55608814195171352325481339298938589757761013569783261306797723050425648592648⟩ G = ⟨955972772060365814426001823250767597154919402147498775604052087345574537487, 34158383313806541900709632039832959182067586075396778665687753877465741584860⟩ :=
    (addFast_distinct ⟨76532176990148606029323662430947464439918825978361051506009383931143160407969, 55608814195171352325481339298938589757761013569783261306797723050425648592648⟩ G
      43820734267148557220351067554729483519311250137166604788151112545526697989991
      (by decide) (by decide) (by decide) (by decide)
      (by decide) (by decide)).trans (by decide)
  have t51 : Point.mulLoopF G 206 ⟨62218197907063307193964062142071510020393887285361307887395322132195482001448, 1113758504648573412036784197233300074750585484666764739201350210808642335177⟩ 115792089237316195423570498146614956725603697030328521891983455905860718428160 =
      Point.mulLoopF G 205 ⟨955972772060365814426001823250767597154919402147498775604052087345574537487, 34158383313806541900709632039832959182067586075396778665687753877465741584860⟩ 115792089237316195423570011284542005597937409395016479744509327803808307216384 :=
    mulLoopF_step 205 ⟨62218197907063307193964062142071510020393887285361307887395322132195482001448, 1113758504648573412036784197233300074750585484666764739201350210808642335177⟩ ⟨955972772060365814426001823250767597154919402147498775604052087345574537487, 34158383313806541900709632039832959182067586075396778665687753877465741584860⟩ 115792089237316195423570498146614956725603697030328521891983455905860718428160 115792089237316195423570011284542005597937409395016479744509327803808307216384
      (by
      rw [(by decide : Nat.testBit 115792089237316195423570498146614956725603697030328521891983455905860718428160 255 = true), if_pos rfl, d51]
      exact e51)
      (by decide)
  have d52 : Point.addFast ⟨955972772060365814426001823250767597154919402147498775604052087345574537487, 34158383313806541900709632039832959182067586075396778665687753877465741584860⟩ ⟨955972772060365814426001823250767597154919402147498775604052087345574537487, 34158383313806541900709632039832959182067586075396778665687753877465741584860⟩ = ⟨85146984860261720676970732485505544294711109922132114713647297506190705021068, 58773095772434864141509909645703949973033781458970796001728981165338093542761⟩ :=
    (addFast_dbl ⟨955972772060365814426001823250767597154919402147498775604052087345574537487, 34158383313806541900709632039832959182067586075396778665687753877465741584860⟩
      9259093021678452281649484747595128931610921548805277812863945527486058333375
      (by decide) (by decide) (by decide) (by decide)).trans (by decide)
  have e52 : Point.addFast ⟨85146984860261720676970732485505544294711109922132114713647297506190705021068, 58773095772434864141509909645703949973033781458970796001728981165338093542761⟩ G = ⟨97574655057150239772822308753219937187651632198235949821195317750387092670224, 114035262077198281957472171028679518732453531217375097516394330056953664384109⟩ :=
    (addFast_distinct ⟨85146984860261720676970732485505544294711109922132114713647297506190705021068, 58773095772434864141509909645703949973033781458970796001728981165338093542761⟩ G
      111115133980454801581800120730037560681648087426932051225264488763276265874305
      (by decide) (by decide) (by decide) (by decide)
      (by decide) (by decide)).trans (by decide)
  have t52 : Point.mulLoopF G 205 ⟨955972772060365814426001823250767597154919402147498775604052087345574537487, 34158383313806541900709632039832959182067586075396778665687753877465741584860⟩ 115792089237316195423570011284542005597937409395016479744509327803808307216384 =
      Point.mulLoopF G 204 ⟨97574655057150239772822308753219937187651632198235949821195317750387092670224, 114035262077198281957472171028679518732453531217375097516394330056953664384109⟩ 115792089237316195423569037560396103342604834124392395449561071599703484792832 :=
    mulLoopF_step 204 ⟨955972772060365814426001823250767597154919402147498775604052087345574537487, 34158383313806541900709632039832959182067586075396778665687753877465741584860⟩ ⟨97574655057150239772822308753219937187651632198235949821195317750387092670224, 114035262077198281957472171028679518732453531217375097516394330056953664384109⟩ 115792089237316195423570011284542005597937409395016479744509327803808307216384 115792089237316195423569037560396103342604834124392395449561071599703484792832
      (by
      rw [(by decide : Nat.testBit 115792089237316195423570011284542005597937409395016479744509327803808307216384 255 = true), if_pos rfl, d52]
      exact e52)
      (by decide)
  have d53 : Point.addFast ⟨97574655057150239772822308753219937187651632198235949821195317750387092670224, 114035262077198281957472171028679518732453531217375097516394330056953664384109⟩ ⟨97574655057150239772822308753219937187651632198235949821195317750387092670224, 114035262077198281957472171028679518732453531217375097516394330056953664384109⟩ = ⟨8876278073145714043914818788617632392356969624239379220439800736732016096936, 69886660714293014311046482278260782305755618754024936625170786405207470120254⟩ :=
    (addFast_dbl ⟨97574655057150239772822308753219937187651632198235949821195317750387092670224, 114035262077198281957472171028679518732453531217375097516394330056953664384109⟩
      30508722525229607464839061587459289410087735625586221003350175300459257159445
      (by decide) (by decide) (by decide) (by decide)).trans (by decide)
  have e53 : Point.addFast ⟨8876278073145714043914818788617632392356969624239379220439800736732016096936, 69886660714293014311046482278260782305755618754024936625170786405207470120254⟩ G = ⟨59676222880177841816944816430346551319075708718862432730259699474796006051387, 113767489975063736793016818672417018685893282189434860864821854541919744418294⟩ :=
    (addFast_distinct ⟨8876278073145714043914818788617632392356969624239379220439800736732016096936, 69886660714293014311046482278260782305755618754024936625170786405207470120254⟩ G
      81451550211366839662001608772278420171620947013072725401723098569197651704359
      (by decide) (by decide) (by decide) (by decide)
      (by decide) (by decide)).trans (by decide)
  have t53 : Point.mulLoopF G 204 ⟨97574655057150239772822308753219937187651632198235949821195317750387092670224, 114035262077198281957472171028679518732453531217375097516394330056953664384109⟩ 115792089237316195423569037560396103342604834124392395449561071599703484792832 =
      Point.mulLoopF G 203 ⟨59676222880177841816944816430346551319075708718862432730259699474796006051387, 113767489975063736793016818672417018685893282189434860864821854541919744418294⟩ 115792089237316195423567090112104298831939683583144226859664559191493839945728 :=
    mulLoopF_step 203 ⟨97574655057150239772822308753219937187651632198235949821195317750387092670224, 114035262077198281957472171028679518732453531217375097516394330056953664384109⟩ ⟨59676222880177841816944816430346551319075708718862432730259699474796006051387, 113767489975063736793016818672417018685893282189434860864821854541919744418294⟩ 115792089237316195423569037560396103342604834124392395449561071599703484792832 115792089237316195423567090112104298831939683583144226859664559191493839945728
      (by
      rw [(by decide : Nat.testBit 115792089237316195423569037560396103342604834124392395449561071599703484792832 255 = true), if_pos rfl, d53]
      exact e53)
      (by decide)
  have d54 : Point.addFast ⟨59676222880177841816944816430346551319075708718862432730259699474796006051387, 113767489975063736793016818672417018685893282189434860864821854541919744418294⟩ ⟨59676222880177841816944816430346551319075708718862432730259699474796006051387, 113767489975063736793016818672417018685893282189434860864821854541919744418294⟩ = ⟨2266766961788023578540671856371255363138760274838431481462520690355284905440, 10560000189228896836428534868026474002527057536879614414302128054388209844632⟩ :=
    (addFast_dbl ⟨59676222880177841816944816430346551319075708718862432730259699474796006051387, 113767489975063736793016818672417018685893282189434860864821854541919744418294⟩
      31792406681644864677722657426197683959177623762566045630588249715474286024839
      (by decide) (by decide) (by decide) (by decide)).trans (by decide)
  have e54 : Point.addFast ⟨2266766961788023578540671856371255363138760274838431481462520690355284905440, 10560000189228896836428534868026474002527057536879614414302128054388209844632⟩ G = ⟨98100234653560119695957686315679911369155550787487864922517528515134848152008, 7212593634438543088921851861508602600175719029930785490426529189202519408068⟩ :=
    (addFast_distinct ⟨2266766961788023578540671856371255363138760274838431481462520690355284905440, 10560000189228896836428534868026474002527057536879614414302128054388209844632⟩ G
      75226218612553054532533121819929724153339446395723668007317259032490561973753
      (by decide) (by decide) (by decide) (by decide)
      (by decide) (by decide)).trans (by decide)
  have t54 : Point.mulLoopF G 203 ⟨59676222880177841816944816430346551319075708718862432730259699474796006051387, 113767489975063736793016818672417018685893282189434860864821854541919744418294⟩ 115792089237316195423567090112104298831939683583144226859664559191493839945728 =
      Point.mulLoopF G 202 ⟨98100234653560119695957686315679911369155550787487864922517528515134848152008, 7212593634438543088921851861508602600175719029930785490426529189202519408068⟩ 115792089237316195423563195215520689810609382500647889679871534375074550251520 :=
    mulLoopF_step 202 ⟨59676222880177841816944816430346551319075708718862432730259699474796006051387, 113767489975063736793016818672417018685893282189434860864821854541919744418294⟩ ⟨98100234653560119695957686315679911369155550787487864922517528515134848152008, 7212593634438543088921851861508602600175719029930785490426529189202519408068⟩ 115792089237316195423567090112104298831939683583144226859664559191493839945728 115792089237316195423563195215520689810609382500647889679871534375074550251520
      (by
      rw [(by decide : Nat.testBit 115792089237316195423567090112104298831939683583144226859664559191493839945728 255 = true), if_pos rfl, d54]
      exact e54)
      (by decide)
  have d55 : Point.addFast ⟨98100234653560119695957686315679911369155550787487864922517528515134848152008, 7212593634438543088921851861508602600175719029930785490426529189202519408068⟩ ⟨98100234653560119695957686315679911369155550787487864922517528515134848152008, 7212593634438543088921851861508602600175719029930785490426529189202519408068⟩ = ⟨87731336863399673453613353935062713343377076533356095273093701561604408858144, 17413419347093828023552189040788378215098967240511462271556808803885490972701⟩ :=
    (addFast_dbl ⟨98100234653560119695957686315679911369155550787487864922517528515134848152008, 7212593634438543088921851861508602600175719029930785490426529189202519408068⟩
      51773615984863786991935574256557759496210258664164519434910067806357793380454
      (by decide) (by decide) (by decide) (by decide)).trans (by decide)
  have e55 : Point.addFast ⟨87731336863399673453613353935062713343377076533356095273093701561604408858144, 17413419347093828023552189040788378215098967240511462271556808803885490972701⟩ G = ⟨109786135944210397388873595693297054780874984542603101886974622445049253330421, 61701105106867082881034592858086706691914021138219545599338088274892159051328⟩ :=
    (addFast_distinct ⟨87731336863399673453613353935062713343377076533356095273093701561604408858144, 17413419347093828023552189040788378215098967240511462271556808803885490972701⟩ G
      50871486776882311508645464862349517846301163012538660747566967281613801083700
      (by decide) (by decide) (by decide) (by decide)
      (by decide) (by decide)).trans (by decide)
  have t55 : Point.mulLoopF G 202 ⟨98100234653560119695957686315679911369155550787487864922517528515134848152008, 7212593634438543088921851861508602600175719029930785490426529189202519408068⟩ 115792089237316195423563195215520689810609382500647889679871534375074550251520 =
      Point.mulLoopF G 201 ⟨109786135944210397388873595693297054780874984542603101886974622445049253330421, 61701105106867082881034592858086706691914021138219545599338088274892159051328⟩ 115792089237316195423555405422353471767948780335655215320285484742235970863104 :=
    mulLoopF_step 201 ⟨98100234653560119695957686315679911369155550787487864922517528515134848152008, 7212593634438543088921851861508602600175719029930785490426529189202519408068⟩ ⟨109786135944210397388873595693297054780874984542603101886974622445049253330421, 61701105106867082881034592858086706691914021138219545599338088274892159051328⟩ 115792089237316195423563195215520689810609382500647889679871534375074550251520 115792089237316195423555405422353471767948780335655215320285484742235970863104
      (by
      rw [(by decide : Nat.testBit 115792089237316195423563195215520689810609382500647889679871534375074550251520 255 = true), if_pos rfl, d55]
      exact e55)
      (by decide)
  have d56 : Point.addFast ⟨109786135944210397388873595693297054780874984542603101886974622445049253330421, 61701105106867082881034592858086706691914021138219545599338088274892159051328⟩ ⟨109786135944210397388873595693297054780874984542603101886974622445049253330421, 61701105106867082881034592858086706691914021138219545599338088274892159051328⟩ = ⟨23944277057876458707575348487022938961045791292437473592083861008980876790168, 99156957990234931579347156710081486518695634504104638720661239305524642353918⟩ :=
    (addFast_dbl ⟨109786135944210397388873595693297054780874984542603101886974622445049253330421, 61701105106867082881034592858086706691914021138219545599338088274892159051328⟩
      37948915504621096631268124617912672550453765280032158609019161157226559816149
      (by decide) (by decide) (by decide) (by decide)).trans (by decide)
  have e56 : Point.addFast ⟨23944277057876458707575348487022938961045791292437473592083861008980876790168, 99156957990234931579347156710081486518695634504104638720661239305524642353918⟩ G = ⟨7352646653125235091539385753841948207584543302919810141880239610384640384548, 57320003767610686451455525892128129875618335167199863304711300174957406945688⟩ :=
    (addFast_distinct ⟨23944277057876458707575348487022938961045791292437473592083861008980876790168, 99156957990234931579347156710081486518695634504104638720661239305524642353918⟩ G
      17499496370983632870895672108604539179592364980029033598371438329677783718721
      (by decide) (by decide) (by decide) (by decide)
      (by decide) (by decide)).trans (by decide)
  have t56 : Point.mulLoopF G 201 ⟨109786135944210397388873595693297054780874984542603101886974622445049253330421, 61701105106867082881034592858086706691914021138219545599338088274892159051328⟩ 115792089237316195423555405422353471767948780335655215320285484742235970863104 =
      Point.mulLoopF G 200 ⟨7352646653125235091539385753841948207584543302919810141880239610384640384548, 57320003767610686451455525892128129875618335167199863304711300174957406945688⟩ 115792089237316195423539825836019035682627576005669866601113385476558812086272 :=
    mulLoopF_step 200 ⟨109786135944210397388873595693297054780874984542603101886974622445049253330421, 61701105106867082881034592858086706691914021138219545599338088274892159051328⟩ ⟨7352646653125235091539385753841948207584543302919810141880239610384640384548, 57320003767610686451455525892128129875618335167199863304711300174957406945688⟩ 115792089237316195423555405422353471767948780335655215320285484742235970863104 115792089237316195423539825836019035682627576005669866601113385476558812086272
      (by
      rw [(by decide : Nat.testBit 115792089237316195423555405422353471767948780335655215320285484742235970863104 255 = true), if_pos rfl, d56]
      exact e56)
      (by decide)
  have d57 : Point.addFast ⟨7352646653125235091539385753841948207584543302919810141880239610384640384548, 57320003767610686451455525892128129875618335167199863304711300174957406945688⟩ ⟨7352646653125235091539385753841948207584543302919810141880239610384640384548, 57320003767610686451455525892128129875618335167199863304711300174957406945688⟩ = ⟨34280653519843377451937139630501389029884168299181669306757128682916054469824, 18997621901545843980776450514213425726505451461649816040250615876243104035473⟩ :=
    (addFast_dbl ⟨7352646653125235091539385753841948207584543302919810141880239610384640384548, 57320003767610686451455525892128129875618335167199863304711300174957406945688⟩
      47071257644529249342341559834062228688689666327813925279108946154635448551442
      (by decide) (by decide) (by decide) (by decide)).trans (by decide)
  have e57 : Point.addFast ⟨34280653519843377451937139630501389029884168299181669306757128682916054469824, 18997621901545843980776450514213425726505451461649816040250615876243104035473⟩ G = ⟨41969211591311065423420781686540596611061980315976704126864750361657589822770, 18091150181937180886070077401657120121560271397982636008473137183607468974995⟩ :=
    (addFast_distinct ⟨34280653519843377451937139630501389029884168299181669306757128682916054469824, 18997621901545843980776450514213425726505451461649816040250615876243104035473⟩ G
      98432113006781971196764890771898877620872768769799813425863989565981432474165
      (by decide) (by decide) (by decide) (by decide)
      (by decide) (by decide)).trans (by decide)
  have t57 : Point.mulLoopF G 200 ⟨7352646653125235091539385753841948207584543302919810141880239610384640384548, 57320003767610686451455525892128129875618335167199863304711300174957406945688⟩ 115792089237316195423539825836019035682627576005669866601113385476558812086272 =
      Point.mulLoopF G 199 ⟨41969211591311065423420781686540596611061980315976704126864750361657589822770, 18091150181937180886070077401657120121560271397982636008473137183607468974995⟩ 115792089237316195423508666663350163511985167345699169162769186945204494532608 :=
    mulLoopF_step 199 ⟨7352646653125235091539385753841948207584543302919810141880239610384640384548, 57320003767610686451455525892128129875618335167199863304711300174957406945688⟩ ⟨41969211591311065423420781686540596611061980315976704126864750361657589822770, 18091150181937180886070077401657120121560271397982636008473137183607468974995⟩ 115792089237316195423539825836019035682627576005669866601113385476558812086272 115792089237316195423508666663350163511985167345699169162769186945204494532608
      (by
      rw [(by decide : Nat.testBit 115792089237316195423539825836019035682627576005669866601113385476558812086272 255 = true), if_pos rfl, d57]
      exact e57)
      (by decide)
  have d58 : Point.addFast ⟨41969211591311065423420781686540596611061980315976704126864750361657589822770, 18091150181937180886070077401657120121560271397982636008473137183607468974995⟩ ⟨41969211591311065423420781686540596611061980315976704126864750361657589822770, 18091150181937180886070077401657120121560271397982636008473137183607468974995⟩ = ⟨69796078189345457404347748818030558972274421414737415436708499974870334860585, 67054839073467059311757002312709266410030708661514190727083819027468863641186⟩ :=
    (addFast_dbl ⟨41969211591311065423420781686540596611061980315976704126864750361657589822770, 18091150181937180886070077401657120121560271397982636008473137183607468974995⟩
      28710160397578644154458930497215377657446952936051939465562351599628138095869
      (by decide) (by decide) (by decide) (by decide)).trans (by decide)
  have e58 : Point.addFast ⟨69796078189345457404347748818030558972274421414737415436708499974870334860585, 67054839073467059311757002312709266410030708661514190727083819027468863641186⟩ G = ⟨57667694242125392227644440580916338161431509907942280918265426298998833804056, 40595687447034664853414134434343920178781477120116109896506131246716613198067⟩ :=
    (addFast_distinct ⟨69796078189345457404347748818030558972274421414737415436708499974870334860585, 67054839073467059311757002312709266410030708661514190727083819027468863641186⟩ G
      95599945481079405618522879355848015090360511572245880271308161333537243803392
      (by decide) (by decide) (by decide) (by decide)
      (by decide) (by decide)).trans (by decide)
  have t58 : Point.mulLoopF G 199 ⟨41969211591311065423420781686540596611061980315976704126864750361657589822770, 18091150181937180886070077401657120121560271397982636008473137183607468974995⟩ 115792089237316195423508666663350163511985167345699169162769186945204494532608 =
      Point.mulLoopF G 198 ⟨57667694242125392227644440580916338161431509907942280918265426298998833804056, 40595687447034664853414134434343920178781477120116109896506131246716613198067⟩ 115792089237316195423446348318012419170700350025757774286080789882495859425280 :=
    mulLoopF_step 198 ⟨41969211591311065423420781686540596611061980315976704126864750361657589822770, 18091150181937180886070077401657120121560271397982636008473137183607468974995⟩ ⟨57667694242125392227644440580916338161431509907942280918265426298998833804056, 40595687447034664853414134434343920178781477120116109896506131246716613198067⟩ 115792089237316195423508666663350163511985167345699169162769186945204494532608 115792089237316195423446348318012419170700350025757774286080789882495859425280
      (by
      rw [(by decide : Nat.testBit 115792089237316195423508666663350163511985167345699169162769186945204494532608 255 = true), if_pos rfl, d58]
      exact e58)
      (by decide)
  have d59 : Point.addFast ⟨57667694242125392227644440580916338161431509907942280918265426298998833804056, 40595687447034664853414134434343920178781477120116109896506131246716613198067⟩ ⟨57667694242125392227644440580916338161431509907942280918265426298998833804056, 40595687447034664853414134434343920178781477120116109896506131246716613198067⟩ = ⟨100581078876771812367877698780862335848882125588687974241678657484425367666315, 61897847860071194963588138165528540501549869033328917270882734112355224703594⟩ :=
    (addFast_dbl ⟨57667694242125392227644440580916338161431509907942280918265426298998833804056, 40595687447034664853414134434343920178781477120116109896506131246716613198067⟩
      22793299586902612765229658866123387413834556001822272047033255893168714343286
      (by decide) (by decide) (by decide) (by decide)).trans (by decide)
  have e59 : Point.addFast ⟨100581078876771812367877698780862335848882125588687974241678657484425367666315, 61897847860071194963588138165528540501549869033328917270882734112355224703594⟩ G = ⟨87248390119165522520034865009193321434278617932790836117487731915580823024219, 59246090989571848327316085462031657784101477098192323455519636899309151460159⟩ :=
    (addFast_distinct ⟨100581078876771812367877698780862335848882125588687974241678657484425367666315, 61897847860071194963588138165528540501549869033328917270882734112355224703594⟩ G
      115610097389397256784631452836120766941050397929241167459794046212340971354728
      (by decide) (by decide) (by decide) (by decide)
      (by decide) (by decide)).trans (by decide)
  have t59 : Point.mulLoopF G 198 ⟨57667694242125392227644440580916338161431509907942280918265426298998833804056, 40595687447034664853414134434343920178781477120116109896506131246716613198067⟩ 115792089237316195423446348318012419170700350025757774286080789882495859425280 =
      Point.mulLoopF G 197 ⟨87248390119165522520034865009193321434278617932790836117487731915580823024219, 59246090989571848327316085462031657784101477098192323455519636899309151460159⟩ 115792089237316195423321711627336930488130715385874984532703995757078589210624 :=
    mulLoopF_step 197 ⟨57667694242125392227644440580916338161431509907942280918265426298998833804056, 40595687447034664853414134434343920178781477120116109896506131246716613198067⟩ ⟨87248390119165522520034865009193321434278617932790836117487731915580823024219, 59246090989571848327316085462031657784101477098192323455519636899309151460159⟩ 115792089237316195423446348318012419170700350025757774286080789882495859425280 115792089237316195423321711627336930488130715385874984532703995757078589210624
      (by
      rw [(by decide : Nat.testBit 115792089237316195423446348318012419170700350025757774286080789882495859425280 255 = true), if_pos rfl, d59]
      exact e59)
      (by decide)
  have d60 : Point.addFast ⟨87248390119165522520034865009193321434278617932790836117487731915580823024219, 59246090989571848327316085462031657784101477098192323455519636899309151460159⟩ ⟨87248390119165522520034865009193321434278617932790836117487731915580823024219, 59246090989571848327316085462031657784101477098192323455519636899309151460159⟩ = ⟨43180301949281423608269570696868112703827526493230379930240486246966758342522, 66125488718303916785605720066392340863458336204328129908700005440219778802163⟩ :=
    (addFast_dbl ⟨87248390119165522520034865009193321434278617932790836117487731915580823024219, 59246090989571848327316085462031657784101477098192323455519636899309151460159⟩
      67169328719949485749752373981162221873940571578750943367136627303681537917425
      (by decide) (by decide) (by decide) (by decide)).trans (by decide)
  have e60 : Point.addFast ⟨43180301949281423608269570696868112703827526493230379930240486246966758342522, 66125488718303916785605720066392340863458336204328129908700005440219778802163⟩ G = ⟨42996732171235027011349421139832615101636114408540841320901258060022069199553, 83396492006452181043085508240253868869541800938670863135164434536814228279719⟩ :=
    (addFast_distinct ⟨43180301949281423608269570696868112703827526493230379930240486246966758342522, 66125488718303916785605720066392340863458336204328129908700005440219778802163⟩ G
      101009203442544967175279464333549800708238223191638559306280226737407239860461
      (by decide) (by decide) (by decide) (by decide)
      (by decide) (by decide)).trans (by decide)
  have t60 : Point.mulLoopF G 197 ⟨87248390119165522520034865009193321434278617932790836117487731915580823024219, 59246090989571848327316085462031657784101477098192323455519636899309151460159⟩ 115792089237316195423321711627336930488130715385874984532703995757078589210624 =
      Point.mulLoopF G 196 ⟨42996732171235027011349421139832615101636114408540841320901258060022069199553, 83396492006452181043085508240253868869541800938670863135164434536814228279719⟩ 115792089237316195423072438245985953122991446106109405025950407506244048781312 :=
    mulLoopF_step 196 ⟨87248390119165522520034865009193321434278617932790836117487731915580823024219, 59246090989571848327316085462031657784101477098192323455519636899309151460159⟩ ⟨42996732171235027011349421139832615101636114408540841320901258060022069199553, 83396492006452181043085508240253868869541800938670863135164434536814228279719⟩ 115792089237316195423321711627336930488130715385874984532703995757078589210624 115792089237316195423072438245985953122991446106109405025950407506244048781312
      (by
      rw [(by decide : Nat.testBit 115792089237316195423321711627336930488130715385874984532703995757078589210624 255 = true), if_pos rfl, d60]
      exact e60)
      (by decide)
  have d61 : Point.addFast ⟨42996732171235027011349421139832615101636114408540841320901258060022069199553, 83396492006452181043085508240253868869541800938670863135164434536814228279719⟩ ⟨42996732171235027011349421139832615101636114408540841320901258060022069199553, 83396492006452181043085508240253868869541800938670863135164434536814228279719⟩ = ⟨34365412336047599202961517437764133311428721597411921859331650388683066527277, 80825409244798481744222526367085099781201161470276815041473567205783290291988⟩ :=
    (addFast_dbl ⟨42996732171235027011349421139832615101636114408540841320901258060022069199553, 83396492006452181043085508240253868869541800938670863135164434536814228279719⟩
      50955210943073496881125908526531573667076166959681847407356272259186010768625
      (by decide) (by decide) (by decide) (by decide)).trans (by decide)
  have e61 : Point.addFast ⟨34365412336047599202961517437764133311428721597411921859331650388683066527277, 80825409244798481744222526367085099781201161470276815041473567205783290291988⟩ G = ⟨30559635682027978320791015089724611029607503079697975096069657079304930371375, 93616523751052126345341995451946380882122858827117094958113379847429411656123⟩ :=
    (addFast_distinct ⟨34365412336047599202961517437764133311428721597411921859331650388683066527277, 80825409244798481744222526367085099781201161470276815041473567205783290291988⟩ G
      41299820904319113923335734141033813895140251948016033488532202379406232888082
      (by decide) (by decide) (by decide) (by decide)
      (by decide) (by decide)).trans (by decide)
  have t61 : Point.mulLoopF G 196 ⟨42996732171235027011349421139832615101636114408540841320901258060022069199553, 83396492006452181043085508240253868869541800938670863135164434536814228279719⟩ 115792089237316195423072438245985953122991446106109405025950407506244048781312 =
      Point.mulLoopF G 195 ⟨30559635682027978320791015089724611029607503079697975096069657079304930371375, 93616523751052126345341995451946380882122858827117094958113379847429411656123⟩ 115792089237316195422573891483283998392712907546578246012443231004574967922688 :=
    mulLoopF_step 195 ⟨42996732171235027011349421139832615101636114408540841320901258060022069199553, 83396492006452181043085508240253868869541800938670863135164434536814228279719⟩ ⟨30559635682027978320791015089724611029607503079697975096069657079304930371375, 93616523751052126345341995451946380882122858827117094958113379847429411656123⟩ 115792089237316195423072438245985953122991446106109405025950407506244048781312 115792089237316195422573891483283998392712907546578246012443231004574967922688
      (by
      rw [(by decide : Nat.testBit 115792089237316195423072438245985953122991446106109405025950407506244048781312 255 = true), if_pos rfl, d61]
      exact e61)
      (by decide)
  have d62 : Point.addFast ⟨30559635682027978320791015089724611029607503079697975096069657079304930371375, 93616523751052126345341995451946380882122858827117094958113379847429411656123⟩ ⟨30559635682027978320791015089724611029607503079697975096069657079304930371375, 93616523751052126345341995451946380882122858827117094958113379847429411656123⟩ = ⟨10178629213829222033768572296709655836979988407354047340799027023801449024236, 30885347327920833701530407719026074668099170227259845597390428323258501658572⟩ :=
    (addFast_dbl ⟨30559635682027978320791015089724611029607503079697975096069657079304930371375, 93616523751052126345341995451946380882122858827117094958113379847429411656123⟩
      80114527872756200231556179999400383708555011636504280947386289646775710686469
      (by decide) (by decide) (by decide) (by decide)).trans (by decide)
  have e62 : Point.addFast ⟨10178629213829222033768572296709655836979988407354047340799027023801449024236, 30885347327920833701530407719026074668099170227259845597390428323258501658572⟩ G = ⟨18570449685475918431428622025021463034364882436471191283127859882586996609801, 29368911820273316603297913236451994547728198217697271832963043753393767436509⟩ :=
    (addFast_distinct ⟨10178629213829222033768572296709655836979988407354047340799027023801449024236, 30885347327920833701530407719026074668099170227259845597390428323258501658572⟩ G
      83556619839696471678043512255731236265211337437517422831921169510855303529647
      (by decide) (by decide) (by decide) (by decide)
      (by decide) (by decide)).trans (by decide)
  have t62 : Point.mulLoopF G 195 ⟨30559635682027978320791015089724611029607503079697975096069657079304930371375, 93616523751052126345341995451946380882122858827117094958113379847429411656123⟩ 115792089237316195422573891483283998392712907546578246012443231004574967922688 =
      Point.mulLoopF G 194 ⟨18570449685475918431428622025021463034364882436471191283127859882586996609801, 29368911820273316603297913236451994547728198217697271832963043753393767436509⟩ 115792089237316195421576797957880088932155830427515927985428878001236806205440 :=
    mulLoopF_step 194 ⟨30559635682027978320791015089724611029607503079697975096069657079304930371375, 93616523751052126345341995451946380882122858827117094958113379847429411656123⟩ ⟨18570449685475918431428622025021463034364882436471191283127859882586996609801, 29368911820273316603297913236451994547728198217697271832963043753393767436509⟩ 115792089237316195422573891483283998392712907546578246012443231004574967922688 115792089237316195421576797957880088932155830427515927985428878001236806205440
      (by
      rw [(by decide : Nat.testBit 115792089237316195422573891483283998392712907546578246012443231004574967922688 255 = true), if_pos rfl, d62]
      exact e62)
      (by decide)
  have d63 : Point.addFast ⟨18570449685475918431428622025021463034364882436471191283127859882586996609801, 29368911820273316603297913236451994547728198217697271832963043753393767436509⟩ ⟨18570449685475918431428622025021463034364882436471191283127859882586996609801, 29368911820273316603297913236451994547728198217697271832963043753393767436509⟩ = ⟨12327526995915432620779262409120799109502738320264397133689224807203979859796, 53454534591899847310118247474575791399383048928024700533268638099926201959084⟩ :=
    (addFast_dbl ⟨18570449685475918431428622025021463034364882436471191283127859882586996609801, 29368911820273316603297913236451994547728198217697271832963043753393767436509⟩
      72321640196183319850496277911104821019888690214361160832189199169337542684454
      (by decide) (by decide) (by decide) (by decide)).trans (by decide)
  have e63 : Point.addFast ⟨12327526995915432620779262409120799109502738320264397133689224807203979859796, 53454534591899847310118247474575791399383048928024700533268638099926201959084⟩ G = ⟨15148391597642804072346119047125209977057190235171731969261106466169304622925, 41676970176496293421530647206488575301456543808630528474409842952493016850574⟩ :=
    (addFast_distinct ⟨12327526995915432620779262409120799109502738320264397133689224807203979859796, 53454534591899847310118247474575791399383048928024700533268638099926201959084⟩ G
      40860132274678922912307269691186285755308605105106155655853789200228716843568
      (by decide) (by decide) (by decide) (by decide)
      (by decide) (by decide)).trans (by decide)
  have t63 : Point.mulLoopF G 194 ⟨18570449685475918431428622025021463034364882436471191283127859882586996609801, 29368911820273316603297913236451994547728198217697271832963043753393767436509⟩ 115792089237316195421576797957880088932155830427515927985428878001236806205440 =
      Point.mulLoopF G 193 ⟨15148391597642804072346119047125209977057190235171731969261106466169304622925, 41676970176496293421530647206488575301456543808630528474409842952493016850574⟩ 115792089237316195419582610907072270011041676189391291931400171994560482770944 :=
    mulLoopF_step 193 ⟨18570449685475918431428622025021463034364882436471191283127859882586996609801, 29368911820273316603297913236451994547728198217697271832963043753393767436509⟩ ⟨15148391597642804072346119047125209977057190235171731969261106466169304622925, 41676970176496293421530647206488575301456543808630528474409842952493016850574⟩ 115792089237316195421576797957880088932155830427515927985428878001236806205440 115792089237316195419582610907072270011041676189391291931400171994560482770944
      (by
      rw [(by decide : Nat.testBit 115792089237316195421576797957880088932155830427515927985428878001236806205440 255 = true), if_pos rfl, d63]
      exact e63)
      (by decide)
  have d64 : Point.addFast ⟨15148391597642804072346119047125209977057190235171731969261106466169304622925, 41676970176496293421530647206488575301456543808630528474409842952493016850574⟩ ⟨15148391597642804072346119047125209977057190235171731969261106466169304622925, 41676970176496293421530647206488575301456543808630528474409842952493016850574⟩ = ⟨101952480642391879094251207658098510468198261325992808981231262865452871953531, 91582598311754693298915219434865473014497415123371568776592758853842381417518⟩ :=
    (addFast_dbl ⟨15148391597642804072346119047125209977057190235171731969261106466169304622925, 41676970176496293421530647206488575301456543808630528474409842952493016850574⟩
      46143567516380061849260804609180350999451165774733964530921993724445494281901
      (by decide) (by decide) (by decide) (by decide)).trans (by decide)
  have e64 : Point.addFast ⟨101952480642391879094251207658098510468198261325992808981231262865452871953531, 91582598311754693298915219434865473014497415123371568776592758853842381417518⟩ G = ⟨22103564225080446607870885038642619297116411945151334988292469497259080155623, 87221748030493249802157529909219195243606877670052731797952720158686957464281⟩ :=
    (addFast_distinct ⟨101952480642391879094251207658098510468198261325992808981231262865452871953531, 91582598311754693298915219434865473014497415123371568776592758853842381417518⟩ G
      34110406909785761779198844503141897104518737907947382861549373178833626286951
      (by decide) (by decide) (by decide) (by decide)
      (by decide) (by decide)).trans (by decide)
  have t64 : Point.mulLoopF G 193 ⟨15148391597642804072346119047125209977057190235171731969261106466169304622925, 41676970176496293421530647206488575301456543808630528474409842952493016850574⟩ 115792089237316195419582610907072270011041676189391291931400171994560482770944 =
      Point.mulLoopF G 192 ⟨22103564225080446607870885038642619297116411945151334988292469497259080155623, 87221748030493249802157529909219195243606877670052731797952720158686957464281⟩ 115792089237316195415594236805456632168813367713142019823342759981207835901952 :=
    mulLoopF_step 192 ⟨15148391597642804072346119047125209977057190235171731969261106466169304622925, 41676970176496293421530647206488575301456543808630528474409842952493016850574⟩ ⟨22103564225080446607870885038642619297116411945151334988292469497259080155623, 87221748030493249802157529909219195243606877670052731797952720158686957464281⟩ 115792089237316195419582610907072270011041676189391291931400171994560482770944 115792089237316195415594236805456632168813367713142019823342759981207835901952
      (by
      rw [(by decide : Nat.testBit 115792089237316195419582610907072270011041676189391291931400171994560482770944 255 = true), if_pos rfl, d64]
      exact e64)
      (by decide)
  rw [t49, t50, t51, t52, t53, t54, t55, t56, t57, t58, t59, t60, t61, t62, t63, t64]

set_option maxHeartbeats 1600000 in
/-- Segment 5 of the certified double-and-add trace of the generator
multiplied by the group order: iterations 65 to 80, each point
addition discharged through a precomputed modular-inverse certificate. -/
theorem mulG_seg5 : Point.mulLoopF G 192 ⟨22103564225080446607870885038642619297116411945151334988292469497259080155623, 87221748030493249802157529909219195243606877670052731797952720158686957464281⟩ 115792089237316195415594236805456632168813367713142019823342759981207835901952 =
    Point.mulLoopF G 176 ⟨72377952735338845254336429394882820024390462803578547242704692126200452442878, 107718924346953345005121608508382869193128446322347507670229170755489356619013⟩ 115792089237315672659400738043804651304421385721046816738350169849782717120512 := by
  have d65 : Point.addFast ⟨22103564225080446607870885038642619297116411945151334988292469497259080155623, 87221748030493249802157529909219195243606877670052731797952720158686957464281⟩ ⟨22103564225080446607870885038642619297116411945151334988292469497259080155623, 87221748030493249802157529909219195243606877670052731797952720158686957464281⟩ = ⟨113210879676304528419029931553524435461761070272255865471262583319749067903816, 90279947238743211589891683212119236369918768015053042195743038755548468197266⟩ :=
    (addFast_dbl ⟨22103564225080446607870885038642619297116411945151334988292469497259080155623, 87221748030493249802157529909219195243606877670052731797952720158686957464281⟩
      25121455146989381880678245705731820500684728730044215097527543626739649325228
      (by decide) (by decide) (by decide) (by decide)).trans (by decide)
  have e65 : Point.addFast ⟨113210879676304528419029931553524435461761070272255865471262583319749067903816, 90279947238743211589891683212119236369918768015053042195743038755548468197266⟩ G = ⟨53292770891319724299762508271388442336765622579730001681037373252459505320872, 94622996831461279450281483111341390684559764412625585424944426108621126265229⟩ :=
    (addFast_distinct ⟨113210879676304528419029931553524435461761070272255865471262583319749067903816, 90279947238743211589891683212119236369918768015053042195743038755548468197266⟩ G
      19608530766998485547647000212450939706825131005766676329336241868668842858075
      (by decide) (by decide) (by decide) (by decide)
      (by decide) (by decide)).trans (by decide)
  have t65 : Point.mulLoopF G 192 ⟨22103564225080446607870885038642619297116411945151334988292469497259080155623, 87221748030493249802157529909219195243606877670052731797952720158686957464281⟩ 115792089237316195415594236805456632168813367713142019823342759981207835901952 =
      Point.mulLoopF G 191 ⟨53292770891319724299762508271388442336765622579730001681037373252459505320872, 94622996831461279450281483111341390684559764412625585424944426108621126265229⟩ 115792089237316195407617488602225356484356750760643475607227935954502542163968 :=
    mulLoopF_step 191 ⟨22103564225080446607870885038642619297116411945151334988292469497259080155623, 87221748030493249802157529909219195243606877670052731797952720158686957464281⟩ ⟨53292770891319724299762508271388442336765622579730001681037373252459505320872, 94622996831461279450281483111341390684559764412625585424944426108621126265229⟩ 115792089237316195415594236805456632168813367713142019823342759981207835901952 115792089237316195407617488602225356484356750760643475607227935954502542163968
      (by
      rw [(by decide : Nat.testBit 115792089237316195415594236805456632168813367713142019823342759981207835901952 255 = true), if_pos rfl, d65]
      exact e65)
      (by decide)
  have d66 : Point.addFast ⟨53292770891319724299762508271388442336765622579730001681037373252459505320872, 94622996831461279450281483111341390684559764412625585424944426108621126265229⟩ ⟨53292770891319724299762508271388442336765622579730001681037373252459505320872, 94622996831461279450281483111341390684559764412625585424944426108621126265229⟩ = ⟨28635733480691770648588206532260214094526331922081836765501070020984211481425, 87942438673005288017379149741314583439630440574555080300659030233840153517213⟩ :=
    (addFast_dbl ⟨53292770891319724299762508271388442336765622579730001681037373252459505320872, 94622996831461279450281483111341390684559764412625585424944426108621126265229⟩
      105751705068817560670749392535075576025403764045202947360767975062007321489754
      (by decide) (by decide) (by decide) (by decide)).trans (by decide)
  have e66 : Point.addFast ⟨28635733480691770648588206532260214094526331922081836765501070020984211481425, 87942438673005288017379149741314583439630440574555080300659030233840153517213⟩ G = ⟨104382819233375948821060204835079409219650766341428760994907568541140407502992, 58080574027248273943764977950910409798091407726190230366565479198690384878701⟩ :=
    (addFast_distinct ⟨28635733480691770648588206532260214094526331922081836765501070020984211481425, 87942438673005288017379149741314583439630440574555080300659030233840153517213⟩ G
      17752931836631288687681890118947673062505637347277416492531061857130245570342
      (by decide) (by decide) (by decide) (by decide)
      (by decide) (by decide)).trans (by decide)
  have t66 : Point.mulLoopF G 191 ⟨53292770891319724299762508271388442336765622579730001681037373252459505320872, 94622996831461279450281483111341390684559764412625585424944426108621126265229⟩ 115792089237316195407617488602225356484356750760643475607227935954502542163968 =
      Point.mulLoopF G 190 ⟨104382819233375948821060204835079409219650766341428760994907568541140407502992, 58080574027248273943764977950910409798091407726190230366565479198690384878701⟩ 115792089237316195391663992195762805115443516855646387174998287901091954688000 :=
    mulLoopF_step 190 ⟨53292770891319724299762508271388442336765622579730001681037373252459505320872, 94622996831461279450281483111341390684559764412625585424944426108621126265229⟩ ⟨104382819233375948821060204835079409219650766341428760994907568541140407502992, 58080574027248273943764977950910409798091407726190230366565479198690384878701⟩ 115792089237316195407617488602225356484356750760643475607227935954502542163968 115792089237316195391663992195762805115443516855646387174998287901091954688000
      (by
      rw [(by decide : Nat.testBit 115792089237316195407617488602225356484356750760643475607227935954502542163968 255 = true), if_pos rfl, d66]
      exact e66)
      (by decide)
  have d67 : Point.addFast ⟨104382819233375948821060204835079409219650766341428760994907568541140407502992, 58080574027248273943764977950910409798091407726190230366565479198690384878701⟩ ⟨104382819233375948821060204835079409219650766341428760994907568541140407502992, 58080574027248273943764977950910409798091407726190230366565479198690384878701⟩ = ⟨100852890513209217768752312518982368619604473771512031385147662327364066283672, 83458358279731601098164942838789626696785392759797694811116308380995766371981⟩ :=
    (addFast_dbl ⟨104382819233375948821060204835079409219650766341428760994907568541140407502992, 58080574027248273943764977950910409798091407726190230366565479198690384878701⟩
      80047796337188030988116368035401336039882456944304528137764473365543016034990
      (by decide) (by decide) (by decide) (by decide)).trans (by decide)
  have e67 : Point.addFast ⟨100852890513209217768752312518982368619604473771512031385147662327364066283672, 83458358279731601098164942838789626696785392759797694811116308380995766371981⟩ G = ⟨87121413235775345371139065968090261692681059191700557906619629644082465947353, 97853506659582679243713408634146812076250274382292349320559653926697346453143⟩ :=
    (addFast_distinct ⟨100852890513209217768752312518982368619604473771512031385147662327364066283672, 83458358279731601098164942838789626696785392759797694811116308380995766371981⟩ G
      15167349171492950198194520347925055296554878786305926087904562356748408602198
      (by decide) (by decide) (by decide) (by decide)
      (by decide) (by decide)).trans (by decide)
  have t67 : Point.mulLoopF G 190 ⟨104382819233375948821060204835079409219650766341428760994907568541140407502992, 58080574027248273943764977950910409798091407726190230366565479198690384878701⟩ 115792089237316195391663992195762805115443516855646387174998287901091954688000 =
      Point.mulLoopF G 189 ⟨87121413235775345371139065968090261692681059191700557906619629644082465947353, 97853506659582679243713408634146812076250274382292349320559653926697346453143⟩ 115792089237316195359756999382837702377617049045652210310538991794270779736064 :=
    mulLoopF_step 189 ⟨104382819233375948821060204835079409219650766341428760994907568541140407502992, 58080574027248273943764977950910409798091407726190230366565479198690384878701⟩ ⟨87121413235775345371139065968090261692681059191700557906619629644082465947353, 97853506659582679243713408634146812076250274382292349320559653926697346453143⟩ 115792089237316195391663992195762805115443516855646387174998287901091954688000 115792089237316195359756999382837702377617049045652210310538991794270779736064
      (by
      rw [(by decide : Nat.testBit 115792089237316195391663992195762805115443516855646387174998287901091954688000 255 = true), if_pos rfl, d67]
      exact e67)
      (by decide)
  have d68 : Point.addFast ⟨87121413235775345371139065968090261692681059191700557906619629644082465947353, 97853506659582679243713408634146812076250274382292349320559653926697346453143⟩ ⟨87121413235775345371139065968090261692681059191700557906619629644082465947353, 97853506659582679243713408634146812076250274382292349320559653926697346453143⟩ = ⟨34920722305703570585297928448157468123040258628978144890436748937204190527128, 12615413620923791886497727357479519713741040777007539478384129515708727078753⟩ :=
    (addFast_dbl ⟨87121413235775345371139065968090261692681059191700557906619629644082465947353, 97853506659582679243713408634146812076250274382292349320559653926697346453143⟩
      11455430596018103467522432727346529244473757024522547858241112585493432131039
      (by decide) (by decide) (by decide) (by decide)).trans (by decide)
  have e68 : Point.addFast ⟨34920722305703570585297928448157468123040258628978144890436748937204190527128, 12615413620923791886497727357479519713741040777007539478384129515708727078753⟩ G = ⟨64508705600696268193602749164834025490812763671008480721405778441868310188192, 108300173316676122653661466206322777908558378863144199447143333130204313159185⟩ :=
    (addFast_distinct ⟨34920722305703570585297928448157468123040258628978144890436748937204190527128, 12615413620923791886497727357479519713741040777007539478384129515708727078753⟩ G
      44930613315196131894701347732094943580749563354531572237452381616616465736813
      (by decide) (by decide) (by decide) (by decide)
      (by decide) (by decide)).trans (by decide)
  have t68 : Point.mulLoopF G 189 ⟨87121413235775345371139065968090261692681059191700557906619629644082465947353, 97853506659582679243713408634146812076250274382292349320559653926697346453143⟩ 115792089237316195359756999382837702377617049045652210310538991794270779736064 =
      Point.mulLoopF G 188 ⟨64508705600696268193602749164834025490812763671008480721405778441868310188192, 108300173316676122653661466206322777908558378863144199447143333130204313159185⟩ 115792089237316195295943013756987496901964113425663856581620399580628429832192 :=
    mulLoopF_step 188 ⟨87121413235775345371139065968090261692681059191700557906619629644082465947353, 97853506659582679243713408634146812076250274382292349320559653926697346453143⟩ ⟨64508705600696268193602749164834025490812763671008480721405778441868310188192, 108300173316676122653661466206322777908558378863144199447143333130204313159185⟩ 115792089237316195359756999382837702377617049045652210310538991794270779736064 115792089237316195295943013756987496901964113425663856581620399580628429832192
      (by
      rw [(by decide : Nat.testBit 115792089237316195359756999382837702377617049045652210310538991794270779736064 255 = true), if_pos rfl, d68]
      exact e68)
      (by decide)
  have d69 : Point.addFast ⟨64508705600696268193602749164834025490812763671008480721405778441868310188192, 108300173316676122653661466206322777908558378863144199447143333130204313159185⟩ ⟨64508705600696268193602749164834025490812763671008480721405778441868310188192, 108300173316676122653661466206322777908558378863144199447143333130204313159185⟩ = ⟨45216309709145393189099063858246762106205652494006031842442231648607292449253, 1470086676908630402192533238271353634706640802114795216658118671411869227387⟩ :=
    (addFast_dbl ⟨64508705600696268193602749164834025490812763671008480721405778441868310188192, 108300173316676122653661466206322777908558378863144199447143333130204313159185⟩
      76980941210552112149137482163197064009145179880302946062847596688424734134145
      (by decide) (by decide) (by decide) (by decide)).trans (by decide)
  have e69 : Point.addFast ⟨45216309709145393189099063858246762106205652494006031842442231648607292449253, 1470086676908630402192533238271353634706640802114795216658118671411869227387⟩ G = ⟨31553742580066097491681965644132770777863132275408121019366303930830391760727, 75535856934091835189645468594095946388963228494197003992531589439897843132305⟩ :=
    (addFast_distinct ⟨45216309709145393189099063858246762106205652494006031842442231648607292449253, 1470086676908630402192533238271353634706640802114795216658118671411869227387⟩ G
      94096804179309103660500143023774640614354261519529580684620039967114985063854
      (by decide) (by decide) (by decide) (by decide)
      (by decide) (by decide)).trans (by decide)
  have t69 : Point.mulLoopF G 188 ⟨64508705600696268193602749164834025490812763671008480721405778441868310188192, 108300173316676122653661466206322777908558378863144199447143333130204313159185⟩ 115792089237316195295943013756987496901964113425663856581620399580628429832192 =
      Point.mulLoopF G 187 ⟨31553742580066097491681965644132770777863132275408121019366303930830391760727, 75535856934091835189645468594095946388963228494197003992531589439897843132305⟩ 115792089237316195168315042505287085950658242185687149123783215153343730024448 :=
    mulLoopF_step 187 ⟨64508705600696268193602749164834025490812763671008480721405778441868310188192, 108300173316676122653661466206322777908558378863144199447143333130204313159185⟩ ⟨31553742580066097491681965644132770777863132275408121019366303930830391760727, 75535856934091835189645468594095946388963228494197003992531589439897843132305⟩ 115792089237316195295943013756987496901964113425663856581620399580628429832192 115792089237316195168315042505287085950658242185687149123783215153343730024448
      (by
      rw [(by decide : Nat.testBit 115792089237316195295943013756987496901964113425663856581620399580628429832192 255 = true), if_pos rfl, d69]
      exact e69)
      (by decide)
  have d70 : Point.addFast ⟨31553742580066097491681965644132770777863132275408121019366303930830391760727, 75535856934091835189645468594095946388963228494197003992531589439897843132305⟩ ⟨31553742580066097491681965644132770777863132275408121019366303930830391760727, 75535856934091835189645468594095946388963228494197003992531589439897843132305⟩ = ⟨104904358704874335942980934743508382287926715503465217194405507991466997342408, 114202540988488729768503369525509200749514967627048385462265170530011716768713⟩ :=
    (addFast_dbl ⟨31553742580066097491681965644132770777863132275408121019366303930830391760727, 75535856934091835189645468594095946388963228494197003992531589439897843132305⟩
      8155848151365975886460528516557866252621772669833594491759830278392133952466
      (by decide) (by decide) (by decide) (by decide)).trans (by decide)
  have e70 : Point.addFast ⟨104904358704874335942980934743508382287926715503465217194405507991466997342408, 114202540988488729768503369525509200749514967627048385462265170530011716768713⟩ G = ⟨79482838193812466566551157837259655554023322963445081684905365968084510890759, 7672184863734075007806002791435125713704795189780522726534664394466569085246⟩ :=
    (addFast_distinct ⟨104904358704874335942980934743508382287926715503465217194405507991466997342408, 114202540988488729768503369525509200749514967627048385462265170530011716768713⟩ G
      49195331658163948608407448083888225989519887871850707457848037764918517018910
      (by decide) (by decide) (by decide) (by decide)
      (by decide) (by decide)).trans (by decide)
  have t70 : Point.mulLoopF G 187 ⟨31553742580066097491681965644132770777863132275408121019366303930830391760727, 75535856934091835189645468594095946388963228494197003992531589439897843132305⟩ 115792089237316195168315042505287085950658242185687149123783215153343730024448 =
      Point.mulLoopF G 186 ⟨79482838193812466566551157837259655554023322963445081684905365968084510890759, 7672184863734075007806002791435125713704795189780522726534664394466569085246⟩ 115792089237316194913059100001886264048046499705733734208108846298774330408960 :=
    mulLoopF_step 186 ⟨31553742580066097491681965644132770777863132275408121019366303930830391760727, 75535856934091835189645468594095946388963228494197003992531589439897843132305⟩ ⟨79482838193812466566551157837259655554023322963445081684905365968084510890759, 7672184863734075007806002791435125713704795189780522726534664394466569085246⟩ 115792089237316195168315042505287085950658242185687149123783215153343730024448 115792089237316194913059100001886264048046499705733734208108846298774330408960
      (by
      rw [(by decide : Nat.testBit 115792089237316195168315042505287085950658242185687149123783215153343730024448 255 = true), if_pos rfl, d70]
      exact e70)
      (by decide)
  have d71 : Point.addFast ⟨79482838193812466566551157837259655554023322963445081684905365968084510890759, 7672184863734075007806002791435125713704795189780522726534664394466569085246⟩ ⟨79482838193812466566551157837259655554023322963445081684905365968084510890759, 7672184863734075007806002791435125713704795189780522726534664394466569085246⟩ = ⟨45011685278033515321813982364511916620645766008066947806212234520093824439582, 34690527835625772355571004088162367859861791735781901773434039180099574854618⟩ :=
    (addFast_dbl ⟨79482838193812466566551157837259655554023322963445081684905365968084510890759, 7672184863734075007806002791435125713704795189780522726534664394466569085246⟩
      6864414888612277260801025001524549535745530437506046174495991630762268599249
      (by decide) (by decide) (by decide) (by decide)).trans (by decide)
  have e71 : Point.addFast ⟨45011685278033515321813982364511916620645766008066947806212234520093824439582, 34690527835625772355571004088162367859861791735781901773434039180099574854618⟩ G = ⟨40006824179279478246383979390776198972214066998233568406143078794679478404604, 63911107283045208288170787488200904916503676943126161184424021803573029420439⟩ :=
    (addFast_distinct ⟨45011685278033515321813982364511916620645766008066947806212234520093824439582, 34690527835625772355571004088162367859861791735781901773434039180099574854618⟩ G
      96240442087434612524870832420885627966987389332401399801804075053193517701151
      (by decide) (by decide) (by decide) (by decide)
      (by decide) (by decide)).trans (by decide)
  have t71 : Point.mulLoopF G 186 ⟨79482838193812466566551157837259655554023322963445081684905365968084510890759, 7672184863734075007806002791435125713704795189780522726534664394466569085246⟩ 115792089237316194913059100001886264048046499705733734208108846298774330408960 =
      Point.mulLoopF G 185 ⟨40006824179279478246383979390776198972214066998233568406143078794679478404604, 63911107283045208288170787488200904916503676943126161184424021803573029420439⟩ 115792089237316194402547214995084620242823014745826904376760108589635531177984 :=
    mulLoopF_step 185 ⟨79482838193812466566551157837259655554023322963445081684905365968084510890759, 7672184863734075007806002791435125713704795189780522726534664394466569085246⟩ ⟨40006824179279478246383979390776198972214066998233568406143078794679478404604, 63911107283045208288170787488200904916503676943126161184424021803573029420439⟩ 115792089237316194913059100001886264048046499705733734208108846298774330408960 115792089237316194402547214995084620242823014745826904376760108589635531177984
      (by
      rw [(by decide : Nat.testBit 115792089237316194913059100001886264048046499705733734208108846298774330408960 255 = true), if_pos rfl, d71]
      exact e71)
      (by decide)
  have d72 : Point.addFast ⟨40006824179279478246383979390776198972214066998233568406143078794679478404604, 63911107283045208288170787488200904916503676943126161184424021803573029420439⟩ ⟨40006824179279478246383979390776198972214066998233568406143078794679478404604, 63911107283045208288170787488200904916503676943126161184424021803573029420439⟩ = ⟨109640761196615707159808240374121281203921166279268423934612589322840647533032, 103058750426718694959484477603054717237766739335414786954719492749873922089896⟩ :=
    (addFast_dbl ⟨40006824179279478246383979390776198972214066998233568406143078794679478404604, 63911107283045208288170787488200904916503676943126161184424021803573029420439⟩
      81442473294450030377709097811406209264450938386728721591132324768043187855423
      (by decide) (by decide) (by decide) (by decide)).trans (by decide)
  have e72 : Point.addFast ⟨109640761196615707159808240374121281203921166279268423934612589322840647533032, 103058750426718694959484477603054717237766739335414786954719492749873922089896⟩ G = ⟨44324295561254480448644385315555472422567172545121385136730640228434188212349, 64884880477979079406092136828758632240294980691231793283265141811645097833185⟩ :=
    (addFast_distinct ⟨109640761196615707159808240374121281203921166279268423934612589322840647533032, 103058750426718694959484477603054717237766739335414786954719492749873922089896⟩ G
      64499648074202692928644875873584392571099682231582586660273224520236176595909
      (by decide) (by decide) (by decide) (by decide)
      (by decide) (by decide)).trans (by decide)
  have t72 : Point.mulLoopF G 185 ⟨40006824179279478246383979390776198972214066998233568406143078794679478404604, 63911107283045208288170787488200904916503676943126161184424021803573029420439⟩ 115792089237316194402547214995084620242823014745826904376760108589635531177984 =
      Point.mulLoopF G 184 ⟨44324295561254480448644385315555472422567172545121385136730640228434188212349, 64884880477979079406092136828758632240294980691231793283265141811645097833185⟩ 115792089237316193381523444981481332632376044826013244714062633171357932716032 :=
    mulLoopF_step 184 ⟨40006824179279478246383979390776198972214066998233568406143078794679478404604, 63911107283045208288170787488200904916503676943126161184424021803573029420439⟩ ⟨44324295561254480448644385315555472422567172545121385136730640228434188212349, 64884880477979079406092136828758632240294980691231793283265141811645097833185⟩ 115792089237316194402547214995084620242823014745826904376760108589635531177984 115792089237316193381523444981481332632376044826013244714062633171357932716032
      (by
      rw [(by decide : Nat.testBit 115792089237316194402547214995084620242823014745826904376760108589635531177984 255 = true), if_pos rfl, d72]
      exact e72)
      (by decide)
  have d73 : Point.addFast ⟨44324295561254480448644385315555472422567172545121385136730640228434188212349, 64884880477979079406092136828758632240294980691231793283265141811645097833185⟩ ⟨44324295561254480448644385315555472422567172545121385136730640228434188212349, 64884880477979079406092136828758632240294980691231793283265141811645097833185⟩ = ⟨2157688191658482573776211343691367095964395617868092638890321249708790224040, 58579844167751436422159035990675211415121673575945849322266044022109819873551⟩ :=
    (addFast_dbl ⟨44324295561254480448644385315555472422567172545121385136730640228434188212349, 64884880477979079406092136828758632240294980691231793283265141811645097833185⟩
      45514933799001343181402710000569600491624629724424987492310038126282068937000
      (by decide) (by decide) (by decide) (by decide)).trans (by decide)
  have e73 : Point.addFast ⟨2157688191658482573776211343691367095964395617868092638890321249708790224040, 58579844167751436422159035990675211415121673575945849322266044022109819873551⟩ G = ⟨51762641834137309590377308555800551375204466011196116329469015971162053419513, 48852435339900536910507169123584647636957722179464253582620347324402206618400⟩ :=
    (addFast_distinct ⟨2157688191658482573776211343691367095964395617868092638890321249708790224040, 58579844167751436422159035990675211415121673575945849322266044022109819873551⟩ G
      34223924521918450227446665311699933791335945279803310223643089436189327935825
      (by decide) (by decide) (by decide) (by decide)
      (by decide) (by decide)).trans (by decide)
  have t73 : Point.mulLoopF G 184 ⟨44324295561254480448644385315555472422567172545121385136730640228434188212349, 64884880477979079406092136828758632240294980691231793283265141811645097833185⟩ 115792089237316193381523444981481332632376044826013244714062633171357932716032 =
      Point.mulLoopF G 183 ⟨51762641834137309590377308555800551375204466011196116329469015971162053419513, 48852435339900536910507169123584647636957722179464253582620347324402206618400⟩ 115792089237316191339475904954274757411482104986385925388667682334802735792128 :=
    mulLoopF_step 183 ⟨44324295561254480448644385315555472422567172545121385136730640228434188212349, 64884880477979079406092136828758632240294980691231793283265141811645097833185⟩ ⟨51762641834137309590377308555800551375204466011196116329469015971162053419513, 48852435339900536910507169123584647636957722179464253582620347324402206618400⟩ 115792089237316193381523444981481332632376044826013244714062633171357932716032 115792089237316191339475904954274757411482104986385925388667682334802735792128
      (by
      rw [(by decide : Nat.testBit 115792089237316193381523444981481332632376044826013244714062633171357932716032 255 = true), if_pos rfl, d73]
      exact e73)
      (by decide)
  have d74 : Point.addFast ⟨51762641834137309590377308555800551375204466011196116329469015971162053419513, 48852435339900536910507169123584647636957722179464253582620347324402206618400⟩ ⟨51762641834137309590377308555800551375204466011196116329469015971162053419513, 48852435339900536910507169123584647636957722179464253582620347324402206618400⟩ = ⟨62102185457114994845676853081492923316636682355518641939045186745113414634006, 70718836984125267255805710601981032268889476764699446217400851431247027815387⟩ :=
    (addFast_dbl ⟨51762641834137309590377308555800551375204466011196116329469015971162053419513, 48852435339900536910507169123584647636957722179464253582620347324402206618400⟩
      57016167996343146941329630427173000167829821768387081990806369595940441773399
      (by decide) (by decide) (by decide) (by decide)).trans (by decide)
  have e74 : Point.addFast ⟨62102185457114994845676853081492923316636682355518641939045186745113414634006, 70718836984125267255805710601981032268889476764699446217400851431247027815387⟩ G = ⟨1625358302550356076144877112958928276657823741312782907330610610695073236158, 51504747141565539305902879515269311253106798733493643399988409007227213877039⟩ :=
    (addFast_distinct ⟨62102185457114994845676853081492923316636682355518641939045186745113414634006, 70718836984125267255805710601981032268889476764699446217400851431247027815387⟩ G
      75541237309566922353236201930018357753364748279725414558478692454586586972815
      (by decide) (by decide) (by decide) (by decide)
      (by decide) (by decide)).trans (by decide)
  have t74 : Point.mulLoopF G 183 ⟨51762641834137309590377308555800551375204466011196116329469015971162053419513, 48852435339900536910507169123584647636957722179464253582620347324402206618400⟩ 115792089237316191339475904954274757411482104986385925388667682334802735792128 =
      Point.mulLoopF G 182 ⟨1625358302550356076144877112958928276657823741312782907330610610695073236158, 51504747141565539305902879515269311253106798733493643399988409007227213877039⟩ 115792089237316187255380824899861606969694225307131286737877780661692341944320 :=
    mulLoopF_step 182 ⟨51762641834137309590377308555800551375204466011196116329469015971162053419513, 48852435339900536910507169123584647636957722179464253582620347324402206618400⟩ ⟨1625358302550356076144877112958928276657823741312782907330610610695073236158, 51504747141565539305902879515269311253106798733493643399988409007227213877039⟩ 115792089237316191339475904954274757411482104986385925388667682334802735792128 115792089237316187255380824899861606969694225307131286737877780661692341944320
      (by
      rw [(by decide : Nat.testBit 115792089237316191339475904954274757411482104986385925388667682334802735792128 255 = true), if_pos rfl, d74]
      exact e74)
      (by decide)
  have d75 : Point.addFast ⟨1625358302550356076144877112958928276657823741312782907330610610695073236158, 51504747141565539305902879515269311253106798733493643399988409007227213877039⟩ ⟨1625358302550356076144877112958928276657823741312782907330610610695073236158, 51504747141565539305902879515269311253106798733493643399988409007227213877039⟩ = ⟨84021375352214536460547218956757907786451333989430517933933248782152845367664, 50521851166865010642373556081722262193156768982231191511021417891851271799691⟩ :=
    (addFast_dbl ⟨1625358302550356076144877112958928276657823741312782907330610610695073236158, 51504747141565539305902879515269311253106798733493643399988409007227213877039⟩
      97545867656578821414563179227930848766538265378372079348098921630037723105301
      (by decide) (by decide) (by decide) (by decide)).trans (by decide)
  have e75 : Point.addFast ⟨84021375352214536460547218956757907786451333989430517933933248782152845367664, 50521851166865010642373556081722262193156768982231191511021417891851271799691⟩ G = ⟨67478303162118444572504034558421348318215287021520112672580322163074389198316, 45655519175430922080837987952804273992110774624168523433138214464888681080540⟩ :=
    (addFast_distinct ⟨84021375352214536460547218956757907786451333989430517933933248782152845367664, 50521851166865010642373556081722262193156768982231191511021417891851271799691⟩ G
      90524631179588634508952340634951804482572949715707533177796682137391249658250
      (by decide) (by decide) (by decide) (by decide)
      (by decide) (by decide)).trans (by decide)
  have t75 : Point.mulLoopF G 182 ⟨1625358302550356076144877112958928276657823741312782907330610610695073236158, 51504747141565539305902879515269311253106798733493643399988409007227213877039⟩ 115792089237316187255380824899861606969694225307131286737877780661692341944320 =
      Point.mulLoopF G 181 ⟨67478303162118444572504034558421348318215287021520112672580322163074389198316, 45655519175430922080837987952804273992110774624168523433138214464888681080540⟩ 115792089237316179087190664791035306086118465948622009436297977315471554248704 :=
    mulLoopF_step 181 ⟨1625358302550356076144877112958928276657823741312782907330610610695073236158, 51504747141565539305902879515269311253106798733493643399988409007227213877039⟩ ⟨67478303162118444572504034558421348318215287021520112672580322163074389198316, 45655519175430922080837987952804273992110774624168523433138214464888681080540⟩ 115792089237316187255380824899861606969694225307131286737877780661692341944320 115792089237316179087190664791035306086118465948622009436297977315471554248704
      (by
      rw [(by decide : Nat.testBit 115792089237316187255380824899861606969694225307131286737877780661692341944320 255 = true), if_pos rfl, d75]
      exact e75)
      (by decide)
  have d76 : Point.addFast ⟨67478303162118444572504034558421348318215287021520112672580322163074389198316, 45655519175430922080837987952804273992110774624168523433138214464888681080540⟩ ⟨67478303162118444572504034558421348318215287021520112672580322163074389198316, 45655519175430922080837987952804273992110774624168523433138214464888681080540⟩ = ⟨101493111348930640579671528368810598816830952890235906165605662251140106326096, 48498601024153563452869020294279010803477853873690451329452940112324389676224⟩ :=
    (addFast_dbl ⟨67478303162118444572504034558421348318215287021520112672580322163074389198316, 45655519175430922080837987952804273992110774624168523433138214464888681080540⟩
      97341282324929861143354741432935567310489746401532243222718789249204844083746
      (by decide) (by decide) (by decide) (by decide)).trans (by decide)
  have e76 : Point.addFast ⟨101493111348930640579671528368810598816830952890235906165605662251140106326096, 48498601024153563452869020294279010803477853873690451329452940112324389676224⟩ G = ⟨22450482926355316635789631825502755060507102722041815412186716301088658413126, 49843515169238008942075553046175857807445154680580434101328073400629657380741⟩ :=
    (addFast_distinct ⟨101493111348930640579671528368810598816830952890235906165605662251140106326096, 48498601024153563452869020294279010803477853873690451329452940112324389676224⟩ G
      4821192845989936205816867196235386617923877738852184748394071264796804849263
      (by decide) (by decide) (by decide) (by decide)
      (by decide) (by decide)).trans (by decide)
  have t76 : Point.mulLoopF G 181 ⟨67478303162118444572504034558421348318215287021520112672580322163074389198316, 45655519175430922080837987952804273992110774624168523433138214464888681080540⟩ 115792089237316179087190664791035306086118465948622009436297977315471554248704 =
      Point.mulLoopF G 180 ⟨22450482926355316635789631825502755060507102722041815412186716301088658413126, 49843515169238008942075553046175857807445154680580434101328073400629657380741⟩ 115792089237316162750810344573382704318966947231603454833138370623029978857472 :=
    mulLoopF_step 180 ⟨67478303162118444572504034558421348318215287021520112672580322163074389198316, 45655519175430922080837987952804273992110774624168523433138214464888681080540⟩ ⟨22450482926355316635789631825502755060507102722041815412186716301088658413126, 49843515169238008942075553046175857807445154680580434101328073400629657380741⟩ 115792089237316179087190664791035306086118465948622009436297977315471554248704 115792089237316162750810344573382704318966947231603454833138370623029978857472
      (by
      rw [(by decide : Nat.testBit 115792089237316179087190664791035306086118465948622009436297977315471554248704 255 = true), if_pos rfl, d76]
      exact e76)
      (by decide)
  have d77 : Point.addFast ⟨22450482926355316635789631825502755060507102722041815412186716301088658413126, 49843515169238008942075553046175857807445154680580434101328073400629657380741⟩ ⟨22450482926355316635789631825502755060507102722041815412186716301088658413126, 49843515169238008942075553046175857807445154680580434101328073400629657380741⟩ = ⟨56712877214964810736183720728886056020834529899963675735260574994029113434596, 105660994438182685329509050169214638207951972927072670918447672885598770615056⟩ :=
    (addFast_dbl ⟨22450482926355316635789631825502755060507102722041815412186716301088658413126, 49843515169238008942075553046175857807445154680580434101328073400629657380741⟩
      223390087805385307919460970621372948657672389839629788414533799368514948784
      (by decide) (by decide) (by decide) (by decide)).trans (by decide)
  have e77 : Point.addFast ⟨56712877214964810736183720728886056020834529899963675735260574994029113434596, 105660994438182685329509050169214638207951972927072670918447672885598770615056⟩ G = ⟨96926370804713869128289460776553568157131032007905625868569623436326437691755, 23252823836962129902354028496893626010132898403894580632794492175875151189457⟩ :=
    (addFast_distinct ⟨56712877214964810736183720728886056020834529899963675735260574994029113434596, 105660994438182685329509050169214638207951972927072670918447672885598770615056⟩ G
      115660655784515896404097387540971443944123856139943286240825600506583749456816
      (by decide) (by decide) (by decide) (by decide)
      (by decide) (by decide)).trans (by decide)
  have t77 : Point.mulLoopF G 180 ⟨22450482926355316635789631825502755060507102722041815412186716301088658413126, 49843515169238008942075553046175857807445154680580434101328073400629657380741⟩ 115792089237316162750810344573382704318966947231603454833138370623029978857472 =
      Point.mulLoopF G 179 ⟨96926370804713869128289460776553568157131032007905625868569623436326437691755, 23252823836962129902354028496893626010132898403894580632794492175875151189457⟩ 115792089237316130078049704138077500784663909797566345626819157238146828075008 :=
    mulLoopF_step 179 ⟨22450482926355316635789631825502755060507102722041815412186716301088658413126, 49843515169238008942075553046175857807445154680580434101328073400629657380741⟩ ⟨96926370804713869128289460776553568157131032007905625868569623436326437691755, 23252823836962129902354028496893626010132898403894580632794492175875151189457⟩ 115792089237316162750810344573382704318966947231603454833138370623029978857472 115792089237316130078049704138077500784663909797566345626819157238146828075008
      (by
      rw [(by decide : Nat.testBit 115792089237316162750810344573382704318966947231603454833138370623029978857472 255 = true), if_pos rfl, d77]
      exact e77)
      (by decide)
  have d78 : Point.addFast ⟨96926370804713869128289460776553568157131032007905625868569623436326437691755, 23252823836962129902354028496893626010132898403894580632794492175875151189457⟩ ⟨96926370804713869128289460776553568157131032007905625868569623436326437691755, 23252823836962129902354028496893626010132898403894580632794492175875151189457⟩ = ⟨31437653471361162506132906954426246341245000964634733178415929522621137083372, 63773341043204184721426994829588998650933827985151956417939028472781314891002⟩ :=
    (addFast_dbl ⟨96926370804713869128289460776553568157131032007905625868569623436326437691755, 23252823836962129902354028496893626010132898403894580632794492175875151189457⟩
      84611213077022989199952655141429080448670345984277071631148982222487317525985
      (by decide) (by decide) (by decide) (by decide)).trans (by decide)
  have e78 : Point.addFast ⟨31437653471361162506132906954426246341245000964634733178415929522621137083372, 63773341043204184721426994829588998650933827985151956417939028472781314891002⟩ G = ⟨9439408293664874412278516496081650999501770165545632430228224246191489170530, 98545225526333006892662513911404721585272398614584929792248874790367090290029⟩ :=
    (addFast_distinct ⟨31437653471361162506132906954426246341245000964634733178415929522621137083372, 63773341043204184721426994829588998650933827985151956417939028472781314891002⟩ G
      39818891792960238518906802288121685789540624596202951669914725590014071886913
      (by decide) (by decide) (by decide) (by decide)
      (by decide) (by decide)).trans (by decide)
  have t78 : Point.mulLoopF G 179 ⟨96926370804713869128289460776553568157131032007905625868569623436326437691755, 23252823836962129902354028496893626010132898403894580632794492175875151189457⟩ 115792089237316130078049704138077500784663909797566345626819157238146828075008 =
      Point.mulLoopF G 178 ⟨9439408293664874412278516496081650999501770165545632430228224246191489170530, 98545225526333006892662513911404721585272398614584929792248874790367090290029⟩ 115792089237316064732528423267467093716057834929492127214180730468380526510080 :=
    mulLoopF_step 178 ⟨96926370804713869128289460776553568157131032007905625868569623436326437691755, 23252823836962129902354028496893626010132898403894580632794492175875151189457⟩ ⟨9439408293664874412278516496081650999501770165545632430228224246191489170530, 98545225526333006892662513911404721585272398614584929792248874790367090290029⟩ 115792089237316130078049704138077500784663909797566345626819157238146828075008 115792089237316064732528423267467093716057834929492127214180730468380526510080
      (by
      rw [(by decide : Nat.testBit 115792089237316130078049704138077500784663909797566345626819157238146828075008 255 = true), if_pos rfl, d78]
      exact e78)
      (by decide)
  have d79 : Point.addFast ⟨9439408293664874412278516496081650999501770165545632430228224246191489170530, 98545225526333006892662513911404721585272398614584929792248874790367090290029⟩ ⟨9439408293664874412278516496081650999501770165545632430228224246191489170530, 98545225526333006892662513911404721585272398614584929792248874790367090290029⟩ = ⟨16423372235130632948134777293211830112240867744586614974329893160444020798778, 102942427694018876676790542873352064161098428892507225116875133849809523483770⟩ :=
    (addFast_dbl ⟨9439408293664874412278516496081650999501770165545632430228224246191489170530, 98545225526333006892662513911404721585272398614584929792248874790367090290029⟩
      79279645765051900220423066098950848987253032265756990614236750668313309698973
      (by decide) (by decide) (by decide) (by decide)).trans (by decide)
  have e79 : Point.addFast ⟨16423372235130632948134777293211830112240867744586614974329893160444020798778, 102942427694018876676790542873352064161098428892507225116875133849809523483770⟩ G = ⟨49834199044402751342403980214968796739324455725387256194389274551610849691351, 7409681337355278749505730871264480955432653060401635616427995442845443765261⟩ :=
    (addFast_distinct ⟨16423372235130632948134777293211830112240867744586614974329893160444020798778, 102942427694018876676790542873352064161098428892507225116875133849809523483770⟩ G
      63991233981710534416133289284360715773495777291982961758293995597729077034604
      (by decide) (by decide) (by decide) (by decide)
      (by decide) (by decide)).trans (by decide)
  have t79 : Point.mulLoopF G 178 ⟨9439408293664874412278516496081650999501770165545632430228224246191489170530, 98545225526333006892662513911404721585272398614584929792248874790367090290029⟩ 115792089237316064732528423267467093716057834929492127214180730468380526510080 =
      Point.mulLoopF G 177 ⟨49834199044402751342403980214968796739324455725387256194389274551610849691351, 7409681337355278749505730871264480955432653060401635616427995442845443765261⟩ 115792089237315934041485861526246279578845685193343690388903876928847923380224 :=
    mulLoopF_step 177 ⟨9439408293664874412278516496081650999501770165545632430228224246191489170530, 98545225526333006892662513911404721585272398614584929792248874790367090290029⟩ ⟨49834199044402751342403980214968796739324455725387256194389274551610849691351, 7409681337355278749505730871264480955432653060401635616427995442845443765261⟩ 115792089237316064732528423267467093716057834929492127214180730468380526510080 115792089237315934041485861526246279578845685193343690388903876928847923380224
      (by
      rw [(by decide : Nat.testBit 115792089237316064732528423267467093716057834929492127214180730468380526510080 255 = true), if_pos rfl, d79]
      exact e79)
      (by decide)
  have d80 : Point.addFast ⟨49834199044402751342403980214968796739324455725387256194389274551610849691351, 7409681337355278749505730871264480955432653060401635616427995442845443765261⟩ ⟨49834199044402751342403980214968796739324455725387256194389274551610849691351, 7409681337355278749505730871264480955432653060401635616427995442845443765261⟩ = ⟨30685596459897934519258273022417673219968426882391225764609607083830729325381, 99305598551240114923359420875677959357861463322711779340263181189097252683794⟩ :=
    (addFast_dbl ⟨49834199044402751342403980214968796739324455725387256194389274551610849691351, 7409681337355278749505730871264480955432653060401635616427995442845443765261⟩
      54928326455378489284989027186556024407592032229428831339047588760823155601002
      (by decide) (by decide) (by decide) (by decide)).trans (by decide)
  have e80 : Point.addFast ⟨30685596459897934519258273022417673219968426882391225764609607083830729325381, 99305598551240114923359420875677959357861463322711779340263181189097252683794⟩ G = ⟨72377952735338845254336429394882820024390462803578547242704692126200452442878, 107718924346953345005121608508382869193128446322347507670229170755489356619013⟩ :=
    (addFast_distinct ⟨30685596459897934519258273022417673219968426882391225764609607083830729325381, 99305598551240114923359420875677959357861463322711779340263181189097252683794⟩ G
      39642819815159732085490677587483535172042492738680670703302944462287397952083
      (by decide) (by decide) (by decide) (by decide)
      (by decide) (by decide)).trans (by decide)
  have t80 : Point.mulLoopF G 177 ⟨49834199044402751342403980214968796739324455725387256194389274551610849691351, 7409681337355278749505730871264480955432653060401635616427995442845443765261⟩ 115792089237315934041485861526246279578845685193343690388903876928847923380224 =
      Point.mulLoopF G 176 ⟨72377952735338845254336429394882820024390462803578547242704692126200452442878, 107718924346953345005121608508382869193128446322347507670229170755489356619013⟩ 115792089237315672659400738043804651304421385721046816738350169849782717120512 :=
    mulLoopF_step 176 ⟨49834199044402751342403980214968796739324455725387256194389274551610849691351, 7409681337355278749505730871264480955432653060401635616427995442845443765261⟩ ⟨72377952735338845254336429394882820024390462803578547242704692126200452442878, 107718924346953345005121608508382869193128446322347507670229170755489356619013⟩ 115792089237315934041485861526246279578845685193343690388903876928847923380224 115792089237315672659400738043804651304421385721046816738350169849782717120512
      (by
      rw [(by decide : Nat.testBit 115792089237315934041485861526246279578845685193343690388903876928847923380224 255 = true), if_pos rfl, d80]
      exact e80)
      (by decide)
  rw [t65, t66, t67, t68, t69, t70, t71, t72, t73, t74, t75, t76, t77, t78, t79, t80]

set_option maxHeartbeats 1600000 in
/-- Segment 6 of the certified double-and-add trace of the generator
multiplied by the group order: iterations 81 to 96, each point
addition discharged through a precomputed modular-inverse certificate. -/
theorem mulG_seg6 : Point.mulLoopF G 176 ⟨72377952735338845254336429394882820024390462803578547242704692126200452442878, 107718924346953345005121608508382869193128446322347507670229170755489356619013⟩ 115792089237315672659400738043804651304421385721046816738350169849782717120512 =
    Point.mulLoopF G 160 ⟨5183438368247823987934399863722173059875496618660569865721429870666379617877, 115067447288329648966706540646687111117073724853801414676526903346642653874806⟩ 115792089203056322762265894419586722511489551769817438663963316773198256668672 := by
  have d81 : Point.addFast ⟨72377952735338845254336429394882820024390462803578547242704692126200452442878, 107718924346953345005121608508382869193128446322347507670229170755489356619013⟩ ⟨72377952735338845254336429394882820024390462803578547242704692126200452442878, 107718924346953345005121608508382869193128446322347507670229170755489356619013⟩ = ⟨42798752998582824759067578710856426602332077189262133533566314498456649260001, 95981680123127825853390492936344144571169831725580185218231256961771265452263⟩ :=
    (addFast_dbl ⟨72377952735338845254336429394882820024390462803578547242704692126200452442878, 107718924346953345005121608508382869193128446322347507670229170755489356619013⟩
      9494378758067033708896153983354477229183619852932934078403378543617586961071
      (by decide) (by decide) (by decide) (by decide)).trans (by decide)
  have e81 : Point.addFast ⟨42798752998582824759067578710856426602332077189262133533566314498456649260001, 95981680123127825853390492936344144571169831725580185218231256961771265452263⟩ G = ⟨39261184883770600215447004450698348776246648887622688659900461760596352567901, 97866594687121262928169170491681964441544535216784462345826602066268902847490⟩ :=
    (addFast_distinct ⟨42798752998582824759067578710856426602332077189262133533566314498456649260001, 95981680123127825853390492936344144571169831725580185218231256961771265452263⟩ G
      115436401405620259963464087130692851732289600847151730014715048129081597146425
      (by decide) (by decide) (by decide) (by decide)
      (by decide) (by decide)).trans (by decide)
  have t81 : Point.mulLoopF G 176 ⟨72377952735338845254336429394882820024390462803578547242704692126200452442878, 107718924346953345005121608508382869193128446322347507670229170755489356619013⟩ 115792089237315672659400738043804651304421385721046816738350169849782717120512 =
      Point.mulLoopF G 175 ⟨39261184883770600215447004450698348776246648887622688659900461760596352567901, 97866594687121262928169170491681964441544535216784462345826602066268902847490⟩ 115792089237315149895230491078921394755572786776453069437242755691652304601088 :=
    mulLoopF_step 175 ⟨72377952735338845254336429394882820024390462803578547242704692126200452442878, 107718924346953345005121608508382869193128446322347507670229170755489356619013⟩ ⟨39261184883770600215447004450698348776246648887622688659900461760596352567901, 97866594687121262928169170491681964441544535216784462345826602066268902847490⟩ 115792089237315672659400738043804651304421385721046816738350169849782717120512 115792089237315149895230491078921394755572786776453069437242755691652304601088
      (by
      rw [(by decide : Nat.testBit 115792089237315672659400738043804651304421385721046816738350169849782717120512 255 = true), if_pos rfl, d81]
      exact e81)
      (by decide)
  have d82 : Point.addFast ⟨39261184883770600215447004450698348776246648887622688659900461760596352567901, 97866594687121262928169170491681964441544535216784462345826602066268902847490⟩ ⟨39261184883770600215447004450698348776246648887622688659900461760596352567901, 97866594687121262928169170491681964441544535216784462345826602066268902847490⟩ = ⟨93254506469085774650194021267996982171438117325042175510031262549657011199734, 74789449349581692497001848880286485092429918174859528925290026580203064630883⟩ :=
    (addFast_dbl ⟨39261184883770600215447004450698348776246648887622688659900461760596352567901, 97866594687121262928169170491681964441544535216784462345826602066268902847490⟩
      36305754610726448602853588215668336947313312003343489426968803279539285739697
      (by decide) (by decide) (by decide) (by decide)).trans (by decide)
  have e82 : Point.addFast ⟨93254506469085774650194021267996982171438117325042175510031262549657011199734, 74789449349581692497001848880286485092429918174859528925290026580203064630883⟩ G = ⟨78391608898286991109340831172841046674056218500992096819680074474155289461748, 54379522251155358386601140265712536356632695247176263483288813044983599475409⟩ :=
    (addFast_distinct ⟨93254506469085774650194021267996982171438117325042175510031262549657011199734, 74789449349581692497001848880286485092429918174859528925290026580203064630883⟩ G
      54089452573077860502565604909583258856854887227232437576230802416295565321418
      (by decide) (by decide) (by decide) (by decide)
      (by decide) (by decide)).trans (by decide)
  have t82 : Point.mulLoopF G 175 ⟨39261184883770600215447004450698348776246648887622688659900461760596352567901, 97866594687121262928169170491681964441544535216784462345826602066268902847490⟩ 115792089237315149895230491078921394755572786776453069437242755691652304601088 =
      Point.mulLoopF G 174 ⟨78391608898286991109340831172841046674056218500992096819680074474155289461748, 54379522251155358386601140265712536356632695247176263483288813044983599475409⟩ 115792089237314104366889997149154881657875588887265574835027927375391479562240 :=
    mulLoopF_step 174 ⟨39261184883770600215447004450698348776246648887622688659900461760596352567901, 97866594687121262928169170491681964441544535216784462345826602066268902847490⟩ ⟨78391608898286991109340831172841046674056218500992096819680074474155289461748, 54379522251155358386601140265712536356632695247176263483288813044983599475409⟩ 115792089237315149895230491078921394755572786776453069437242755691652304601088 115792089237314104366889997149154881657875588887265574835027927375391479562240
      (by
      rw [(by decide : Nat.testBit 115792089237315149895230491078921394755572786776453069437242755691652304601088 255 = true), if_pos rfl, d82]
      exact e82)
      (by decide)
  have d83 : Point.addFast ⟨78391608898286991109340831172841046674056218500992096819680074474155289461748, 54379522251155358386601140265712536356632695247176263483288813044983599475409⟩ ⟨78391608898286991109340831172841046674056218500992096819680074474155289461748, 54379522251155358386601140265712536356632695247176263483288813044983599475409⟩ = ⟨6729052514778949745814559992468078507671806883691110031253608856400752508469, 58796928038034460752127296492896850966052649581762568158129419155636566250757⟩ :=
    (addFast_dbl ⟨78391608898286991109340831172841046674056218500992096819680074474155289461748, 54379522251155358386601140265712536356632695247176263483288813044983599475409⟩
      109121281940427593279306823093564424599215512153658389268571198015167175564204
      (by decide) (by decide) (by decide) (by decide)).trans (by decide)
  have e83 : Point.addFast ⟨6729052514778949745814559992468078507671806883691110031253608856400752508469, 58796928038034460752127296492896850966052649581762568158129419155636566250757⟩ G = ⟨4998765799601109863848317745685921768817201777791150648007554562543172356152, 24183410519953040633026237345180369153815915420979200924045974595689469370254⟩ :=
    (addFast_distinct ⟨6729052514778949745814559992468078507671806883691110031253608856400752508469, 58796928038034460752127296492896850966052649581762568158129419155636566250757⟩ G
      42723126825874364804811889591622803199488608170067493286056836187484543588129
      (by decide) (by decide) (by decide) (by decide)
      (by decide) (by decide)).trans (by decide)
  have t83 : Point.mulLoopF G 174 ⟨78391608898286991109340831172841046674056218500992096819680074474155289461748, 54379522251155358386601140265712536356632695247176263483288813044983599475409⟩ 115792089237314104366889997149154881657875588887265574835027927375391479562240 =
      Point.mulLoopF G 173 ⟨4998765799601109863848317745685921768817201777791150648007554562543172356152, 24183410519953040633026237345180369153815915420979200924045974595689469370254⟩ 115792089237312013310209009289621855462481193108890585630598270742869829484544 :=
    mulLoopF_step 173 ⟨78391608898286991109340831172841046674056218500992096819680074474155289461748, 54379522251155358386601140265712536356632695247176263483288813044983599475409⟩ ⟨4998765799601109863848317745685921768817201777791150648007554562543172356152, 24183410519953040633026237345180369153815915420979200924045974595689469370254⟩ 115792089237314104366889997149154881657875588887265574835027927375391479562240 115792089237312013310209009289621855462481193108890585630598270742869829484544
      (by
      rw [(by decide : Nat.testBit 115792089237314104366889997149154881657875588887265574835027927375391479562240 255 = true), if_pos rfl, d83]
      exact e83)
      (by decide)
  have d84 : Point.addFast ⟨4998765799601109863848317745685921768817201777791150648007554562543172356152, 24183410519953040633026237345180369153815915420979200924045974595689469370254⟩ ⟨4998765799601109863848317745685921768817201777791150648007554562543172356152, 24183410519953040633026237345180369153815915420979200924045974595689469370254⟩ = ⟨92789546240918323037276140540093360493868053160549584992489873508727482241315, 4122864374429390156221597088512502581870957103363902058631539732140726278953⟩ :=
    (addFast_dbl ⟨4998765799601109863848317745685921768817201777791150648007554562543172356152, 24183410519953040633026237345180369153815915420979200924045974595689469370254⟩
      96029594892976097281607659860691053255229092876084288861184554978953909308860
      (by decide) (by decide) (by decide) (by decide)).trans (by decide)
  have e84 : Point.addFast ⟨92789546240918323037276140540093360493868053160549584992489873508727482241315, 4122864374429390156221597088512502581870957103363902058631539732140726278953⟩ G = ⟨75037641525330548438366345211249800454023883339528549724724326336040899951780, 78087127835062635979478142873227887799376173229474834051048138993141344992239⟩ :=
    (addFast_distinct ⟨92789546240918323037276140540093360493868053160549584992489873508727482241315, 4122864374429390156221597088512502581870957103363902058631539732140726278953⟩ G
      43147575864068293898950331974023286720965348178925448184659118811924601526182
      (by decide) (by decide) (by decide) (by decide)
      (by decide) (by decide)).trans (by decide)
  have t84 : Point.mulLoopF G 173 ⟨4998765799601109863848317745685921768817201777791150648007554562543172356152, 24183410519953040633026237345180369153815915420979200924045974595689469370254⟩ 115792089237312013310209009289621855462481193108890585630598270742869829484544 =
      Point.mulLoopF G 172 ⟨75037641525330548438366345211249800454023883339528549724724326336040899951780, 78087127835062635979478142873227887799376173229474834051048138993141344992239⟩ 115792089237307831196847033570555803071692401552140607221738957477826529329152 :=
    mulLoopF_step 172 ⟨4998765799601109863848317745685921768817201777791150648007554562543172356152, 24183410519953040633026237345180369153815915420979200924045974595689469370254⟩ ⟨75037641525330548438366345211249800454023883339528549724724326336040899951780, 78087127835062635979478142873227887799376173229474834051048138993141344992239⟩ 115792089237312013310209009289621855462481193108890585630598270742869829484544 115792089237307831196847033570555803071692401552140607221738957477826529329152
      (by
      rw [(by decide : Nat.testBit 115792089237312013310209009289621855462481193108890585630598270742869829484544 255 = true), if_pos rfl, d84]
      exact e84)
      (by decide)
  have d85 : Point.addFast ⟨75037641525330548438366345211249800454023883339528549724724326336040899951780, 78087127835062635979478142873227887799376173229474834051048138993141344992239⟩ ⟨75037641525330548438366345211249800454023883339528549724724326336040899951780, 78087127835062635979478142873227887799376173229474834051048138993141344992239⟩ = ⟨10452049731724109972559368991889308066815565751936853593704076703425731834970, 73138108142333356652323368264617711853133425993778190891680280471571486658319⟩ :=
    (addFast_dbl ⟨75037641525330548438366345211249800454023883339528549724724326336040899951780, 78087127835062635979478142873227887799376173229474834051048138993141344992239⟩
      94297297973541490460092571537699143102214929950584797128127710489341107982530
      (by decide) (by decide) (by decide) (by decide)).trans (by decide)
  have e85 : Point.addFast ⟨10452049731724109972559368991889308066815565751936853593704076703425731834970, 73138108142333356652323368264617711853133425993778190891680280471571486658319⟩ G = ⟨17426941972997457114419396342801255422479936823522368424444413012512492841678, 79380105453532112637073441233597122529064501807957802003095822434313040682634⟩ :=
    (addFast_distinct ⟨10452049731724109972559368991889308066815565751936853593704076703425731834970, 73138108142333356652323368264617711853133425993778190891680280471571486658319⟩ G
      39379790808925066198037951498771529214829778699618131955325638728265566094365
      (by decide) (by decide) (by decide) (by decide)
      (by decide) (by decide)).trans (by decide)
  have t85 : Point.mulLoopF G 172 ⟨75037641525330548438366345211249800454023883339528549724724326336040899951780, 78087127835062635979478142873227887799376173229474834051048138993141344992239⟩ 115792089237307831196847033570555803071692401552140607221738957477826529329152 =
      Point.mulLoopF G 171 ⟨17426941972997457114419396342801255422479936823522368424444413012512492841678, 79380105453532112637073441233597122529064501807957802003095822434313040682634⟩ 115792089237299466970123082132423698290114818438640650404020330947739929018368 :=
    mulLoopF_step 171 ⟨75037641525330548438366345211249800454023883339528549724724326336040899951780, 78087127835062635979478142873227887799376173229474834051048138993141344992239⟩ ⟨17426941972997457114419396342801255422479936823522368424444413012512492841678, 79380105453532112637073441233597122529064501807957802003095822434313040682634⟩ 115792089237307831196847033570555803071692401552140607221738957477826529329152 115792089237299466970123082132423698290114818438640650404020330947739929018368
      (by
      rw [(by decide : Nat.testBit 115792089237307831196847033570555803071692401552140607221738957477826529329152 255 = true), if_pos rfl, d85]
      exact e85)
      (by decide)
  have d86 : Point.addFast ⟨17426941972997457114419396342801255422479936823522368424444413012512492841678, 79380105453532112637073441233597122529064501807957802003095822434313040682634⟩ ⟨17426941972997457114419396342801255422479936823522368424444413012512492841678, 79380105453532112637073441233597122529064501807957802003095822434313040682634⟩ = ⟨97323482397396838185691498016191996947978336020737436900564706374149035474399, 55082059288432353585971265205167535961458372362525037522150114936020789143675⟩ :=
    (addFast_dbl ⟨17426941972997457114419396342801255422479936823522368424444413012512492841678, 79380105453532112637073441233597122529064501807957802003095822434313040682634⟩
      88032218557462408844019241173670533680332026141867634427933534631837235525860
      (by decide) (by decide) (by decide) (by decide)).trans (by decide)
  have e86 : Point.addFast ⟨97323482397396838185691498016191996947978336020737436900564706374149035474399, 55082059288432353585971265205167535961458372362525037522150114936020789143675⟩ G = ⟨26347203382034468033080519127286096502355415302567320409996544909172235566217, 85432587551390156173118841594382432269569274666841517319523891318444222352484⟩ :=
    (addFast_distinct ⟨97323482397396838185691498016191996947978336020737436900564706374149035474399, 55082059288432353585971265205167535961458372362525037522150114936020789143675⟩ G
      112544417948050014354159458688561902096114025040828622603081689284546078618256
      (by decide) (by decide) (by decide) (by decide)
      (by decide) (by decide)).trans (by decide)
  have t86 : Point.mulLoopF G 171 ⟨17426941972997457114419396342801255422479936823522368424444413012512492841678, 79380105453532112637073441233597122529064501807957802003095822434313040682634⟩ 115792089237299466970123082132423698290114818438640650404020330947739929018368 =
      Point.mulLoopF G 170 ⟨26347203382034468033080519127286096502355415302567320409996544909172235566217, 85432587551390156173118841594382432269569274666841517319523891318444222352484⟩ 115792089237282738516675179256159488726959652211640736768583077887566728396800 :=
    mulLoopF_step 170 ⟨17426941972997457114419396342801255422479936823522368424444413012512492841678, 79380105453532112637073441233597122529064501807957802003095822434313040682634⟩ ⟨26347203382034468033080519127286096502355415302567320409996544909172235566217, 85432587551390156173118841594382432269569274666841517319523891318444222352484⟩ 115792089237299466970123082132423698290114818438640650404020330947739929018368 115792089237282738516675179256159488726959652211640736768583077887566728396800
      (by
      rw [(by decide : Nat.testBit 115792089237299466970123082132423698290114818438640650404020330947739929018368 255 = true), if_pos rfl, d86]
      exact e86)
      (by decide)
  have d87 : Point.addFast ⟨26347203382034468033080519127286096502355415302567320409996544909172235566217, 85432587551390156173118841594382432269569274666841517319523891318444222352484⟩ ⟨26347203382034468033080519127286096502355415302567320409996544909172235566217, 85432587551390156173118841594382432269569274666841517319523891318444222352484⟩ = ⟨87127510385202538299241513715807412919880742065217147801049528016068620318002, 76337950095782836780121061642009599846047063496869321402711548790366459131123⟩ :=
    (addFast_dbl ⟨26347203382034468033080519127286096502355415302567320409996544909172235566217, 85432587551390156173118841594382432269569274666841517319523891318444222352484⟩
      41886048085791338759826433237164922066664383899961279590267175381496805770826
      (by decide) (by decide) (by decide) (by decide)).trans (by decide)
  have e87 : Point.addFast ⟨87127510385202538299241513715807412919880742065217147801049528016068620318002, 76337950095782836780121061642009599846047063496869321402711548790366459131123⟩ G = ⟨18166280485767914275545975574292819229859271261254471508564439756641624649491, 83135691512334951658475270306757335662523759747013565029786942549106432938249⟩ :=
    (addFast_distinct ⟨87127510385202538299241513715807412919880742065217147801049528016068620318002, 76337950095782836780121061642009599846047063496869321402711548790366459131123⟩ G
      57657552913642935417134923134648175096428890505826635226824380340331035871893
      (by decide) (by decide) (by decide) (by decide)
      (by decide) (by decide)).trans (by decide)
  have t87 : Point.mulLoopF G 170 ⟨26347203382034468033080519127286096502355415302567320409996544909172235566217, 85432587551390156173118841594382432269569274666841517319523891318444222352484⟩ 115792089237282738516675179256159488726959652211640736768583077887566728396800 =
      Point.mulLoopF G 169 ⟨18166280485767914275545975574292819229859271261254471508564439756641624649491, 83135691512334951658475270306757335662523759747013565029786942549106432938249⟩ 115792089237249281609779373503631069600649319757640909497708571767220327153664 :=
    mulLoopF_step 169 ⟨26347203382034468033080519127286096502355415302567320409996544909172235566217, 85432587551390156173118841594382432269569274666841517319523891318444222352484⟩ ⟨18166280485767914275545975574292819229859271261254471508564439756641624649491, 83135691512334951658475270306757335662523759747013565029786942549106432938249⟩ 115792089237282738516675179256159488726959652211640736768583077887566728396800 115792089237249281609779373503631069600649319757640909497708571767220327153664
      (by
      rw [(by decide : Nat.testBit 115792089237282738516675179256159488726959652211640736768583077887566728396800 255 = true), if_pos rfl, d87]
      exact e87)
      (by decide)
  have d88 : Point.addFast ⟨18166280485767914275545975574292819229859271261254471508564439756641624649491, 83135691512334951658475270306757335662523759747013565029786942549106432938249⟩ ⟨18166280485767914275545975574292819229859271261254471508564439756641624649491, 83135691512334951658475270306757335662523759747013565029786942549106432938249⟩ = ⟨64864708946798330474105088098592793349651973290214925167802004816837499641554, 67439243556370894799106982633335286556282588608359389011658975901278040562667⟩ :=
    (addFast_dbl ⟨18166280485767914275545975574292819229859271261254471508564439756641624649491, 83135691512334951658475270306757335662523759747013565029786942549106432938249⟩
      70259787839978616448701342016683844851371520264123807354163664590342832027386
      (by decide) (by decide) (by decide) (by decide)).trans (by decide)
  have e88 : Point.addFast ⟨64864708946798330474105088098592793349651973290214925167802004816837499641554, 67439243556370894799106982633335286556282588608359389011658975901278040562667⟩ G = ⟨18816364958072231856799819589858268710233117078719091626661525339504360003754, 36867892477737698968889535658786426153182090557884436555791874656876469945088⟩ :=
    (addFast_distinct ⟨64864708946798330474105088098592793349651973290214925167802004816837499641554, 67439243556370894799106982633335286556282588608359389011658975901278040562667⟩ G
      72439617168240950253467558457459957315960901565486586842986124806925964144471
      (by decide) (by decide) (by decide) (by decide)
      (by decide) (by decide)).trans (by decide)
  have t88 : Point.mulLoopF G 169 ⟨18166280485767914275545975574292819229859271261254471508564439756641624649491, 83135691512334951658475270306757335662523759747013565029786942549106432938249⟩ 115792089237249281609779373503631069600649319757640909497708571767220327153664 =
      Point.mulLoopF G 168 ⟨18816364958072231856799819589858268710233117078719091626661525339504360003754, 36867892477737698968889535658786426153182090557884436555791874656876469945088⟩ 115792089237182367795987761998574231348028654849641254955959559526527524667392 :=
    mulLoopF_step 168 ⟨18166280485767914275545975574292819229859271261254471508564439756641624649491, 83135691512334951658475270306757335662523759747013565029786942549106432938249⟩ ⟨18816364958072231856799819589858268710233117078719091626661525339504360003754, 36867892477737698968889535658786426153182090557884436555791874656876469945088⟩ 115792089237249281609779373503631069600649319757640909497708571767220327153664 115792089237182367795987761998574231348028654849641254955959559526527524667392
      (by
      rw [(by decide : Nat.testBit 115792089237249281609779373503631069600649319757640909497708571767220327153664 255 = true), if_pos rfl, d88]
      exact e88)
      (by decide)
  have d89 : Point.addFast ⟨18816364958072231856799819589858268710233117078719091626661525339504360003754, 36867892477737698968889535658786426153182090557884436555791874656876469945088⟩ ⟨18816364958072231856799819589858268710233117078719091626661525339504360003754, 36867892477737698968889535658786426153182090557884436555791874656876469945088⟩ = ⟨56448770304428247253428940429019270694474680778067591451797099252581420881196, 102266107619273362166641792297090810684098628075338628817683390819199633086848⟩ :=
    (addFast_dbl ⟨18816364958072231856799819589858268710233117078719091626661525339504360003754, 36867892477737698968889535658786426153182090557884436555791874656876469945088⟩
      78163804919805342389797270483069776170629907540094320647904898430815903645977
      (by decide) (by decide) (by decide) (by decide)).trans (by decide)
  have e89 : Point.addFast ⟨56448770304428247253428940429019270694474680778067591451797099252581420881196, 102266107619273362166641792297090810684098628075338628817683390819199633086848⟩ G = ⟨1799958418549200200132778447850746373764127634947205756770292519586026677000, 17444440728881949095944644608642750871019737053155692375178107984761597234796⟩ :=
    (addFast_distinct ⟨56448770304428247253428940429019270694474680778067591451797099252581420881196, 102266107619273362166641792297090810684098628075338628817683390819199633086848⟩ G
      65378460231820725378131680287917189776944486561757214662908547885275176117576
      (by decide) (by decide) (by decide) (by decide)
      (by decide) (by decide)).trans (by decide)
  have t89 : Point.mulLoopF G 168 ⟨18816364958072231856799819589858268710233117078719091626661525339504360003754, 36867892477737698968889535658786426153182090557884436555791874656876469945088⟩ 115792089237182367795987761998574231348028654849641254955959559526527524667392 =
      Point.mulLoopF G 167 ⟨1799958418549200200132778447850746373764127634947205756770292519586026677000, 17444440728881949095944644608642750871019737053155692375178107984761597234796⟩ 115792089237048540168404538988460554842787325033641945872461535045141919694848 :=
    mulLoopF_step 167 ⟨18816364958072231856799819589858268710233117078719091626661525339504360003754, 36867892477737698968889535658786426153182090557884436555791874656876469945088⟩ ⟨1799958418549200200132778447850746373764127634947205756770292519586026677000, 17444440728881949095944644608642750871019737053155692375178107984761597234796⟩ 115792089237182367795987761998574231348028654849641254955959559526527524667392 115792089237048540168404538988460554842787325033641945872461535045141919694848
      (by
      rw [(by decide : Nat.testBit 115792089237182367795987761998574231348028654849641254955959559526527524667392 255 = true), if_pos rfl, d89]
      exact e89)
      (by decide)
  have d90 : Point.addFast ⟨1799958418549200200132778447850746373764127634947205756770292519586026677000, 17444440728881949095944644608642750871019737053155692375178107984761597234796⟩ ⟨1799958418549200200132778447850746373764127634947205756770292519586026677000, 17444440728881949095944644608642750871019737053155692375178107984761597234796⟩ = ⟨3486636820777030922682234469650544043588200249076528923594876627024785186153, 114802838501364451778504750903690045509994959307097469330109347162145156195943⟩ :=
    (addFast_dbl ⟨1799958418549200200132778447850746373764127634947205756770292519586026677000, 17444440728881949095944644608642750871019737053155692375178107984761597234796⟩
      34730525647935174542779018953472655457390482083653822708342579578614466708099
      (by decide) (by decide) (by decide) (by decide)).trans (by decide)
  have e90 : Point.addFast ⟨3486636820777030922682234469650544043588200249076528923594876627024785186153, 114802838501364451778504750903690045509994959307097469330109347162145156195943⟩ G = ⟨25162227753871020661883726056543797977961407938269493839802606642524493540353, 50008501253211635306150125218852786748906376747377421695413396692554436804037⟩ :=
    (addFast_distinct ⟨3486636820777030922682234469650544043588200249076528923594876627024785186153, 114802838501364451778504750903690045509994959307097469330109347162145156195943⟩ G
      94975257630471051229987065200034237968489978211530884694124355303827884118220
      (by decide) (by decide) (by decide) (by decide)
      (by decide) (by decide)).trans (by decide)
  have t90 : Point.mulLoopF G 167 ⟨1799958418549200200132778447850746373764127634947205756770292519586026677000, 17444440728881949095944644608642750871019737053155692375178107984761597234796⟩ 115792089237048540168404538988460554842787325033641945872461535045141919694848 =
      Point.mulLoopF G 166 ⟨25162227753871020661883726056543797977961407938269493839802606642524493540353, 50008501253211635306150125218852786748906376747377421695413396692554436804037⟩ 115792089236780884913238092968233201832304665401643327705465486082370709749760 :=
    mulLoopF_step 166 ⟨1799958418549200200132778447850746373764127634947205756770292519586026677000, 17444440728881949095944644608642750871019737053155692375178107984761597234796⟩ ⟨25162227753871020661883726056543797977961407938269493839802606642524493540353, 50008501253211635306150125218852786748906376747377421695413396692554436804037⟩ 115792089237048540168404538988460554842787325033641945872461535045141919694848 115792089236780884913238092968233201832304665401643327705465486082370709749760
      (by
      rw [(by decide : Nat.testBit 115792089237048540168404538988460554842787325033641945872461535045141919694848 255 = true), if_pos rfl, d90]
      exact e90)
      (by decide)
  have d91 : Point.addFast ⟨25162227753871020661883726056543797977961407938269493839802606642524493540353, 50008501253211635306150125218852786748906376747377421695413396692554436804037⟩ ⟨25162227753871020661883726056543797977961407938269493839802606642524493540353, 50008501253211635306150125218852786748906376747377421695413396692554436804037⟩ = ⟨6358821573276451559263352478385229966024128764651750037874497570306787067317, 89385682973455592091758819290603770457900401045290229368742028958740706792254⟩ :=
    (addFast_dbl ⟨25162227753871020661883726056543797977961407938269493839802606642524493540353, 50008501253211635306150125218852786748906376747377421695413396692554436804037⟩
      45050035829803935514905733981059968912373763858836191967538482639810315538233
      (by decide) (by decide) (by decide) (by decide)).trans (by decide)
  have e91 : Point.addFast ⟨6358821573276451559263352478385229966024128764651750037874497570306787067317, 89385682973455592091758819290603770457900401045290229368742028958740706792254⟩ G = ⟨65967382018648410648669938430845748948979018436165648101126346724617689235532, 7466804574754832087630787566817553356455700163061936282489654670020242887414⟩ :=
    (addFast_distinct ⟨6358821573276451559263352478385229966024128764651750037874497570306787067317, 89385682973455592091758819290603770457900401045290229368742028958740706792254⟩ G
      5752834948430341824458944465636084845215048955544678106549794923585532467555
      (by decide) (by decide) (by decide) (by decide)
      (by decide) (by decide)).trans (by decide)
  have t91 : Point.mulLoopF G 166 ⟨25162227753871020661883726056543797977961407938269493839802606642524493540353, 50008501253211635306150125218852786748906376747377421695413396692554436804037⟩ 115792089236780884913238092968233201832304665401643327705465486082370709749760 =
      Point.mulLoopF G 165 ⟨65967382018648410648669938430845748948979018436165648101126346724617689235532, 7466804574754832087630787566817553356455700163061936282489654670020242887414⟩ 115792089236245574402905200927778495811339346137646091371473388156828289859584 :=
    mulLoopF_step 165 ⟨25162227753871020661883726056543797977961407938269493839802606642524493540353, 50008501253211635306150125218852786748906376747377421695413396692554436804037⟩ ⟨65967382018648410648669938430845748948979018436165648101126346724617689235532, 7466804574754832087630787566817553356455700163061936282489654670020242887414⟩ 115792089236780884913238092968233201832304665401643327705465486082370709749760 115792089236245574402905200927778495811339346137646091371473388156828289859584
      (by
      rw [(by decide : Nat.testBit 115792089236780884913238092968233201832304665401643327705465486082370709749760 255 = true), if_pos rfl, d91]
      exact e91)
      (by decide)
  have d92 : Point.addFast ⟨65967382018648410648669938430845748948979018436165648101126346724617689235532, 7466804574754832087630787566817553356455700163061936282489654670020242887414⟩ ⟨65967382018648410648669938430845748948979018436165648101126346724617689235532, 7466804574754832087630787566817553356455700163061936282489654670020242887414⟩ = ⟨96151913024015674729673925148335296027116302424259922211585754722312722376151, 62936911000420429572936275783353270634418693912224489707768110285044752619438⟩ :=
    (addFast_dbl ⟨65967382018648410648669938430845748948979018436165648101126346724617689235532, 7466804574754832087630787566817553356455700163061936282489654670020242887414⟩
      55521314192258775573433109290052140015743214500585318216747154043203673043991
      (by decide) (by decide) (by decide) (by decide)).trans (by decide)
  have e92 : Point.addFast ⟨96151913024015674729673925148335296027116302424259922211585754722312722376151, 62936911000420429572936275783353270634418693912224489707768110285044752619438⟩ G = ⟨88071864554854875366963232129519783156941560552200955184557617503154403699844, 32406189656767086441144329253230241735086306548571599181960798754710704209984⟩ :=
    (addFast_distinct ⟨96151913024015674729673925148335296027116302424259922211585754722312722376151, 62936911000420429572936275783353270634418693912224489707768110285044752619438⟩ G
      49263813606082235050456198479698203323558496684195908675615260449592656950182
      (by decide) (by decide) (by decide) (by decide)
      (by decide) (by decide)).trans (by decide)
  have t92 : Point.mulLoopF G 165 ⟨65967382018648410648669938430845748948979018436165648101126346724617689235532, 7466804574754832087630787566817553356455700163061936282489654670020242887414⟩ 115792089236245574402905200927778495811339346137646091371473388156828289859584 =
      Point.mulLoopF G 164 ⟨88071864554854875366963232129519783156941560552200955184557617503154403699844, 32406189656767086441144329253230241735086306548571599181960798754710704209984⟩ 115792089235174953382239416846869083769408707609651618703489192305743450079232 :=
    mulLoopF_step 164 ⟨65967382018648410648669938430845748948979018436165648101126346724617689235532, 7466804574754832087630787566817553356455700163061936282489654670020242887414⟩ ⟨88071864554854875366963232129519783156941560552200955184557617503154403699844, 32406189656767086441144329253230241735086306548571599181960798754710704209984⟩ 115792089236245574402905200927778495811339346137646091371473388156828289859584 115792089235174953382239416846869083769408707609651618703489192305743450079232
      (by
      rw [(by decide : Nat.testBit 115792089236245574402905200927778495811339346137646091371473388156828289859584 255 = true), if_pos rfl, d92]
      exact e92)
      (by decide)
  have d93 : Point.addFast ⟨88071864554854875366963232129519783156941560552200955184557617503154403699844, 32406189656767086441144329253230241735086306548571599181960798754710704209984⟩ ⟨88071864554854875366963232129519783156941560552200955184557617503154403699844, 32406189656767086441144329253230241735086306548571599181960798754710704209984⟩ = ⟨57501060064623002044550515643062128673614361985106009687405320137016649539493, 92762077756286804540284254515864109139155577409622167549725516737239988983156⟩ :=
    (addFast_dbl ⟨88071864554854875366963232129519783156941560552200955184557617503154403699844, 32406189656767086441144329253230241735086306548571599181960798754710704209984⟩
      14420255610495686346703697852112595130265916767232309036206756525663094468801
      (by decide) (by decide) (by decide) (by decide)).trans (by decide)
  have e93 : Point.addFast ⟨57501060064623002044550515643062128673614361985106009687405320137016649539493, 92762077756286804540284254515864109139155577409622167549725516737239988983156⟩ G = ⟨33647824729774977656578074045440848241528623862287676545166914390554209055171, 67757827481859945944693206747004460712751242251810309179179381928726310812172⟩ :=
    (addFast_distinct ⟨57501060064623002044550515643062128673614361985106009687405320137016649539493, 92762077756286804540284254515864109139155577409622167549725516737239988983156⟩ G
      57245143603805674962188305963774875051081868689226214592456664751158130010382
      (by decide) (by decide) (by decide) (by decide)
      (by decide) (by decide)).trans (by decide)
  have t93 : Point.mulLoopF G 164 ⟨88071864554854875366963232129519783156941560552200955184557617503154403699844, 32406189656767086441144329253230241735086306548571599181960798754710704209984⟩ 115792089235174953382239416846869083769408707609651618703489192305743450079232 =
      Point.mulLoopF G 163 ⟨33647824729774977656578074045440848241528623862287676545166914390554209055171, 67757827481859945944693206747004460712751242251810309179179381928726310812172⟩ 115792089233033711340907848685050259685547430553662673367520800603573770518528 :=
    mulLoopF_step 163 ⟨88071864554854875366963232129519783156941560552200955184557617503154403699844, 32406189656767086441144329253230241735086306548571599181960798754710704209984⟩ ⟨33647824729774977656578074045440848241528623862287676545166914390554209055171, 67757827481859945944693206747004460712751242251810309179179381928726310812172⟩ 115792089235174953382239416846869083769408707609651618703489192305743450079232 115792089233033711340907848685050259685547430553662673367520800603573770518528
      (by
      rw [(by decide : Nat.testBit 115792089235174953382239416846869083769408707609651618703489192305743450079232 255 = true), if_pos rfl, d93]
      exact e93)
      (by decide)
  have d94 : Point.addFast ⟨33647824729774977656578074045440848241528623862287676545166914390554209055171, 67757827481859945944693206747004460712751242251810309179179381928726310812172⟩ ⟨33647824729774977656578074045440848241528623862287676545166914390554209055171, 67757827481859945944693206747004460712751242251810309179179381928726310812172⟩ = ⟨82677435577408151662046833304061017787698309185223407937389330968115174754983, 28430371675832607474342621050719082464484727589273101717086490427404618635410⟩ :=
    (addFast_dbl ⟨33647824729774977656578074045440848241528623862287676545166914390554209055171, 67757827481859945944693206747004460712751242251810309179179381928726310812172⟩
      91977423454129448957473328234714681113677656251600116372963527922912254738455
      (by decide) (by decide) (by decide) (by decide)).trans (by decide)
  have e94 : Point.addFast ⟨82677435577408151662046833304061017787698309185223407937389330968115174754983, 28430371675832607474342621050719082464484727589273101717086490427404618635410⟩ G = ⟨68521788725839518235063649826807556586750705074163333048288365418416836295183, 59580940071292104996470257562422935393607442419991252214420216275759856024921⟩ :=
    (addFast_distinct ⟨82677435577408151662046833304061017787698309185223407937389330968115174754983, 28430371675832607474342621050719082464484727589273101717086490427404618635410⟩ G
      87335231382987587960352466999128199304966922177734240893840797713850678456195
      (by decide) (by decide) (by decide) (by decide)
      (by decide) (by decide)).trans (by decide)
  have t94 : Point.mulLoopF G 163 ⟨33647824729774977656578074045440848241528623862287676545166914390554209055171, 67757827481859945944693206747004460712751242251810309179179381928726310812172⟩ 115792089233033711340907848685050259685547430553662673367520800603573770518528 =
      Point.mulLoopF G 162 ⟨68521788725839518235063649826807556586750705074163333048288365418416836295183, 59580940071292104996470257562422935393607442419991252214420216275759856024921⟩ 115792089228751227258244712361412611517824876441684782695584017199234411397120 :=
    mulLoopF_step 162 ⟨33647824729774977656578074045440848241528623862287676545166914390554209055171, 67757827481859945944693206747004460712751242251810309179179381928726310812172⟩ ⟨68521788725839518235063649826807556586750705074163333048288365418416836295183, 59580940071292104996470257562422935393607442419991252214420216275759856024921⟩ 115792089233033711340907848685050259685547430553662673367520800603573770518528 115792089228751227258244712361412611517824876441684782695584017199234411397120
      (by
      rw [(by decide : Nat.testBit 115792089233033711340907848685050259685547430553662673367520800603573770518528 255 = true), if_pos rfl, d94]
      exact e94)
      (by decide)
  have d95 : Point.addFast ⟨68521788725839518235063649826807556586750705074163333048288365418416836295183, 59580940071292104996470257562422935393607442419991252214420216275759856024921⟩ ⟨68521788725839518235063649826807556586750705074163333048288365418416836295183, 59580940071292104996470257562422935393607442419991252214420216275759856024921⟩ = ⟨97315789423771187202492797694639438221472990151076640990509598763378543956798, 90426974190393596624902589456845085068368298441912433688375079440885739449745⟩ :=
    (addFast_dbl ⟨68521788725839518235063649826807556586750705074163333048288365418416836295183, 59580940071292104996470257562422935393607442419991252214420216275759856024921⟩
      18866214066958141506979676942548995823393069034859364720510193191827747971194
      (by decide) (by decide) (by decide) (by decide)).trans (by decide)
  have e95 : Point.addFast ⟨97315789423771187202492797694639438221472990151076640990509598763378543956798, 90426974190393596624902589456845085068368298441912433688375079440885739449745⟩ G = ⟨13652992936343354200674271534276445068996666064736774357908390385380543935291, 114643658998233316445749385671843223910597817580493059601481568704824185863194⟩ :=
    (addFast_distinct ⟨97315789423771187202492797694639438221472990151076640990509598763378543956798, 90426974190393596624902589456845085068368298441912433688375079440885739449745⟩ G
      96870162312412225544686555154292586498122461918299599478352924493216346870164
      (by decide) (by decide) (by decide) (by decide)
      (by decide) (by decide)).trans (by decide)
  have t95 : Point.mulLoopF G 162 ⟨68521788725839518235063649826807556586750705074163333048288365418416836295183, 59580940071292104996470257562422935393607442419991252214420216275759856024921⟩ 115792089228751227258244712361412611517824876441684782695584017199234411397120 =
      Point.mulLoopF G 161 ⟨13652992936343354200674271534276445068996666064736774357908390385380543935291, 114643658998233316445749385671843223910597817580493059601481568704824185863194⟩ 115792089220186259092918439714137315182379768217729001351710450390555693154304 :=
    mulLoopF_step 161 ⟨68521788725839518235063649826807556586750705074163333048288365418416836295183, 59580940071292104996470257562422935393607442419991252214420216275759856024921⟩ ⟨13652992936343354200674271534276445068996666064736774357908390385380543935291, 114643658998233316445749385671843223910597817580493059601481568704824185863194⟩ 115792089228751227258244712361412611517824876441684782695584017199234411397120 115792089220186259092918439714137315182379768217729001351710450390555693154304
      (by
      rw [(by decide : Nat.testBit 115792089228751227258244712361412611517824876441684782695584017199234411397120 255 = true), if_pos rfl, d95]
      exact e95)
      (by decide)
  have d96 : Point.addFast ⟨13652992936343354200674271534276445068996666064736774357908390385380543935291, 114643658998233316445749385671843223910597817580493059601481568704824185863194⟩ ⟨13652992936343354200674271534276445068996666064736774357908390385380543935291, 114643658998233316445749385671843223910597817580493059601481568704824185863194⟩ = ⟨102785442445534892648022940406732795271967137523496495826089792376699490697036, 80250429243896820763396976736304666066078771707903210423518503209269361484332⟩ :=
    (addFast_dbl ⟨13652992936343354200674271534276445068996666064736774357908390385380543935291, 114643658998233316445749385671843223910597817580493059601481568704824185863194⟩
      69951608684833655487484859235131966561711070520452819225802523573002481781475
      (by decide) (by decide) (by decide) (by decide)).trans (by decide)
  have e96 : Point.addFast ⟨102785442445534892648022940406732795271967137523496495826089792376699490697036, 80250429243896820763396976736304666066078771707903210423518503209269361484332⟩ G = ⟨5183438368247823987934399863722173059875496618660569865721429870666379617877, 115067447288329648966706540646687111117073724853801414676526903346642653874806⟩ :=
    (addFast_distinct ⟨102785442445534892648022940406732795271967137523496495826089792376699490697036, 80250429243896820763396976736304666066078771707903210423518503209269361484332⟩ G
      10736033399069969334509809643955862353019344061340647242978871425111364418655
      (by decide) (by decide) (by decide) (by decide)
      (by decide) (by decide)).trans (by decide)
  have t96 : Point.mulLoopF G 161 ⟨13652992936343354200674271534276445068996666064736774357908390385380543935291, 114643658998233316445749385671843223910597817580493059601481568704824185863194⟩ 115792089220186259092918439714137315182379768217729001351710450390555693154304 =
      Point.mulLoopF G 160 ⟨5183438368247823987934399863722173059875496618660569865721429870666379617877, 115067447288329648966706540646687111117073724853801414676526903346642653874806⟩ 115792089203056322762265894419586722511489551769817438663963316773198256668672 :=
    mulLoopF_step 160 ⟨13652992936343354200674271534276445068996666064736774357908390385380543935291, 114643658998233316445749385671843223910597817580493059601481568704824185863194⟩ ⟨5183438368247823987934399863722173059875496618660569865721429870666379617877, 115067447288329648966706540646687111117073724853801414676526903346642653874806⟩ 115792089220186259092918439714137315182379768217729001351710450390555693154304 115792089203056322762265894419586722511489551769817438663963316773198256668672
      (by
      rw [(by decide : Nat.testBit 115792089220186259092918439714137315182379768217729001351710450390555693154304 255 = true), if_pos rfl, d96]
      exact e96)
      (by decide)
  rw [t81, t82, t83, t84, t85, t86, t87, t88, t89, t90, t91, t92, t93, t94, t95, t96]

set_option maxHeartbeats 1600000 in
/-- Segment 7 of the certified double-and-add trace of the generator
multiplied by the group order: iterations 97 to 112, each point
addition discharged through a precomputed modular-inverse certificate. -/
theorem mulG_seg7 : Point.mulLoopF G 160 ⟨5183438368247823987934399863722173059875496618660569865721429870666379617877, 115067447288329648966706540646687111117073724853801414676526903346642653874806⟩ 115792089203056322762265894419586722511489551769817438663963316773198256668672 =
    Point.mulLoopF G 144 ⟨17094445843246388782807047934495131951550157610276045715606318194015767473870, 86381763383078582546737772157888348651468922085198088917854629613501820706960⟩ 115789843982301464133154137673405348930819724001295955647160089733998084882432 := by
  have d97 : Point.addFast ⟨5183438368247823987934399863722173059875496618660569865721429870666379617877, 115067447288329648966706540646687111117073724853801414676526903346642653874806⟩ ⟨5183438368247823987934399863722173059875496618660569865721429870666379617877, 115067447288329648966706540646687111117073724853801414676526903346642653874806⟩ = ⟨6468278781715521178307845610610493319954020334294223621088733301508670344293, 46346598692436550000551267230419790944950255954363435751942739997611485931795⟩ :=
    (addFast_dbl ⟨5183438368247823987934399863722173059875496618660569865721429870666379617877, 115067447288329648966706540646687111117073724853801414676526903346642653874806⟩
      12204005440867579012731690485197114366183387329672916176912690253954098999051
      (by decide) (by decide) (by decide) (by decide)).trans (by decide)
  have e97 : Point.addFast ⟨6468278781715521178307845610610493319954020334294223621088733301508670344293, 46346598692436550000551267230419790944950255954363435751942739997611485931795⟩ G = ⟨12615825889808857633582284755985647865431778731763513439623400169099788151558, 64291674866318017988829761144385326984295683292176404657073474226947343532013⟩ :=
    (addFast_distinct ⟨6468278781715521178307845610610493319954020334294223621088733301508670344293, 46346598692436550000551267230419790944950255954363435751942739997611485931795⟩ G
      101768408314215160370502980634439411412448395801452540011266505975413407141530
      (by decide) (by decide) (by decide) (by decide)
      (by decide) (by decide)).trans (by decide)
  have t97 : Point.mulLoopF G 160 ⟨5183438368247823987934399863722173059875496618660569865721429870666379617877, 115067447288329648966706540646687111117073724853801414676526903346642653874806⟩ 115792089203056322762265894419586722511489551769817438663963316773198256668672 =
      Point.mulLoopF G 159 ⟨12615825889808857633582284755985647865431778731763513439623400169099788151558, 64291674866318017988829761144385326984295683292176404657073474226947343532013⟩ 115792089168796450100960803830485537169709118873994313288469049538483383697408 :=
    mulLoopF_step 159 ⟨5183438368247823987934399863722173059875496618660569865721429870666379617877, 115067447288329648966706540646687111117073724853801414676526903346642653874806⟩ ⟨12615825889808857633582284755985647865431778731763513439623400169099788151558, 64291674866318017988829761144385326984295683292176404657073474226947343532013⟩ 115792089203056322762265894419586722511489551769817438663963316773198256668672 115792089168796450100960803830485537169709118873994313288469049538483383697408
      (by
      rw [(by decide : Nat.testBit 115792089203056322762265894419586722511489551769817438663963316773198256668672 255 = true), if_pos rfl, d97]
      exact e97)
      (by decide)
  have d98 : Point.addFast ⟨12615825889808857633582284755985647865431778731763513439623400169099788151558, 64291674866318017988829761144385326984295683292176404657073474226947343532013⟩ ⟨12615825889808857633582284755985647865431778731763513439623400169099788151558, 64291674866318017988829761144385326984295683292176404657073474226947343532013⟩ = ⟨107657831922160331256501175884595595942525042552991918388931220405577497695462, 59729627194158725888811878222020775566889550711420214350158471718096986929096⟩ :=
    (addFast_dbl ⟨12615825889808857633582284755985647865431778731763513439623400169099788151558, 64291674866318017988829761144385326984295683292176404657073474226947343532013⟩
      35519989350432936478022100981647005551301841716250666854023139165916629729447
      (by decide) (by decide) (by decide) (by decide)).trans (by decide)
  have e98 : Point.addFast ⟨107657831922160331256501175884595595942525042552991918388931220405577497695462, 59729627194158725888811878222020775566889550711420214350158471718096986929096⟩ G = ⟨33483375259168450196089000272526126434233697699313150073748555559851377386791, 106273089706965546209401090809445804069385909002844041432605374593656188708164⟩ :=
    (addFast_distinct ⟨107657831922160331256501175884595595942525042552991918388931220405577497695462, 59729627194158725888811878222020775566889550711420214350158471718096986929096⟩ G
      74101615356952248537028224114593711944425511318392716494529676637298118222807
      (by decide) (by decide) (by decide) (by decide)
      (by decide) (by decide)).trans (by decide)
  have t98 : Point.mulLoopF G 159 ⟨12615825889808857633582284755985647865431778731763513439623400169099788151558, 64291674866318017988829761144385326984295683292176404657073474226947343532013⟩ 115792089168796450100960803830485537169709118873994313288469049538483383697408 =
      Point.mulLoopF G 158 ⟨33483375259168450196089000272526126434233697699313150073748555559851377386791, 106273089706965546209401090809445804069385909002844041432605374593656188708164⟩ 115792089100276704778350622652283166486148253082348062537480515069053637754880 :=
    mulLoopF_step 158 ⟨12615825889808857633582284755985647865431778731763513439623400169099788151558, 64291674866318017988829761144385326984295683292176404657073474226947343532013⟩ ⟨33483375259168450196089000272526126434233697699313150073748555559851377386791, 106273089706965546209401090809445804069385909002844041432605374593656188708164⟩ 115792089168796450100960803830485537169709118873994313288469049538483383697408 115792089100276704778350622652283166486148253082348062537480515069053637754880
      (by
      rw [(by decide : Nat.testBit 115792089168796450100960803830485537169709118873994313288469049538483383697408 255 = true), if_pos rfl, d98]
      exact e98)
      (by decide)
  have d99 : Point.addFast ⟨33483375259168450196089000272526126434233697699313150073748555559851377386791, 106273089706965546209401090809445804069385909002844041432605374593656188708164⟩ ⟨33483375259168450196089000272526126434233697699313150073748555559851377386791, 106273089706965546209401090809445804069385909002844041432605374593656188708164⟩ = ⟨85417867764259414021413232977044460741743548071544198159925109324812638994472, 70810090510714538200616401192311256596196153499521122194702825919693210337330⟩ :=
    (addFast_dbl ⟨33483375259168450196089000272526126434233697699313150073748555559851377386791, 106273089706965546209401090809445804069385909002844041432605374593656188708164⟩
      80141305410258774825768909258251498198089819223727221761477952276535513597478
      (by decide) (by decide) (by decide) (by decide)).trans (by decide)
  have e99 : Point.addFast ⟨85417867764259414021413232977044460741743548071544198159925109324812638994472, 70810090510714538200616401192311256596196153499521122194702825919693210337330⟩ G = ⟨729063497481471130894145684663080009327014481001510589549029014048312980173, 75152679016572852045850271386798282930947335283454525263414162693874526149327⟩ :=
    (addFast_distinct ⟨85417867764259414021413232977044460741743548071544198159925109324812638994472, 70810090510714538200616401192311256596196153499521122194702825919693210337330⟩ G
      10379143518081645335552565805974211546949534097970838944840838517161219949924
      (by decide) (by decide) (by decide) (by decide)
      (by decide) (by decide)).trans (by decide)
  have t99 : Point.mulLoopF G 158 ⟨33483375259168450196089000272526126434233697699313150073748555559851377386791, 106273089706965546209401090809445804069385909002844041432605374593656188708164⟩ 115792089100276704778350622652283166486148253082348062537480515069053637754880 =
      Point.mulLoopF G 157 ⟨729063497481471130894145684663080009327014481001510589549029014048312980173, 75152679016572852045850271386798282930947335283454525263414162693874526149327⟩ 115792088963237214133130260295878425119026521499055561035503446130194145869824 :=
    mulLoopF_step 157 ⟨33483375259168450196089000272526126434233697699313150073748555559851377386791, 106273089706965546209401090809445804069385909002844041432605374593656188708164⟩ ⟨729063497481471130894145684663080009327014481001510589549029014048312980173, 75152679016572852045850271386798282930947335283454525263414162693874526149327⟩ 115792089100276704778350622652283166486148253082348062537480515069053637754880 115792088963237214133130260295878425119026521499055561035503446130194145869824
      (by
      rw [(by decide : Nat.testBit 115792089100276704778350622652283166486148253082348062537480515069053637754880 255 = true), if_pos rfl, d99]
      exact e99)
      (by decide)
  have d100 : Point.addFast ⟨729063497481471130894145684663080009327014481001510589549029014048312980173, 75152679016572852045850271386798282930947335283454525263414162693874526149327⟩ ⟨729063497481471130894145684663080009327014481001510589549029014048312980173, 75152679016572852045850271386798282930947335283454525263414162693874526149327⟩ = ⟨77487413936016049428031249602795129654726311004103161111016529968131815194033, 111184845611425873707438397607365039993249246163773142287184168254023721506902⟩ :=
    (addFast_dbl ⟨729063497481471130894145684663080009327014481001510589549029014048312980173, 75152679016572852045850271386798282930947335283454525263414162693874526149327⟩
      27423470128617863751259781784630457919757509932442859793833674237234847004680
      (by decide) (by decide) (by decide) (by decide)).trans (by decide)
  have e100 : Point.addFast ⟨77487413936016049428031249602795129654726311004103161111016529968131815194033, 111184845611425873707438397607365039993249246163773142287184168254023721506902⟩ G = ⟨44912490242885908108959042002864676411069515760716302434478377697936151645968, 19357940269950114003991686953285473272260622581616633300341033489354218995558⟩ :=
    (addFast_distinct ⟨77487413936016049428031249602795129654726311004103161111016529968131815194033, 111184845611425873707438397607365039993249246163773142287184168254023721506902⟩ G
      27493427116835264382878003865419817748180507627726626011497698432788831196816
      (by decide) (by decide) (by decide) (by decide)
      (by decide) (by decide)).trans (by decide)
  have t100 : Point.mulLoopF G 157 ⟨729063497481471130894145684663080009327014481001510589549029014048312980173, 75152679016572852045850271386798282930947335283454525263414162693874526149327⟩ 115792088963237214133130260295878425119026521499055561035503446130194145869824 =
      Point.mulLoopF G 156 ⟨44912490242885908108959042002864676411069515760716302434478377697936151645968, 19357940269950114003991686953285473272260622581616633300341033489354218995558⟩ 115792088689158232842689535583068942384783058332470558031549308252475162099712 :=
    mulLoopF_step 156 ⟨729063497481471130894145684663080009327014481001510589549029014048312980173, 75152679016572852045850271386798282930947335283454525263414162693874526149327⟩ ⟨44912490242885908108959042002864676411069515760716302434478377697936151645968, 19357940269950114003991686953285473272260622581616633300341033489354218995558⟩ 115792088963237214133130260295878425119026521499055561035503446130194145869824 115792088689158232842689535583068942384783058332470558031549308252475162099712
      (by
      rw [(by decide : Nat.testBit 115792088963237214133130260295878425119026521499055561035503446130194145869824 255 = true), if_pos rfl, d100]
      exact e100)
      (by decide)
  have d101 : Point.addFast ⟨44912490242885908108959042002864676411069515760716302434478377697936151645968, 19357940269950114003991686953285473272260622581616633300341033489354218995558⟩ ⟨44912490242885908108959042002864676411069515760716302434478377697936151645968, 19357940269950114003991686953285473272260622581616633300341033489354218995558⟩ = ⟨72808524613234736085406411410405562781773074035529764357456552807229817750826, 5503342545099072748562951467939348350100178469095941446472053302141363302768⟩ :=
    (addFast_dbl ⟨44912490242885908108959042002864676411069515760716302434478377697936151645968, 19357940269950114003991686953285473272260622581616633300341033489354218995558⟩
      86536074799015733489430572694469921890118044965569131186209294204656494020412
      (by decide) (by decide) (by decide) (by decide)).trans (by decide)
  have e101 : Point.addFast ⟨72808524613234736085406411410405562781773074035529764357456552807229817750826, 5503342545099072748562951467939348350100178469095941446472053302141363302768⟩ G = ⟨10752548984708060787935441064308651627251586712198002147890635702644404804023, 17051151149920519885131096816628718847154132309971188927398597400346700921903⟩ :=
    (addFast_distinct ⟨72808524613234736085406411410405562781773074035529764357456552807229817750826, 5503342545099072748562951467939348350100178469095941446472053302141363302768⟩ G
      57037677345428203792238688693461613656522003856904336375328247804135119661507
      (by decide) (by decide) (by decide) (by decide)
      (by decide) (by decide)).trans (by decide)
  have t101 : Point.mulLoopF G 156 ⟨44912490242885908108959042002864676411069515760716302434478377697936151645968, 19357940269950114003991686953285473272260622581616633300341033489354218995558⟩ 115792088689158232842689535583068942384783058332470558031549308252475162099712 =
      Point.mulLoopF G 155 ⟨10752548984708060787935441064308651627251586712198002147890635702644404804023, 17051151149920519885131096816628718847154132309971188927398597400346700921903⟩ 115792088141000270261808086157449976916296131999300552023641032497037194559488 :=
    mulLoopF_step 155 ⟨44912490242885908108959042002864676411069515760716302434478377697936151645968, 19357940269950114003991686953285473272260622581616633300341033489354218995558⟩ ⟨10752548984708060787935441064308651627251586712198002147890635702644404804023, 17051151149920519885131096816628718847154132309971188927398597400346700921903⟩ 115792088689158232842689535583068942384783058332470558031549308252475162099712 115792088141000270261808086157449976916296131999300552023641032497037194559488
      (by
      rw [(by decide : Nat.testBit 115792088689158232842689535583068942384783058332470558031549308252475162099712 255 = true), if_pos rfl, d101]
      exact e101)
      (by decide)
  have d102 : Point.addFast ⟨10752548984708060787935441064308651627251586712198002147890635702644404804023, 17051151149920519885131096816628718847154132309971188927398597400346700921903⟩ ⟨10752548984708060787935441064308651627251586712198002147890635702644404804023, 17051151149920519885131096816628718847154132309971188927398597400346700921903⟩ = ⟨69388001477192873579312454397541359955651693957904716725703949604653000025619, 81783769832862142810327798595479771159086193164218632271913228557420725524024⟩ :=
    (addFast_dbl ⟨10752548984708060787935441064308651627251586712198002147890635702644404804023, 17051151149920519885131096816628718847154132309971188927398597400346700921903⟩
      106324525010035427226134493010454271745334397519280210532049429124644615956942
      (by decide) (by decide) (by decide) (by decide)).trans (by decide)
  have e102 : Point.addFast ⟨69388001477192873579312454397541359955651693957904716725703949604653000025619, 81783769832862142810327798595479771159086193164218632271913228557420725524024⟩ G = ⟨106022196343040744402304149090537990026462385285105995487500122512152991467798, 15706520316812723488693591801924124392821349415583520982299451221325147129282⟩ :=
    (addFast_distinct ⟨69388001477192873579312454397541359955651693957904716725703949604653000025619, 81783769832862142810327798595479771159086193164218632271913228557420725524024⟩ G
      99758680973957253571493446214516571059593640966134050087168382706540153950833
      (by decide) (by decide) (by decide) (by decide)
      (by decide) (by decide)).trans (by decide)
  have t102 : Point.mulLoopF G 155 ⟨10752548984708060787935441064308651627251586712198002147890635702644404804023, 17051151149920519885131096816628718847154132309971188927398597400346700921903⟩ 115792088141000270261808086157449976916296131999300552023641032497037194559488 =
      Point.mulLoopF G 154 ⟨106022196343040744402304149090537990026462385285105995487500122512152991467798, 15706520316812723488693591801924124392821349415583520982299451221325147129282⟩ 115792087044684345100045187306212045979322279332960540007824480986161259479040 :=
    mulLoopF_step 154 ⟨10752548984708060787935441064308651627251586712198002147890635702644404804023, 17051151149920519885131096816628718847154132309971188927398597400346700921903⟩ ⟨106022196343040744402304149090537990026462385285105995487500122512152991467798, 15706520316812723488693591801924124392821349415583520982299451221325147129282⟩ 115792088141000270261808086157449976916296131999300552023641032497037194559488 115792087044684345100045187306212045979322279332960540007824480986161259479040
      (by
      rw [(by decide : Nat.testBit 115792088141000270261808086157449976916296131999300552023641032497037194559488 255 = true), if_pos rfl, d102]
      exact e102)
      (by decide)
  have d103 : Point.addFast ⟨106022196343040744402304149090537990026462385285105995487500122512152991467798, 15706520316812723488693591801924124392821349415583520982299451221325147129282⟩ ⟨106022196343040744402304149090537990026462385285105995487500122512152991467798, 15706520316812723488693591801924124392821349415583520982299451221325147129282⟩ = ⟨91415861878593473990443190431687835393689695865222834032997565336776149898477, 83907641229123469240299293387524444479025623234188884279469432626198197070509⟩ :=
    (addFast_dbl ⟨106022196343040744402304149090537990026462385285105995487500122512152991467798, 15706520316812723488693591801924124392821349415583520982299451221325147129282⟩
      56503936633316190383585657592423971867126809193408757802768536967400495538146
      (by decide) (by decide) (by decide) (by decide)).trans (by decide)
  have e103 : Point.addFast ⟨91415861878593473990443190431687835393689695865222834032997565336776149898477, 83907641229123469240299293387524444479025623234188884279469432626198197070509⟩ G = ⟨48060429532469798670270163084956895289694097744979767386948899876195850950063, 46610591674283366339117676134377647351210567701257685453493192787990645684709⟩ :=
    (addFast_distinct ⟨91415861878593473990443190431687835393689695865222834032997565336776149898477, 83907641229123469240299293387524444479025623234188884279469432626198197070509⟩ G
      99101476806616511411416128514991551224089938370086293461310657190558196244573
      (by decide) (by decide) (by decide) (by decide)
      (by decide) (by decide)).trans (by decide)
  have t103 : Point.mulLoopF G 154 ⟨106022196343040744402304149090537990026462385285105995487500122512152991467798, 15706520316812723488693591801924124392821349415583520982299451221325147129282⟩ 115792087044684345100045187306212045979322279332960540007824480986161259479040 =
      Point.mulLoopF G 153 ⟨48060429532469798670270163084956895289694097744979767386948899876195850950063, 46610591674283366339117676134377647351210567701257685453493192787990645684709⟩ 115792084852052494776519389603736184105374574000280515976191377964409389318144 :=
    mulLoopF_step 153 ⟨106022196343040744402304149090537990026462385285105995487500122512152991467798, 15706520316812723488693591801924124392821349415583520982299451221325147129282⟩ ⟨48060429532469798670270163084956895289694097744979767386948899876195850950063, 46610591674283366339117676134377647351210567701257685453493192787990645684709⟩ 115792087044684345100045187306212045979322279332960540007824480986161259479040 115792084852052494776519389603736184105374574000280515976191377964409389318144
      (by
      rw [(by decide : Nat.testBit 115792087044684345100045187306212045979322279332960540007824480986161259479040 255 = true), if_pos rfl, d103]
      exact e103)
      (by decide)
  have d104 : Point.addFast ⟨48060429532469798670270163084956895289694097744979767386948899876195850950063, 46610591674283366339117676134377647351210567701257685453493192787990645684709⟩ ⟨48060429532469798670270163084956895289694097744979767386948899876195850950063, 46610591674283366339117676134377647351210567701257685453493192787990645684709⟩ = ⟨16217376806708691460096118113302696525784288417386374312696481119587247846147, 29028349919440825467240336690006375686637656924429316645461337282957754133392⟩ :=
    (addFast_dbl ⟨48060429532469798670270163084956895289694097744979767386948899876195850950063, 46610591674283366339117676134377647351210567701257685453493192787990645684709⟩
      99591376907515877202643264559362524157425296975240706219600420610403938828095
      (by decide) (by decide) (by decide) (by decide)).trans (by decide)
  have e104 : Point.addFast ⟨16217376806708691460096118113302696525784288417386374312696481119587247846147, 29028349919440825467240336690006375686637656924429316645461337282957754133392⟩ G = ⟨78139633050678373183176658260309023204745874520155137150233710071868087822133, 81044727238272521919177149746173519986620162382608422177279996749100315712943⟩ :=
    (addFast_distinct ⟨16217376806708691460096118113302696525784288417386374312696481119587247846147, 29028349919440825467240336690006375686637656924429316645461337282957754133392⟩ G
      60534634225778495302743714660934759864582062757437879657879491331984775006704
      (by decide) (by decide) (by decide) (by decide)
      (by decide) (by decide)).trans (by decide)
  have t104 : Point.mulLoopF G 153 ⟨48060429532469798670270163084956895289694097744979767386948899876195850950063, 46610591674283366339117676134377647351210567701257685453493192787990645684709⟩ 115792084852052494776519389603736184105374574000280515976191377964409389318144 =
      Point.mulLoopF G 152 ⟨78139633050678373183176658260309023204745874520155137150233710071868087822133, 81044727238272521919177149746173519986620162382608422177279996749100315712943⟩ 115792080466788794129467794198784460357479163334920467912925171920905648996352 :=
    mulLoopF_step 152 ⟨48060429532469798670270163084956895289694097744979767386948899876195850950063, 46610591674283366339117676134377647351210567701257685453493192787990645684709⟩ ⟨78139633050678373183176658260309023204745874520155137150233710071868087822133, 81044727238272521919177149746173519986620162382608422177279996749100315712943⟩ 115792084852052494776519389603736184105374574000280515976191377964409389318144 115792080466788794129467794198784460357479163334920467912925171920905648996352
      (by
      rw [(by decide : Nat.testBit 115792084852052494776519389603736184105374574000280515976191377964409389318144 255 = true), if_pos rfl, d104]
      exact e104)
      (by decide)
  have d105 : Point.addFast ⟨78139633050678373183176658260309023204745874520155137150233710071868087822133, 81044727238272521919177149746173519986620162382608422177279996749100315712943⟩ ⟨78139633050678373183176658260309023204745874520155137150233710071868087822133, 81044727238272521919177149746173519986620162382608422177279996749100315712943⟩ = ⟨68750605629400917511589211141587750431266856070769063904736473744261689279786, 41209246135085230304322167732143524058670351604730873292831074388170684823329⟩ :=
    (addFast_dbl ⟨78139633050678373183176658260309023204745874520155137150233710071868087822133, 81044727238272521919177149746173519986620162382608422177279996749100315712943⟩
      69799063546512523657859670882509175836829830537201307794165235656603612528413
      (by decide) (by decide) (by decide) (by decide)).trans (by decide)
  have e105 : Point.addFast ⟨68750605629400917511589211141587750431266856070769063904736473744261689279786, 41209246135085230304322167732143524058670351604730873292831074388170684823329⟩ G = ⟨65425388923386185849641985687306539399506718372427747246605245518419292117175, 83288569000860742996125490941812220567989051088276190695183925714920405922599⟩ :=
    (addFast_distinct ⟨68750605629400917511589211141587750431266856070769063904736473744261689279786, 41209246135085230304322167732143524058670351604730873292831074388170684823329⟩ G
      57977547603356368829919207886010125790596048351805873163743193279191996829209
      (by decide) (by decide) (by decide) (by decide)
      (by decide) (by decide)).trans (by decide)
  have t105 : Point.mulLoopF G 152 ⟨78139633050678373183176658260309023204745874520155137150233710071868087822133, 81044727238272521919177149746173519986620162382608422177279996749100315712943⟩ 115792080466788794129467794198784460357479163334920467912925171920905648996352 =
      Point.mulLoopF G 151 ⟨65425388923386185849641985687306539399506718372427747246605245518419292117175, 83288569000860742996125490941812220567989051088276190695183925714920405922599⟩ 115792071696261392835364603388881012861688342004200371786392759833898168352768 :=
    mulLoopF_step 151 ⟨78139633050678373183176658260309023204745874520155137150233710071868087822133, 81044727238272521919177149746173519986620162382608422177279996749100315712943⟩ ⟨65425388923386185849641985687306539399506718372427747246605245518419292117175, 83288569000860742996125490941812220567989051088276190695183925714920405922599⟩ 115792080466788794129467794198784460357479163334920467912925171920905648996352 115792071696261392835364603388881012861688342004200371786392759833898168352768
      (by
      rw [(by decide : Nat.testBit 115792080466788794129467794198784460357479163334920467912925171920905648996352 255 = true), if_pos rfl, d105]
      exact e105)
      (by decide)
  have d106 : Point.addFast ⟨65425388923386185849641985687306539399506718372427747246605245518419292117175, 83288569000860742996125490941812220567989051088276190695183925714920405922599⟩ ⟨65425388923386185849641985687306539399506718372427747246605245518419292117175, 83288569000860742996125490941812220567989051088276190695183925714920405922599⟩ = ⟨21689948143783038088233708544047797766896474958544062500133542253813246428067, 36551430990807019378261412509965233510931140540104257372327976332701906776434⟩ :=
    (addFast_dbl ⟨65425388923386185849641985687306539399506718372427747246605245518419292117175, 83288569000860742996125490941812220567989051088276190695183925714920405922599⟩
      28841565443092458389168174534201908413017430404764322897556232346205926646797
      (by decide) (by decide) (by decide) (by decide)).trans (by decide)
  have e106 : Point.addFast ⟨21689948143783038088233708544047797766896474958544062500133542253813246428067, 36551430990807019378261412509965233510931140540104257372327976332701906776434⟩ G = ⟨51253676063991030681999093699377998613278485344468749305024269857048704957496, 24902523641585850222755787698201706594247480530307441313918066463697304475478⟩ :=
    (addFast_distinct ⟨21689948143783038088233708544047797766896474958544062500133542253813246428067, 36551430990807019378261412509965233510931140540104257372327976332701906776434⟩ G
      62829022792643010220678802347103811576327875380967209229127653238299364073502
      (by decide) (by decide) (by decide) (by decide)
      (by decide) (by decide)).trans (by decide)
  have t106 : Point.mulLoopF G 151 ⟨65425388923386185849641985687306539399506718372427747246605245518419292117175, 83288569000860742996125490941812220567989051088276190695183925714920405922599⟩ 115792071696261392835364603388881012861688342004200371786392759833898168352768 =
      Point.mulLoopF G 150 ⟨51253676063991030681999093699377998613278485344468749305024269857048704957496, 24902523641585850222755787698201706594247480530307441313918066463697304475478⟩ 115792054155206590247158221769074117870106699342760179533327935659883207065600 :=
    mulLoopF_step 150 ⟨65425388923386185849641985687306539399506718372427747246605245518419292117175, 83288569000860742996125490941812220567989051088276190695183925714920405922599⟩ ⟨51253676063991030681999093699377998613278485344468749305024269857048704957496, 24902523641585850222755787698201706594247480530307441313918066463697304475478⟩ 115792071696261392835364603388881012861688342004200371786392759833898168352768 115792054155206590247158221769074117870106699342760179533327935659883207065600
      (by
      rw [(by decide : Nat.testBit 115792071696261392835364603388881012861688342004200371786392759833898168352768 255 = true), if_pos rfl, d106]
      exact e106)
      (by decide)
  have d107 : Point.addFast ⟨51253676063991030681999093699377998613278485344468749305024269857048704957496, 24902523641585850222755787698201706594247480530307441313918066463697304475478⟩ ⟨51253676063991030681999093699377998613278485344468749305024269857048704957496, 24902523641585850222755787698201706594247480530307441313918066463697304475478⟩ = ⟨18080800506221157284227151604800599788730242429939372619431408947929056437619, 71259119348780871751343617892130507556214541832455679182830694200246706248357⟩ :=
    (addFast_dbl ⟨51253676063991030681999093699377998613278485344468749305024269857048704957496, 24902523641585850222755787698201706594247480530307441313918066463697304475478⟩
      4987628864689120314077139589238626320275198352583803202915963595148644948686
      (by decide) (by decide) (by decide) (by decide)).trans (by decide)
  have e107 : Point.addFast ⟨18080800506221157284227151604800599788730242429939372619431408947929056437619, 71259119348780871751343617892130507556214541832455679182830694200246706248357⟩ G = ⟨62423678489914174307948191341287146393574131485740395312630692086832895215651, 51130807876171568959603290062523537460655412532885413045405649820951497477073⟩ :=
    (addFast_distinct ⟨18080800506221157284227151604800599788730242429939372619431408947929056437619, 71259119348780871751343617892130507556214541832455679182830694200246706248357⟩ G
      71164614583575468902319066166698343554690358332121913618848792182540239153732
      (by decide) (by decide) (by decide) (by decide)
      (by decide) (by decide)).trans (by decide)
  have t107 : Point.mulLoopF G 150 ⟨51253676063991030681999093699377998613278485344468749305024269857048704957496, 24902523641585850222755787698201706594247480530307441313918066463697304475478⟩ 115792054155206590247158221769074117870106699342760179533327935659883207065600 =
      Point.mulLoopF G 149 ⟨62423678489914174307948191341287146393574131485740395312630692086832895215651, 51130807876171568959603290062523537460655412532885413045405649820951497477073⟩ 115792019073096985070745458529460327886943414019879795027198287311853284491264 :=
    mulLoopF_step 149 ⟨51253676063991030681999093699377998613278485344468749305024269857048704957496, 24902523641585850222755787698201706594247480530307441313918066463697304475478⟩ ⟨62423678489914174307948191341287146393574131485740395312630692086832895215651, 51130807876171568959603290062523537460655412532885413045405649820951497477073⟩ 115792054155206590247158221769074117870106699342760179533327935659883207065600 115792019073096985070745458529460327886943414019879795027198287311853284491264
      (by
      rw [(by decide : Nat.testBit 115792054155206590247158221769074117870106699342760179533327935659883207065600 255 = true), if_pos rfl, d107]
      exact e107)
      (by decide)
  have d108 : Point.addFast ⟨62423678489914174307948191341287146393574131485740395312630692086832895215651, 51130807876171568959603290062523537460655412532885413045405649820951497477073⟩ ⟨62423678489914174307948191341287146393574131485740395312630692086832895215651, 51130807876171568959603290062523537460655412532885413045405649820951497477073⟩ = ⟨60325977684467088896985255780725246575237517751636738410059911900160285666389, 25871081982947209927735851712479113846816218450704059404249186442340862400399⟩ :=
    (addFast_dbl ⟨62423678489914174307948191341287146393574131485740395312630692086832895215651, 51130807876171568959603290062523537460655412532885413045405649820951497477073⟩
      77089713130877918379555320365796723068685733605012445308542606164033662079295
      (by decide) (by decide) (by decide) (by decide)).trans (by decide)
  have e108 : Point.addFast ⟨60325977684467088896985255780725246575237517751636738410059911900160285666389, 25871081982947209927735851712479113846816218450704059404249186442340862400399⟩ G = ⟨15171433577467856354690767054464015993135551228148717739006009387561506468545, 78333371966882902872044270106591121306375951238502116587685877804091389479158⟩ :=
    (addFast_distinct ⟨60325977684467088896985255780725246575237517751636738410059911900160285666389, 25871081982947209927735851712479113846816218450704059404249186442340862400399⟩ G
      73429064026881662441989767950807883363541311436889277291695313838388466226837
      (by decide) (by decide) (by decide) (by decide)
      (by decide) (by decide)).trans (by decide)
  have t108 : Point.mulLoopF G 149 ⟨62423678489914174307948191341287146393574131485740395312630692086832895215651, 51130807876171568959603290062523537460655412532885413045405649820951497477073⟩ 115792019073096985070745458529460327886943414019879795027198287311853284491264 =
      Point.mulLoopF G 148 ⟨15171433577467856354690767054464015993135551228148717739006009387561506468545, 78333371966882902872044270106591121306375951238502116587685877804091389479158⟩ 115791948908877774717919932050232747920616843374119026014938990615793439342592 :=
    mulLoopF_step 148 ⟨62423678489914174307948191341287146393574131485740395312630692086832895215651, 51130807876171568959603290062523537460655412532885413045405649820951497477073⟩ ⟨15171433577467856354690767054464015993135551228148717739006009387561506468545, 78333371966882902872044270106591121306375951238502116587685877804091389479158⟩ 115792019073096985070745458529460327886943414019879795027198287311853284491264 115791948908877774717919932050232747920616843374119026014938990615793439342592
      (by
      rw [(by decide : Nat.testBit 115792019073096985070745458529460327886943414019879795027198287311853284491264 255 = true), if_pos rfl, d108]
      exact e108)
      (by decide)
  have d109 : Point.addFast ⟨15171433577467856354690767054464015993135551228148717739006009387561506468545, 78333371966882902872044270106591121306375951238502116587685877804091389479158⟩ ⟨15171433577467856354690767054464015993135551228148717739006009387561506468545, 78333371966882902872044270106591121306375951238502116587685877804091389479158⟩ = ⟨53435289367915965506973031892679035687876316706229909202796554419243622403648, 13569361306512708334199607521131875783246476029114120451756508998342763964705⟩ :=
    (addFast_dbl ⟨15171433577467856354690767054464015993135551228148717739006009387561506468545, 78333371966882902872044270106591121306375951238502116587685877804091389479158⟩
      85716127068516910280086680751833126959417732409278383476079534001335728223249
      (by decide) (by decide) (by decide) (by decide)).trans (by decide)
  have e109 : Point.addFast ⟨53435289367915965506973031892679035687876316706229909202796554419243622403648, 13569361306512708334199607521131875783246476029114120451756508998342763964705⟩ G = ⟨90502903096772556311946961658133462694790392256481257455576766535820176252562, 22166459749028423249980427669789117629348140935937618363123940870729799678844⟩ :=
    (addFast_distinct ⟨53435289367915965506973031892679035687876316706229909202796554419243622403648, 13569361306512708334199607521131875783246476029114120451756508998342763964705⟩ G
      59143224885078712069683842425781853718560092274038723760478035387496129501901
      (by decide) (by decide) (by decide) (by decide)
      (by decide) (by decide)).trans (by decide)
  have t109 : Point.mulLoopF G 148 ⟨15171433577467856354690767054464015993135551228148717739006009387561506468545, 78333371966882902872044270106591121306375951238502116587685877804091389479158⟩ 115791948908877774717919932050232747920616843374119026014938990615793439342592 =
      Point.mulLoopF G 147 ⟨90502903096772556311946961658133462694790392256481257455576766535820176252562, 22166459749028423249980427669789117629348140935937618363123940870729799678844⟩ 115791808580439354012268879091777587987963702082597487990420397223673749045248 :=
    mulLoopF_step 147 ⟨15171433577467856354690767054464015993135551228148717739006009387561506468545, 78333371966882902872044270106591121306375951238502116587685877804091389479158⟩ ⟨90502903096772556311946961658133462694790392256481257455576766535820176252562, 22166459749028423249980427669789117629348140935937618363123940870729799678844⟩ 115791948908877774717919932050232747920616843374119026014938990615793439342592 115791808580439354012268879091777587987963702082597487990420397223673749045248
      (by
      rw [(by decide : Nat.testBit 115791948908877774717919932050232747920616843374119026014938990615793439342592 255 = true), if_pos rfl, d109]
      exact e109)
      (by decide)
  have d110 : Point.addFast ⟨90502903096772556311946961658133462694790392256481257455576766535820176252562, 22166459749028423249980427669789117629348140935937618363123940870729799678844⟩ ⟨90502903096772556311946961658133462694790392256481257455576766535820176252562, 22166459749028423249980427669789117629348140935937618363123940870729799678844⟩ = ⟨28769724113787104813672562220340952109686524807147113620983172095711863699233, 105872669289861256523336331805201713170637676793021198077951586528658776341893⟩ :=
    (addFast_dbl ⟨90502903096772556311946961658133462694790392256481257455576766535820176252562, 22166459749028423249980427669789117629348140935937618363123940870729799678844⟩
      109404993135096471779611567026264755666030911350076058023262522059311408876417
      (by decide) (by decide) (by decide) (by decide)).trans (by decide)
  have e110 : Point.addFast ⟨28769724113787104813672562220340952109686524807147113620983172095711863699233, 105872669289861256523336331805201713170637676793021198077951586528658776341893⟩ G = ⟨99057580558302078445750679671027677076559049974422172101662126201752361792595, 9632313120761699489319844273726529140004428366985486821569923362175009816648⟩ :=
    (addFast_distinct ⟨28769724113787104813672562220340952109686524807147113620983172095711863699233, 105872669289861256523336331805201713170637676793021198077951586528658776341893⟩ G
      91793792405183959475008190790528751068825261750483108786394667117665653816956
      (by decide) (by decide) (by decide) (by decide)
      (by decide) (by decide)).trans (by decide)
  have t110 : Point.mulLoopF G 147 ⟨90502903096772556311946961658133462694790392256481257455576766535820176252562, 22166459749028423249980427669789117629348140935937618363123940870729799678844⟩ 115791808580439354012268879091777587987963702082597487990420397223673749045248 =
      Point.mulLoopF G 146 ⟨99057580558302078445750679671027677076559049974422172101662126201752361792595, 9632313120761699489319844273726529140004428366985486821569923362175009816648⟩ 115791527923562512600966773174867268122657419499554411941383210439434368450560 :=
    mulLoopF_step 146 ⟨90502903096772556311946961658133462694790392256481257455576766535820176252562, 22166459749028423249980427669789117629348140935937618363123940870729799678844⟩ ⟨99057580558302078445750679671027677076559049974422172101662126201752361792595, 9632313120761699489319844273726529140004428366985486821569923362175009816648⟩ 115791808580439354012268879091777587987963702082597487990420397223673749045248 115791527923562512600966773174867268122657419499554411941383210439434368450560
      (by
      rw [(by decide : Nat.testBit 115791808580439354012268879091777587987963702082597487990420397223673749045248 255 = true), if_pos rfl, d110]
      exact e110)
      (by decide)
  have d111 : Point.addFast ⟨99057580558302078445750679671027677076559049974422172101662126201752361792595, 9632313120761699489319844273726529140004428366985486821569923362175009816648⟩ ⟨99057580558302078445750679671027677076559049974422172101662126201752361792595, 9632313120761699489319844273726529140004428366985486821569923362175009816648⟩ = ⟨40303974825318303256924289613800018525254793572927413753870053569936923160715, 22049618615183009916561881272401447408979478231793006312101199279459004823763⟩ :=
    (addFast_dbl ⟨99057580558302078445750679671027677076559049974422172101662126201752361792595, 9632313120761699489319844273726529140004428366985486821569923362175009816648⟩
      101600800333245400614593718332093756915432813906496272991202141339859460384310
      (by decide) (by decide) (by decide) (by decide)).trans (by decide)
  have e111 : Point.addFast ⟨40303974825318303256924289613800018525254793572927413753870053569936923160715, 22049618615183009916561881272401447408979478231793006312101199279459004823763⟩ G = ⟨104974888522412900002523401899214871882209418303258581731111445006775132409881, 97289757591100626560245725244308979317271867234049913686738034025207750706259⟩ :=
    (addFast_distinct ⟨40303974825318303256924289613800018525254793572927413753870053569936923160715, 22049618615183009916561881272401447408979478231793006312101199279459004823763⟩ G
      112433571998410315434092895204723058820856932389139955643348083230481397003120
      (by decide) (by decide) (by decide) (by decide)
      (by decide) (by decide)).trans (by decide)
  have t111 : Point.mulLoopF G 146 ⟨99057580558302078445750679671027677076559049974422172101662126201752361792595, 9632313120761699489319844273726529140004428366985486821569923362175009816648⟩ 115791527923562512600966773174867268122657419499554411941383210439434368450560 =
      Point.mulLoopF G 145 ⟨104974888522412900002523401899214871882209418303258581731111445006775132409881, 97289757591100626560245725244308979317271867234049913686738034025207750706259⟩ 115790966609808829778362561341046628392044854333468259843308836870955607261184 :=
    mulLoopF_step 145 ⟨99057580558302078445750679671027677076559049974422172101662126201752361792595, 9632313120761699489319844273726529140004428366985486821569923362175009816648⟩ ⟨104974888522412900002523401899214871882209418303258581731111445006775132409881, 97289757591100626560245725244308979317271867234049913686738034025207750706259⟩ 115791527923562512600966773174867268122657419499554411941383210439434368450560 115790966609808829778362561341046628392044854333468259843308836870955607261184
      (by
      rw [(by decide : Nat.testBit 115791527923562512600966773174867268122657419499554411941383210439434368450560 255 = true), if_pos rfl, d111]
      exact e111)
      (by decide)
  have d112 : Point.addFast ⟨104974888522412900002523401899214871882209418303258581731111445006775132409881, 97289757591100626560245725244308979317271867234049913686738034025207750706259⟩ ⟨104974888522412900002523401899214871882209418303258581731111445006775132409881, 97289757591100626560245725244308979317271867234049913686738034025207750706259⟩ = ⟨47914464046774558340229137054142775618596628202786230095861890827736425345141, 77958130651017498968205021662110792380123261790112355106946683520651682163964⟩ :=
    (addFast_dbl ⟨104974888522412900002523401899214871882209418303258581731111445006775132409881, 97289757591100626560245725244308979317271867234049913686738034025207750706259⟩
      1164618483611838495012403381280953992096113370035177289994920563120833120114
      (by decide) (by decide) (by decide) (by decide)).trans (by decide)
  have e112 : Point.addFast ⟨47914464046774558340229137054142775618596628202786230095861890827736425345141, 77958130651017498968205021662110792380123261790112355106946683520651682163964⟩ G = ⟨17094445843246388782807047934495131951550157610276045715606318194015767473870, 86381763383078582546737772157888348651468922085198088917854629613501820706960⟩ :=
    (addFast_distinct ⟨47914464046774558340229137054142775618596628202786230095861890827736425345141, 77958130651017498968205021662110792380123261790112355106946683520651682163964⟩ G
      38178400832935085543602494733280850985943821605019939496743320202832572041127
      (by decide) (by decide) (by decide) (by decide)
      (by decide) (by decide)).trans (by decide)
  have t112 : Point.mulLoopF G 145 ⟨104974888522412900002523401899214871882209418303258581731111445006775132409881, 97289757591100626560245725244308979317271867234049913686738034025207750706259⟩ 115790966609808829778362561341046628392044854333468259843308836870955607261184 =
      Point.mulLoopF G 144 ⟨17094445843246388782807047934495131951550157610276045715606318194015767473870, 86381763383078582546737772157888348651468922085198088917854629613501820706960⟩ 115789843982301464133154137673405348930819724001295955647160089733998084882432 :=
    mulLoopF_step 144 ⟨104974888522412900002523401899214871882209418303258581731111445006775132409881, 97289757591100626560245725244308979317271867234049913686738034025207750706259⟩ ⟨17094445843246388782807047934495131951550157610276045715606318194015767473870, 86381763383078582546737772157888348651468922085198088917854629613501820706960⟩ 115790966609808829778362561341046628392044854333468259843308836870955607261184 115789843982301464133154137673405348930819724001295955647160089733998084882432
      (by
      rw [(by decide : Nat.testBit 115790966609808829778362561341046628392044854333468259843308836870955607261184 255 = true), if_pos rfl, d112]
      exact e112)
      (by decide)
  rw [t97, t98, t99, t100, t101, t102, t103, t104, t105, t106, t107, t108, t109, t110, t111, t112]

set_option maxHeartbeats 1600000 in
/-- Segment 8 of the certified double-and-add trace of the generator
multiplied by the group order: iterations 113 to 128, each point
addition discharged through a precomputed modular-inverse certificate. -/
theorem mulG_seg8 : Point.mulLoopF G 144 ⟨17094445843246388782807047934495131951550157610276045715606318194015767473870, 86381763383078582546737772157888348651468922085198088917854629613501820706960⟩ 115789843982301464133154137673405348930819724001295955647160089733998084882432 =
    Point.mulLoopF G 128 ⟨68692142850392660802015396329039649451204381635119853432798177972246951304803, 102365750941148103039035143763801997307773149029056103307434350881605350249461⟩ 84439145829202542088635004939594274006257070843025530470330432719453031497728 := by
  have d113 : Point.addFast ⟨17094445843246388782807047934495131951550157610276045715606318194015767473870, 86381763383078582546737772157888348651468922085198088917854629613501820706960⟩ ⟨17094445843246388782807047934495131951550157610276045715606318194015767473870, 86381763383078582546737772157888348651468922085198088917854629613501820706960⟩ = ⟨110228038564823204773078885995652869633103420418446258987649850384234177315210, 75410752530204165606258763884401249500263906350753978906303513499770298094850⟩ :=
    (addFast_dbl ⟨17094445843246388782807047934495131951550157610276045715606318194015767473870, 86381763383078582546737772157888348651468922085198088917854629613501820706960⟩
      31775923662841740648344161307992056532156357334976581303643408739754159223200
      (by decide) (by decide) (by decide) (by decide)).trans (by decide)
  have e113 : Point.addFast ⟨110228038564823204773078885995652869633103420418446258987649850384234177315210, 75410752530204165606258763884401249500263906350753978906303513499770298094850⟩ G = ⟨17771571735965953253471420791300293997656220382701564332842383046840410169949, 21676981378121622119582307596384296058269040135118451542643794568445554346533⟩ :=
    (addFast_distinct ⟨110228038564823204773078885995652869633103420418446258987649850384234177315210, 75410752530204165606258763884401249500263906350753978906303513499770298094850⟩ G
      108696800796984661674564427508561550875171449206889031810814919974093501326559
      (by decide) (by decide) (by decide) (by decide)
      (by decide) (by decide)).trans (by decide)
  have t113 : Point.mulLoopF G 144 ⟨17094445843246388782807047934495131951550157610276045715606318194015767473870, 86381763383078582546737772157888348651468922085198088917854629613501820706960⟩ 115789843982301464133154137673405348930819724001295955647160089733998084882432 =
      Point.mulLoopF G 143 ⟨17771571735965953253471420791300293997656220382701564332842383046840410169949, 21676981378121622119582307596384296058269040135118451542643794568445554346533⟩ 115787598727286732842737290338122790008369463336951347254862595460083040124928 :=
    mulLoopF_step 143 ⟨17094445843246388782807047934495131951550157610276045715606318194015767473870, 86381763383078582546737772157888348651468922085198088917854629613501820706960⟩ ⟨17771571735965953253471420791300293997656220382701564332842383046840410169949, 21676981378121622119582307596384296058269040135118451542643794568445554346533⟩ 115789843982301464133154137673405348930819724001295955647160089733998084882432 115787598727286732842737290338122790008369463336951347254862595460083040124928
      (by
      rw [(by decide : Nat.testBit 115789843982301464133154137673405348930819724001295955647160089733998084882432 255 = true), if_pos rfl, d113]
      exact e113)
      (by decide)
  have d114 : Point.addFast ⟨17771571735965953253471420791300293997656220382701564332842383046840410169949, 21676981378121622119582307596384296058269040135118451542643794568445554346533⟩ ⟨17771571735965953253471420791300293997656220382701564332842383046840410169949, 21676981378121622119582307596384296058269040135118451542643794568445554346533⟩ = ⟨23432890532356342854498764939115148846976774916549230734826566540054219449347, 37001831005047195393487847574940568382459739855008519257789462925224316972133⟩ :=
    (addFast_dbl ⟨17771571735965953253471420791300293997656220382701564332842383046840410169949, 21676981378121622119582307596384296058269040135118451542643794568445554346533⟩
      36201685387055509507815977849143324838014889229215721372149071182536938392185
      (by decide) (by decide) (by decide) (by decide)).trans (by decide)
  have e114 : Point.addFast ⟨23432890532356342854498764939115148846976774916549230734826566540054219449347, 37001831005047195393487847574940568382459739855008519257789462925224316972133⟩ G = ⟨38621021452438382006694958330596152025610673929961122182373421759972911150351, 22261947805893413772816139774139881685281902777854494539771383933900210098220⟩ :=
    (addFast_distinct ⟨23432890532356342854498764939115148846976774916549230734826566540054219449347, 37001831005047195393487847574940568382459739855008519257789462925224316972133⟩ G
      6736666779389052286623789769634566783240594385117809345367295682248193001500
      (by decide) (by decide) (by decide) (by decide)
      (by decide) (by decide)).trans (by decide)
  have t114 : Point.mulLoopF G 143 ⟨17771571735965953253471420791300293997656220382701564332842383046840410169949, 21676981378121622119582307596384296058269040135118451542643794568445554346533⟩ 115787598727286732842737290338122790008369463336951347254862595460083040124928 =
      Point.mulLoopF G 142 ⟨38621021452438382006694958330596152025610673929961122182373421759972911150351, 22261947805893413772816139774139881685281902777854494539771383933900210098220⟩ 115783108217257270261903595667557672163468942008262130470267606912252950609920 :=
    mulLoopF_step 142 ⟨17771571735965953253471420791300293997656220382701564332842383046840410169949, 21676981378121622119582307596384296058269040135118451542643794568445554346533⟩ ⟨38621021452438382006694958330596152025610673929961122182373421759972911150351, 22261947805893413772816139774139881685281902777854494539771383933900210098220⟩ 115787598727286732842737290338122790008369463336951347254862595460083040124928 115783108217257270261903595667557672163468942008262130470267606912252950609920
      (by
      rw [(by decide : Nat.testBit 115787598727286732842737290338122790008369463336951347254862595460083040124928 255 = true), if_pos rfl, d114]
      exact e114)
      (by decide)
  have d115 : Point.addFast ⟨38621021452438382006694958330596152025610673929961122182373421759972911150351, 22261947805893413772816139774139881685281902777854494539771383933900210098220⟩ ⟨38621021452438382006694958330596152025610673929961122182373421759972911150351, 22261947805893413772816139774139881685281902777854494539771383933900210098220⟩ = ⟨17284329575503493350931470111293126145966924406420375687427234581142327517280, 77186450133861189800117300919098309064964593874303626535310368388446779338411⟩ :=
    (addFast_dbl ⟨38621021452438382006694958330596152025610673929961122182373421759972911150351, 22261947805893413772816139774139881685281902777854494539771383933900210098220⟩
      111857346000157938616574847292688882831896322422833976517218390427875232387484
      (by decide) (by decide) (by decide) (by decide)).trans (by decide)
  have e115 : Point.addFast ⟨17284329575503493350931470111293126145966924406420375687427234581142327517280, 77186450133861189800117300919098309064964593874303626535310368388446779338411⟩ G = ⟨19357972556120398054289850320762044641814040644682273734628626060699241843516, 97708701507464560624384186437540801921291404812210183061964621538139223136702⟩ :=
    (addFast_distinct ⟨17284329575503493350931470111293126145966924406420375687427234581142327517280, 77186450133861189800117300919098309064964593874303626535310368388446779338411⟩ G
      99353175814106840205845010065167607244295919788677820362950194358458568432258
      (by decide) (by decide) (by decide) (by decide)
      (by decide) (by decide)).trans (by decide)
  have t115 : Point.mulLoopF G 142 ⟨38621021452438382006694958330596152025610673929961122182373421759972911150351, 22261947805893413772816139774139881685281902777854494539771383933900210098220⟩ 115783108217257270261903595667557672163468942008262130470267606912252950609920 =
      Point.mulLoopF G 141 ⟨19357972556120398054289850320762044641814040644682273734628626060699241843516, 97708701507464560624384186437540801921291404812210183061964621538139223136702⟩ 115774127197198345100236206326427436473667899350883696901077629816592771579904 :=
    mulLoopF_step 141 ⟨38621021452438382006694958330596152025610673929961122182373421759972911150351, 22261947805893413772816139774139881685281902777854494539771383933900210098220⟩ ⟨19357972556120398054289850320762044641814040644682273734628626060699241843516, 97708701507464560624384186437540801921291404812210183061964621538139223136702⟩ 115783108217257270261903595667557672163468942008262130470267606912252950609920 115774127197198345100236206326427436473667899350883696901077629816592771579904
      (by
      rw [(by decide : Nat.testBit 115783108217257270261903595667557672163468942008262130470267606912252950609920 255 = true), if_pos rfl, d115]
      exact e115)
      (by decide)
  have d116 : Point.addFast ⟨19357972556120398054289850320762044641814040644682273734628626060699241843516, 97708701507464560624384186437540801921291404812210183061964621538139223136702⟩ ⟨19357972556120398054289850320762044641814040644682273734628626060699241843516, 97708701507464560624384186437540801921291404812210183061964621538139223136702⟩ = ⟨46043956825824711338538478884173222667424510337014238514425545475382367229105, 55381699144471833952869654034330483822930458699684752459790908970338441989949⟩ :=
    (addFast_dbl ⟨19357972556120398054289850320762044641814040644682273734628626060699241843516, 97708701507464560624384186437540801921291404812210183061964621538139223136702⟩
      114167736292497985730269797501470420386579298329212046556582328815161888325125
      (by decide) (by decide) (by decide) (by decide)).trans (by decide)
  have e116 : Point.addFast ⟨46043956825824711338538478884173222667424510337014238514425545475382367229105, 55381699144471833952869654034330483822930458699684752459790908970338441989949⟩ G = ⟨99544117707868909443754797662878906691779847424433669375312674540126210509577, 113662362768647842278349268097669139843532339568490564718523067461270545787211⟩ :=
    (addFast_distinct ⟨46043956825824711338538478884173222667424510337014238514425545475382367229105, 55381699144471833952869654034330483822930458699684752459790908970338441989949⟩ G
      35937507282153727164000637496767959180518549756573637198265712739584850108567
      (by decide) (by decide) (by decide) (by decide)
      (by decide) (by decide)).trans (by decide)
  have t116 : Point.mulLoopF G 141 ⟨19357972556120398054289850320762044641814040644682273734628626060699241843516, 97708701507464560624384186437540801921291404812210183061964621538139223136702⟩ 115774127197198345100236206326427436473667899350883696901077629816592771579904 =
      Point.mulLoopF G 140 ⟨99544117707868909443754797662878906691779847424433669375312674540126210509577, 113662362768647842278349268097669139843532339568490564718523067461270545787211⟩ 115756165157080494776901427644166965094065814036126829762697675625272413519872 :=
    mulLoopF_step 140 ⟨19357972556120398054289850320762044641814040644682273734628626060699241843516, 97708701507464560624384186437540801921291404812210183061964621538139223136702⟩ ⟨99544117707868909443754797662878906691779847424433669375312674540126210509577, 113662362768647842278349268097669139843532339568490564718523067461270545787211⟩ 115774127197198345100236206326427436473667899350883696901077629816592771579904 115756165157080494776901427644166965094065814036126829762697675625272413519872
      (by
      rw [(by decide : Nat.testBit 115774127197198345100236206326427436473667899350883696901077629816592771579904 255 = true), if_pos rfl, d116]
      exact e116)
      (by decide)
  have d117 : Point.addFast ⟨99544117707868909443754797662878906691779847424433669375312674540126210509577, 113662362768647842278349268097669139843532339568490564718523067461270545787211⟩ ⟨99544117707868909443754797662878906691779847424433669375312674540126210509577, 113662362768647842278349268097669139843532339568490564718523067461270545787211⟩ = ⟨46464973099387419697183147946270207605288490331086240885500629503935010914871, 27223011805526720766200739621835799131480229287525616617209414352850658781797⟩ :=
    (addFast_dbl ⟨99544117707868909443754797662878906691779847424433669375312674540126210509577, 113662362768647842278349268097669139843532339568490564718523067461270545787211⟩
      98949691153209450449404007457826927885931790667595797866449988457558307547562
      (by decide) (by decide) (by decide) (by decide)).trans (by decide)
  have e117 : Point.addFast ⟨46464973099387419697183147946270207605288490331086240885500629503935010914871, 27223011805526720766200739621835799131480229287525616617209414352850658781797⟩ G = ⟨39658475619831363419619804356122304284803292429613512168995620131969247112634, 90632588532434197300246168781382494875897068879559811880873017727895837100176⟩ :=
    (addFast_distinct ⟨46464973099387419697183147946270207605288490331086240885500629503935010914871, 27223011805526720766200739621835799131480229287525616617209414352850658781797⟩ G
      115547305390557051464528454872504501147889652311717517149373678057026896721328
      (by decide) (by decide) (by decide) (by decide)
      (by decide) (by decide)).trans (by decide)
  have t117 : Point.mulLoopF G 140 ⟨99544117707868909443754797662878906691779847424433669375312674540126210509577, 113662362768647842278349268097669139843532339568490564718523067461270545787211⟩ 115756165157080494776901427644166965094065814036126829762697675625272413519872 =
      Point.mulLoopF G 139 ⟨39658475619831363419619804356122304284803292429613512168995620131969247112634, 90632588532434197300246168781382494875897068879559811880873017727895837100176⟩ 115720241076844794130231870279646022334861643406613095485937767242631697399808 :=
    mulLoopF_step 139 ⟨99544117707868909443754797662878906691779847424433669375312674540126210509577, 113662362768647842278349268097669139843532339568490564718523067461270545787211⟩ ⟨39658475619831363419619804356122304284803292429613512168995620131969247112634, 90632588532434197300246168781382494875897068879559811880873017727895837100176⟩ 115756165157080494776901427644166965094065814036126829762697675625272413519872 115720241076844794130231870279646022334861643406613095485937767242631697399808
      (by
      rw [(by decide : Nat.testBit 115756165157080494776901427644166965094065814036126829762697675625272413519872 255 = true), if_pos rfl, d117]
      exact e117)
      (by decide)
  have d118 : Point.addFast ⟨39658475619831363419619804356122304284803292429613512168995620131969247112634, 90632588532434197300246168781382494875897068879559811880873017727895837100176⟩ ⟨39658475619831363419619804356122304284803292429613512168995620131969247112634, 90632588532434197300246168781382494875897068879559811880873017727895837100176⟩ = ⟨56290280395498484114995017197456451906629475758599988185277472995313474566853, 76001096710304907363949522820375422449287167039354331320327674798050901188290⟩ :=
    (addFast_dbl ⟨39658475619831363419619804356122304284803292429613512168995620131969247112634, 90632588532434197300246168781382494875897068879559811880873017727895837100176⟩
      53022228640657751279573357117691049249795473231063813468440771264091687668832
      (by decide) (by decide) (by decide) (by decide)).trans (by decide)
  have e118 : Point.addFast ⟨56290280395498484114995017197456451906629475758599988185277472995313474566853, 76001096710304907363949522820375422449287167039354331320327674798050901188290⟩ G = ⟨42968108831271476510851864148006669022828295826448484506201168567901691367632, 28114379227529671315521144680933619274154905335209056545781906556844202122006⟩ :=
    (addFast_distinct ⟨56290280395498484114995017197456451906629475758599988185277472995313474566853, 76001096710304907363949522820375422449287167039354331320327674798050901188290⟩ G
      13933806232809877397092753409367298923491238032221374981511011818967859996730
      (by decide) (by decide) (by decide) (by decide)
      (by decide) (by decide)).trans (by decide)
  have t118 : Point.mulLoopF G 139 ⟨39658475619831363419619804356122304284803292429613512168995620131969247112634, 90632588532434197300246168781382494875897068879559811880873017727895837100176⟩ 115720241076844794130231870279646022334861643406613095485937767242631697399808 =
      Point.mulLoopF G 138 ⟨42968108831271476510851864148006669022828295826448484506201168567901691367632, 28114379227529671315521144680933619274154905335209056545781906556844202122006⟩ 115648392916373392836892755550604136816453302147585626932417950477350265159680 :=
    mulLoopF_step 138 ⟨39658475619831363419619804356122304284803292429613512168995620131969247112634, 90632588532434197300246168781382494875897068879559811880873017727895837100176⟩ ⟨42968108831271476510851864148006669022828295826448484506201168567901691367632, 28114379227529671315521144680933619274154905335209056545781906556844202122006⟩ 115720241076844794130231870279646022334861643406613095485937767242631697399808 115648392916373392836892755550604136816453302147585626932417950477350265159680
      (by
      rw [(by decide : Nat.testBit 115720241076844794130231870279646022334861643406613095485937767242631697399808 255 = true), if_pos rfl, d118]
      exact e118)
      (by decide)
  have d119 : Point.addFast ⟨42968108831271476510851864148006669022828295826448484506201168567901691367632, 28114379227529671315521144680933619274154905335209056545781906556844202122006⟩ ⟨42968108831271476510851864148006669022828295826448484506201168567901691367632, 28114379227529671315521144680933619274154905335209056545781906556844202122006⟩ = ⟨926917096059351889623204047025347710101956909719273126248880579994851227799, 9392028982925573106626568856962646900153024075539974425545867503012428545952⟩ :=
    (addFast_dbl ⟨42968108831271476510851864148006669022828295826448484506201168567901691367632, 28114379227529671315521144680933619274154905335209056545781906556844202122006⟩
      64098686047155597235171377243307118991889005961496468422047685495085403733262
      (by decide) (by decide) (by decide) (by decide)).trans (by decide)
  have e119 : Point.addFast ⟨926917096059351889623204047025347710101956909719273126248880579994851227799, 9392028982925573106626568856962646900153024075539974425545867503012428545952⟩ G = ⟨80938203893428479870254506523984841798426552524225412250550703057037531720035, 10147417670071250306848356775050600965463936214397533129308412868229542552275⟩ :=
    (addFast_distinct ⟨926917096059351889623204047025347710101956909719273126248880579994851227799, 9392028982925573106626568856962646900153024075539974425545867503012428545952⟩ G
      10490076765041406116041275854111515884269610472012706400490840761472236506901
      (by decide) (by decide) (by decide) (by decide)
      (by decide) (by decide)).trans (by decide)
  have t119 : Point.mulLoopF G 138 ⟨42968108831271476510851864148006669022828295826448484506201168567901691367632, 28114379227529671315521144680933619274154905335209056545781906556844202122006⟩ 115648392916373392836892755550604136816453302147585626932417950477350265159680 =
      Point.mulLoopF G 137 ⟨80938203893428479870254506523984841798426552524225412250550703057037531720035, 10147417670071250306848356775050600965463936214397533129308412868229542552275⟩ 115504696595430590250214526092520365779636619629530689825378316946787400679424 :=
    mulLoopF_step 137 ⟨42968108831271476510851864148006669022828295826448484506201168567901691367632, 28114379227529671315521144680933619274154905335209056545781906556844202122006⟩ ⟨80938203893428479870254506523984841798426552524225412250550703057037531720035, 10147417670071250306848356775050600965463936214397533129308412868229542552275⟩ 115648392916373392836892755550604136816453302147585626932417950477350265159680 115504696595430590250214526092520365779636619629530689825378316946787400679424
      (by
      rw [(by decide : Nat.testBit 115648392916373392836892755550604136816453302147585626932417950477350265159680 255 = true), if_pos rfl, d119]
      exact e119)
      (by decide)
  have d120 : Point.addFast ⟨80938203893428479870254506523984841798426552524225412250550703057037531720035, 10147417670071250306848356775050600965463936214397533129308412868229542552275⟩ ⟨80938203893428479870254506523984841798426552524225412250550703057037531720035, 10147417670071250306848356775050600965463936214397533129308412868229542552275⟩ = ⟨51517028311536510966815689590373856223315483936968151029407184791807327934501, 74807762725342165661370022656494094606840886626781433124578564951333583352302⟩ :=
    (addFast_dbl ⟨80938203893428479870254506523984841798426552524225412250550703057037531720035, 10147417670071250306848356775050600965463936214397533129308412868229542552275⟩
      19059005589465433380711473844068339574678723799970752122299680193120090438432
      (by decide) (by decide) (by decide) (by decide)).trans (by decide)
  have e120 : Point.addFast ⟨51517028311536510966815689590373856223315483936968151029407184791807327934501, 74807762725342165661370022656494094606840886626781433124578564951333583352302⟩ G = ⟨99783062481929763298895154644208221421349043522236968117358273003590171967359, 76077462664931240148802448179946552737717098049242819873660170300131041875017⟩ :=
    (addFast_distinct ⟨51517028311536510966815689590373856223315483936968151029407184791807327934501, 74807762725342165661370022656494094606840886626781433124578564951333583352302⟩ G
      35352699675145021444088945457955935444627542846392894005746670106225745168177
      (by decide) (by decide) (by decide) (by decide)
      (by decide) (by decide)).trans (by decide)
  have t120 : Point.mulLoopF G 137 ⟨80938203893428479870254506523984841798426552524225412250550703057037531720035, 10147417670071250306848356775050600965463936214397533129308412868229542552275⟩ 115504696595430590250214526092520365779636619629530689825378316946787400679424 =
      Point.mulLoopF G 136 ⟨99783062481929763298895154644208221421349043522236968117358273003590171967359, 76077462664931240148802448179946552737717098049242819873660170300131041875017⟩ 115217303953544985076858067176352823706003254593420815611299049885661671718912 :=
    mulLoopF_step 136 ⟨80938203893428479870254506523984841798426552524225412250550703057037531720035, 10147417670071250306848356775050600965463936214397533129308412868229542552275⟩ ⟨99783062481929763298895154644208221421349043522236968117358273003590171967359, 76077462664931240148802448179946552737717098049242819873660170300131041875017⟩ 115504696595430590250214526092520365779636619629530689825378316946787400679424 115217303953544985076858067176352823706003254593420815611299049885661671718912
      (by
      rw [(by decide : Nat.testBit 115504696595430590250214526092520365779636619629530689825378316946787400679424 255 = true), if_pos rfl, d120]
      exact e120)
      (by decide)
  have d121 : Point.addFast ⟨99783062481929763298895154644208221421349043522236968117358273003590171967359, 76077462664931240148802448179946552737717098049242819873660170300131041875017⟩ ⟨99783062481929763298895154644208221421349043522236968117358273003590171967359, 76077462664931240148802448179946552737717098049242819873660170300131041875017⟩ = ⟨37464755172699901694843434897464754889058811826698514912150459007185426049596, 35990359404064835665164825778552629516635340152851157020261154291258240322801⟩ :=
    (addFast_dbl ⟨99783062481929763298895154644208221421349043522236968117358273003590171967359, 76077462664931240148802448179946552737717098049242819873660170300131041875017⟩
      35318353961494870664285172968912600701557222571488175916472345025589681910234
      (by decide) (by decide) (by decide) (by decide)).trans (by decide)
  have e121 : Point.addFast ⟨37464755172699901694843434897464754889058811826698514912150459007185426049596, 35990359404064835665164825778552629516635340152851157020261154291258240322801⟩ G = ⟨2241702475118758140351471486301357544376996171911961067614365186388315009644, 70520421453189585632773552208603942898855516311756109864076001277270305443565⟩ :=
    (addFast_distinct ⟨37464755172699901694843434897464754889058811826698514912150459007185426049596, 35990359404064835665164825778552629516635340152851157020261154291258240322801⟩ G
      82348782182118545181149164984269687936168067169820597968016530349859923537056
      (by decide) (by decide) (by decide) (by decide)
      (by decide) (by decide)).trans (by decide)
  have t121 : Point.mulLoopF G 136 ⟨99783062481929763298895154644208221421349043522236968117358273003590171967359, 76077462664931240148802448179946552737717098049242819873660170300131041875017⟩ 115217303953544985076858067176352823706003254593420815611299049885661671718912 =
      Point.mulLoopF G 135 ⟨2241702475118758140351471486301357544376996171911961067614365186388315009644, 70520421453189585632773552208603942898855516311756109864076001277270305443565⟩ 114642518669773774730145149344017739558736524521201067183140515763410213797888 :=
    mulLoopF_step 135 ⟨99783062481929763298895154644208221421349043522236968117358273003590171967359, 76077462664931240148802448179946552737717098049242819873660170300131041875017⟩ ⟨2241702475118758140351471486301357544376996171911961067614365186388315009644, 70520421453189585632773552208603942898855516311756109864076001277270305443565⟩ 115217303953544985076858067176352823706003254593420815611299049885661671718912 114642518669773774730145149344017739558736524521201067183140515763410213797888
      (by
      rw [(by decide : Nat.testBit 115217303953544985076858067176352823706003254593420815611299049885661671718912 255 = true), if_pos rfl, d121]
      exact e121)
      (by decide)
  have d122 : Point.addFast ⟨2241702475118758140351471486301357544376996171911961067614365186388315009644, 70520421453189585632773552208603942898855516311756109864076001277270305443565⟩ ⟨2241702475118758140351471486301357544376996171911961067614365186388315009644, 70520421453189585632773552208603942898855516311756109864076001277270305443565⟩ = ⟨55275427068351492735174817104724160138068957280562201102612507702066619657839, 72630305107852208782679119038399609895649356345907121919125410133922085076793⟩ :=
    (addFast_dbl ⟨2241702475118758140351471486301357544376996171911961067614365186388315009644, 70520421453189585632773552208603942898855516311756109864076001277270305443565⟩
      74084430675076375438048608281815817821026386867162973528173878460683424099049
      (by decide) (by decide) (by decide) (by decide)).trans (by decide)
  have e122 : Point.addFast ⟨55275427068351492735174817104724160138068957280562201102612507702066619657839, 72630305107852208782679119038399609895649356345907121919125410133922085076793⟩ G = ⟨97681239841240334644550806835810621738575261562599169183792956624229918888140, 42245486313330494885910345274851983781298614443662196919984634308008957298442⟩ :=
    (addFast_distinct ⟨55275427068351492735174817104724160138068957280562201102612507702066619657839, 72630305107852208782679119038399609895649356345907121919125410133922085076793⟩ G
      772119798155967082503818748309887747775331329302088596695291757135496017793
      (by decide) (by decide) (by decide) (by decide)
      (by decide) (by decide)).trans (by decide)
  have t122 : Point.mulLoopF G 135 ⟨2241702475118758140351471486301357544376996171911961067614365186388315009644, 70520421453189585632773552208603942898855516311756109864076001277270305443565⟩ 114642518669773774730145149344017739558736524521201067183140515763410213797888 =
      Point.mulLoopF G 134 ⟨97681239841240334644550806835810621738575261562599169183792956624229918888140, 42245486313330494885910345274851983781298614443662196919984634308008957298442⟩ 113492948102231354036719313679347571264203064376761570326823447518907297955840 :=
    mulLoopF_step 134 ⟨2241702475118758140351471486301357544376996171911961067614365186388315009644, 70520421453189585632773552208603942898855516311756109864076001277270305443565⟩ ⟨97681239841240334644550806835810621738575261562599169183792956624229918888140, 42245486313330494885910345274851983781298614443662196919984634308008957298442⟩ 114642518669773774730145149344017739558736524521201067183140515763410213797888 113492948102231354036719313679347571264203064376761570326823447518907297955840
      (by
      rw [(by decide : Nat.testBit 114642518669773774730145149344017739558736524521201067183140515763410213797888 255 = true), if_pos rfl, d122]
      exact e122)
      (by decide)
  have d123 : Point.addFast ⟨97681239841240334644550806835810621738575261562599169183792956624229918888140, 42245486313330494885910345274851983781298614443662196919984634308008957298442⟩ ⟨97681239841240334644550806835810621738575261562599169183792956624229918888140, 42245486313330494885910345274851983781298614443662196919984634308008957298442⟩ = ⟨50748170987335045594346592501766558292470273326088145157947455753976828151961, 65824857036685966363414360862694785752991072262781843948623506860884515686057⟩ :=
    (addFast_dbl ⟨97681239841240334644550806835810621738575261562599169183792956624229918888140, 42245486313330494885910345274851983781298614443662196919984634308008957298442⟩
      60275051501479691987573302880061301215183035717504640843378550265960556548943
      (by decide) (by decide) (by decide) (by decide)).trans (by decide)
  have e123 : Point.addFast ⟨50748170987335045594346592501766558292470273326088145157947455753976828151961, 65824857036685966363414360862694785752991072262781843948623506860884515686057⟩ G = ⟨113675539420863093046960980682371821873048848179531292009698275421568312488207, 112248129135470962851640439295516044621041275812622227624943114291058719090601⟩ :=
    (addFast_distinct ⟨50748170987335045594346592501766558292470273326088145157947455753976828151961, 65824857036685966363414360862694785752991072262781843948623506860884515686057⟩ G
      56533681286556878449911960770732758062670354479923143528949572009767451550408
      (by decide) (by decide) (by decide) (by decide)
      (by decide) (by decide)).trans (by decide)
  have t123 : Point.mulLoopF G 134 ⟨97681239841240334644550806835810621738575261562599169183792956624229918888140, 42245486313330494885910345274851983781298614443662196919984634308008957298442⟩ 113492948102231354036719313679347571264203064376761570326823447518907297955840 =
      Point.mulLoopF G 133 ⟨113675539420863093046960980682371821873048848179531292009698275421568312488207, 112248129135470962851640439295516044621041275812622227624943114291058719090601⟩ 111193806967146512649867642350007234675136144087882576614189311029901466271744 :=
    mulLoopF_step 133 ⟨97681239841240334644550806835810621738575261562599169183792956624229918888140, 42245486313330494885910345274851983781298614443662196919984634308008957298442⟩ ⟨113675539420863093046960980682371821873048848179531292009698275421568312488207, 112248129135470962851640439295516044621041275812622227624943114291058719090601⟩ 113492948102231354036719313679347571264203064376761570326823447518907297955840 111193806967146512649867642350007234675136144087882576614189311029901466271744
      (by
      rw [(by decide : Nat.testBit 113492948102231354036719313679347571264203064376761570326823447518907297955840 255 = true), if_pos rfl, d123]
      exact e123)
      (by decide)
  have d124 : Point.addFast ⟨113675539420863093046960980682371821873048848179531292009698275421568312488207, 112248129135470962851640439295516044621041275812622227624943114291058719090601⟩ ⟨113675539420863093046960980682371821873048848179531292009698275421568312488207, 112248129135470962851640439295516044621041275812622227624943114291058719090601⟩ = ⟨68269739857874159476018257833674358058974167523889970355151997236737070198030, 108162219461176390146078893357823556065434278881696929218913215633327915048880⟩ :=
    (addFast_dbl ⟨113675539420863093046960980682371821873048848179531292009698275421568312488207, 112248129135470962851640439295516044621041275812622227624943114291058719090601⟩
      34052310136046097086347710590480740945355485658047664402463287137015321643701
      (by decide) (by decide) (by decide) (by decide)).trans (by decide)
  have e124 : Point.addFast ⟨68269739857874159476018257833674358058974167523889970355151997236737070198030, 108162219461176390146078893357823556065434278881696929218913215633327915048880⟩ G = ⟨30325161051065299243085547591443159805902157153981635361185038582926502084824, 33681045752342013293869065378190574927112883788273327923812963506581401579645⟩ :=
    (addFast_distinct ⟨68269739857874159476018257833674358058974167523889970355151997236737070198030, 108162219461176390146078893357823556065434278881696929218913215633327915048880⟩ G
      12115248552175087933040271070068625441377894043067784158380371147733149363416
      (by decide) (by decide) (by decide) (by decide)
      (by decide) (by decide)).trans (by decide)
  have t124 : Point.mulLoopF G 133 ⟨113675539420863093046960980682371821873048848179531292009698275421568312488207, 112248129135470962851640439295516044621041275812622227624943114291058719090601⟩ 111193806967146512649867642350007234675136144087882576614189311029901466271744 =
      Point.mulLoopF G 132 ⟨30325161051065299243085547591443159805902157153981635361185038582926502084824, 33681045752342013293869065378190574927112883788273327923812963506581401579645⟩ 106595524696976829876164299691326561497002303510124589188921038051889802903552 :=
    mulLoopF_step 132 ⟨113675539420863093046960980682371821873048848179531292009698275421568312488207, 112248129135470962851640439295516044621041275812622227624943114291058719090601⟩ ⟨30325161051065299243085547591443159805902157153981635361185038582926502084824, 33681045752342013293869065378190574927112883788273327923812963506581401579645⟩ 111193806967146512649867642350007234675136144087882576614189311029901466271744 106595524696976829876164299691326561497002303510124589188921038051889802903552
      (by
      rw [(by decide : Nat.testBit 111193806967146512649867642350007234675136144087882576614189311029901466271744 255 = true), if_pos rfl, d124]
      exact e124)
      (by decide)
  have d125 : Point.addFast ⟨30325161051065299243085547591443159805902157153981635361185038582926502084824, 33681045752342013293869065378190574927112883788273327923812963506581401579645⟩ ⟨30325161051065299243085547591443159805902157153981635361185038582926502084824, 33681045752342013293869065378190574927112883788273327923812963506581401579645⟩ = ⟨95417341016597744294033101155937530486859810622406822505666224266757386025554, 40965003150300794594678112134451572739710636516681222557571937249818665008685⟩ :=
    (addFast_dbl ⟨30325161051065299243085547591443159805902157153981635361185038582926502084824, 33681045752342013293869065378190574927112883788273327923812963506581401579645⟩
      56471544303942095867770534950795631858753932214489213306109014106273277811774
      (by decide) (by decide) (by decide) (by decide)).trans (by decide)
  have e125 : Point.addFast ⟨95417341016597744294033101155937530486859810622406822505666224266757386025554, 40965003150300794594678112134451572739710636516681222557571937249818665008685⟩ G = ⟨20655408614480095796138947353558619681393472506174843351440780492656256369384, 100150957601371860619527154472713016321749559254173654066011988483952718446484⟩ :=
    (addFast_distinct ⟨95417341016597744294033101155937530486859810622406822505666224266757386025554, 40965003150300794594678112134451572739710636516681222557571937249818665008685⟩ G
      48198439859207949927263840955002979532792772873724904191134272835217488814059
      (by decide) (by decide) (by decide) (by decide)
      (by decide) (by decide)).trans (by decide)
  have t125 : Point.mulLoopF G 132 ⟨30325161051065299243085547591443159805902157153981635361185038582926502084824, 33681045752342013293869065378190574927112883788273327923812963506581401579645⟩ 106595524696976829876164299691326561497002303510124589188921038051889802903552 =
      Point.mulLoopF G 131 ⟨20655408614480095796138947353558619681393472506174843351440780492656256369384, 100150957601371860619527154472713016321749559254173654066011988483952718446484⟩ 97398960156637464328757614373965215140734622354608614338384492095866476167168 :=
    mulLoopF_step 131 ⟨30325161051065299243085547591443159805902157153981635361185038582926502084824, 33681045752342013293869065378190574927112883788273327923812963506581401579645⟩ ⟨20655408614480095796138947353558619681393472506174843351440780492656256369384, 100150957601371860619527154472713016321749559254173654066011988483952718446484⟩ 106595524696976829876164299691326561497002303510124589188921038051889802903552 97398960156637464328757614373965215140734622354608614338384492095866476167168
      (by
      rw [(by decide : Nat.testBit 106595524696976829876164299691326561497002303510124589188921038051889802903552 255 = true), if_pos rfl, d125]
      exact e125)
      (by decide)
  have d126 : Point.addFast ⟨20655408614480095796138947353558619681393472506174843351440780492656256369384, 100150957601371860619527154472713016321749559254173654066011988483952718446484⟩ ⟨20655408614480095796138947353558619681393472506174843351440780492656256369384, 100150957601371860619527154472713016321749559254173654066011988483952718446484⟩ = ⟨65015121373423101403781784331045374584439641771641230840661294954371119199876, 86600062279810174344106947156048336994359938510149715676498754697826664993588⟩ :=
    (addFast_dbl ⟨20655408614480095796138947353558619681393472506174843351440780492656256369384, 100150957601371860619527154472713016321749559254173654066011988483952718446484⟩
      75300977374611751901648639400814673516766535624519793321456284271926229332301
      (by decide) (by decide) (by decide) (by decide)).trans (by decide)
  have e126 : Point.addFast ⟨65015121373423101403781784331045374584439641771641230840661294954371119199876, 86600062279810174344106947156048336994359938510149715676498754697826664993588⟩ G = ⟨74908289780128607900103260308928883264974317854699790870488896481230705601487, 87662823518640088119700372408111401550278419917114495926862653782390007928595⟩ :=
    (addFast_distinct ⟨65015121373423101403781784331045374584439641771641230840661294954371119199876, 86600062279810174344106947156048336994359938510149715676498754697826664993588⟩ G
      95013972276273535204555053233484509768336652195779030897371964605320514872011
      (by decide) (by decide) (by decide) (by decide)
      (by decide) (by decide)).trans (by decide)
  have t126 : Point.mulLoopF G 131 ⟨20655408614480095796138947353558619681393472506174843351440780492656256369384, 100150957601371860619527154472713016321749559254173654066011988483952718446484⟩ 97398960156637464328757614373965215140734622354608614338384492095866476167168 =
      Point.mulLoopF G 130 ⟨74908289780128607900103260308928883264974317854699790870488896481230705601487, 87662823518640088119700372408111401550278419917114495926862653782390007928595⟩ 79005831075958733233944243739242522428199260043576664637311400183819822694400 :=
    mulLoopF_step 130 ⟨20655408614480095796138947353558619681393472506174843351440780492656256369384, 100150957601371860619527154472713016321749559254173654066011988483952718446484⟩ ⟨74908289780128607900103260308928883264974317854699790870488896481230705601487, 87662823518640088119700372408111401550278419917114495926862653782390007928595⟩ 97398960156637464328757614373965215140734622354608614338384492095866476167168 79005831075958733233944243739242522428199260043576664637311400183819822694400
      (by
      rw [(by decide : Nat.testBit 97398960156637464328757614373965215140734622354608614338384492095866476167168 255 = true), if_pos rfl, d126]
      exact e126)
      (by decide)
  have d127 : Point.addFast ⟨74908289780128607900103260308928883264974317854699790870488896481230705601487, 87662823518640088119700372408111401550278419917114495926862653782390007928595⟩ ⟨74908289780128607900103260308928883264974317854699790870488896481230705601487, 87662823518640088119700372408111401550278419917114495926862653782390007928595⟩ = ⟨29146787670961382463446161759236414178786333503999717616099142125313371595286, 27896972286324493155108198353748362638984931432938199689681358227396137362026⟩ :=
    (addFast_dbl ⟨74908289780128607900103260308928883264974317854699790870488896481230705601487, 87662823518640088119700372408111401550278419917114495926862653782390007928595⟩
      109853319743901491504067704975595356990030624392312760631186988263132802025278
      (by decide) (by decide) (by decide) (by decide)).trans (by decide)
  have e127 : Point.addFast ⟨29146787670961382463446161759236414178786333503999717616099142125313371595286, 27896972286324493155108198353748362638984931432938199689681358227396137362026⟩ G = ⟨60235763145053773929464348133510900516016684455921028638380419597223531861030, 89513848975611855038621078042675025485452833182273567167128655323621600023883⟩ :=
    (addFast_distinct ⟨29146787670961382463446161759236414178786333503999717616099142125313371595286, 27896972286324493155108198353748362638984931432938199689681358227396137362026⟩ G
      25264322163797323946873790825681013121728468432690199720355207520701213888807
      (by decide) (by decide) (by decide) (by decide)
      (by decide) (by decide)).trans (by decide)
  have t127 : Point.mulLoopF G 130 ⟨74908289780128607900103260308928883264974317854699790870488896481230705601487, 87662823518640088119700372408111401550278419917114495926862653782390007928595⟩ 79005831075958733233944243739242522428199260043576664637311400183819822694400 =
      Point.mulLoopF G 129 ⟨60235763145053773929464348133510900516016684455921028638380419597223531861030, 89513848975611855038621078042675025485452833182273567167128655323621600023883⟩ 42219572914601271044317502469797137003128535421512765235165216359726515748864 :=
    mulLoopF_step 129 ⟨74908289780128607900103260308928883264974317854699790870488896481230705601487, 87662823518640088119700372408111401550278419917114495926862653782390007928595⟩ ⟨60235763145053773929464348133510900516016684455921028638380419597223531861030, 89513848975611855038621078042675025485452833182273567167128655323621600023883⟩ 79005831075958733233944243739242522428199260043576664637311400183819822694400 42219572914601271044317502469797137003128535421512765235165216359726515748864
      (by
      rw [(by decide : Nat.testBit 79005831075958733233944243739242522428199260043576664637311400183819822694400 255 = true), if_pos rfl, d127]
      exact e127)
      (by decide)
  have d128 : Point.addFast ⟨60235763145053773929464348133510900516016684455921028638380419597223531861030, 89513848975611855038621078042675025485452833182273567167128655323621600023883⟩ ⟨60235763145053773929464348133510900516016684455921028638380419597223531861030, 89513848975611855038621078042675025485452833182273567167128655323621600023883⟩ = ⟨68692142850392660802015396329039649451204381635119853432798177972246951304803, 102365750941148103039035143763801997307773149029056103307434350881605350249461⟩ :=
    (addFast_dbl ⟨60235763145053773929464348133510900516016684455921028638380419597223531861030, 89513848975611855038621078042675025485452833182273567167128655323621600023883⟩
      102997719156794026589724905747789434883821175584868640663708863646943062580949
      (by decide) (by decide) (by decide) (by decide)).trans (by decide)
  have t128 : Point.mulLoopF G 129 ⟨60235763145053773929464348133510900516016684455921028638380419597223531861030, 89513848975611855038621078042675025485452833182273567167128655323621600023883⟩ 42219572914601271044317502469797137003128535421512765235165216359726515748864 =
      Point.mulLoopF G 128 ⟨68692142850392660802015396329039649451204381635119853432798177972246951304803, 102365750941148103039035143763801997307773149029056103307434350881605350249461⟩ 84439145829202542088635004939594274006257070843025530470330432719453031497728 :=
    mulLoopF_step 128 ⟨60235763145053773929464348133510900516016684455921028638380419597223531861030, 89513848975611855038621078042675025485452833182273567167128655323621600023883⟩ ⟨68692142850392660802015396329039649451204381635119853432798177972246951304803, 102365750941148103039035143763801997307773149029056103307434350881605350249461⟩ 42219572914601271044317502469797137003128535421512765235165216359726515748864 84439145829202542088635004939594274006257070843025530470330432719453031497728
      (by
      rw [(by decide : Nat.testBit 42219572914601271044317502469797137003128535421512765235165216359726515748864 255 = false), if_neg Bool.false_ne_true]
      exact d128)
      (by decide)
  rw [t113, t114, t115, t116, t117, t118, t119, t120, t121, t122, t123, t124, t125, t126, t127, t128]

set_option maxHeartbeats 1600000 in
/-- Segment 9 of the certified double-and-add trace of the generator
multiplied by the group order: iterations 129 to 144, each point
addition discharged through a precomputed modular-inverse certificate. -/
theorem mulG_seg9 : Point.mulLoopF G 128 ⟨68692142850392660802015396329039649451204381635119853432798177972246951304803, 102365750941148103039035143763801997307773149029056103307434350881605350249461⟩ 84439145829202542088635004939594274006257070843025530470330432719453031497728 =
    Point.mulLoopF G 112 ⟨28586767670040456310616221907251914343795286723356100715307541993043500323658, 809373935437983616643794809700215623393373564677226761370754602900314325594⟩ 99916411276819028326310156055224966290827597558609457897298963905406742560768 := by
  have d129 : Point.addFast ⟨68692142850392660802015396329039649451204381635119853432798177972246951304803, 102365750941148103039035143763801997307773149029056103307434350881605350249461⟩ ⟨68692142850392660802015396329039649451204381635119853432798177972246951304803, 102365750941148103039035143763801997307773149029056103307434350881605350249461⟩ = ⟨55167813412955997544392679919383979178677355355598407661004827128619964248168, 100384951171414826746918692544367408328050369079782297301949678560246265023245⟩ :=
    (addFast_dbl ⟨68692142850392660802015396329039649451204381635119853432798177972246951304803, 102365750941148103039035143763801997307773149029056103307434350881605350249461⟩
      14498223537081370129772292709449903064131729409867708385285739659908264006919
      (by decide) (by decide) (by decide) (by decide)).trans (by decide)
  have e129 : Point.addFast ⟨55167813412955997544392679919383979178677355355598407661004827128619964248168, 100384951171414826746918692544367408328050369079782297301949678560246265023245⟩ G = ⟨109039081194021527811964385583496477222785309499533614830337942106300393007500, 69353713709823397331291410058002398534734481997681855688237955206445303706601⟩ :=
    (addFast_distinct ⟨55167813412955997544392679919383979178677355355598407661004827128619964248168, 100384951171414826746918692544367408328050369079782297301949678560246265023245⟩ G
      94785347409138487015194019252221557167924084171294799190253244029932333278971
      (by decide) (by decide) (by decide) (by decide)
      (by decide) (by decide)).trans (by decide)
  have t129 : Point.mulLoopF G 128 ⟨68692142850392660802015396329039649451204381635119853432798177972246951304803, 102365750941148103039035143763801997307773149029056103307434350881605350249461⟩ 84439145829202542088635004939594274006257070843025530470330432719453031497728 =
      Point.mulLoopF G 127 ⟨109039081194021527811964385583496477222785309499533614830337942106300393007500, 69353713709823397331291410058002398534734481997681855688237955206445303706601⟩ 53086202421088888753699024870500640159244157020410496901203281430992933355520 :=
    mulLoopF_step 127 ⟨68692142850392660802015396329039649451204381635119853432798177972246951304803, 102365750941148103039035143763801997307773149029056103307434350881605350249461⟩ ⟨109039081194021527811964385583496477222785309499533614830337942106300393007500, 69353713709823397331291410058002398534734481997681855688237955206445303706601⟩ 84439145829202542088635004939594274006257070843025530470330432719453031497728 53086202421088888753699024870500640159244157020410496901203281430992933355520
      (by
      rw [(by decide : Nat.testBit 84439145829202542088635004939594274006257070843025530470330432719453031497728 255 = true), if_pos rfl, d129]
      exact e129)
      (by decide)
  have d130 : Point.addFast ⟨109039081194021527811964385583496477222785309499533614830337942106300393007500, 69353713709823397331291410058002398534734481997681855688237955206445303706601⟩ ⟨109039081194021527811964385583496477222785309499533614830337942106300393007500, 69353713709823397331291410058002398534734481997681855688237955206445303706601⟩ = ⟨58199239149416701242561428518064070889374727500010008537384242788847369230300, 95904493180343666831870095692737715931837140152292107811300376238146538433936⟩ :=
    (addFast_dbl ⟨109039081194021527811964385583496477222785309499533614830337942106300393007500, 69353713709823397331291410058002398534734481997681855688237955206445303706601⟩
      31854023590239857541906721459176375498070530294032013972992878881282611154831
      (by decide) (by decide) (by decide) (by decide)).trans (by decide)
  have t130 : Point.mulLoopF G 127 ⟨109039081194021527811964385583496477222785309499533614830337942106300393007500, 69353713709823397331291410058002398534734481997681855688237955206445303706601⟩ 53086202421088888753699024870500640159244157020410496901203281430992933355520 =
      Point.mulLoopF G 126 ⟨58199239149416701242561428518064070889374727500010008537384242788847369230300, 95904493180343666831870095692737715931837140152292107811300376238146538433936⟩ 106172404842177777507398049741001280318488314040820993802406562861985866711040 :=
    mulLoopF_step 126 ⟨109039081194021527811964385583496477222785309499533614830337942106300393007500, 69353713709823397331291410058002398534734481997681855688237955206445303706601⟩ ⟨58199239149416701242561428518064070889374727500010008537384242788847369230300, 95904493180343666831870095692737715931837140152292107811300376238146538433936⟩ 53086202421088888753699024870500640159244157020410496901203281430992933355520 106172404842177777507398049741001280318488314040820993802406562861985866711040
      (by
      rw [(by decide : Nat.testBit 53086202421088888753699024870500640159244157020410496901203281430992933355520 255 = false), if_neg Bool.false_ne_true]
      exact d130)
      (by decide)
  have d131 : Point.addFast ⟨58199239149416701242561428518064070889374727500010008537384242788847369230300, 95904493180343666831870095692737715931837140152292107811300376238146538433936⟩ ⟨58199239149416701242561428518064070889374727500010008537384242788847369230300, 95904493180343666831870095692737715931837140152292107811300376238146538433936⟩ = ⟨91636555016614841210700707474943512852727732288347821106207368916064252847803, 54849497094113685872015754854927019058748338084159429713178765198970462171623⟩ :=
    (addFast_dbl ⟨58199239149416701242561428518064070889374727500010008537384242788847369230300, 95904493180343666831870095692737715931837140152292107811300376238146538433936⟩
      4072385200949247702451306859266246605798294230427689037967112380235193193351
      (by decide) (by decide) (by decide) (by decide)).trans (by decide)
  have e131 : Point.addFast ⟨91636555016614841210700707474943512852727732288347821106207368916064252847803, 54849497094113685872015754854927019058748338084159429713178765198970462171623⟩ G = ⟨90949833294341766642404563638073633162796283227472181339194471333320299707262, 105963621296051555584076142828950760504936730158846278684126593785393064709958⟩ :=
    (addFast_distinct ⟨91636555016614841210700707474943512852727732288347821106207368916064252847803, 54849497094113685872015754854927019058748338084159429713178765198970462171623⟩ G
      84235378244646324614470651818091074735725167784851759198465069735049050566930
      (by decide) (by decide) (by decide) (by decide)
      (by decide) (by decide)).trans (by decide)
  have t131 : Point.mulLoopF G 126 ⟨58199239149416701242561428518064070889374727500010008537384242788847369230300, 95904493180343666831870095692737715931837140152292107811300376238146538433936⟩ 106172404842177777507398049741001280318488314040820993802406562861985866711040 =
      Point.mulLoopF G 125 ⟨90949833294341766642404563638073633162796283227472181339194471333320299707262, 105963621296051555584076142828950760504936730158846278684126593785393064709958⟩ 96552720447039359591225114473314652783706643416001423565355541716058603782144 :=
    mulLoopF_step 125 ⟨58199239149416701242561428518064070889374727500010008537384242788847369230300, 95904493180343666831870095692737715931837140152292107811300376238146538433936⟩ ⟨90949833294341766642404563638073633162796283227472181339194471333320299707262, 105963621296051555584076142828950760504936730158846278684126593785393064709958⟩ 106172404842177777507398049741001280318488314040820993802406562861985866711040 96552720447039359591225114473314652783706643416001423565355541716058603782144
      (by
      rw [(by decide : Nat.testBit 106172404842177777507398049741001280318488314040820993802406562861985866711040 255 = true), if_pos rfl, d131]
      exact e131)
      (by decide)
  have d132 : Point.addFast ⟨90949833294341766642404563638073633162796283227472181339194471333320299707262, 105963621296051555584076142828950760504936730158846278684126593785393064709958⟩ ⟨90949833294341766642404563638073633162796283227472181339194471333320299707262, 105963621296051555584076142828950760504936730158846278684126593785393064709958⟩ = ⟨35517587808548078802672800559487372392027613650814179108857084470050472635324, 27186092853038508193635254494987202413331470351436226497685207552112694018818⟩ :=
    (addFast_dbl ⟨90949833294341766642404563638073633162796283227472181339194471333320299707262, 105963621296051555584076142828950760504936730158846278684126593785393064709958⟩
      55286543859092961457187496049024302277380269254928635746754138289943527556659
      (by decide) (by decide) (by decide) (by decide)).trans (by decide)
  have e132 : Point.addFast ⟨35517587808548078802672800559487372392027613650814179108857084470050472635324, 27186092853038508193635254494987202413331470351436226497685207552112694018818⟩ G = ⟨1993281497699846573732273651845976636063318964662665526366968901545071462126, 108843799672337935394024558370159277864399954377755665967707185164829039603721⟩ :=
    (addFast_distinct ⟨35517587808548078802672800559487372392027613650814179108857084470050472635324, 27186092853038508193635254494987202413331470351436226497685207552112694018818⟩ G
      5876483602723373640833783102950279566487471777984416439171030102917647283658
      (by decide) (by decide) (by decide) (by decide)
      (by decide) (by decide)).trans (by decide)
  have t132 : Point.mulLoopF G 125 ⟨90949833294341766642404563638073633162796283227472181339194471333320299707262, 105963621296051555584076142828950760504936730158846278684126593785393064709958⟩ 96552720447039359591225114473314652783706643416001423565355541716058603782144 =
      Point.mulLoopF G 124 ⟨1993281497699846573732273651845976636063318964662665526366968901545071462126, 108843799672337935394024558370159277864399954377755665967707185164829039603721⟩ 77313351656762523758879243937941397714143302166362283091253499424204077924352 :=
    mulLoopF_step 124 ⟨90949833294341766642404563638073633162796283227472181339194471333320299707262, 105963621296051555584076142828950760504936730158846278684126593785393064709958⟩ ⟨1993281497699846573732273651845976636063318964662665526366968901545071462126, 108843799672337935394024558370159277864399954377755665967707185164829039603721⟩ 96552720447039359591225114473314652783706643416001423565355541716058603782144 77313351656762523758879243937941397714143302166362283091253499424204077924352
      (by
      rw [(by decide : Nat.testBit 96552720447039359591225114473314652783706643416001423565355541716058603782144 255 = true), if_pos rfl, d132]
      exact e132)
      (by decide)
  have d133 : Point.addFast ⟨1993281497699846573732273651845976636063318964662665526366968901545071462126, 108843799672337935394024558370159277864399954377755665967707185164829039603721⟩ ⟨1993281497699846573732273651845976636063318964662665526366968901545071462126, 108843799672337935394024558370159277864399954377755665967707185164829039603721⟩ = ⟨97546098070300564207572283476477108117588643305946602253881633248917756519465, 21621102993029683639150974487358648026681327171995868656548472342344704568126⟩ :=
    (addFast_dbl ⟨1993281497699846573732273651845976636063318964662665526366968901545071462126, 108843799672337935394024558370159277864399954377755665967707185164829039603721⟩
      42678787812635213923026146552332038269499031916886243198545513350336201123332
      (by decide) (by decide) (by decide) (by decide)).trans (by decide)
  have e133 : Point.addFast ⟨97546098070300564207572283476477108117588643305946602253881633248917756519465, 21621102993029683639150974487358648026681327171995868656548472342344704568126⟩ G = ⟨94418560965844053364936767912323810278747098139363362616138027098632911443934, 30289528240013558067352603866162461149061095374597430614834975784698532289088⟩ :=
    (addFast_distinct ⟨97546098070300564207572283476477108117588643305946602253881633248917756519465, 21621102993029683639150974487358648026681327171995868656548472342344704568126⟩ G
      112917669161098912487084985633910839431786398611821150302789636385308888530802
      (by decide) (by decide) (by decide) (by decide)
      (by decide) (by decide)).trans (by decide)
  have t133 : Point.mulLoopF G 124 ⟨1993281497699846573732273651845976636063318964662665526366968901545071462126, 108843799672337935394024558370159277864399954377755665967707185164829039603721⟩ 77313351656762523758879243937941397714143302166362283091253499424204077924352 =
      Point.mulLoopF G 123 ⟨94418560965844053364936767912323810278747098139363362616138027098632911443934, 30289528240013558067352603866162461149061095374597430614834975784698532289088⟩ 38834614076208852094187502867194887575016619667084002143049414840495026208768 :=
    mulLoopF_step 123 ⟨1993281497699846573732273651845976636063318964662665526366968901545071462126, 108843799672337935394024558370159277864399954377755665967707185164829039603721⟩ ⟨94418560965844053364936767912323810278747098139363362616138027098632911443934, 30289528240013558067352603866162461149061095374597430614834975784698532289088⟩ 77313351656762523758879243937941397714143302166362283091253499424204077924352 38834614076208852094187502867194887575016619667084002143049414840495026208768
      (by
      rw [(by decide : Nat.testBit 77313351656762523758879243937941397714143302166362283091253499424204077924352 255 = true), if_pos rfl, d133]
      exact e133)
      (by decide)
  have d134 : Point.addFast ⟨94418560965844053364936767912323810278747098139363362616138027098632911443934, 30289528240013558067352603866162461149061095374597430614834975784698532289088⟩ ⟨94418560965844053364936767912323810278747098139363362616138027098632911443934, 30289528240013558067352603866162461149061095374597430614834975784698532289088⟩ = ⟨37648710582036764873170452736300449013294334286122735885631273964411917319317, 21205574605329840683194463487573542044832260956176015043024349102059051773993⟩ :=
    (addFast_dbl ⟨94418560965844053364936767912323810278747098139363362616138027098632911443934, 30289528240013558067352603866162461149061095374597430614834975784698532289088⟩
      64687369308107879816430992644601901103235367450457474971054850606367206357210
      (by decide) (by decide) (by decide) (by decide)).trans (by decide)
  have t134 : Point.mulLoopF G 123 ⟨94418560965844053364936767912323810278747098139363362616138027098632911443934, 30289528240013558067352603866162461149061095374597430614834975784698532289088⟩ 38834614076208852094187502867194887575016619667084002143049414840495026208768 =
      Point.mulLoopF G 122 ⟨37648710582036764873170452736300449013294334286122735885631273964411917319317, 21205574605329840683194463487573542044832260956176015043024349102059051773993⟩ 77669228152417704188375005734389775150033239334168004286098829680990052417536 :=
    mulLoopF_step 122 ⟨94418560965844053364936767912323810278747098139363362616138027098632911443934, 30289528240013558067352603866162461149061095374597430614834975784698532289088⟩ ⟨37648710582036764873170452736300449013294334286122735885631273964411917319317, 21205574605329840683194463487573542044832260956176015043024349102059051773993⟩ 38834614076208852094187502867194887575016619667084002143049414840495026208768 77669228152417704188375005734389775150033239334168004286098829680990052417536
      (by
      rw [(by decide : Nat.testBit 38834614076208852094187502867194887575016619667084002143049414840495026208768 255 = false), if_neg Bool.false_ne_true]
      exact d134)
      (by decide)
  have d135 : Point.addFast ⟨37648710582036764873170452736300449013294334286122735885631273964411917319317, 21205574605329840683194463487573542044832260956176015043024349102059051773993⟩ ⟨37648710582036764873170452736300449013294334286122735885631273964411917319317, 21205574605329840683194463487573542044832260956176015043024349102059051773993⟩ = ⟨106629538826767171458764735397451896903407908986657558655028638291500900725794, 100272708209601660008942831346608311452766986067054864031390620211204848223366⟩ :=
    (addFast_dbl ⟨37648710582036764873170452736300449013294334286122735885631273964411917319317, 21205574605329840683194463487573542044832260956176015043024349102059051773993⟩
      110602690967918954360921032504321240288499586979327271360147467580811522505525
      (by decide) (by decide) (by decide) (by decide)).trans (by decide)
  have e135 : Point.addFast ⟨106629538826767171458764735397451896903407908986657558655028638291500900725794, 100272708209601660008942831346608311452766986067054864031390620211204848223366⟩ G = ⟨54296923876539721957278718831795790499884448320528306268495133859469298705052, 112991332684541601195113127698165315450904534531826872651848937326659208812821⟩ :=
    (addFast_distinct ⟨106629538826767171458764735397451896903407908986657558655028638291500900725794, 100272708209601660008942831346608311452766986067054864031390620211204848223366⟩ G
      47230988221922095037257725742034122656056988673319968528820027318534368627439
      (by decide) (by decide) (by decide) (by decide)
      (by decide) (by decide)).trans (by decide)
  have t135 : Point.mulLoopF G 122 ⟨37648710582036764873170452736300449013294334286122735885631273964411917319317, 21205574605329840683194463487573542044832260956176015043024349102059051773993⟩ 77669228152417704188375005734389775150033239334168004286098829680990052417536 =
      Point.mulLoopF G 121 ⟨54296923876539721957278718831795790499884448320528306268495133859469298705052, 112991332684541601195113127698165315450904534531826872651848937326659208812821⟩ 39546367067519212953179026460091642446796494002695444532740075354066975195136 :=
    mulLoopF_step 121 ⟨37648710582036764873170452736300449013294334286122735885631273964411917319317, 21205574605329840683194463487573542044832260956176015043024349102059051773993⟩ ⟨54296923876539721957278718831795790499884448320528306268495133859469298705052, 112991332684541601195113127698165315450904534531826872651848937326659208812821⟩ 77669228152417704188375005734389775150033239334168004286098829680990052417536 39546367067519212953179026460091642446796494002695444532740075354066975195136
      (by
      rw [(by decide : Nat.testBit 77669228152417704188375005734389775150033239334168004286098829680990052417536 255 = true), if_pos rfl, d135]
      exact e135)
      (by decide)
  have d136 : Point.addFast ⟨54296923876539721957278718831795790499884448320528306268495133859469298705052, 112991332684541601195113127698165315450904534531826872651848937326659208812821⟩ ⟨54296923876539721957278718831795790499884448320528306268495133859469298705052, 112991332684541601195113127698165315450904534531826872651848937326659208812821⟩ = ⟨23386655904038579724702493496484408272177640471541533430102479464506259404228, 53663039570426527382473188235310655796464825472465894894573141556644110109924⟩ :=
    (addFast_dbl ⟨54296923876539721957278718831795790499884448320528306268495133859469298705052, 112991332684541601195113127698165315450904534531826872651848937326659208812821⟩
      2244738265994171069205617046578284451749744848838561902940098196297155905086
      (by decide) (by decide) (by decide) (by decide)).trans (by decide)
  have t136 : Point.mulLoopF G 121 ⟨54296923876539721957278718831795790499884448320528306268495133859469298705052, 112991332684541601195113127698165315450904534531826872651848937326659208812821⟩ 39546367067519212953179026460091642446796494002695444532740075354066975195136 =
      Point.mulLoopF G 120 ⟨23386655904038579724702493496484408272177640471541533430102479464506259404228, 53663039570426527382473188235310655796464825472465894894573141556644110109924⟩ 79092734135038425906358052920183284893592988005390889065480150708133950390272 :=
    mulLoopF_step 120 ⟨54296923876539721957278718831795790499884448320528306268495133859469298705052, 112991332684541601195113127698165315450904534531826872651848937326659208812821⟩ ⟨23386655904038579724702493496484408272177640471541533430102479464506259404228, 53663039570426527382473188235310655796464825472465894894573141556644110109924⟩ 39546367067519212953179026460091642446796494002695444532740075354066975195136 79092734135038425906358052920183284893592988005390889065480150708133950390272
      (by
      rw [(by decide : Nat.testBit 39546367067519212953179026460091642446796494002695444532740075354066975195136 255 = false), if_neg Bool.false_ne_true]
      exact d136)
      (by decide)
  have d137 : Point.addFast ⟨23386655904038579724702493496484408272177640471541533430102479464506259404228, 53663039570426527382473188235310655796464825472465894894573141556644110109924⟩ ⟨23386655904038579724702493496484408272177640471541533430102479464506259404228, 53663039570426527382473188235310655796464825472465894894573141556644110109924⟩ = ⟨81988537699629945089274262445556773104126966932326646794182401455809986410991, 113170736107213884158928222073599677823735986001229166808876206782669959034075⟩ :=
    (addFast_dbl ⟨23386655904038579724702493496484408272177640471541533430102479464506259404228, 53663039570426527382473188235310655796464825472465894894573141556644110109924⟩
      84272929738806662689691923012773904658210044503088696878971120174371431220486
      (by decide) (by decide) (by decide) (by decide)).trans (by decide)
  have e137 : Point.addFast ⟨81988537699629945089274262445556773104126966932326646794182401455809986410991, 113170736107213884158928222073599677823735986001229166808876206782669959034075⟩ G = ⟨11408168232891769788580035562964339760838990753727284964938955467171413992924, 51243434473563855822468378251413321832889468807290175484985813125928365472549⟩ :=
    (addFast_distinct ⟨81988537699629945089274262445556773104126966932326646794182401455809986410991, 113170736107213884158928222073599677823735986001229166808876206782669959034075⟩ G
      19250562906231065716356846463792088092442630278183797653776761459985426172003
      (by decide) (by decide) (by decide) (by decide)
      (by decide) (by decide)).trans (by decide)
  have t137 : Point.mulLoopF G 120 ⟨23386655904038579724702493496484408272177640471541533430102479464506259404228, 53663039570426527382473188235310655796464825472465894894573141556644110109924⟩ 79092734135038425906358052920183284893592988005390889065480150708133950390272 =
      Point.mulLoopF G 119 ⟨11408168232891769788580035562964339760838990753727284964938955467171413992924, 51243434473563855822468378251413321832889468807290175484985813125928365472549⟩ 42393379032760656389145120831678661933915991345141214091502717408354771140608 :=
    mulLoopF_step 119 ⟨23386655904038579724702493496484408272177640471541533430102479464506259404228, 53663039570426527382473188235310655796464825472465894894573141556644110109924⟩ ⟨11408168232891769788580035562964339760838990753727284964938955467171413992924, 51243434473563855822468378251413321832889468807290175484985813125928365472549⟩ 79092734135038425906358052920183284893592988005390889065480150708133950390272 42393379032760656389145120831678661933915991345141214091502717408354771140608
      (by
      rw [(by decide : Nat.testBit 79092734135038425906358052920183284893592988005390889065480150708133950390272 255 = true), if_pos rfl, d137]
      exact e137)
      (by decide)
  have d138 : Point.addFast ⟨11408168232891769788580035562964339760838990753727284964938955467171413992924, 51243434473563855822468378251413321832889468807290175484985813125928365472549⟩ ⟨11408168232891769788580035562964339760838990753727284964938955467171413992924, 51243434473563855822468378251413321832889468807290175484985813125928365472549⟩ = ⟨71906124837499451728425102543231019586312684898375968668124832646750180070357, 45019844237564048573460409804957974017969254375795961709077871588529040541144⟩ :=
    (addFast_dbl ⟨11408168232891769788580035562964339760838990753727284964938955467171413992924, 51243434473563855822468378251413321832889468807290175484985813125928365472549⟩
      89377583517291428525846402345054402087494781183521670377699407553982957818569
      (by decide) (by decide) (by decide) (by decide)).trans (by decide)
  have t138 : Point.mulLoopF G 119 ⟨11408168232891769788580035562964339760838990753727284964938955467171413992924, 51243434473563855822468378251413321832889468807290175484985813125928365472549⟩ 42393379032760656389145120831678661933915991345141214091502717408354771140608 =
      Point.mulLoopF G 118 ⟨71906124837499451728425102543231019586312684898375968668124832646750180070357, 45019844237564048573460409804957974017969254375795961709077871588529040541144⟩ 84786758065521312778290241663357323867831982690282428183005434816709542281216 :=
    mulLoopF_step 118 ⟨11408168232891769788580035562964339760838990753727284964938955467171413992924, 51243434473563855822468378251413321832889468807290175484985813125928365472549⟩ ⟨71906124837499451728425102543231019586312684898375968668124832646750180070357, 45019844237564048573460409804957974017969254375795961709077871588529040541144⟩ 42393379032760656389145120831678661933915991345141214091502717408354771140608 84786758065521312778290241663357323867831982690282428183005434816709542281216
      (by
      rw [(by decide : Nat.testBit 42393379032760656389145120831678661933915991345141214091502717408354771140608 255 = false), if_neg Bool.false_ne_true]
      exact d138)
      (by decide)
  have d139 : Point.addFast ⟨71906124837499451728425102543231019586312684898375968668124832646750180070357, 45019844237564048573460409804957974017969254375795961709077871588529040541144⟩ ⟨71906124837499451728425102543231019586312684898375968668124832646750180070357, 45019844237564048573460409804957974017969254375795961709077871588529040541144⟩ = ⟨934800640898178764754699146428715443971598172725453487674150240960374263002, 8745452872167734231631965253924654863335681065969593534025252845384434950747⟩ :=
    (addFast_dbl ⟨71906124837499451728425102543231019586312684898375968668124832646750180070357, 45019844237564048573460409804957974017969254375795961709077871588529040541144⟩
      54987809946728991490050351888958367996019673631607460238160019122739332506558
      (by decide) (by decide) (by decide) (by decide)).trans (by decide)
  have e139 : Point.addFast ⟨934800640898178764754699146428715443971598172725453487674150240960374263002, 8745452872167734231631965253924654863335681065969593534025252845384434950747⟩ G = ⟨70895545968440655713698860821624165067063670560294267905691028182634301018798, 84613785536853192562699376609975817309067331730162629166957544783901820191263⟩ :=
    (addFast_distinct ⟨934800640898178764754699146428715443971598172725453487674150240960374263002, 8745452872167734231631965253924654863335681065969593534025252845384434950747⟩ G
      67197451148167361367705442608404167690843162062836817204389743468007724695385
      (by decide) (by decide) (by decide) (by decide)
      (by decide) (by decide)).trans (by decide)
  have t139 : Point.mulLoopF G 118 ⟨71906124837499451728425102543231019586312684898375968668124832646750180070357, 45019844237564048573460409804957974017969254375795961709077871588529040541144⟩ 84786758065521312778290241663357323867831982690282428183005434816709542281216 =
      Point.mulLoopF G 117 ⟨70895545968440655713698860821624165067063670560294267905691028182634301018798, 84613785536853192562699376609975817309067331730162629166957544783901820191263⟩ 53781426893726430133009498318026739882393980714924292326553285625505954922496 :=
    mulLoopF_step 117 ⟨71906124837499451728425102543231019586312684898375968668124832646750180070357, 45019844237564048573460409804957974017969254375795961709077871588529040541144⟩ ⟨70895545968440655713698860821624165067063670560294267905691028182634301018798, 84613785536853192562699376609975817309067331730162629166957544783901820191263⟩ 84786758065521312778290241663357323867831982690282428183005434816709542281216 53781426893726430133009498318026739882393980714924292326553285625505954922496
      (by
      rw [(by decide : Nat.testBit 84786758065521312778290241663357323867831982690282428183005434816709542281216 255 = true), if_pos rfl, d139]
      exact e139)
      (by decide)
  have d140 : Point.addFast ⟨70895545968440655713698860821624165067063670560294267905691028182634301018798, 84613785536853192562699376609975817309067331730162629166957544783901820191263⟩ ⟨70895545968440655713698860821624165067063670560294267905691028182634301018798, 84613785536853192562699376609975817309067331730162629166957544783901820191263⟩ = ⟨90928816756100329471107806326099795232988713513782001532225517956896352438511, 82886922908322144529742409202634788909847604689275979232386342283061227098612⟩ :=
    (addFast_dbl ⟨70895545968440655713698860821624165067063670560294267905691028182634301018798, 84613785536853192562699376609975817309067331730162629166957544783901820191263⟩
      25791404675896800043602416275193615649497140972849401431995829089994397793812
      (by decide) (by decide) (by decide) (by decide)).trans (by decide)
  have t140 : Point.mulLoopF G 117 ⟨70895545968440655713698860821624165067063670560294267905691028182634301018798, 84613785536853192562699376609975817309067331730162629166957544783901820191263⟩ 53781426893726430133009498318026739882393980714924292326553285625505954922496 =
      Point.mulLoopF G 116 ⟨90928816756100329471107806326099795232988713513782001532225517956896352438511, 82886922908322144529742409202634788909847604689275979232386342283061227098612⟩ 107562853787452860266018996636053479764787961429848584653106571251011909844992 :=
    mulLoopF_step 116 ⟨70895545968440655713698860821624165067063670560294267905691028182634301018798, 84613785536853192562699376609975817309067331730162629166957544783901820191263⟩ ⟨90928816756100329471107806326099795232988713513782001532225517956896352438511, 82886922908322144529742409202634788909847604689275979232386342283061227098612⟩ 53781426893726430133009498318026739882393980714924292326553285625505954922496 107562853787452860266018996636053479764787961429848584653106571251011909844992
      (by
      rw [(by decide : Nat.testBit 53781426893726430133009498318026739882393980714924292326553285625505954922496 255 = false), if_neg Bool.false_ne_true]
      exact d140)
      (by decide)
  have d141 : Point.addFast ⟨90928816756100329471107806326099795232988713513782001532225517956896352438511, 82886922908322144529742409202634788909847604689275979232386342283061227098612⟩ ⟨90928816756100329471107806326099795232988713513782001532225517956896352438511, 82886922908322144529742409202634788909847604689275979232386342283061227098612⟩ = ⟨51340839948156905176223159475698098657902798397691595852063407776927136696962, 49534046549029092508516522284022860596624288226321486121983681011146276833901⟩ :=
    (addFast_dbl ⟨90928816756100329471107806326099795232988713513782001532225517956896352438511, 82886922908322144529742409202634788909847604689275979232386342283061227098612⟩
      81474962788383228787557107007414331787680990246949907789017377743702493980082
      (by decide) (by decide) (by decide) (by decide)).trans (by decide)
  have e141 : Point.addFast ⟨51340839948156905176223159475698098657902798397691595852063407776927136696962, 49534046549029092508516522284022860596624288226321486121983681011146276833901⟩ G = ⟨75447850666541100812134593795734119572546143547039954027448801038386202697286, 99425542072505953253095114797914799609000622534486150323604330154939357315041⟩ :=
    (addFast_distinct ⟨51340839948156905176223159475698098657902798397691595852063407776927136696962, 49534046549029092508516522284022860596624288226321486121983681011146276833901⟩ G
      83966080369970138474495014934680145893742208582185796046267456042731900297985
      (by decide) (by decide) (by decide) (by decide)
      (by decide) (by decide)).trans (by decide)
  have t141 : Point.mulLoopF G 116 ⟨90928816756100329471107806326099795232988713513782001532225517956896352438511, 82886922908322144529742409202634788909847604689275979232386342283061227098612⟩ 107562853787452860266018996636053479764787961429848584653106571251011909844992 =
      Point.mulLoopF G 115 ⟨75447850666541100812134593795734119572546143547039954027448801038386202697286, 99425542072505953253095114797914799609000622534486150323604330154939357315041⟩ 99333618337589525108467008263419051676305938194056605266755558494110690050048 :=
    mulLoopF_step 115 ⟨90928816756100329471107806326099795232988713513782001532225517956896352438511, 82886922908322144529742409202634788909847604689275979232386342283061227098612⟩ ⟨75447850666541100812134593795734119572546143547039954027448801038386202697286, 99425542072505953253095114797914799609000622534486150323604330154939357315041⟩ 107562853787452860266018996636053479764787961429848584653106571251011909844992 99333618337589525108467008263419051676305938194056605266755558494110690050048
      (by
      rw [(by decide : Nat.testBit 107562853787452860266018996636053479764787961429848584653106571251011909844992 255 = true), if_pos rfl, d141]
      exact e141)
      (by decide)
  have d142 : Point.addFast ⟨75447850666541100812134593795734119572546143547039954027448801038386202697286, 99425542072505953253095114797914799609000622534486150323604330154939357315041⟩ ⟨75447850666541100812134593795734119572546143547039954027448801038386202697286, 99425542072505953253095114797914799609000622534486150323604330154939357315041⟩ = ⟨105889126548377885940663137459647269752419888657781301920497430952243665056001, 19786468324571460197125146958764412468090339350487084241129007631384297844150⟩ :=
    (addFast_dbl ⟨75447850666541100812134593795734119572546143547039954027448801038386202697286, 99425542072505953253095114797914799609000622534486150323604330154939357315041⟩
      101534766010817831280192627662676935312652809117769356068068781554394132906050
      (by decide) (by decide) (by decide) (by decide)).trans (by decide)
  have e142 : Point.addFast ⟨105889126548377885940663137459647269752419888657781301920497430952243665056001, 19786468324571460197125146958764412468090339350487084241129007631384297844150⟩ G = ⟨93137585295009831717503923219132274601512963293813092456927518364094427876386, 42848698472114049156958887307705760398122528791441845313903169216206910227472⟩ :=
    (addFast_distinct ⟨105889126548377885940663137459647269752419888657781301920497430952243665056001, 19786468324571460197125146958764412468090339350487084241129007631384297844150⟩ G
      64708004388061252621324079231735920305200439446071480065999097312753051401688
      (by decide) (by decide) (by decide) (by decide)
      (by decide) (by decide)).trans (by decide)
  have t142 : Point.mulLoopF G 115 ⟨75447850666541100812134593795734119572546143547039954027448801038386202697286, 99425542072505953253095114797914799609000622534486150323604330154939357315041⟩ 99333618337589525108467008263419051676305938194056605266755558494110690050048 =
      Point.mulLoopF G 114 ⟨93137585295009831717503923219132274601512963293813092456927518364094427876386, 42848698472114049156958887307705760398122528791441845313903169216206910227472⟩ 82875147437862854793363031518150195499341891722472646494053532980308250460160 :=
    mulLoopF_step 114 ⟨75447850666541100812134593795734119572546143547039954027448801038386202697286, 99425542072505953253095114797914799609000622534486150323604330154939357315041⟩ ⟨93137585295009831717503923219132274601512963293813092456927518364094427876386, 42848698472114049156958887307705760398122528791441845313903169216206910227472⟩ 99333618337589525108467008263419051676305938194056605266755558494110690050048 82875147437862854793363031518150195499341891722472646494053532980308250460160
      (by
      rw [(by decide : Nat.testBit 99333618337589525108467008263419051676305938194056605266755558494110690050048 255 = true), if_pos rfl, d142]
      exact e142)
      (by decide)
  have d143 : Point.addFast ⟨93137585295009831717503923219132274601512963293813092456927518364094427876386, 42848698472114049156958887307705760398122528791441845313903169216206910227472⟩ ⟨93137585295009831717503923219132274601512963293813092456927518364094427876386, 42848698472114049156958887307705760398122528791441845313903169216206910227472⟩ = ⟨13892916162739634219179579231759783663677375984043395913564939832689636673587, 75990885517705210678512782715688741548991064041783287199469478466140858431843⟩ :=
    (addFast_dbl ⟨93137585295009831717503923219132274601512963293813092456927518364094427876386, 42848698472114049156958887307705760398122528791441845313903169216206910227472⟩
      57919507451364253915672446926096587789831130238906840442134119723816523594470
      (by decide) (by decide) (by decide) (by decide)).trans (by decide)
  have e143 : Point.addFast ⟨13892916162739634219179579231759783663677375984043395913564939832689636673587, 75990885517705210678512782715688741548991064041783287199469478466140858431843⟩ G = ⟨35073490791073314748247780191099918597339391202424005648874130151364323865376, 34253079114182657731264352446937723996051643427025003879442617442267661971896⟩ :=
    (addFast_distinct ⟨13892916162739634219179579231759783663677375984043395913564939832689636673587, 75990885517705210678512782715688741548991064041783287199469478466140858431843⟩ G
      18584044074156856934463046488559458241413277955258118114329922395602977905268
      (by decide) (by decide) (by decide) (by decide)
      (by decide) (by decide)).trans (by decide)
  have t143 : Point.mulLoopF G 114 ⟨93137585295009831717503923219132274601512963293813092456927518364094427876386, 42848698472114049156958887307705760398122528791441845313903169216206910227472⟩ 82875147437862854793363031518150195499341891722472646494053532980308250460160 =
      Point.mulLoopF G 113 ⟨35073490791073314748247780191099918597339391202424005648874130151364323865376, 34253079114182657731264352446937723996051643427025003879442617442267661971896⟩ 49958205638409514163155078027612483145413798779304728948649481952703371280384 :=
    mulLoopF_step 113 ⟨93137585295009831717503923219132274601512963293813092456927518364094427876386, 42848698472114049156958887307705760398122528791441845313903169216206910227472⟩ ⟨35073490791073314748247780191099918597339391202424005648874130151364323865376, 34253079114182657731264352446937723996051643427025003879442617442267661971896⟩ 82875147437862854793363031518150195499341891722472646494053532980308250460160 49958205638409514163155078027612483145413798779304728948649481952703371280384
      (by
      rw [(by decide : Nat.testBit 82875147437862854793363031518150195499341891722472646494053532980308250460160 255 = true), if_pos rfl, d143]
      exact e143)
      (by decide)
  have d144 : Point.addFast ⟨35073490791073314748247780191099918597339391202424005648874130151364323865376, 34253079114182657731264352446937723996051643427025003879442617442267661971896⟩ ⟨35073490791073314748247780191099918597339391202424005648874130151364323865376, 34253079114182657731264352446937723996051643427025003879442617442267661971896⟩ = ⟨28586767670040456310616221907251914343795286723356100715307541993043500323658, 809373935437983616643794809700215623393373564677226761370754602900314325594⟩ :=
    (addFast_dbl ⟨35073490791073314748247780191099918597339391202424005648874130151364323865376, 34253079114182657731264352446937723996051643427025003879442617442267661971896⟩
      23319596880132519962467869264850404197948790213318600031240234435703691159298
      (by decide) (by decide) (by decide) (by decide)).trans (by decide)
  have t144 : Point.mulLoopF G 113 ⟨35073490791073314748247780191099918597339391202424005648874130151364323865376, 34253079114182657731264352446937723996051643427025003879442617442267661971896⟩ 49958205638409514163155078027612483145413798779304728948649481952703371280384 =
      Point.mulLoopF G 112 ⟨28586767670040456310616221907251914343795286723356100715307541993043500323658, 809373935437983616643794809700215623393373564677226761370754602900314325594⟩ 99916411276819028326310156055224966290827597558609457897298963905406742560768 :=
    mulLoopF_step 112 ⟨35073490791073314748247780191099918597339391202424005648874130151364323865376, 34253079114182657731264352446937723996051643427025003879442617442267661971896⟩ ⟨28586767670040456310616221907251914343795286723356100715307541993043500323658, 809373935437983616643794809700215623393373564677226761370754602900314325594⟩ 49958205638409514163155078027612483145413798779304728948649481952703371280384 99916411276819028326310156055224966290827597558609457897298963905406742560768
      (by
      rw [(by decide : Nat.testBit 49958205638409514163155078027612483145413798779304728948649481952703371280384 255 = false), if_neg Bool.false_ne_true]
      exact d144)
      (by decide)
  rw [t129, t130, t131, t132, t133, t134, t135, t136, t137, t138, t139, t140, t141, t142, t143, t144]

set_option maxHeartbeats 1600000 in
/-- Segment 10 of the certified double-and-add trace of the generator
multiplied by the group order: iterations 145 to 160, each point
addition discharged through a precomputed modular-inverse certificate. -/
theorem mulG_seg10 : Point.mulLoopF G 112 ⟨28586767670040456310616221907251914343795286723356100715307541993043500323658, 809373935437983616643794809700215623393373564677226761370754602900314325594⟩ 99916411276819028326310156055224966290827597558609457897298963905406742560768 =
    Point.mulLoopF G 96 ⟨47247763451531799463065668430463609483975236849127794879763225805652470995583, 2686146893585238506563017278856286586815519206823040860534813853656267894574⟩ 79283067380989190123184993922201733259800759055536326058522857248799324110848 := by
  have d145 : Point.addFast ⟨28586767670040456310616221907251914343795286723356100715307541993043500323658, 809373935437983616643794809700215623393373564677226761370754602900314325594⟩ ⟨28586767670040456310616221907251914343795286723356100715307541993043500323658, 809373935437983616643794809700215623393373564677226761370754602900314325594⟩ = ⟨5025905875834629233292274535759005410570592753871069522921774390312351621641, 14325817733619368058250080238088197534162630243179145428658047997151513588694⟩ :=
    (addFast_dbl ⟨28586767670040456310616221907251914343795286723356100715307541993043500323658, 809373935437983616643794809700215623393373564677226761370754602900314325594⟩
      87272585529248908326259398294319516532825238172118097340470398830027721520012
      (by decide) (by decide) (by decide) (by decide)).trans (by decide)
  have e145 : Point.addFast ⟨5025905875834629233292274535759005410570592753871069522921774390312351621641, 14325817733619368058250080238088197534162630243179145428658047997151513588694⟩ G = ⟨54516435377291579926470314711218970959802187241237676008646958169889531907688, 88083763820493767376104277547571361870682468914962957615826069637810491150572⟩ :=
    (addFast_distinct ⟨5025905875834629233292274535759005410570592753871069522921774390312351621641, 14325817733619368058250080238088197534162630243179145428658047997151513588694⟩ G
      55652899066931920895682339594897577069157287611056385650754551909843482787214
      (by decide) (by decide) (by decide) (by decide)
      (by decide) (by decide)).trans (by decide)
  have t145 : Point.mulLoopF G 112 ⟨28586767670040456310616221907251914343795286723356100715307541993043500323658, 809373935437983616643794809700215623393373564677226761370754602900314325594⟩ 99916411276819028326310156055224966290827597558609457897298963905406742560768 =
      Point.mulLoopF G 111 ⟨54516435377291579926470314711218970959802187241237676008646958169889531907688, 88083763820493767376104277547571361870682468914962957615826069637810491150572⟩ 84040733316321861229049327101762024728385210451578351755140343802900355481600 :=
    mulLoopF_step 111 ⟨28586767670040456310616221907251914343795286723356100715307541993043500323658, 809373935437983616643794809700215623393373564677226761370754602900314325594⟩ ⟨54516435377291579926470314711218970959802187241237676008646958169889531907688, 88083763820493767376104277547571361870682468914962957615826069637810491150572⟩ 99916411276819028326310156055224966290827597558609457897298963905406742560768 84040733316321861229049327101762024728385210451578351755140343802900355481600
      (by
      rw [(by decide : Nat.testBit 99916411276819028326310156055224966290827597558609457897298963905406742560768 255 = true), if_pos rfl, d145]
      exact e145)
      (by decide)
  have d146 : Point.addFast ⟨54516435377291579926470314711218970959802187241237676008646958169889531907688, 88083763820493767376104277547571361870682468914962957615826069637810491150572⟩ ⟨54516435377291579926470314711218970959802187241237676008646958169889531907688, 88083763820493767376104277547571361870682468914962957615826069637810491150572⟩ = ⟨104192800658121097956173167227214387753857351490537382840495330195523756036179, 70037515945847390021893499521787383651020657875660090999115385238486076587379⟩ :=
    (addFast_dbl ⟨54516435377291579926470314711218970959802187241237676008646958169889531907688, 88083763820493767376104277547571361870682468914962957615826069637810491150572⟩
      33458664257447355519974321262512165780012350824343885715874066818051999493961
      (by decide) (by decide) (by decide) (by decide)).trans (by decide)
  have e146 : Point.addFast ⟨104192800658121097956173167227214387753857351490537382840495330195523756036179, 70037515945847390021893499521787383651020657875660090999115385238486076587379⟩ G = ⟨94315397758018000710755236804956124466065608401315317604829844358796263424743, 90852556539414271289115389073263370646794171630779096797501583262631941138674⟩ :=
    (addFast_distinct ⟨104192800658121097956173167227214387753857351490537382840495330195523756036179, 70037515945847390021893499521787383651020657875660090999115385238486076587379⟩ G
      101870857190116173467585072267610975773952613640373368487983782897680205786328
      (by decide) (by decide) (by decide) (by decide)
      (by decide) (by decide)).trans (by decide)
  have t146 : Point.mulLoopF G 111 ⟨54516435377291579926470314711218970959802187241237676008646958169889531907688, 88083763820493767376104277547571361870682468914962957615826069637810491150572⟩ 84040733316321861229049327101762024728385210451578351755140343802900355481600 =
      Point.mulLoopF G 110 ⟨94315397758018000710755236804956124466065608401315317604829844358796263424743, 90852556539414271289115389073263370646794171630779096797501583262631941138674⟩ 52289377395327527034527669194836141603500436237516139470823103597887581323264 :=
    mulLoopF_step 110 ⟨54516435377291579926470314711218970959802187241237676008646958169889531907688, 88083763820493767376104277547571361870682468914962957615826069637810491150572⟩ ⟨94315397758018000710755236804956124466065608401315317604829844358796263424743, 90852556539414271289115389073263370646794171630779096797501583262631941138674⟩ 84040733316321861229049327101762024728385210451578351755140343802900355481600 52289377395327527034527669194836141603500436237516139470823103597887581323264
      (by
      rw [(by decide : Nat.testBit 84040733316321861229049327101762024728385210451578351755140343802900355481600 255 = true), if_pos rfl, d146]
      exact e146)
      (by decide)
  have d147 : Point.addFast ⟨94315397758018000710755236804956124466065608401315317604829844358796263424743, 90852556539414271289115389073263370646794171630779096797501583262631941138674⟩ ⟨94315397758018000710755236804956124466065608401315317604829844358796263424743, 90852556539414271289115389073263370646794171630779096797501583262631941138674⟩ = ⟨48208098887189636603734826871710201836999174086182653103862437298801970529967, 37238419154701498855448493581813273885931190291828934218692426856174125843133⟩ :=
    (addFast_dbl ⟨94315397758018000710755236804956124466065608401315317604829844358796263424743, 90852556539414271289115389073263370646794171630779096797501583262631941138674⟩
      96573789990374930430858226319907733765512816447082326179001385683350257985845
      (by decide) (by decide) (by decide) (by decide)).trans (by decide)
  have t147 : Point.mulLoopF G 110 ⟨94315397758018000710755236804956124466065608401315317604829844358796263424743, 90852556539414271289115389073263370646794171630779096797501583262631941138674⟩ 52289377395327527034527669194836141603500436237516139470823103597887581323264 =
      Point.mulLoopF G 109 ⟨48208098887189636603734826871710201836999174086182653103862437298801970529967, 37238419154701498855448493581813273885931190291828934218692426856174125843133⟩ 104578754790655054069055338389672283207000872475032278941646207195775162646528 :=
    mulLoopF_step 109 ⟨94315397758018000710755236804956124466065608401315317604829844358796263424743, 90852556539414271289115389073263370646794171630779096797501583262631941138674⟩ ⟨48208098887189636603734826871710201836999174086182653103862437298801970529967, 37238419154701498855448493581813273885931190291828934218692426856174125843133⟩ 52289377395327527034527669194836141603500436237516139470823103597887581323264 104578754790655054069055338389672283207000872475032278941646207195775162646528
      (by
      rw [(by decide : Nat.testBit 52289377395327527034527669194836141603500436237516139470823103597887581323264 255 = false), if_neg Bool.false_ne_true]
      exact d147)
      (by decide)
  have d148 : Point.addFast ⟨48208098887189636603734826871710201836999174086182653103862437298801970529967, 37238419154701498855448493581813273885931190291828934218692426856174125843133⟩ ⟨48208098887189636603734826871710201836999174086182653103862437298801970529967, 37238419154701498855448493581813273885931190291828934218692426856174125843133⟩ = ⟨35431385646638177791383875956583955671511159940018622843043759158986796610254, 35960996763822025106732725110927281779201836193619014234882642093816329805817⟩ :=
    (addFast_dbl ⟨48208098887189636603734826871710201836999174086182653103862437298801970529967, 37238419154701498855448493581813273885931190291828934218692426856174125843133⟩
      14019900850362019550060286928706295659880358675571709372486457008524359573307
      (by decide) (by decide) (by decide) (by decide)).trans (by decide)
  have e148 : Point.addFast ⟨35431385646638177791383875956583955671511159940018622843043759158986796610254, 35960996763822025106732725110927281779201836193619014234882642093816329805817⟩ G = ⟨52158781877883679585651995067841730653222015149056921297325496060804438477996, 22609625042853636619882580266589294168396622691849426580098789046342540696505⟩ :=
    (addFast_distinct ⟨35431385646638177791383875956583955671511159940018622843043759158986796610254, 35960996763822025106732725110927281779201836193619014234882642093816329805817⟩ G
      3284457817695894856715199426558435758774250229867376431501089346001931440243
      (by decide) (by decide) (by decide) (by decide)
      (by decide) (by decide)).trans (by decide)
  have t148 : Point.mulLoopF G 109 ⟨48208098887189636603734826871710201836999174086182653103862437298801970529967, 37238419154701498855448493581813273885931190291828934218692426856174125843133⟩ 104578754790655054069055338389672283207000872475032278941646207195775162646528 =
      Point.mulLoopF G 108 ⟨52158781877883679585651995067841730653222015149056921297325496060804438477996, 22609625042853636619882580266589294168396622691849426580098789046342540696505⟩ 93365420343993912714539691770656658560731760284423993843834830383637195653120 :=
    mulLoopF_step 108 ⟨48208098887189636603734826871710201836999174086182653103862437298801970529967, 37238419154701498855448493581813273885931190291828934218692426856174125843133⟩ ⟨52158781877883679585651995067841730653222015149056921297325496060804438477996, 22609625042853636619882580266589294168396622691849426580098789046342540696505⟩ 104578754790655054069055338389672283207000872475032278941646207195775162646528 93365420343993912714539691770656658560731760284423993843834830383637195653120
      (by
      rw [(by decide : Nat.testBit 104578754790655054069055338389672283207000872475032278941646207195775162646528 255 = true), if_pos rfl, d148]
      exact e148)
      (by decide)
  have d149 : Point.addFast ⟨52158781877883679585651995067841730653222015149056921297325496060804438477996, 22609625042853636619882580266589294168396622691849426580098789046342540696505⟩ ⟨52158781877883679585651995067841730653222015149056921297325496060804438477996, 22609625042853636619882580266589294168396622691849426580098789046342540696505⟩ = ⟨99934047430383176350853394324377926891345229485023934576579795282315074464748, 551025794136256344617173062333541304677523441461905796559488160362349832269⟩ :=
    (addFast_dbl ⟨52158781877883679585651995067841730653222015149056921297325496060804438477996, 22609625042853636619882580266589294168396622691849426580098789046342540696505⟩
      13028388685986546349361575036121878112667593809420664350898466184434044278706
      (by decide) (by decide) (by decide) (by decide)).trans (by decide)
  have e149 : Point.addFast ⟨99934047430383176350853394324377926891345229485023934576579795282315074464748, 551025794136256344617173062333541304677523441461905796559488160362349832269⟩ G = ⟨71407923516254166074178809210123885316210933571372921294952545044396861945997, 74111476448796655148299200331539110694878113455839151562885774855115012439961⟩ :=
    (addFast_distinct ⟨99934047430383176350853394324377926891345229485023934576579795282315074464748, 551025794136256344617173062333541304677523441461905796559488160362349832269⟩ G
      70288861920241928083327056384987064733072064902186001551532191047261645396671
      (by decide) (by decide) (by decide) (by decide)
      (by decide) (by decide)).trans (by decide)
  have t149 : Point.mulLoopF G 108 ⟨52158781877883679585651995067841730653222015149056921297325496060804438477996, 22609625042853636619882580266589294168396622691849426580098789046342540696505⟩ 93365420343993912714539691770656658560731760284423993843834830383637195653120 =
      Point.mulLoopF G 107 ⟨71407923516254166074178809210123885316210933571372921294952545044396861945997, 74111476448796655148299200331539110694878113455839151562885774855115012439961⟩ 70938751450671630005508398532625409268193535903207423648212076759361261666304 :=
    mulLoopF_step 107 ⟨52158781877883679585651995067841730653222015149056921297325496060804438477996, 22609625042853636619882580266589294168396622691849426580098789046342540696505⟩ ⟨71407923516254166074178809210123885316210933571372921294952545044396861945997, 74111476448796655148299200331539110694878113455839151562885774855115012439961⟩ 93365420343993912714539691770656658560731760284423993843834830383637195653120 70938751450671630005508398532625409268193535903207423648212076759361261666304
      (by
      rw [(by decide : Nat.testBit 93365420343993912714539691770656658560731760284423993843834830383637195653120 255 = true), if_pos rfl, d149]
      exact e149)
      (by decide)
  have d150 : Point.addFast ⟨71407923516254166074178809210123885316210933571372921294952545044396861945997, 74111476448796655148299200331539110694878113455839151562885774855115012439961⟩ ⟨71407923516254166074178809210123885316210933571372921294952545044396861945997, 74111476448796655148299200331539110694878113455839151562885774855115012439961⟩ = ⟨86298597856983110749889370662495750518309831366662343307605205204435805323648, 21454264281427535701374340587554219238426523135513132264520470296799924358992⟩ :=
    (addFast_dbl ⟨71407923516254166074178809210123885316210933571372921294952545044396861945997, 74111476448796655148299200331539110694878113455839151562885774855115012439961⟩
      103543670870366051911757685630991029393295988818800076051544173018025916441965
      (by decide) (by decide) (by decide) (by decide)).trans (by decide)
  have e150 : Point.addFast ⟨86298597856983110749889370662495750518309831366662343307605205204435805323648, 21454264281427535701374340587554219238426523135513132264520470296799924358992⟩ G = ⟨57543592279914439410854809093403886827866102128490075116360555041913827667562, 3813421376355717067146105257010739085195607479338301799311897389674258069347⟩ :=
    (addFast_distinct ⟨86298597856983110749889370662495750518309831366662343307605205204435805323648, 21454264281427535701374340587554219238426523135513132264520470296799924358992⟩ G
      107627291401079557620590189041451504126706431023325071749362836162271875062973
      (by decide) (by decide) (by decide) (by decide)
      (by decide) (by decide)).trans (by decide)
  have t150 : Point.mulLoopF G 107 ⟨71407923516254166074178809210123885316210933571372921294952545044396861945997, 74111476448796655148299200331539110694878113455839151562885774855115012439961⟩ 70938751450671630005508398532625409268193535903207423648212076759361261666304 =
      Point.mulLoopF G 106 ⟨57543592279914439410854809093403886827866102128490075116360555041913827667562, 3813421376355717067146105257010739085195607479338301799311897389674258069347⟩ 26085413664027064587445812056562910683117087140774283256966569510809393692672 :=
    mulLoopF_step 106 ⟨71407923516254166074178809210123885316210933571372921294952545044396861945997, 74111476448796655148299200331539110694878113455839151562885774855115012439961⟩ ⟨57543592279914439410854809093403886827866102128490075116360555041913827667562, 3813421376355717067146105257010739085195607479338301799311897389674258069347⟩ 70938751450671630005508398532625409268193535903207423648212076759361261666304 26085413664027064587445812056562910683117087140774283256966569510809393692672
      (by
      rw [(by decide : Nat.testBit 70938751450671630005508398532625409268193535903207423648212076759361261666304 255 = true), if_pos rfl, d150]
      exact e150)
      (by decide)
  have d151 : Point.addFast ⟨57543592279914439410854809093403886827866102128490075116360555041913827667562, 3813421376355717067146105257010739085195607479338301799311897389674258069347⟩ ⟨57543592279914439410854809093403886827866102128490075116360555041913827667562, 3813421376355717067146105257010739085195607479338301799311897389674258069347⟩ = ⟨91006848860769241074387648015256629948898895425121881919115010949924219317644, 54820068126741455169946104349653414029574722585827576833304601598797184823006⟩ :=
    (addFast_dbl ⟨57543592279914439410854809093403886827866102128490075116360555041913827667562, 3813421376355717067146105257010739085195607479338301799311897389674258069347⟩
      67114303321211717499431706497331129678001222779292221699859741984168011559415
      (by decide) (by decide) (by decide) (by decide)).trans (by decide)
  have t151 : Point.mulLoopF G 106 ⟨57543592279914439410854809093403886827866102128490075116360555041913827667562, 3813421376355717067146105257010739085195607479338301799311897389674258069347⟩ 26085413664027064587445812056562910683117087140774283256966569510809393692672 =
      Point.mulLoopF G 105 ⟨91006848860769241074387648015256629948898895425121881919115010949924219317644, 54820068126741455169946104349653414029574722585827576833304601598797184823006⟩ 52170827328054129174891624113125821366234174281548566513933139021618787385344 :=
    mulLoopF_step 105 ⟨57543592279914439410854809093403886827866102128490075116360555041913827667562, 3813421376355717067146105257010739085195607479338301799311897389674258069347⟩ ⟨91006848860769241074387648015256629948898895425121881919115010949924219317644, 54820068126741455169946104349653414029574722585827576833304601598797184823006⟩ 26085413664027064587445812056562910683117087140774283256966569510809393692672 52170827328054129174891624113125821366234174281548566513933139021618787385344
      (by
      rw [(by decide : Nat.testBit 26085413664027064587445812056562910683117087140774283256966569510809393692672 255 = false), if_neg Bool.false_ne_true]
      exact d151)
      (by decide)
  have d152 : Point.addFast ⟨91006848860769241074387648015256629948898895425121881919115010949924219317644, 54820068126741455169946104349653414029574722585827576833304601598797184823006⟩ ⟨91006848860769241074387648015256629948898895425121881919115010949924219317644, 54820068126741455169946104349653414029574722585827576833304601598797184823006⟩ = ⟨81165311114185953440354900777128142251839145553228093947741701454096896522712, 79024001629993924486880222546222881057872171693910219242620912792028550696045⟩ :=
    (addFast_dbl ⟨91006848860769241074387648015256629948898895425121881919115010949924219317644, 54820068126741455169946104349653414029574722585827576833304601598797184823006⟩
      45959181921210651785171892106405434746500166512144721629638565603939630238166
      (by decide) (by decide) (by decide) (by decide)).trans (by decide)
  have t152 : Point.mulLoopF G 105 ⟨91006848860769241074387648015256629948898895425121881919115010949924219317644, 54820068126741455169946104349653414029574722585827576833304601598797184823006⟩ 52170827328054129174891624113125821366234174281548566513933139021618787385344 =
      Point.mulLoopF G 104 ⟨81165311114185953440354900777128142251839145553228093947741701454096896522712, 79024001629993924486880222546222881057872171693910219242620912792028550696045⟩ 104341654656108258349783248226251642732468348563097133027866278043237574770688 :=
    mulLoopF_step 104 ⟨91006848860769241074387648015256629948898895425121881919115010949924219317644, 54820068126741455169946104349653414029574722585827576833304601598797184823006⟩ ⟨81165311114185953440354900777128142251839145553228093947741701454096896522712, 79024001629993924486880222546222881057872171693910219242620912792028550696045⟩ 52170827328054129174891624113125821366234174281548566513933139021618787385344 104341654656108258349783248226251642732468348563097133027866278043237574770688
      (by
      rw [(by decide : Nat.testBit 52170827328054129174891624113125821366234174281548566513933139021618787385344 255 = false), if_neg Bool.false_ne_true]
      exact d152)
      (by decide)
  have d153 : Point.addFast ⟨81165311114185953440354900777128142251839145553228093947741701454096896522712, 79024001629993924486880222546222881057872171693910219242620912792028550696045⟩ ⟨81165311114185953440354900777128142251839145553228093947741701454096896522712, 79024001629993924486880222546222881057872171693910219242620912792028550696045⟩ = ⟨92948292328906977975357393185314690301622771258624624190694483579315433655818, 80165491884517144500691841497747964325944512846964578463220004801878539423288⟩ :=
    (addFast_dbl ⟨81165311114185953440354900777128142251839145553228093947741701454096896522712, 79024001629993924486880222546222881057872171693910219242620912792028550696045⟩
      95169221432731849260668870554087754317938673285434995737379443864375404475855
      (by decide) (by decide) (by decide) (by decide)).trans (by decide)
  have e153 : Point.addFast ⟨92948292328906977975357393185314690301622771258624624190694483579315433655818, 80165491884517144500691841497747964325944512846964578463220004801878539423288⟩ G = ⟨62036757822693542570355992678936913086859496773056050913598987740028830675886, 9407911550724932096876519449063418153720516988269820212772580238197629086081⟩ :=
    (addFast_distinct ⟨92948292328906977975357393185314690301622771258624624190694483579315433655818, 80165491884517144500691841497747964325944512846964578463220004801878539423288⟩ G
      60842021072378321036243868577402777135528874891231595628094200754218911866615
      (by decide) (by decide) (by decide) (by decide)
      (by decide) (by decide)).trans (by decide)
  have t153 : Point.mulLoopF G 104 ⟨81165311114185953440354900777128142251839145553228093947741701454096896522712, 79024001629993924486880222546222881057872171693910219242620912792028550696045⟩ 104341654656108258349783248226251642732468348563097133027866278043237574770688 =
      Point.mulLoopF G 103 ⟨62036757822693542570355992678936913086859496773056050913598987740028830675886, 9407911550724932096876519449063418153720516988269820212772580238197629086081⟩ 92891220074900321275995511443815377611666712460553702016274972078562019901440 :=
    mulLoopF_step 103 ⟨81165311114185953440354900777128142251839145553228093947741701454096896522712, 79024001629993924486880222546222881057872171693910219242620912792028550696045⟩ ⟨62036757822693542570355992678936913086859496773056050913598987740028830675886, 9407911550724932096876519449063418153720516988269820212772580238197629086081⟩ 104341654656108258349783248226251642732468348563097133027866278043237574770688 92891220074900321275995511443815377611666712460553702016274972078562019901440
      (by
      rw [(by decide : Nat.testBit 104341654656108258349783248226251642732468348563097133027866278043237574770688 255 = true), if_pos rfl, d153]
      exact e153)
      (by decide)
  have d154 : Point.addFast ⟨62036757822693542570355992678936913086859496773056050913598987740028830675886, 9407911550724932096876519449063418153720516988269820212772580238197629086081⟩ ⟨62036757822693542570355992678936913086859496773056050913598987740028830675886, 9407911550724932096876519449063418153720516988269820212772580238197629086081⟩ = ⟨106055540948938764238730481841787865087427857733981619597754856368452950023539, 67005419559310663019037225842306918580958056430370014522551241884077020213255⟩ :=
    (addFast_dbl ⟨62036757822693542570355992678936913086859496773056050913598987740028830675886, 9407911550724932096876519449063418153720516988269820212772580238197629086081⟩
      16778508403974346663833545557745964138361532209291053684747027855148291424236
      (by decide) (by decide) (by decide) (by decide)).trans (by decide)
  have e154 : Point.addFast ⟨106055540948938764238730481841787865087427857733981619597754856368452950023539, 67005419559310663019037225842306918580958056430370014522551241884077020213255⟩ G = ⟨40147433029030225539039310438639050891266968604463251775943612127369343153727, 3115543158305514787907160812321382591224757810207448222016557741630151965981⟩ :=
    (addFast_distinct ⟨106055540948938764238730481841787865087427857733981619597754856368452950023539, 67005419559310663019037225842306918580958056430370014522551241884077020213255⟩ G
      95916720152717267720353946529095372763490789017880814965662927653261427954909
      (by decide) (by decide) (by decide) (by decide)
      (by decide) (by decide)).trans (by decide)
  have t154 : Point.mulLoopF G 103 ⟨62036757822693542570355992678936913086859496773056050913598987740028830675886, 9407911550724932096876519449063418153720516988269820212772580238197629086081⟩ 92891220074900321275995511443815377611666712460553702016274972078562019901440 =
      Point.mulLoopF G 102 ⟨40147433029030225539039310438639050891266968604463251775943612127369343153727, 3115543158305514787907160812321382591224757810207448222016557741630151965981⟩ 69990350912484447128420037878942847370063440255466839993092360149210910162944 :=
    mulLoopF_step 102 ⟨62036757822693542570355992678936913086859496773056050913598987740028830675886, 9407911550724932096876519449063418153720516988269820212772580238197629086081⟩ ⟨40147433029030225539039310438639050891266968604463251775943612127369343153727, 3115543158305514787907160812321382591224757810207448222016557741630151965981⟩ 92891220074900321275995511443815377611666712460553702016274972078562019901440 69990350912484447128420037878942847370063440255466839993092360149210910162944
      (by
      rw [(by decide : Nat.testBit 92891220074900321275995511443815377611666712460553702016274972078562019901440 255 = true), if_pos rfl, d154]
      exact e154)
      (by decide)
  have d155 : Point.addFast ⟨40147433029030225539039310438639050891266968604463251775943612127369343153727, 3115543158305514787907160812321382591224757810207448222016557741630151965981⟩ ⟨40147433029030225539039310438639050891266968604463251775943612127369343153727, 3115543158305514787907160812321382591224757810207448222016557741630151965981⟩ = ⟨44038146118266159313177055524058100423468092382319332773230968357314417669769, 36364060417090820060472882261181951745597520649033632578170574530114324573643⟩ :=
    (addFast_dbl ⟨40147433029030225539039310438639050891266968604463251775943612127369343153727, 3115543158305514787907160812321382591224757810207448222016557741630151965981⟩
      115654798566703350295322734944251084395286080192138130645782188444365813333990
      (by decide) (by decide) (by decide) (by decide)).trans (by decide)
  have e155 : Point.addFast ⟨44038146118266159313177055524058100423468092382319332773230968357314417669769, 36364060417090820060472882261181951745597520649033632578170574530114324573643⟩ G = ⟨100365524660424891617138844200976846206053956468951519136167999766685689015002, 111970872780292016169329146673756902449054737731992115684524748262867500513847⟩ :=
    (addFast_distinct ⟨44038146118266159313177055524058100423468092382319332773230968357314417669769, 36364060417090820060472882261181951745597520649033632578170574530114324573643⟩ G
      88760621716273202823013014856973778347666121764339826146897940138964031481214
      (by decide) (by decide) (by decide) (by decide)
      (by decide) (by decide)).trans (by decide)
  have t155 : Point.mulLoopF G 102 ⟨40147433029030225539039310438639050891266968604463251775943612127369343153727, 3115543158305514787907160812321382591224757810207448222016557741630151965981⟩ 69990350912484447128420037878942847370063440255466839993092360149210910162944 =
      Point.mulLoopF G 101 ⟨100365524660424891617138844200976846206053956468951519136167999766685689015002, 111970872780292016169329146673756902449054737731992115684524748262867500513847⟩ 24188612587652698833269090749197786886856895845293115946727136290508690685952 :=
    mulLoopF_step 101 ⟨40147433029030225539039310438639050891266968604463251775943612127369343153727, 3115543158305514787907160812321382591224757810207448222016557741630151965981⟩ ⟨100365524660424891617138844200976846206053956468951519136167999766685689015002, 111970872780292016169329146673756902449054737731992115684524748262867500513847⟩ 69990350912484447128420037878942847370063440255466839993092360149210910162944 24188612587652698833269090749197786886856895845293115946727136290508690685952
      (by
      rw [(by decide : Nat.testBit 69990350912484447128420037878942847370063440255466839993092360149210910162944 255 = true), if_pos rfl, d155]
      exact e155)
      (by decide)
  have d156 : Point.addFast ⟨100365524660424891617138844200976846206053956468951519136167999766685689015002, 111970872780292016169329146673756902449054737731992115684524748262867500513847⟩ ⟨100365524660424891617138844200976846206053956468951519136167999766685689015002, 111970872780292016169329146673756902449054737731992115684524748262867500513847⟩ = ⟨49346091203545902773870754353230222194100688883749893633792865966299681536412, 17610696721086505917135990394206740397614969371607606516395522279301418411581⟩ :=
    (addFast_dbl ⟨100365524660424891617138844200976846206053956468951519136167999766685689015002, 111970872780292016169329146673756902449054737731992115684524748262867500513847⟩
      86639131665190900588152331019353061444520666217367013229075419337711297282253
      (by decide) (by decide) (by decide) (by decide)).trans (by decide)
  have t156 : Point.mulLoopF G 101 ⟨100365524660424891617138844200976846206053956468951519136167999766685689015002, 111970872780292016169329146673756902449054737731992115684524748262867500513847⟩ 24188612587652698833269090749197786886856895845293115946727136290508690685952 =
      Point.mulLoopF G 100 ⟨49346091203545902773870754353230222194100688883749893633792865966299681536412, 17610696721086505917135990394206740397614969371607606516395522279301418411581⟩ 48377225175305397666538181498395573773713791690586231893454272581017381371904 :=
    mulLoopF_step 100 ⟨100365524660424891617138844200976846206053956468951519136167999766685689015002, 111970872780292016169329146673756902449054737731992115684524748262867500513847⟩ ⟨49346091203545902773870754353230222194100688883749893633792865966299681536412, 17610696721086505917135990394206740397614969371607606516395522279301418411581⟩ 24188612587652698833269090749197786886856895845293115946727136290508690685952 48377225175305397666538181498395573773713791690586231893454272581017381371904
      (by
      rw [(by decide : Nat.testBit 24188612587652698833269090749197786886856895845293115946727136290508690685952 255 = false), if_neg Bool.false_ne_true]
      exact d156)
      (by decide)
  have d157 : Point.addFast ⟨49346091203545902773870754353230222194100688883749893633792865966299681536412, 17610696721086505917135990394206740397614969371607606516395522279301418411581⟩ ⟨49346091203545902773870754353230222194100688883749893633792865966299681536412, 17610696721086505917135990394206740397614969371607606516395522279301418411581⟩ = ⟨73687138071649545060267559015830595040135377465786510066162569010447960674403, 91318617292738439851851212191531086231665707629539542426922331790867954590619⟩ :=
    (addFast_dbl ⟨49346091203545902773870754353230222194100688883749893633792865966299681536412, 17610696721086505917135990394206740397614969371607606516395522279301418411581⟩
      14212631438315716908679197668006088667671222997984534985040998030006318433308
      (by decide) (by decide) (by decide) (by decide)).trans (by decide)
  have t157 : Point.mulLoopF G 100 ⟨49346091203545902773870754353230222194100688883749893633792865966299681536412, 17610696721086505917135990394206740397614969371607606516395522279301418411581⟩ 48377225175305397666538181498395573773713791690586231893454272581017381371904 =
      Point.mulLoopF G 99 ⟨73687138071649545060267559015830595040135377465786510066162569010447960674403, 91318617292738439851851212191531086231665707629539542426922331790867954590619⟩ 96754450350610795333076362996791147547427583381172463786908545162034762743808 :=
    mulLoopF_step 99 ⟨49346091203545902773870754353230222194100688883749893633792865966299681536412, 17610696721086505917135990394206740397614969371607606516395522279301418411581⟩ ⟨73687138071649545060267559015830595040135377465786510066162569010447960674403, 91318617292738439851851212191531086231665707629539542426922331790867954590619⟩ 48377225175305397666538181498395573773713791690586231893454272581017381371904 96754450350610795333076362996791147547427583381172463786908545162034762743808
      (by
      rw [(by decide : Nat.testBit 48377225175305397666538181498395573773713791690586231893454272581017381371904 255 = false), if_neg Bool.false_ne_true]
      exact d157)
      (by decide)
  have d158 : Point.addFast ⟨73687138071649545060267559015830595040135377465786510066162569010447960674403, 91318617292738439851851212191531086231665707629539542426922331790867954590619⟩ ⟨73687138071649545060267559015830595040135377465786510066162569010447960674403, 91318617292738439851851212191531086231665707629539542426922331790867954590619⟩ = ⟨29117925066832244826993916611024182924394211866613291136894948234310732337170, 103656230041209626092480073411943296512680160083777019627892476458396214881228⟩ :=
    (addFast_dbl ⟨73687138071649545060267559015830595040135377465786510066162569010447960674403, 91318617292738439851851212191531086231665707629539542426922331790867954590619⟩
      100741695353643599525659871422534856522959059969180710940708537589603101148300
      (by decide) (by decide) (by decide) (by decide)).trans (by decide)
  have e158 : Point.addFast ⟨29117925066832244826993916611024182924394211866613291136894948234310732337170, 103656230041209626092480073411943296512680160083777019627892476458396214881228⟩ G = ⟨45329200846496005667218550256127972817361199572391282637008040468803592396392, 23691156738474684646396601909574383025972293241766090249537901072361576084052⟩ :=
    (addFast_distinct ⟨29117925066832244826993916611024182924394211866613291136894948234310732337170, 103656230041209626092480073411943296512680160083777019627892476458396214881228⟩ G
      81270143867388719682236195780379799363966956134538219292034140543658659043564
      (by decide) (by decide) (by decide) (by decide)
      (by decide) (by decide)).trans (by decide)
  have t158 : Point.mulLoopF G 99 ⟨73687138071649545060267559015830595040135377465786510066162569010447960674403, 91318617292738439851851212191531086231665707629539542426922331790867954590619⟩ 96754450350610795333076362996791147547427583381172463786908545162034762743808 =
      Point.mulLoopF G 98 ⟨45329200846496005667218550256127972817361199572391282637008040468803592396392, 23691156738474684646396601909574383025972293241766090249537901072361576084052⟩ 77716811463905395242581740984894387241585182096704363534359506316156395847680 :=
    mulLoopF_step 98 ⟨73687138071649545060267559015830595040135377465786510066162569010447960674403, 91318617292738439851851212191531086231665707629539542426922331790867954590619⟩ ⟨45329200846496005667218550256127972817361199572391282637008040468803592396392, 23691156738474684646396601909574383025972293241766090249537901072361576084052⟩ 96754450350610795333076362996791147547427583381172463786908545162034762743808 77716811463905395242581740984894387241585182096704363534359506316156395847680
      (by
      rw [(by decide : Nat.testBit 96754450350610795333076362996791147547427583381172463786908545162034762743808 255 = true), if_pos rfl, d158]
      exact e158)
      (by decide)
  have d159 : Point.addFast ⟨45329200846496005667218550256127972817361199572391282637008040468803592396392, 23691156738474684646396601909574383025972293241766090249537901072361576084052⟩ ⟨45329200846496005667218550256127972817361199572391282637008040468803592396392, 23691156738474684646396601909574383025972293241766090249537901072361576084052⟩ = ⟨86198804249731059365533655669020342430335808933208598522477132421345340791551, 16289431718608703310381727108295711465279903401635772763968816863367285888466⟩ :=
    (addFast_dbl ⟨45329200846496005667218550256127972817361199572391282637008040468803592396392, 23691156738474684646396601909574383025972293241766090249537901072361576084052⟩
      44897379870116840396499555563568913766021894727630815661599073173675769675902
      (by decide) (by decide) (by decide) (by decide)).trans (by decide)
  have e159 : Point.addFast ⟨86198804249731059365533655669020342430335808933208598522477132421345340791551, 16289431718608703310381727108295711465279903401635772763968816863367285888466⟩ G = ⟨100587256607572326298774005130737287628933191852070157838079782232737015875335, 46203680137442603355124902065426215444210066314071163427421778989385782842743⟩ :=
    (addFast_distinct ⟨86198804249731059365533655669020342430335808933208598522477132421345340791551, 16289431718608703310381727108295711465279903401635772763968816863367285888466⟩ G
      36246534172883956342232742033860366736101951779053209709636595805684655602371
      (by decide) (by decide) (by decide) (by decide)
      (by decide) (by decide)).trans (by decide)
  have t159 : Point.mulLoopF G 98 ⟨45329200846496005667218550256127972817361199572391282637008040468803592396392, 23691156738474684646396601909574383025972293241766090249537901072361576084052⟩ 77716811463905395242581740984894387241585182096704363534359506316156395847680 =
      Point.mulLoopF G 97 ⟨100587256607572326298774005130737287628933191852070157838079782232737015875335, 46203680137442603355124902065426215444210066314071163427421778989385782842743⟩ 39641533690494595061592496961100866629900379527768163029261428624399662055424 :=
    mulLoopF_step 97 ⟨45329200846496005667218550256127972817361199572391282637008040468803592396392, 23691156738474684646396601909574383025972293241766090249537901072361576084052⟩ ⟨100587256607572326298774005130737287628933191852070157838079782232737015875335, 46203680137442603355124902065426215444210066314071163427421778989385782842743⟩ 77716811463905395242581740984894387241585182096704363534359506316156395847680 39641533690494595061592496961100866629900379527768163029261428624399662055424
      (by
      rw [(by decide : Nat.testBit 77716811463905395242581740984894387241585182096704363534359506316156395847680 255 = true), if_pos rfl, d159]
      exact e159)
      (by decide)
  have d160 : Point.addFast ⟨100587256607572326298774005130737287628933191852070157838079782232737015875335, 46203680137442603355124902065426215444210066314071163427421778989385782842743⟩ ⟨100587256607572326298774005130737287628933191852070157838079782232737015875335, 46203680137442603355124902065426215444210066314071163427421778989385782842743⟩ = ⟨47247763451531799463065668430463609483975236849127794879763225805652470995583, 2686146893585238506563017278856286586815519206823040860534813853656267894574⟩ :=
    (addFast_dbl ⟨100587256607572326298774005130737287628933191852070157838079782232737015875335, 46203680137442603355124902065426215444210066314071163427421778989385782842743⟩
      15051187808835683052974022154522551173628604140326709446275897272801966173009
      (by decide) (by decide) (by decide) (by decide)).trans (by decide)
  have t160 : Point.mulLoopF G 97 ⟨100587256607572326298774005130737287628933191852070157838079782232737015875335, 46203680137442603355124902065426215444210066314071163427421778989385782842743⟩ 39641533690494595061592496961100866629900379527768163029261428624399662055424 =
      Point.mulLoopF G 96 ⟨47247763451531799463065668430463609483975236849127794879763225805652470995583, 2686146893585238506563017278856286586815519206823040860534813853656267894574⟩ 79283067380989190123184993922201733259800759055536326058522857248799324110848 :=
    mulLoopF_step 96 ⟨100587256607572326298774005130737287628933191852070157838079782232737015875335, 46203680137442603355124902065426215444210066314071163427421778989385782842743⟩ ⟨47247763451531799463065668430463609483975236849127794879763225805652470995583, 2686146893585238506563017278856286586815519206823040860534813853656267894574⟩ 39641533690494595061592496961100866629900379527768163029261428624399662055424 79283067380989190123184993922201733259800759055536326058522857248799324110848
      (by
      rw [(by decide : Nat.testBit 39641533690494595061592496961100866629900379527768163029261428624399662055424 255 = false), if_neg Bool.false_ne_true]
      exact d160)
      (by decide)
  rw [t145, t146, t147, t148, t149, t150, t151, t152, t153, t154, t155, t156, t157, t158, t159, t160]

set_option maxHeartbeats 1600000 in
/-- Segment 11 of the certified double-and-add trace of the generator
multiplied by the group order: iterations 161 to 176, each point
addition discharged through a precomputed modular-inverse certificate. -/
theorem mulG_seg11 : Point.mulLoopF G 96 ⟨47247763451531799463065668430463609483975236849127794879763225805652470995583, 2686146893585238506563017278856286586815519206823040860534813853656267894574⟩ 79283067380989190123184993922201733259800759055536326058522857248799324110848 =
    Point.mulLoopF G 80 ⟨86936594602655074841329372854774354479873320102130302695213907660541031074033, 59620323792767926642593146223605433394866633981945797121167552459715955977527⟩ 72475623655242866574522375568989722371793547005274992813263054234551725326336 := by
  have d161 : Point.addFast ⟨47247763451531799463065668430463609483975236849127794879763225805652470995583, 2686146893585238506563017278856286586815519206823040860534813853656267894574⟩ ⟨47247763451531799463065668430463609483975236849127794879763225805652470995583, 2686146893585238506563017278856286586815519206823040860534813853656267894574⟩ = ⟨30456948911993643425315834522087192677297787300141416415889324750414202303925, 110943700064934078635978081398604428512242066370023789442895025925945782792970⟩ :=
    (addFast_dbl ⟨47247763451531799463065668430463609483975236849127794879763225805652470995583, 2686146893585238506563017278856286586815519206823040860534813853656267894574⟩
      19209370273009389976068934240435324646640196351152783834975739147202628402252
      (by decide) (by decide) (by decide) (by decide)).trans (by decide)
  have e161 : Point.addFast ⟨30456948911993643425315834522087192677297787300141416415889324750414202303925, 110943700064934078635978081398604428512242066370023789442895025925945782792970⟩ G = ⟨12052184740983280201603251219525900108861929426260498963633845195960441036401, 54760336827076961916621418234550589794942740211267589722283658084763248649464⟩ :=
    (addFast_distinct ⟨30456948911993643425315834522087192677297787300141416415889324750414202303925, 110943700064934078635978081398604428512242066370023789442895025925945782792970⟩ G
      57886699533176517619696332060815175065242107631319072440716886729281892411786
      (by decide) (by decide) (by decide) (by decide)
      (by decide) (by decide)).trans (by decide)
  have t161 : Point.mulLoopF G 96 ⟨47247763451531799463065668430463609483975236849127794879763225805652470995583, 2686146893585238506563017278856286586815519206823040860534813853656267894574⟩ 79283067380989190123184993922201733259800759055536326058522857248799324110848 =
      Point.mulLoopF G 95 ⟨12052184740983280201603251219525900108861929426260498963633845195960441036401, 54760336827076961916621418234550589794942740211267589722283658084763248649464⟩ 42774045524662184822799002835715558666331533445432088077588130489685518581760 :=
    mulLoopF_step 95 ⟨47247763451531799463065668430463609483975236849127794879763225805652470995583, 2686146893585238506563017278856286586815519206823040860534813853656267894574⟩ ⟨12052184740983280201603251219525900108861929426260498963633845195960441036401, 54760336827076961916621418234550589794942740211267589722283658084763248649464⟩ 79283067380989190123184993922201733259800759055536326058522857248799324110848 42774045524662184822799002835715558666331533445432088077588130489685518581760
      (by
      rw [(by decide : Nat.testBit 79283067380989190123184993922201733259800759055536326058522857248799324110848 255 = true), if_pos rfl, d161]
      exact e161)
      (by decide)
  have d162 : Point.addFast ⟨12052184740983280201603251219525900108861929426260498963633845195960441036401, 54760336827076961916621418234550589794942740211267589722283658084763248649464⟩ ⟨12052184740983280201603251219525900108861929426260498963633845195960441036401, 54760336827076961916621418234550589794942740211267589722283658084763248649464⟩ = ⟨15244115158543558757044562376590201532328596589124020371055056369703538043387, 94295630094213693688431506695063545512713833861245137178460985924495056903849⟩ :=
    (addFast_dbl ⟨12052184740983280201603251219525900108861929426260498963633845195960441036401, 54760336827076961916621418234550589794942740211267589722283658084763248649464⟩
      102459610369931891730573797685316952723945976541011957757939067620468196447680
      (by decide) (by decide) (by decide) (by decide)).trans (by decide)
  have t162 : Point.mulLoopF G 95 ⟨12052184740983280201603251219525900108861929426260498963633845195960441036401, 54760336827076961916621418234550589794942740211267589722283658084763248649464⟩ 42774045524662184822799002835715558666331533445432088077588130489685518581760 =
      Point.mulLoopF G 94 ⟨15244115158543558757044562376590201532328596589124020371055056369703538043387, 94295630094213693688431506695063545512713833861245137178460985924495056903849⟩ 85548091049324369645598005671431117332663066890864176155176260979371037163520 :=
    mulLoopF_step 94 ⟨12052184740983280201603251219525900108861929426260498963633845195960441036401, 54760336827076961916621418234550589794942740211267589722283658084763248649464⟩ ⟨15244115158543558757044562376590201532328596589124020371055056369703538043387, 94295630094213693688431506695063545512713833861245137178460985924495056903849⟩ 42774045524662184822799002835715558666331533445432088077588130489685518581760 85548091049324369645598005671431117332663066890864176155176260979371037163520
      (by
      rw [(by decide : Nat.testBit 42774045524662184822799002835715558666331533445432088077588130489685518581760 255 = false), if_neg Bool.false_ne_true]
      exact d162)
      (by decide)
  have d163 : Point.addFast ⟨15244115158543558757044562376590201532328596589124020371055056369703538043387, 94295630094213693688431506695063545512713833861245137178460985924495056903849⟩ ⟨15244115158543558757044562376590201532328596589124020371055056369703538043387, 94295630094213693688431506695063545512713833861245137178460985924495056903849⟩ = ⟨85672394955570299050984041661490367584808263175213701192560046236218546344982, 7989514598455703740767343372648544824514722695944531761547437019415983904282⟩ :=
    (addFast_dbl ⟨15244115158543558757044562376590201532328596589124020371055056369703538043387, 94295630094213693688431506695063545512713833861245137178460985924495056903849⟩
      57010730383192106694929999704069148255595810113820397035308449118420209192531
      (by decide) (by decide) (by decide) (by decide)).trans (by decide)
  have e163 : Point.addFast ⟨85672394955570299050984041661490367584808263175213701192560046236218546344982, 7989514598455703740767343372648544824514722695944531761547437019415983904282⟩ G = ⟨7413949893213949784485164509429947446879089845496855947906392007245407392554, 44063293105529676222814003251492442859276267272631017512841799640931963303223⟩ :=
    (addFast_distinct ⟨85672394955570299050984041661490367584808263175213701192560046236218546344982, 7989514598455703740767343372648544824514722695944531761547437019415983904282⟩ G
      41893277129112821238139871454937435756310391833605649834451838278627902702482
      (by decide) (by decide) (by decide) (by decide)
      (by decide) (by decide)).trans (by decide)
  have t163 : Point.mulLoopF G 94 ⟨15244115158543558757044562376590201532328596589124020371055056369703538043387, 94295630094213693688431506695063545512713833861245137178460985924495056903849⟩ 85548091049324369645598005671431117332663066890864176155176260979371037163520 =
      Point.mulLoopF G 93 ⟨7413949893213949784485164509429947446879089845496855947906392007245407392554, 44063293105529676222814003251492442859276267272631017512841799640931963303223⟩ 55304092861332543867625026334174326812056149116087788270894937950828944687104 :=
    mulLoopF_step 93 ⟨15244115158543558757044562376590201532328596589124020371055056369703538043387, 94295630094213693688431506695063545512713833861245137178460985924495056903849⟩ ⟨7413949893213949784485164509429947446879089845496855947906392007245407392554, 44063293105529676222814003251492442859276267272631017512841799640931963303223⟩ 85548091049324369645598005671431117332663066890864176155176260979371037163520 55304092861332543867625026334174326812056149116087788270894937950828944687104
      (by
      rw [(by decide : Nat.testBit 85548091049324369645598005671431117332663066890864176155176260979371037163520 255 = true), if_pos rfl, d163]
      exact e163)
      (by decide)
  have d164 : Point.addFast ⟨7413949893213949784485164509429947446879089845496855947906392007245407392554, 44063293105529676222814003251492442859276267272631017512841799640931963303223⟩ ⟨7413949893213949784485164509429947446879089845496855947906392007245407392554, 44063293105529676222814003251492442859276267272631017512841799640931963303223⟩ = ⟨63959592100386238393434266398315915159117802291616243870174626022152417157000, 8436269463647117161398286320205253380529360064055255680079268052322454910790⟩ :=
    (addFast_dbl ⟨7413949893213949784485164509429947446879089845496855947906392007245407392554, 44063293105529676222814003251492442859276267272631017512841799640931963303223⟩
      66764477703580020465658213469787354625951604479772959580807165786331772077460
      (by decide) (by decide) (by decide) (by decide)).trans (by decide)
  have t164 : Point.mulLoopF G 93 ⟨7413949893213949784485164509429947446879089845496855947906392007245407392554, 44063293105529676222814003251492442859276267272631017512841799640931963303223⟩ 55304092861332543867625026334174326812056149116087788270894937950828944687104 =
      Point.mulLoopF G 92 ⟨63959592100386238393434266398315915159117802291616243870174626022152417157000, 8436269463647117161398286320205253380529360064055255680079268052322454910790⟩ 110608185722665087735250052668348653624112298232175576541789875901657889374208 :=
    mulLoopF_step 92 ⟨7413949893213949784485164509429947446879089845496855947906392007245407392554, 44063293105529676222814003251492442859276267272631017512841799640931963303223⟩ ⟨63959592100386238393434266398315915159117802291616243870174626022152417157000, 8436269463647117161398286320205253380529360064055255680079268052322454910790⟩ 55304092861332543867625026334174326812056149116087788270894937950828944687104 110608185722665087735250052668348653624112298232175576541789875901657889374208
      (by
      rw [(by decide : Nat.testBit 55304092861332543867625026334174326812056149116087788270894937950828944687104 255 = false), if_neg Bool.false_ne_true]
      exact d164)
      (by decide)
  have d165 : Point.addFast ⟨63959592100386238393434266398315915159117802291616243870174626022152417157000, 8436269463647117161398286320205253380529360064055255680079268052322454910790⟩ ⟨63959592100386238393434266398315915159117802291616243870174626022152417157000, 8436269463647117161398286320205253380529360064055255680079268052322454910790⟩ = ⟨12586935809972166363829401184209179413266175988782745523016890480563173732233, 94633298728152584892912651575427673104718817670019948603718149749334708397412⟩ :=
    (addFast_dbl ⟨63959592100386238393434266398315915159117802291616243870174626022152417157000, 8436269463647117161398286320205253380529360064055255680079268052322454910790⟩
      113206771682605593909981618927418814953334517507252933903919298540963022929623
      (by decide) (by decide) (by decide) (by decide)).trans (by decide)
  have e165 : Point.addFast ⟨12586935809972166363829401184209179413266175988782745523016890480563173732233, 94633298728152584892912651575427673104718817670019948603718149749334708397412⟩ G = ⟨45259108658264932425750435030068866423734973594265670064637482494561796037342, 100600101115972932407583927117852444784325472121349222478091165162437379938833⟩ :=
    (addFast_distinct ⟨12586935809972166363829401184209179413266175988782745523016890480563173732233, 94633298728152584892912651575427673104718817670019948603718149749334708397412⟩ G
      98627479056082587270682403469099214771020446817178937718126454490170789115059
      (by decide) (by decide) (by decide) (by decide)
      (by decide) (by decide)).trans (by decide)
  have t165 : Point.mulLoopF G 92 ⟨63959592100386238393434266398315915159117802291616243870174626022152417157000, 8436269463647117161398286320205253380529360064055255680079268052322454910790⟩ 110608185722665087735250052668348653624112298232175576541789875901657889374208 =
      Point.mulLoopF G 91 ⟨45259108658264932425750435030068866423734973594265670064637482494561796037342, 100600101115972932407583927117852444784325472121349222478091165162437379938833⟩ 105424282208013980046929120328009399394954611798710589044122167795402649108480 :=
    mulLoopF_step 91 ⟨63959592100386238393434266398315915159117802291616243870174626022152417157000, 8436269463647117161398286320205253380529360064055255680079268052322454910790⟩ ⟨45259108658264932425750435030068866423734973594265670064637482494561796037342, 100600101115972932407583927117852444784325472121349222478091165162437379938833⟩ 110608185722665087735250052668348653624112298232175576541789875901657889374208 105424282208013980046929120328009399394954611798710589044122167795402649108480
      (by
      rw [(by decide : Nat.testBit 110608185722665087735250052668348653624112298232175576541789875901657889374208 255 = true), if_pos rfl, d165]
      exact e165)
      (by decide)
  have d166 : Point.addFast ⟨45259108658264932425750435030068866423734973594265670064637482494561796037342, 100600101115972932407583927117852444784325472121349222478091165162437379938833⟩ ⟨45259108658264932425750435030068866423734973594265670064637482494561796037342, 100600101115972932407583927117852444784325472121349222478091165162437379938833⟩ = ⟨51869177918432637358207680485319639531338574316123120133136469552067036419027, 86799493366387515832907141035001736791928050267631377529113947790627623853559⟩ :=
    (addFast_dbl ⟨45259108658264932425750435030068866423734973594265670064637482494561796037342, 100600101115972932407583927117852444784325472121349222478091165162437379938833⟩
      81497118386251785716101738128482667773275796264605557914872612597829724306944
      (by decide) (by decide) (by decide) (by decide)).trans (by decide)
  have e166 : Point.addFast ⟨51869177918432637358207680485319639531338574316123120133136469552067036419027, 86799493366387515832907141035001736791928050267631377529113947790627623853559⟩ G = ⟨77647428433366022763138962037842006093070762050494585115306262125677342521145, 30624893964163142995372069522439209940750862610177786343133625846063439089972⟩ :=
    (addFast_distinct ⟨51869177918432637358207680485319639531338574316123120133136469552067036419027, 86799493366387515832907141035001736791928050267631377529113947790627623853559⟩ G
      55287532258110842280200838704685909882290543661487100030231662952630715794720
      (by decide) (by decide) (by decide) (by decide)
      (by decide) (by decide)).trans (by decide)
  have t166 : Point.mulLoopF G 91 ⟨45259108658264932425750435030068866423734973594265670064637482494561796037342, 100600101115972932407583927117852444784325472121349222478091165162437379938833⟩ 105424282208013980046929120328009399394954611798710589044122167795402649108480 =
      Point.mulLoopF G 90 ⟨77647428433366022763138962037842006093070762050494585115306262125677342521145, 30624893964163142995372069522439209940750862610177786343133625846063439089972⟩ 95056475178711764670287255647330890936639238931780614048786751582892168577024 :=
    mulLoopF_step 90 ⟨45259108658264932425750435030068866423734973594265670064637482494561796037342, 100600101115972932407583927117852444784325472121349222478091165162437379938833⟩ ⟨77647428433366022763138962037842006093070762050494585115306262125677342521145, 30624893964163142995372069522439209940750862610177786343133625846063439089972⟩ 105424282208013980046929120328009399394954611798710589044122167795402649108480 95056475178711764670287255647330890936639238931780614048786751582892168577024
      (by
      rw [(by decide : Nat.testBit 105424282208013980046929120328009399394954611798710589044122167795402649108480 255 = true), if_pos rfl, d166]
      exact e166)
      (by decide)
  have d167 : Point.addFast ⟨77647428433366022763138962037842006093070762050494585115306262125677342521145, 30624893964163142995372069522439209940750862610177786343133625846063439089972⟩ ⟨77647428433366022763138962037842006093070762050494585115306262125677342521145, 30624893964163142995372069522439209940750862610177786343133625846063439089972⟩ = ⟨19277253971388601640289184448233210999054473621468279305404228456310601558341, 113065949772692120440592523796054333513335264423149674601901548177298186214366⟩ :=
    (addFast_dbl ⟨77647428433366022763138962037842006093070762050494585115306262125677342521145, 30624893964163142995372069522439209940750862610177786343133625846063439089972⟩
      38649967262258577716053326914827222138972858992711887944141741601350273519308
      (by decide) (by decide) (by decide) (by decide)).trans (by decide)
  have e167 : Point.addFast ⟨19277253971388601640289184448233210999054473621468279305404228456310601558341, 113065949772692120440592523796054333513335264423149674601901548177298186214366⟩ G = ⟨74278096500408281187873454175215464474743146316696531561644339856722105184317, 36777097337652800883290070309040547013348809600157342732937121474227643884269⟩ :=
    (addFast_distinct ⟨19277253971388601640289184448233210999054473621468279305404228456310601558341, 113065949772692120440592523796054333513335264423149674601901548177298186214366⟩ G
      52078951533277959624417642934630746300043309415329392566600289988040538080823
      (by decide) (by decide) (by decide) (by decide)
      (by decide) (by decide)).trans (by decide)
  have t167 : Point.mulLoopF G 90 ⟨77647428433366022763138962037842006093070762050494585115306262125677342521145, 30624893964163142995372069522439209940750862610177786343133625846063439089972⟩ 95056475178711764670287255647330890936639238931780614048786751582892168577024 =
      Point.mulLoopF G 89 ⟨74278096500408281187873454175215464474743146316696531561644339856722105184317, 36777097337652800883290070309040547013348809600157342732937121474227643884269⟩ 74320861120107333917003526285973874020008493197920664058115919157871207514112 :=
    mulLoopF_step 89 ⟨77647428433366022763138962037842006093070762050494585115306262125677342521145, 30624893964163142995372069522439209940750862610177786343133625846063439089972⟩ ⟨74278096500408281187873454175215464474743146316696531561644339856722105184317, 36777097337652800883290070309040547013348809600157342732937121474227643884269⟩ 95056475178711764670287255647330890936639238931780614048786751582892168577024 74320861120107333917003526285973874020008493197920664058115919157871207514112
      (by
      rw [(by decide : Nat.testBit 95056475178711764670287255647330890936639238931780614048786751582892168577024 255 = true), if_pos rfl, d167]
      exact e167)
      (by decide)
  have d168 : Point.addFast ⟨74278096500408281187873454175215464474743146316696531561644339856722105184317, 36777097337652800883290070309040547013348809600157342732937121474227643884269⟩ ⟨74278096500408281187873454175215464474743146316696531561644339856722105184317, 36777097337652800883290070309040547013348809600157342732937121474227643884269⟩ = ⟨40221506629230633679731053238505004301075464487689207732438614806503369384651, 94371134168890369813584035953596481241374286029777556324238379294776964907898⟩ :=
    (addFast_dbl ⟨74278096500408281187873454175215464474743146316696531561644339856722105184317, 36777097337652800883290070309040547013348809600157342732937121474227643884269⟩
      93574103993069004334725534159070146231181723953025686169586418906639666783635
      (by decide) (by decide) (by decide) (by decide)).trans (by decide)
  have e168 : Point.addFast ⟨40221506629230633679731053238505004301075464487689207732438614806503369384651, 94371134168890369813584035953596481241374286029777556324238379294776964907898⟩ G = ⟨26350209081013120674735201011644298446887875744908933420591969660546902140305, 46381886268604108628367729865296031646043786933678222182103524894861734393770⟩ :=
    (addFast_distinct ⟨40221506629230633679731053238505004301075464487689207732438614806503369384651, 94371134168890369813584035953596481241374286029777556324238379294776964907898⟩ G
      55066795227978401339490742371073029489622107737403188558589051767914298428331
      (by decide) (by decide) (by decide) (by decide)
      (by decide) (by decide)).trans (by decide)
  have t168 : Point.mulLoopF G 89 ⟨74278096500408281187873454175215464474743146316696531561644339856722105184317, 36777097337652800883290070309040547013348809600157342732937121474227643884269⟩ 74320861120107333917003526285973874020008493197920664058115919157871207514112 =
      Point.mulLoopF G 88 ⟨26350209081013120674735201011644298446887875744908933420591969660546902140305, 46381886268604108628367729865296031646043786933678222182103524894861734393770⟩ 32849633002898472410436067563259840186747001730200764076774254307829285388288 :=
    mulLoopF_step 88 ⟨74278096500408281187873454175215464474743146316696531561644339856722105184317, 36777097337652800883290070309040547013348809600157342732937121474227643884269⟩ ⟨26350209081013120674735201011644298446887875744908933420591969660546902140305, 46381886268604108628367729865296031646043786933678222182103524894861734393770⟩ 74320861120107333917003526285973874020008493197920664058115919157871207514112 32849633002898472410436067563259840186747001730200764076774254307829285388288
      (by
      rw [(by decide : Nat.testBit 74320861120107333917003526285973874020008493197920664058115919157871207514112 255 = true), if_pos rfl, d168]
      exact e168)
      (by decide)
  have d169 : Point.addFast ⟨26350209081013120674735201011644298446887875744908933420591969660546902140305, 46381886268604108628367729865296031646043786933678222182103524894861734393770⟩ ⟨26350209081013120674735201011644298446887875744908933420591969660546902140305, 46381886268604108628367729865296031646043786933678222182103524894861734393770⟩ = ⟨47721978471073143681953578819189449816024001304507224832740449051510024669933, 11855246856968832001557576032501682595427806261137124743805533114617894725864⟩ :=
    (addFast_dbl ⟨26350209081013120674735201011644298446887875744908933420591969660546902140305, 46381886268604108628367729865296031646043786933678222182103524894861734393770⟩
      9282547101642131198264037606691842751896713418821035999024009320922970977081
      (by decide) (by decide) (by decide) (by decide)).trans (by decide)
  have t169 : Point.mulLoopF G 88 ⟨26350209081013120674735201011644298446887875744908933420591969660546902140305, 46381886268604108628367729865296031646043786933678222182103524894861734393770⟩ 32849633002898472410436067563259840186747001730200764076774254307829285388288 =
      Point.mulLoopF G 87 ⟨47721978471073143681953578819189449816024001304507224832740449051510024669933, 11855246856968832001557576032501682595427806261137124743805533114617894725864⟩ 65699266005796944820872135126519680373494003460401528153548508615658570776576 :=
    mulLoopF_step 87 ⟨26350209081013120674735201011644298446887875744908933420591969660546902140305, 46381886268604108628367729865296031646043786933678222182103524894861734393770⟩ ⟨47721978471073143681953578819189449816024001304507224832740449051510024669933, 11855246856968832001557576032501682595427806261137124743805533114617894725864⟩ 32849633002898472410436067563259840186747001730200764076774254307829285388288 65699266005796944820872135126519680373494003460401528153548508615658570776576
      (by
      rw [(by decide : Nat.testBit 32849633002898472410436067563259840186747001730200764076774254307829285388288 255 = false), if_neg Bool.false_ne_true]
      exact d169)
      (by decide)
  have d170 : Point.addFast ⟨47721978471073143681953578819189449816024001304507224832740449051510024669933, 11855246856968832001557576032501682595427806261137124743805533114617894725864⟩ ⟨47721978471073143681953578819189449816024001304507224832740449051510024669933, 11855246856968832001557576032501682595427806261137124743805533114617894725864⟩ = ⟨55856695897385448471385476317708458439160183629977427975893448487449611857820, 35084601169300234258563029913130514890336555915691537970989627847198572209645⟩ :=
    (addFast_dbl ⟨47721978471073143681953578819189449816024001304507224832740449051510024669933, 11855246856968832001557576032501682595427806261137124743805533114617894725864⟩
      72623270650361339559363080561137160218537314505235439858847366253965989513656
      (by decide) (by decide) (by decide) (by decide)).trans (by decide)
  have e170 : Point.addFast ⟨55856695897385448471385476317708458439160183629977427975893448487449611857820, 35084601169300234258563029913130514890336555915691537970989627847198572209645⟩ G = ⟨8987324714132523804087980146166464156407203622844188004759577386524574560467, 11950839827955234829797841266311476923762994869507843999177514713795760499819⟩ :=
    (addFast_distinct ⟨55856695897385448471385476317708458439160183629977427975893448487449611857820, 35084601169300234258563029913130514890336555915691537970989627847198572209645⟩ G
      74934300558748354982673626770855575195785690151953834344947760552853126940811
      (by decide) (by decide) (by decide) (by decide)
      (by decide) (by decide)).trans (by decide)
  have t170 : Point.mulLoopF G 87 ⟨47721978471073143681953578819189449816024001304507224832740449051510024669933, 11855246856968832001557576032501682595427806261137124743805533114617894725864⟩ 65699266005796944820872135126519680373494003460401528153548508615658570776576 =
      Point.mulLoopF G 86 ⟨8987324714132523804087980146166464156407203622844188004759577386524574560467, 11950839827955234829797841266311476923762994869507843999177514713795760499819⟩ 15606442774277694218173285244351452893718022255162492267639433223404011913216 :=
    mulLoopF_step 86 ⟨47721978471073143681953578819189449816024001304507224832740449051510024669933, 11855246856968832001557576032501682595427806261137124743805533114617894725864⟩ ⟨8987324714132523804087980146166464156407203622844188004759577386524574560467, 11950839827955234829797841266311476923762994869507843999177514713795760499819⟩ 65699266005796944820872135126519680373494003460401528153548508615658570776576 15606442774277694218173285244351452893718022255162492267639433223404011913216
      (by
      rw [(by decide : Nat.testBit 65699266005796944820872135126519680373494003460401528153548508615658570776576 255 = true), if_pos rfl, d170]
      exact e170)
      (by decide)
  have d171 : Point.addFast ⟨8987324714132523804087980146166464156407203622844188004759577386524574560467, 11950839827955234829797841266311476923762994869507843999177514713795760499819⟩ ⟨8987324714132523804087980146166464156407203622844188004759577386524574560467, 11950839827955234829797841266311476923762994869507843999177514713795760499819⟩ = ⟨12776305850848005564120246511544681594314120218510250881938978868599232035207, 30132845386831822997034466806678865862615823581313844885292110360888122666901⟩ :=
    (addFast_dbl ⟨8987324714132523804087980146166464156407203622844188004759577386524574560467, 11950839827955234829797841266311476923762994869507843999177514713795760499819⟩
      94832722957878755089301678045703654330103118523483770368885628115263617828246
      (by decide) (by decide) (by decide) (by decide)).trans (by decide)
  have t171 : Point.mulLoopF G 86 ⟨8987324714132523804087980146166464156407203622844188004759577386524574560467, 11950839827955234829797841266311476923762994869507843999177514713795760499819⟩ 15606442774277694218173285244351452893718022255162492267639433223404011913216 =
      Point.mulLoopF G 85 ⟨12776305850848005564120246511544681594314120218510250881938978868599232035207, 30132845386831822997034466806678865862615823581313844885292110360888122666901⟩ 31212885548555388436346570488702905787436044510324984535278866446808023826432 :=
    mulLoopF_step 85 ⟨8987324714132523804087980146166464156407203622844188004759577386524574560467, 11950839827955234829797841266311476923762994869507843999177514713795760499819⟩ ⟨12776305850848005564120246511544681594314120218510250881938978868599232035207, 30132845386831822997034466806678865862615823581313844885292110360888122666901⟩ 15606442774277694218173285244351452893718022255162492267639433223404011913216 31212885548555388436346570488702905787436044510324984535278866446808023826432
      (by
      rw [(by decide : Nat.testBit 15606442774277694218173285244351452893718022255162492267639433223404011913216 255 = false), if_neg Bool.false_ne_true]
      exact d171)
      (by decide)
  have d172 : Point.addFast ⟨12776305850848005564120246511544681594314120218510250881938978868599232035207, 30132845386831822997034466806678865862615823581313844885292110360888122666901⟩ ⟨12776305850848005564120246511544681594314120218510250881938978868599232035207, 30132845386831822997034466806678865862615823581313844885292110360888122666901⟩ = ⟨99276184862122315782542448352313058172571946013300255149457003019376023980295, 7358945138953114126032197443945913533226401674174364323860575520257378824555⟩ :=
    (addFast_dbl ⟨12776305850848005564120246511544681594314120218510250881938978868599232035207, 30132845386831822997034466806678865862615823581313844885292110360888122666901⟩
      95861737181001929454375454027027679752830476666446775602131555397921020265406
      (by decide) (by decide) (by decide) (by decide)).trans (by decide)
  have t172 : Point.mulLoopF G 85 ⟨12776305850848005564120246511544681594314120218510250881938978868599232035207, 30132845386831822997034466806678865862615823581313844885292110360888122666901⟩ 31212885548555388436346570488702905787436044510324984535278866446808023826432 =
      Point.mulLoopF G 84 ⟨99276184862122315782542448352313058172571946013300255149457003019376023980295, 7358945138953114126032197443945913533226401674174364323860575520257378824555⟩ 62425771097110776872693140977405811574872089020649969070557732893616047652864 :=
    mulLoopF_step 84 ⟨12776305850848005564120246511544681594314120218510250881938978868599232035207, 30132845386831822997034466806678865862615823581313844885292110360888122666901⟩ ⟨99276184862122315782542448352313058172571946013300255149457003019376023980295, 7358945138953114126032197443945913533226401674174364323860575520257378824555⟩ 31212885548555388436346570488702905787436044510324984535278866446808023826432 62425771097110776872693140977405811574872089020649969070557732893616047652864
      (by
      rw [(by decide : Nat.testBit 31212885548555388436346570488702905787436044510324984535278866446808023826432 255 = false), if_neg Bool.false_ne_true]
      exact d172)
      (by decide)
  have d173 : Point.addFast ⟨99276184862122315782542448352313058172571946013300255149457003019376023980295, 7358945138953114126032197443945913533226401674174364323860575520257378824555⟩ ⟨99276184862122315782542448352313058172571946013300255149457003019376023980295, 7358945138953114126032197443945913533226401674174364323860575520257378824555⟩ = ⟨67745071531366672692244141804290556464149299040642350687417362803816188451139, 36710753343377764676870041519781131688447274755921508553761308138700792165936⟩ :=
    (addFast_dbl ⟨99276184862122315782542448352313058172571946013300255149457003019376023980295, 7358945138953114126032197443945913533226401674174364323860575520257378824555⟩
      30168889327398585184859818792482480138408637536469279907551586795562567414449
      (by decide) (by decide) (by decide) (by decide)).trans (by decide)
  have e173 : Point.addFast ⟨67745071531366672692244141804290556464149299040642350687417362803816188451139, 36710753343377764676870041519781131688447274755921508553761308138700792165936⟩ G = ⟨41805804271238716779229028691625693291124292427366192819259136494851320775272, 46205659183718572145214302263404173383851270543502606719471524252497867543119⟩ :=
    (addFast_distinct ⟨67745071531366672692244141804290556464149299040642350687417362803816188451139, 36710753343377764676870041519781131688447274755921508553761308138700792165936⟩ G
      102651693853168671940285529035042346221722530019341066257020665004233188789250
      (by decide) (by decide) (by decide) (by decide)
      (by decide) (by decide)).trans (by decide)
  have t173 : Point.mulLoopF G 84 ⟨99276184862122315782542448352313058172571946013300255149457003019376023980295, 7358945138953114126032197443945913533226401674174364323860575520257378824555⟩ 62425771097110776872693140977405811574872089020649969070557732893616047652864 =
      Point.mulLoopF G 83 ⟨41805804271238716779229028691625693291124292427366192819259136494851320775272, 46205659183718572145214302263404173383851270543502606719471524252497867543119⟩ 9059452956905358321815296946123715296474193375659374101657881779318965665792 :=
    mulLoopF_step 83 ⟨99276184862122315782542448352313058172571946013300255149457003019376023980295, 7358945138953114126032197443945913533226401674174364323860575520257378824555⟩ ⟨41805804271238716779229028691625693291124292427366192819259136494851320775272, 46205659183718572145214302263404173383851270543502606719471524252497867543119⟩ 62425771097110776872693140977405811574872089020649969070557732893616047652864 9059452956905358321815296946123715296474193375659374101657881779318965665792
      (by
      rw [(by decide : Nat.testBit 62425771097110776872693140977405811574872089020649969070557732893616047652864 255 = true), if_pos rfl, d173]
      exact e173)
      (by decide)
  have d174 : Point.addFast ⟨41805804271238716779229028691625693291124292427366192819259136494851320775272, 46205659183718572145214302263404173383851270543502606719471524252497867543119⟩ ⟨41805804271238716779229028691625693291124292427366192819259136494851320775272, 46205659183718572145214302263404173383851270543502606719471524252497867543119⟩ = ⟨9713368187436642374758337500973048106191937181079055351769755996992498695118, 45559799353234107208316005495715779693493886452791645884533798639644989043963⟩ :=
    (addFast_dbl ⟨41805804271238716779229028691625693291124292427366192819259136494851320775272, 46205659183718572145214302263404173383851270543502606719471524252497867543119⟩
      54180115305106806601722822829357338259759842065542686425237515235493444499301
      (by decide) (by decide) (by decide) (by decide)).trans (by decide)
  have t174 : Point.mulLoopF G 83 ⟨41805804271238716779229028691625693291124292427366192819259136494851320775272, 46205659183718572145214302263404173383851270543502606719471524252497867543119⟩ 9059452956905358321815296946123715296474193375659374101657881779318965665792 =
      Point.mulLoopF G 82 ⟨9713368187436642374758337500973048106191937181079055351769755996992498695118, 45559799353234107208316005495715779693493886452791645884533798639644989043963⟩ 18118905913810716643630593892247430592948386751318748203315763558637931331584 :=
    mulLoopF_step 82 ⟨41805804271238716779229028691625693291124292427366192819259136494851320775272, 46205659183718572145214302263404173383851270543502606719471524252497867543119⟩ ⟨9713368187436642374758337500973048106191937181079055351769755996992498695118, 45559799353234107208316005495715779693493886452791645884533798639644989043963⟩ 9059452956905358321815296946123715296474193375659374101657881779318965665792 18118905913810716643630593892247430592948386751318748203315763558637931331584
      (by
      rw [(by decide : Nat.testBit 9059452956905358321815296946123715296474193375659374101657881779318965665792 255 = false), if_neg Bool.false_ne_true]
      exact d174)
      (by decide)
  have d175 : Point.addFast ⟨9713368187436642374758337500973048106191937181079055351769755996992498695118, 45559799353234107208316005495715779693493886452791645884533798639644989043963⟩ ⟨9713368187436642374758337500973048106191937181079055351769755996992498695118, 45559799353234107208316005495715779693493886452791645884533798639644989043963⟩ = ⟨28240790072560910748947058854496288946519517253127724481835212126708740491002, 53046595962848932691772705361533280174446686215924655834904030465120173634648⟩ :=
    (addFast_dbl ⟨9713368187436642374758337500973048106191937181079055351769755996992498695118, 45559799353234107208316005495715779693493886452791645884533798639644989043963⟩
      106045037598844494240085727060003592504986778937389240843947015483595624038907
      (by decide) (by decide) (by decide) (by decide)).trans (by decide)
  have t175 : Point.mulLoopF G 82 ⟨9713368187436642374758337500973048106191937181079055351769755996992498695118, 45559799353234107208316005495715779693493886452791645884533798639644989043963⟩ 18118905913810716643630593892247430592948386751318748203315763558637931331584 =
      Point.mulLoopF G 81 ⟨28240790072560910748947058854496288946519517253127724481835212126708740491002, 53046595962848932691772705361533280174446686215924655834904030465120173634648⟩ 36237811827621433287261187784494861185896773502637496406631527117275862663168 :=
    mulLoopF_step 81 ⟨9713368187436642374758337500973048106191937181079055351769755996992498695118, 45559799353234107208316005495715779693493886452791645884533798639644989043963⟩ ⟨28240790072560910748947058854496288946519517253127724481835212126708740491002, 53046595962848932691772705361533280174446686215924655834904030465120173634648⟩ 18118905913810716643630593892247430592948386751318748203315763558637931331584 36237811827621433287261187784494861185896773502637496406631527117275862663168
      (by
      rw [(by decide : Nat.testBit 18118905913810716643630593892247430592948386751318748203315763558637931331584 255 = false), if_neg Bool.false_ne_true]
      exact d175)
      (by decide)
  have d176 : Point.addFast ⟨28240790072560910748947058854496288946519517253127724481835212126708740491002, 53046595962848932691772705361533280174446686215924655834904030465120173634648⟩ ⟨28240790072560910748947058854496288946519517253127724481835212126708740491002, 53046595962848932691772705361533280174446686215924655834904030465120173634648⟩ = ⟨86936594602655074841329372854774354479873320102130302695213907660541031074033, 59620323792767926642593146223605433394866633981945797121167552459715955977527⟩ :=
    (addFast_dbl ⟨28240790072560910748947058854496288946519517253127724481835212126708740491002, 53046595962848932691772705361533280174446686215924655834904030465120173634648⟩
      31939772262812397209284049580628345299579320718666750856887864497950955391283
      (by decide) (by decide) (by decide) (by decide)).trans (by decide)
  have t176 : Point.mulLoopF G 81 ⟨28240790072560910748947058854496288946519517253127724481835212126708740491002, 53046595962848932691772705361533280174446686215924655834904030465120173634648⟩ 36237811827621433287261187784494861185896773502637496406631527117275862663168 =
      Point.mulLoopF G 80 ⟨86936594602655074841329372854774354479873320102130302695213907660541031074033, 59620323792767926642593146223605433394866633981945797121167552459715955977527⟩ 72475623655242866574522375568989722371793547005274992813263054234551725326336 :=
    mulLoopF_step 80 ⟨28240790072560910748947058854496288946519517253127724481835212126708740491002, 53046595962848932691772705361533280174446686215924655834904030465120173634648⟩ ⟨86936594602655074841329372854774354479873320102130302695213907660541031074033, 59620323792767926642593146223605433394866633981945797121167552459715955977527⟩ 36237811827621433287261187784494861185896773502637496406631527117275862663168 72475623655242866574522375568989722371793547005274992813263054234551725326336
      (by
      rw [(by decide : Nat.testBit 36237811827621433287261187784494861185896773502637496406631527117275862663168 255 = false), if_neg Bool.false_ne_true]
      exact d176)
      (by decide)
  rw [t161, t162, t163, t164, t165, t166, t167, t168, t169, t170, t171, t172, t173, t174, t175, t176]

set_option maxHeartbeats 1600000 in
/-- Segment 12 of the certified double-and-add trace of the generator
multiplied by the group order: iterations 177 to 192, each point
addition discharged through a precomputed modular-inverse certificate. -/
theorem mulG_seg12 : Point.mulLoopF G 80 ⟨86936594602655074841329372854774354479873320102130302695213907660541031074033, 59620323792767926642593146223605433394866633981945797121167552459715955977527⟩ 72475623655242866574522375568989722371793547005274992813263054234551725326336 =
    Point.mulLoopF G 64 ⟨18462507725042716807979103445085429593496376249583542325522822244689471872519, 37465934278057643432886868738220694055075490840727191692633083132563294258897⟩ 86763444523483748440171217941153124580395537791632675496883894993206286221312 := by
  have d177 : Point.addFast ⟨86936594602655074841329372854774354479873320102130302695213907660541031074033, 59620323792767926642593146223605433394866633981945797121167552459715955977527⟩ ⟨86936594602655074841329372854774354479873320102130302695213907660541031074033, 59620323792767926642593146223605433394866633981945797121167552459715955977527⟩ = ⟨22617513307981604256842668102310079098567873877649163108668983470257023118093, 38872641124038556290982988713332022934050718848713570535864724769822410798963⟩ :=
    (addFast_dbl ⟨86936594602655074841329372854774354479873320102130302695213907660541031074033, 59620323792767926642593146223605433394866633981945797121167552459715955977527⟩
      94171046112071220830295905133031239093171849573266678836277513511283657428125
      (by decide) (by decide) (by decide) (by decide)).trans (by decide)
  have e177 : Point.addFast ⟨22617513307981604256842668102310079098567873877649163108668983470257023118093, 38872641124038556290982988713332022934050718848713570535864724769822410798963⟩ G = ⟨9555631037796752948619911310690041252618114371601632405261562717039402532181, 111731404017390054124573961319150218018551983042068247095225634108416661151502⟩ :=
    (addFast_distinct ⟨22617513307981604256842668102310079098567873877649163108668983470257023118093, 38872641124038556290982988713332022934050718848713570535864724769822410798963⟩ G
      41242010654305633318961246661222647648004845200626566393813217183990478670353
      (by decide) (by decide) (by decide) (by decide)
      (by decide) (by decide)).trans (by decide)
  have t177 : Point.mulLoopF G 80 ⟨86936594602655074841329372854774354479873320102130302695213907660541031074033, 59620323792767926642593146223605433394866633981945797121167552459715955977527⟩ 72475623655242866574522375568989722371793547005274992813263054234551725326336 =
      Point.mulLoopF G 79 ⟨9555631037796752948619911310690041252618114371601632405261562717039402532181, 111731404017390054124573961319150218018551983042068247095225634108416661151502⟩ 29159158073169537725473766129291536890317109344909421587068524461190321012736 :=
    mulLoopF_step 79 ⟨86936594602655074841329372854774354479873320102130302695213907660541031074033, 59620323792767926642593146223605433394866633981945797121167552459715955977527⟩ ⟨9555631037796752948619911310690041252618114371601632405261562717039402532181, 111731404017390054124573961319150218018551983042068247095225634108416661151502⟩ 72475623655242866574522375568989722371793547005274992813263054234551725326336 29159158073169537725473766129291536890317109344909421587068524461190321012736
      (by
      rw [(by decide : Nat.testBit 72475623655242866574522375568989722371793547005274992813263054234551725326336 255 = true), if_pos rfl, d177]
      exact e177)
      (by decide)
  have d178 : Point.addFast ⟨9555631037796752948619911310690041252618114371601632405261562717039402532181, 111731404017390054124573961319150218018551983042068247095225634108416661151502⟩ ⟨9555631037796752948619911310690041252618114371601632405261562717039402532181, 111731404017390054124573961319150218018551983042068247095225634108416661151502⟩ = ⟨26935069207768718074243096468379876206004730861820601046487803174810360880840, 26416151232334830440868287266055317560280991374724608993930066193185467797784⟩ :=
    (addFast_dbl ⟨9555631037796752948619911310690041252618114371601632405261562717039402532181, 111731404017390054124573961319150218018551983042068247095225634108416661151502⟩
      76111682120489585877632274939351978350079977914196315292133981066700839217512
      (by decide) (by decide) (by decide) (by decide)).trans (by decide)
  have t178 : Point.mulLoopF G 79 ⟨9555631037796752948619911310690041252618114371601632405261562717039402532181, 111731404017390054124573961319150218018551983042068247095225634108416661151502⟩ 29159158073169537725473766129291536890317109344909421587068524461190321012736 =
      Point.mulLoopF G 78 ⟨26935069207768718074243096468379876206004730861820601046487803174810360880840, 26416151232334830440868287266055317560280991374724608993930066193185467797784⟩ 58318316146339075450947532258583073780634218689818843174137048922380642025472 :=
    mulLoopF_step 78 ⟨9555631037796752948619911310690041252618114371601632405261562717039402532181, 111731404017390054124573961319150218018551983042068247095225634108416661151502⟩ ⟨26935069207768718074243096468379876206004730861820601046487803174810360880840, 26416151232334830440868287266055317560280991374724608993930066193185467797784⟩ 29159158073169537725473766129291536890317109344909421587068524461190321012736 58318316146339075450947532258583073780634218689818843174137048922380642025472
      (by
      rw [(by decide : Nat.testBit 29159158073169537725473766129291536890317109344909421587068524461190321012736 255 = false), if_neg Bool.false_ne_true]
      exact d178)
      (by decide)
  have d179 : Point.addFast ⟨26935069207768718074243096468379876206004730861820601046487803174810360880840, 26416151232334830440868287266055317560280991374724608993930066193185467797784⟩ ⟨26935069207768718074243096468379876206004730861820601046487803174810360880840, 26416151232334830440868287266055317560280991374724608993930066193185467797784⟩ = ⟨22585717180975925519421687714487768321912913710981238312022863296910878407854, 46690210878494551239422856248409009667980076107771269512615221186518554695134⟩ :=
    (addFast_dbl ⟨26935069207768718074243096468379876206004730861820601046487803174810360880840, 26416151232334830440868287266055317560280991374724608993930066193185467797784⟩
      66449016451892723068893357713409370876897206663655872551116933085140076748745
      (by decide) (by decide) (by decide) (by decide)).trans (by decide)
  have e179 : Point.addFast ⟨22585717180975925519421687714487768321912913710981238312022863296910878407854, 46690210878494551239422856248409009667980076107771269512615221186518554695134⟩ G = ⟨87248511113222782567163017085184656275147054997925710478347300302857929931753, 32750705414315067218441893546407895990168130898097307485169128879123592685043⟩ :=
    (addFast_distinct ⟨22585717180975925519421687714487768321912913710981238312022863296910878407854, 46690210878494551239422856248409009667980076107771269512615221186518554695134⟩ G
      21065078982792757988227711484278669832325721613131611530047334920035537153205
      (by decide) (by decide) (by decide) (by decide)
      (by decide) (by decide)).trans (by decide)
  have t179 : Point.mulLoopF G 78 ⟨26935069207768718074243096468379876206004730861820601046487803174810360880840, 26416151232334830440868287266055317560280991374724608993930066193185467797784⟩ 58318316146339075450947532258583073780634218689818843174137048922380642025472 =
      Point.mulLoopF G 77 ⟨87248511113222782567163017085184656275147054997925710478347300302857929931753, 32750705414315067218441893546407895990168130898097307485169128879123592685043⟩ 844543055361955478324079508478239707998452713997122308816513836848154411008 :=
    mulLoopF_step 77 ⟨26935069207768718074243096468379876206004730861820601046487803174810360880840, 26416151232334830440868287266055317560280991374724608993930066193185467797784⟩ ⟨87248511113222782567163017085184656275147054997925710478347300302857929931753, 32750705414315067218441893546407895990168130898097307485169128879123592685043⟩ 58318316146339075450947532258583073780634218689818843174137048922380642025472 844543055361955478324079508478239707998452713997122308816513836848154411008
      (by
      rw [(by decide : Nat.testBit 58318316146339075450947532258583073780634218689818843174137048922380642025472 255 = true), if_pos rfl, d179]
      exact e179)
      (by decide)
  have d180 : Point.addFast ⟨87248511113222782567163017085184656275147054997925710478347300302857929931753, 32750705414315067218441893546407895990168130898097307485169128879123592685043⟩ ⟨87248511113222782567163017085184656275147054997925710478347300302857929931753, 32750705414315067218441893546407895990168130898097307485169128879123592685043⟩ = ⟨2181526885622524587607421832319596288653661726926818014068563520140080277543, 79586434303681275154680658846383325375743625652952699926614126153142126658584⟩ :=
    (addFast_dbl ⟨87248511113222782567163017085184656275147054997925710478347300302857929931753, 32750705414315067218441893546407895990168130898097307485169128879123592685043⟩
      95522930502246550380937279139440654861815299608636784506139895255461910175826
      (by decide) (by decide) (by decide) (by decide)).trans (by decide)
  have t180 : Point.mulLoopF G 77 ⟨87248511113222782567163017085184656275147054997925710478347300302857929931753, 32750705414315067218441893546407895990168130898097307485169128879123592685043⟩ 844543055361955478324079508478239707998452713997122308816513836848154411008 =
      Point.mulLoopF G 76 ⟨2181526885622524587607421832319596288653661726926818014068563520140080277543, 79586434303681275154680658846383325375743625652952699926614126153142126658584⟩ 1689086110723910956648159016956479415996905427994244617633027673696308822016 :=
    mulLoopF_step 76 ⟨87248511113222782567163017085184656275147054997925710478347300302857929931753, 32750705414315067218441893546407895990168130898097307485169128879123592685043⟩ ⟨2181526885622524587607421832319596288653661726926818014068563520140080277543, 79586434303681275154680658846383325375743625652952699926614126153142126658584⟩ 844543055361955478324079508478239707998452713997122308816513836848154411008 1689086110723910956648159016956479415996905427994244617633027673696308822016
      (by
      rw [(by decide : Nat.testBit 844543055361955478324079508478239707998452713997122308816513836848154411008 255 = false), if_neg Bool.false_ne_true]
      exact d180)
      (by decide)
  have d181 : Point.addFast ⟨2181526885622524587607421832319596288653661726926818014068563520140080277543, 79586434303681275154680658846383325375743625652952699926614126153142126658584⟩ ⟨2181526885622524587607421832319596288653661726926818014068563520140080277543, 79586434303681275154680658846383325375743625652952699926614126153142126658584⟩ = ⟨23047267946837533943873425721920741742192060438234922918894715050654043236700, 9103380261508142356407488701613153219364057330129542101439959812047759102917⟩ :=
    (addFast_dbl ⟨2181526885622524587607421832319596288653661726926818014068563520140080277543, 79586434303681275154680658846383325375743625652952699926614126153142126658584⟩
      110374129959989890619221211229621518580489039892785765140591905475186921939525
      (by decide) (by decide) (by decide) (by decide)).trans (by decide)
  have t181 : Point.mulLoopF G 76 ⟨2181526885622524587607421832319596288653661726926818014068563520140080277543, 79586434303681275154680658846383325375743625652952699926614126153142126658584⟩ 1689086110723910956648159016956479415996905427994244617633027673696308822016 =
      Point.mulLoopF G 75 ⟨23047267946837533943873425721920741742192060438234922918894715050654043236700, 9103380261508142356407488701613153219364057330129542101439959812047759102917⟩ 3378172221447821913296318033912958831993810855988489235266055347392617644032 :=
    mulLoopF_step 75 ⟨2181526885622524587607421832319596288653661726926818014068563520140080277543, 79586434303681275154680658846383325375743625652952699926614126153142126658584⟩ ⟨23047267946837533943873425721920741742192060438234922918894715050654043236700, 9103380261508142356407488701613153219364057330129542101439959812047759102917⟩ 1689086110723910956648159016956479415996905427994244617633027673696308822016 3378172221447821913296318033912958831993810855988489235266055347392617644032
      (by
      rw [(by decide : Nat.testBit 1689086110723910956648159016956479415996905427994244617633027673696308822016 255 = false), if_neg Bool.false_ne_true]
      exact d181)
      (by decide)
  have d182 : Point.addFast ⟨23047267946837533943873425721920741742192060438234922918894715050654043236700, 9103380261508142356407488701613153219364057330129542101439959812047759102917⟩ ⟨23047267946837533943873425721920741742192060438234922918894715050654043236700, 9103380261508142356407488701613153219364057330129542101439959812047759102917⟩ = ⟨61659539600609886994692031159258582156878124799823893244098656297792544030101, 95431206001713788537941384760036624395902756376074948821594242988137616949222⟩ :=
    (addFast_dbl ⟨23047267946837533943873425721920741742192060438234922918894715050654043236700, 9103380261508142356407488701613153219364057330129542101439959812047759102917⟩
      77000290885186095183182838336010466411919195600057446734563369866250390326370
      (by decide) (by decide) (by decide) (by decide)).trans (by decide)
  have t182 : Point.mulLoopF G 75 ⟨23047267946837533943873425721920741742192060438234922918894715050654043236700, 9103380261508142356407488701613153219364057330129542101439959812047759102917⟩ 3378172221447821913296318033912958831993810855988489235266055347392617644032 =
      Point.mulLoopF G 74 ⟨61659539600609886994692031159258582156878124799823893244098656297792544030101, 95431206001713788537941384760036624395902756376074948821594242988137616949222⟩ 6756344442895643826592636067825917663987621711976978470532110694785235288064 :=
    mulLoopF_step 74 ⟨23047267946837533943873425721920741742192060438234922918894715050654043236700, 9103380261508142356407488701613153219364057330129542101439959812047759102917⟩ ⟨61659539600609886994692031159258582156878124799823893244098656297792544030101, 95431206001713788537941384760036624395902756376074948821594242988137616949222⟩ 3378172221447821913296318033912958831993810855988489235266055347392617644032 6756344442895643826592636067825917663987621711976978470532110694785235288064
      (by
      rw [(by decide : Nat.testBit 3378172221447821913296318033912958831993810855988489235266055347392617644032 255 = false), if_neg Bool.false_ne_true]
      exact d182)
      (by decide)
  have d183 : Point.addFast ⟨61659539600609886994692031159258582156878124799823893244098656297792544030101, 95431206001713788537941384760036624395902756376074948821594242988137616949222⟩ ⟨61659539600609886994692031159258582156878124799823893244098656297792544030101, 95431206001713788537941384760036624395902756376074948821594242988137616949222⟩ = ⟨23772605910555906233251471314501450963164081331960587008332927042183705181137, 84604353966677789868017788688812965787900956254587618459545468360280337979906⟩ :=
    (addFast_dbl ⟨61659539600609886994692031159258582156878124799823893244098656297792544030101, 95431206001713788537941384760036624395902756376074948821594242988137616949222⟩
      103349636673368908599487973677840734256649534272692743427296008005615599150591
      (by decide) (by decide) (by decide) (by decide)).trans (by decide)
  have t183 : Point.mulLoopF G 74 ⟨61659539600609886994692031159258582156878124799823893244098656297792544030101, 95431206001713788537941384760036624395902756376074948821594242988137616949222⟩ 6756344442895643826592636067825917663987621711976978470532110694785235288064 =
      Point.mulLoopF G 73 ⟨23772605910555906233251471314501450963164081331960587008332927042183705181137, 84604353966677789868017788688812965787900956254587618459545468360280337979906⟩ 13512688885791287653185272135651835327975243423953956941064221389570470576128 :=
    mulLoopF_step 73 ⟨61659539600609886994692031159258582156878124799823893244098656297792544030101, 95431206001713788537941384760036624395902756376074948821594242988137616949222⟩ ⟨23772605910555906233251471314501450963164081331960587008332927042183705181137, 84604353966677789868017788688812965787900956254587618459545468360280337979906⟩ 6756344442895643826592636067825917663987621711976978470532110694785235288064 13512688885791287653185272135651835327975243423953956941064221389570470576128
      (by
      rw [(by decide : Nat.testBit 6756344442895643826592636067825917663987621711976978470532110694785235288064 255 = false), if_neg Bool.false_ne_true]
      exact d183)
      (by decide)
  have d184 : Point.addFast ⟨23772605910555906233251471314501450963164081331960587008332927042183705181137, 84604353966677789868017788688812965787900956254587618459545468360280337979906⟩ ⟨23772605910555906233251471314501450963164081331960587008332927042183705181137, 84604353966677789868017788688812965787900956254587618459545468360280337979906⟩ = ⟨105553970460735689568918064092046062983297476868818920363407496462928146850704, 42491866855427155221082474702970931090686764446547928296575064701965298828657⟩ :=
    (addFast_dbl ⟨23772605910555906233251471314501450963164081331960587008332927042183705181137, 84604353966677789868017788688812965787900956254587618459545468360280337979906⟩
      91601142408842542882197987224048104222376582083281599850972403499100746743240
      (by decide) (by decide) (by decide) (by decide)).trans (by decide)
  have t184 : Point.mulLoopF G 73 ⟨23772605910555906233251471314501450963164081331960587008332927042183705181137, 84604353966677789868017788688812965787900956254587618459545468360280337979906⟩ 13512688885791287653185272135651835327975243423953956941064221389570470576128 =
      Point.mulLoopF G 72 ⟨105553970460735689568918064092046062983297476868818920363407496462928146850704, 42491866855427155221082474702970931090686764446547928296575064701965298828657⟩ 27025377771582575306370544271303670655950486847907913882128442779140941152256 :=
    mulLoopF_step 72 ⟨23772605910555906233251471314501450963164081331960587008332927042183705181137, 84604353966677789868017788688812965787900956254587618459545468360280337979906⟩ ⟨105553970460735689568918064092046062983297476868818920363407496462928146850704, 42491866855427155221082474702970931090686764446547928296575064701965298828657⟩ 13512688885791287653185272135651835327975243423953956941064221389570470576128 27025377771582575306370544271303670655950486847907913882128442779140941152256
      (by
      rw [(by decide : Nat.testBit 13512688885791287653185272135651835327975243423953956941064221389570470576128 255 = false), if_neg Bool.false_ne_true]
      exact d184)
      (by decide)
  have d185 : Point.addFast ⟨105553970460735689568918064092046062983297476868818920363407496462928146850704, 42491866855427155221082474702970931090686764446547928296575064701965298828657⟩ ⟨105553970460735689568918064092046062983297476868818920363407496462928146850704, 42491866855427155221082474702970931090686764446547928296575064701965298828657⟩ = ⟨18469978593443323894953329412483067449992633217274959418681759308357873314781, 18091334015027295159097490989340622298943990339379231811828084626664138477768⟩ :=
    (addFast_dbl ⟨105553970460735689568918064092046062983297476868818920363407496462928146850704, 42491866855427155221082474702970931090686764446547928296575064701965298828657⟩
      48857414041070168890096491532097357649113767327419337762007957309027320288812
      (by decide) (by decide) (by decide) (by decide)).trans (by decide)
  have t185 : Point.mulLoopF G 72 ⟨105553970460735689568918064092046062983297476868818920363407496462928146850704, 42491866855427155221082474702970931090686764446547928296575064701965298828657⟩ 27025377771582575306370544271303670655950486847907913882128442779140941152256 =
      Point.mulLoopF G 71 ⟨18469978593443323894953329412483067449992633217274959418681759308357873314781, 18091334015027295159097490989340622298943990339379231811828084626664138477768⟩ 54050755543165150612741088542607341311900973695815827764256885558281882304512 :=
    mulLoopF_step 71 ⟨105553970460735689568918064092046062983297476868818920363407496462928146850704, 42491866855427155221082474702970931090686764446547928296575064701965298828657⟩ ⟨18469978593443323894953329412483067449992633217274959418681759308357873314781, 18091334015027295159097490989340622298943990339379231811828084626664138477768⟩ 27025377771582575306370544271303670655950486847907913882128442779140941152256 54050755543165150612741088542607341311900973695815827764256885558281882304512
      (by
      rw [(by decide : Nat.testBit 27025377771582575306370544271303670655950486847907913882128442779140941152256 255 = false), if_neg Bool.false_ne_true]
      exact d185)
      (by decide)
  have d186 : Point.addFast ⟨18469978593443323894953329412483067449992633217274959418681759308357873314781, 18091334015027295159097490989340622298943990339379231811828084626664138477768⟩ ⟨18469978593443323894953329412483067449992633217274959418681759308357873314781, 18091334015027295159097490989340622298943990339379231811828084626664138477768⟩ = ⟨76167045409508766334804414875125950609225852968754405758214305249138863778328, 15587435848107885058470852297137705819739303658784058191357849945742065556177⟩ :=
    (addFast_dbl ⟨18469978593443323894953329412483067449992633217274959418681759308357873314781, 18091334015027295159097490989340622298943990339379231811828084626664138477768⟩
      21540707488682245160848779166827390940533916753124613664731962401649821261599
      (by decide) (by decide) (by decide) (by decide)).trans (by decide)
  have t186 : Point.mulLoopF G 71 ⟨18469978593443323894953329412483067449992633217274959418681759308357873314781, 18091334015027295159097490989340622298943990339379231811828084626664138477768⟩ 54050755543165150612741088542607341311900973695815827764256885558281882304512 =
      Point.mulLoopF G 70 ⟨76167045409508766334804414875125950609225852968754405758214305249138863778328, 15587435848107885058470852297137705819739303658784058191357849945742065556177⟩ 108101511086330301225482177085214682623801947391631655528513771116563764609024 :=
    mulLoopF_step 70 ⟨18469978593443323894953329412483067449992633217274959418681759308357873314781, 18091334015027295159097490989340622298943990339379231811828084626664138477768⟩ ⟨76167045409508766334804414875125950609225852968754405758214305249138863778328, 15587435848107885058470852297137705819739303658784058191357849945742065556177⟩ 54050755543165150612741088542607341311900973695815827764256885558281882304512 108101511086330301225482177085214682623801947391631655528513771116563764609024
      (by
      rw [(by decide : Nat.testBit 54050755543165150612741088542607341311900973695815827764256885558281882304512 255 = false), if_neg Bool.false_ne_true]
      exact d186)
      (by decide)
  have d187 : Point.addFast ⟨76167045409508766334804414875125950609225852968754405758214305249138863778328, 15587435848107885058470852297137705819739303658784058191357849945742065556177⟩ ⟨76167045409508766334804414875125950609225852968754405758214305249138863778328, 15587435848107885058470852297137705819739303658784058191357849945742065556177⟩ = ⟨23067691614102207509228111588058184021255571014905962600115318268334771756012, 102867960970408290335013957579759208716541748524801196035600106187279946810967⟩ :=
    (addFast_dbl ⟨76167045409508766334804414875125950609225852968754405758214305249138863778328, 15587435848107885058470852297137705819739303658784058191357849945742065556177⟩
      101832684894744365619731970134269659528995678588099293741475252799664149101234
      (by decide) (by decide) (by decide) (by decide)).trans (by decide)
  have e187 : Point.addFast ⟨23067691614102207509228111588058184021255571014905962600115318268334771756012, 102867960970408290335013957579759208716541748524801196035600106187279946810967⟩ G = ⟨74323490106849308098324535222211038989579446692532305052635196615692605992310, 59768358840293574229162729947419480576503483908080699905528393534917735462306⟩ :=
    (addFast_distinct ⟨23067691614102207509228111588058184021255571014905962600115318268334771756012, 102867960970408290335013957579759208716541748524801196035600106187279946810967⟩ G
      100705240813507194204755418230232211262631207321097765229994287398576479076033
      (by decide) (by decide) (by decide) (by decide)
      (by decide) (by decide)).trans (by decide)
  have t187 : Point.mulLoopF G 70 ⟨76167045409508766334804414875125950609225852968754405758214305249138863778328, 15587435848107885058470852297137705819739303658784058191357849945742065556177⟩ 108101511086330301225482177085214682623801947391631655528513771116563764609024 =
      Point.mulLoopF G 69 ⟨74323490106849308098324535222211038989579446692532305052635196615692605992310, 59768358840293574229162729947419480576503483908080699905528393534917735462306⟩ 100410932935344407027393369161741457394333910117622747017569958225214399578112 :=
    mulLoopF_step 69 ⟨76167045409508766334804414875125950609225852968754405758214305249138863778328, 15587435848107885058470852297137705819739303658784058191357849945742065556177⟩ ⟨74323490106849308098324535222211038989579446692532305052635196615692605992310, 59768358840293574229162729947419480576503483908080699905528393534917735462306⟩ 108101511086330301225482177085214682623801947391631655528513771116563764609024 100410932935344407027393369161741457394333910117622747017569958225214399578112
      (by
      rw [(by decide : Nat.testBit 108101511086330301225482177085214682623801947391631655528513771116563764609024 255 = true), if_pos rfl, d187]
      exact e187)
      (by decide)
  have d188 : Point.addFast ⟨74323490106849308098324535222211038989579446692532305052635196615692605992310, 59768358840293574229162729947419480576503483908080699905528393534917735462306⟩ ⟨74323490106849308098324535222211038989579446692532305052635196615692605992310, 59768358840293574229162729947419480576503483908080699905528393534917735462306⟩ = ⟨115360673580266095122754029444411640837042722150825654786436481016236262885463, 7548989284694033383172746805082212401552644290074961535145435081896436854659⟩ :=
    (addFast_dbl ⟨74323490106849308098324535222211038989579446692532305052635196615692605992310, 59768358840293574229162729947419480576503483908080699905528393534917735462306⟩
      60099014007761169142144252216781096661037807985571478033859282543585788535508
      (by decide) (by decide) (by decide) (by decide)).trans (by decide)
  have e188 : Point.addFast ⟨115360673580266095122754029444411640837042722150825654786436481016236262885463, 7548989284694033383172746805082212401552644290074961535145435081896436854659⟩ G = ⟨103091997237758111134690423838397742523031221254005482783939596834585502731488, 36983588661685261252309818669940666012650555044034354391835776933726284840738⟩ :=
    (addFast_distinct ⟨115360673580266095122754029444411640837042722150825654786436481016236262885463, 7548989284694033383172746805082212401552644290074961535145435081896436854659⟩ G
      48022906801720857922086846408832207471046160620688388560511645698789570058610
      (by decide) (by decide) (by decide) (by decide)
      (by decide) (by decide)).trans (by decide)
  have t188 : Point.mulLoopF G 69 ⟨74323490106849308098324535222211038989579446692532305052635196615692605992310, 59768358840293574229162729947419480576503483908080699905528393534917735462306⟩ 100410932935344407027393369161741457394333910117622747017569958225214399578112 =
      Point.mulLoopF G 68 ⟨103091997237758111134690423838397742523031221254005482783939596834585502731488, 36983588661685261252309818669940666012650555044034354391835776933726284840738⟩ 85029776633372618631215753314795006935397835569604929995682332442515669516288 :=
    mulLoopF_step 68 ⟨74323490106849308098324535222211038989579446692532305052635196615692605992310, 59768358840293574229162729947419480576503483908080699905528393534917735462306⟩ ⟨103091997237758111134690423838397742523031221254005482783939596834585502731488, 36983588661685261252309818669940666012650555044034354391835776933726284840738⟩ 100410932935344407027393369161741457394333910117622747017569958225214399578112 85029776633372618631215753314795006935397835569604929995682332442515669516288
      (by
      rw [(by decide : Nat.testBit 100410932935344407027393369161741457394333910117622747017569958225214399578112 255 = true), if_pos rfl, d188]
      exact e188)
      (by decide)
  have d189 : Point.addFast ⟨103091997237758111134690423838397742523031221254005482783939596834585502731488, 36983588661685261252309818669940666012650555044034354391835776933726284840738⟩ ⟨103091997237758111134690423838397742523031221254005482783939596834585502731488, 36983588661685261252309818669940666012650555044034354391835776933726284840738⟩ = ⟨65060870012814446180562604541987675030321396016146550774631289409349599250140, 18537425760171932701743089245151502876915717908070896161126189402762050734096⟩ :=
    (addFast_dbl ⟨103091997237758111134690423838397742523031221254005482783939596834585502731488, 36983588661685261252309818669940666012650555044034354391835776933726284840738⟩
      54250878350898637293196377634562046260989254593441718242487209400705832023671
      (by decide) (by decide) (by decide) (by decide)).trans (by decide)
  have e189 : Point.addFast ⟨65060870012814446180562604541987675030321396016146550774631289409349599250140, 18537425760171932701743089245151502876915717908070896161126189402762050734096⟩ G = ⟨70422225216479621077016906319281659090508429255523216618624965527103099431607, 69738187569084130192373002440340357659441592797730604903496824151998423006476⟩ :=
    (addFast_distinct ⟨65060870012814446180562604541987675030321396016146550774631289409349599250140, 18537425760171932701743089245151502876915717908070896161126189402762050734096⟩ G
      42159431122448116941426786104887333988964151107173453209455891085735423944627
      (by decide) (by decide) (by decide) (by decide)
      (by decide) (by decide)).trans (by decide)
  have t189 : Point.mulLoopF G 68 ⟨103091997237758111134690423838397742523031221254005482783939596834585502731488, 36983588661685261252309818669940666012650555044034354391835776933726284840738⟩ 85029776633372618631215753314795006935397835569604929995682332442515669516288 =
      Point.mulLoopF G 67 ⟨70422225216479621077016906319281659090508429255523216618624965527103099431607, 69738187569084130192373002440340357659441592797730604903496824151998423006476⟩ 54267464029429041838860521620902106017525686473569295951907080877118209392640 :=
    mulLoopF_step 67 ⟨103091997237758111134690423838397742523031221254005482783939596834585502731488, 36983588661685261252309818669940666012650555044034354391835776933726284840738⟩ ⟨70422225216479621077016906319281659090508429255523216618624965527103099431607, 69738187569084130192373002440340357659441592797730604903496824151998423006476⟩ 85029776633372618631215753314795006935397835569604929995682332442515669516288 54267464029429041838860521620902106017525686473569295951907080877118209392640
      (by
      rw [(by decide : Nat.testBit 85029776633372618631215753314795006935397835569604929995682332442515669516288 255 = true), if_pos rfl, d189]
      exact e189)
      (by decide)
  have d190 : Point.addFast ⟨70422225216479621077016906319281659090508429255523216618624965527103099431607, 69738187569084130192373002440340357659441592797730604903496824151998423006476⟩ ⟨70422225216479621077016906319281659090508429255523216618624965527103099431607, 69738187569084130192373002440340357659441592797730604903496824151998423006476⟩ = ⟨112889903459994104425161363406491586632678502128737914080291702338944105463674, 53441386684742066160371748628177145913376725292001171991214021517698984020228⟩ :=
    (addFast_dbl ⟨70422225216479621077016906319281659090508429255523216618624965527103099431607, 69738187569084130192373002440340357659441592797730604903496824151998423006476⟩
      60724201890444132511685151523498184929806561828724518359728194911757704678920
      (by decide) (by decide) (by decide) (by decide)).trans (by decide)
  have t190 : Point.mulLoopF G 67 ⟨70422225216479621077016906319281659090508429255523216618624965527103099431607, 69738187569084130192373002440340357659441592797730604903496824151998423006476⟩ 54267464029429041838860521620902106017525686473569295951907080877118209392640 =
      Point.mulLoopF G 66 ⟨112889903459994104425161363406491586632678502128737914080291702338944105463674, 53441386684742066160371748628177145913376725292001171991214021517698984020228⟩ 108534928058858083677721043241804212035051372947138591903814161754236418785280 :=
    mulLoopF_step 66 ⟨70422225216479621077016906319281659090508429255523216618624965527103099431607, 69738187569084130192373002440340357659441592797730604903496824151998423006476⟩ ⟨112889903459994104425161363406491586632678502128737914080291702338944105463674, 53441386684742066160371748628177145913376725292001171991214021517698984020228⟩ 54267464029429041838860521620902106017525686473569295951907080877118209392640 108534928058858083677721043241804212035051372947138591903814161754236418785280
      (by
      rw [(by decide : Nat.testBit 54267464029429041838860521620902106017525686473569295951907080877118209392640 255 = false), if_neg Bool.false_ne_true]
      exact d190)
      (by decide)
  have d191 : Point.addFast ⟨112889903459994104425161363406491586632678502128737914080291702338944105463674, 53441386684742066160371748628177145913376725292001171991214021517698984020228⟩ ⟨112889903459994104425161363406491586632678502128737914080291702338944105463674, 53441386684742066160371748628177145913376725292001171991214021517698984020228⟩ = ⟨114177347188839933583795485991387152903993588689176679035657000851021644717802, 33002266058109171265988305936202601863899916956752096610308631281548063786497⟩ :=
    (addFast_dbl ⟨112889903459994104425161363406491586632678502128737914080291702338944105463674, 53441386684742066160371748628177145913376725292001171991214021517698984020228⟩
      113533862766298786921297265990486290380413055677249842474687393078699687800146
      (by decide) (by decide) (by decide) (by decide)).trans (by decide)
  have e191 : Point.addFast ⟨114177347188839933583795485991387152903993588689176679035657000851021644717802, 33002266058109171265988305936202601863899916956752096610308631281548063786497⟩ G = ⟨23174769244375877525017157568088905855665064312862654498374397119210061662587, 4900848012393262711549753963005607530174119101558872958360384922004531751527⟩ :=
    (addFast_distinct ⟨114177347188839933583795485991387152903993588689176679035657000851021644717802, 33002266058109171265988305936202601863899916956752096610308631281548063786497⟩ G
      54528357330000226884128359153898205340903436489179685445123383509015845252306
      (by decide) (by decide) (by decide) (by decide)
      (by decide) (by decide)).trans (by decide)
  have t191 : Point.mulLoopF G 66 ⟨112889903459994104425161363406491586632678502128737914080291702338944105463674, 53441386684742066160371748628177145913376725292001171991214021517698984020228⟩ 108534928058858083677721043241804212035051372947138591903814161754236418785280 =
      Point.mulLoopF G 65 ⟨23174769244375877525017157568088905855665064312862654498374397119210061662587, 4900848012393262711549753963005607530174119101558872958360384922004531751527⟩ 101277766880399971931871101474920516216832761228636619768170739500559707930624 :=
    mulLoopF_step 65 ⟨112889903459994104425161363406491586632678502128737914080291702338944105463674, 53441386684742066160371748628177145913376725292001171991214021517698984020228⟩ ⟨23174769244375877525017157568088905855665064312862654498374397119210061662587, 4900848012393262711549753963005607530174119101558872958360384922004531751527⟩ 108534928058858083677721043241804212035051372947138591903814161754236418785280 101277766880399971931871101474920516216832761228636619768170739500559707930624
      (by
      rw [(by decide : Nat.testBit 108534928058858083677721043241804212035051372947138591903814161754236418785280 255 = true), if_pos rfl, d191]
      exact e191)
      (by decide)
  have d192 : Point.addFast ⟨23174769244375877525017157568088905855665064312862654498374397119210061662587, 4900848012393262711549753963005607530174119101558872958360384922004531751527⟩ ⟨23174769244375877525017157568088905855665064312862654498374397119210061662587, 4900848012393262711549753963005607530174119101558872958360384922004531751527⟩ = ⟨63420402107984277089410641428181578947591436163283648856418426033306368643112, 99790958316104826350218130889584240242252845455293192150316992598463366040582⟩ :=
    (addFast_dbl ⟨23174769244375877525017157568088905855665064312862654498374397119210061662587, 4900848012393262711549753963005607530174119101558872958360384922004531751527⟩
      55991671210985302826146860784578264600352039717478687854237381797491312262297
      (by decide) (by decide) (by decide) (by decide)).trans (by decide)
  have e192 : Point.addFast ⟨63420402107984277089410641428181578947591436163283648856418426033306368643112, 99790958316104826350218130889584240242252845455293192150316992598463366040582⟩ G = ⟨18462507725042716807979103445085429593496376249583542325522822244689471872519, 37465934278057643432886868738220694055075490840727191692633083132563294258897⟩ :=
    (addFast_distinct ⟨63420402107984277089410641428181578947591436163283648856418426033306368643112, 99790958316104826350218130889584240242252845455293192150316992598463366040582⟩ G
      115296216830958392755493472385404499620033169780508471860653134821578683067094
      (by decide) (by decide) (by decide) (by decide)
      (by decide) (by decide)).trans (by decide)
  have t192 : Point.mulLoopF G 65 ⟨23174769244375877525017157568088905855665064312862654498374397119210061662587, 4900848012393262711549753963005607530174119101558872958360384922004531751527⟩ 101277766880399971931871101474920516216832761228636619768170739500559707930624 =
      Point.mulLoopF G 64 ⟨18462507725042716807979103445085429593496376249583542325522822244689471872519, 37465934278057643432886868738220694055075490840727191692633083132563294258897⟩ 86763444523483748440171217941153124580395537791632675496883894993206286221312 :=
    mulLoopF_step 64 ⟨23174769244375877525017157568088905855665064312862654498374397119210061662587, 4900848012393262711549753963005607530174119101558872958360384922004531751527⟩ ⟨18462507725042716807979103445085429593496376249583542325522822244689471872519, 37465934278057643432886868738220694055075490840727191692633083132563294258897⟩ 101277766880399971931871101474920516216832761228636619768170739500559707930624 86763444523483748440171217941153124580395537791632675496883894993206286221312
      (by
      rw [(by decide : Nat.testBit 101277766880399971931871101474920516216832761228636619768170739500559707930624 255 = true), if_pos rfl, d192]
      exact e192)
      (by decide)
  rw [t177, t178, t179, t180, t181, t182, t183, t184, t185, t186, t187, t188, t189, t190, t191, t192]

set_option maxHeartbeats 1600000 in
/-- Segment 13 of the certified double-and-add trace of the generator
multiplied by the group order: iterations 193 to 208, each point
addition discharged through a precomputed modular-inverse certificate. -/
theorem mulG_seg13 : Point.mulLoopF G 64 ⟨18462507725042716807979103445085429593496376249583542325522822244689471872519, 37465934278057643432886868738220694055075490840727191692633083132563294258897⟩ 86763444523483748440171217941153124580395537791632675496883894993206286221312 =
    Point.mulLoopF G 48 ⟨111981189532162353124821108747812109249789867368555539885752276725523994523838, 104942328410533545697194267087618539634370377516224339825365724418906779069353⟩ 42766203381845305184149154782769458126097721493483642178821982185029701206016 := by
  have d193 : Point.addFast ⟨18462507725042716807979103445085429593496376249583542325522822244689471872519, 37465934278057643432886868738220694055075490840727191692633083132563294258897⟩ ⟨18462507725042716807979103445085429593496376249583542325522822244689471872519, 37465934278057643432886868738220694055075490840727191692633083132563294258897⟩ = ⟨80229844038507334230140875036445889606308417450109545343834538126605598437877, 75546592193038909064412427044765628726051382255061614050923652530578832348229⟩ :=
    (addFast_dbl ⟨18462507725042716807979103445085429593496376249583542325522822244689471872519, 37465934278057643432886868738220694055075490840727191692633083132563294258897⟩
      34881633327434561192731690634632247246076371029067386408277100499018578447483
      (by decide) (by decide) (by decide) (by decide)).trans (by decide)
  have e193 : Point.addFast ⟨80229844038507334230140875036445889606308417450109545343834538126605598437877, 75546592193038909064412427044765628726051382255061614050923652530578832348229⟩ G = ⟨54612728193917033719049298284328997504962495959392945733012597487461132901683, 33760078800622955623603001389657277711612392685857137237034395020731392173833⟩ :=
    (addFast_distinct ⟨80229844038507334230140875036445889606308417450109545343834538126605598437877, 75546592193038909064412427044765628726051382255061614050923652530578832348229⟩ G
      83672889244422274697094571610900943309881359724149253462922722499234083082891
      (by decide) (by decide) (by decide) (by decide)
      (by decide) (by decide)).trans (by decide)
  have t193 : Point.mulLoopF G 64 ⟨18462507725042716807979103445085429593496376249583542325522822244689471872519, 37465934278057643432886868738220694055075490840727191692633083132563294258897⟩ 86763444523483748440171217941153124580395537791632675496883894993206286221312 =
      Point.mulLoopF G 63 ⟨54612728193917033719049298284328997504962495959392945733012597487461132901683, 33760078800622955623603001389657277711612392685857137237034395020731392173833⟩ 57734799809651301456771450873618341307521090917624786954310205978499442802688 :=
    mulLoopF_step 63 ⟨18462507725042716807979103445085429593496376249583542325522822244689471872519, 37465934278057643432886868738220694055075490840727191692633083132563294258897⟩ ⟨54612728193917033719049298284328997504962495959392945733012597487461132901683, 33760078800622955623603001389657277711612392685857137237034395020731392173833⟩ 86763444523483748440171217941153124580395537791632675496883894993206286221312 57734799809651301456771450873618341307521090917624786954310205978499442802688
      (by
      rw [(by decide : Nat.testBit 86763444523483748440171217941153124580395537791632675496883894993206286221312 255 = true), if_pos rfl, d193]
      exact e193)
      (by decide)
  have d194 : Point.addFast ⟨54612728193917033719049298284328997504962495959392945733012597487461132901683, 33760078800622955623603001389657277711612392685857137237034395020731392173833⟩ ⟨54612728193917033719049298284328997504962495959392945733012597487461132901683, 33760078800622955623603001389657277711612392685857137237034395020731392173833⟩ = ⟨24116658679531551888539293610701007901484060925002329358088655345041004425732, 92654075451875181382319996924733164488661167139526119025780575897754357878923⟩ :=
    (addFast_dbl ⟨54612728193917033719049298284328997504962495959392945733012597487461132901683, 33760078800622955623603001389657277711612392685857137237034395020731392173833⟩
      83323859050497012180969569817664435657011190525424598980430701184319173423583
      (by decide) (by decide) (by decide) (by decide)).trans (by decide)
  have t194 : Point.mulLoopF G 63 ⟨54612728193917033719049298284328997504962495959392945733012597487461132901683, 33760078800622955623603001389657277711612392685857137237034395020731392173833⟩ 57734799809651301456771450873618341307521090917624786954310205978499442802688 =
      Point.mulLoopF G 62 ⟨24116658679531551888539293610701007901484060925002329358088655345041004425732, 92654075451875181382319996924733164488661167139526119025780575897754357878923⟩ 115469599619302602913542901747236682615042181835249573908620411956998885605376 :=
    mulLoopF_step 62 ⟨54612728193917033719049298284328997504962495959392945733012597487461132901683, 33760078800622955623603001389657277711612392685857137237034395020731392173833⟩ ⟨24116658679531551888539293610701007901484060925002329358088655345041004425732, 92654075451875181382319996924733164488661167139526119025780575897754357878923⟩ 57734799809651301456771450873618341307521090917624786954310205978499442802688 115469599619302602913542901747236682615042181835249573908620411956998885605376
      (by
      rw [(by decide : Nat.testBit 57734799809651301456771450873618341307521090917624786954310205978499442802688 255 = false), if_neg Bool.false_ne_true]
      exact d194)
      (by decide)
  have d195 : Point.addFast ⟨24116658679531551888539293610701007901484060925002329358088655345041004425732, 92654075451875181382319996924733164488661167139526119025780575897754357878923⟩ ⟨24116658679531551888539293610701007901484060925002329358088655345041004425732, 92654075451875181382319996924733164488661167139526119025780575897754357878923⟩ = ⟨84251155807421127193983120596045084016969705202014507956527207255744514229681, 114643371153049154954355932341488302026685810513813296764602281175974789028910⟩ :=
    (addFast_dbl ⟨24116658679531551888539293610701007901484060925002329358088655345041004425732, 92654075451875181382319996924733164488661167139526119025780575897754357878923⟩
      18929085270543444362319873305110914913890312296902069519602258427852291340913
      (by decide) (by decide) (by decide) (by decide)).trans (by decide)
  have e195 : Point.addFast ⟨84251155807421127193983120596045084016969705202014507956527207255744514229681, 114643371153049154954355932341488302026685810513813296764602281175974789028910⟩ G = ⟨88334647706594732739201315081229548006321587514106130278363373951981241387014, 115243981314074888238284345965951459267944359415748488030603531845455338747397⟩ :=
    (addFast_distinct ⟨84251155807421127193983120596045084016969705202014507956527207255744514229681, 114643371153049154954355932341488302026685810513813296764602281175974789028910⟩ G
      44559998486587698185658328154581839406699708882179673974765716951079443668928
      (by decide) (by decide) (by decide) (by decide)
      (by decide) (by decide)).trans (by decide)
  have t195 : Point.mulLoopF G 62 ⟨24116658679531551888539293610701007901484060925002329358088655345041004425732, 92654075451875181382319996924733164488661167139526119025780575897754357878923⟩ 115469599619302602913542901747236682615042181835249573908620411956998885605376 =
      Point.mulLoopF G 61 ⟨88334647706594732739201315081229548006321587514106130278363373951981241387014, 115243981314074888238284345965951459267944359415748488030603531845455338747397⟩ 115147110001289010403514818485785457376814379004858583777783239906084641570816 :=
    mulLoopF_step 61 ⟨24116658679531551888539293610701007901484060925002329358088655345041004425732, 92654075451875181382319996924733164488661167139526119025780575897754357878923⟩ ⟨88334647706594732739201315081229548006321587514106130278363373951981241387014, 115243981314074888238284345965951459267944359415748488030603531845455338747397⟩ 115469599619302602913542901747236682615042181835249573908620411956998885605376 115147110001289010403514818485785457376814379004858583777783239906084641570816
      (by
      rw [(by decide : Nat.testBit 115469599619302602913542901747236682615042181835249573908620411956998885605376 255 = true), if_pos rfl, d195]
      exact e195)
      (by decide)
  have d196 : Point.addFast ⟨88334647706594732739201315081229548006321587514106130278363373951981241387014, 115243981314074888238284345965951459267944359415748488030603531845455338747397⟩ ⟨88334647706594732739201315081229548006321587514106130278363373951981241387014, 115243981314074888238284345965951459267944359415748488030603531845455338747397⟩ = ⟨53064033266429564152784826701876011420470632451462396140886460823969503521946, 91317101192877811746744651536653326566958459549876065738797506117865423832893⟩ :=
    (addFast_dbl ⟨88334647706594732739201315081229548006321587514106130278363373951981241387014, 115243981314074888238284345965951459267944359415748488030603531845455338747397⟩
      29917668667285641751229841237199556442715790415833927241922672683944817311289
      (by decide) (by decide) (by decide) (by decide)).trans (by decide)
  have e196 : Point.addFast ⟨53064033266429564152784826701876011420470632451462396140886460823969503521946, 91317101192877811746744651536653326566958459549876065738797506117865423832893⟩ G = ⟨92123862401515803930008633804906970887493318561594019918928865307599549019052, 95772655878277473616690979321330901118659803787646310502638624322875055619805⟩ :=
    (addFast_distinct ⟨53064033266429564152784826701876011420470632451462396140886460823969503521946, 91317101192877811746744651536653326566958459549876065738797506117865423832893⟩ G
      62269595501093483844611753236420177744449962345477736534358129536992993309271
      (by decide) (by decide) (by decide) (by decide)
      (by decide) (by decide)).trans (by decide)
  have t196 : Point.mulLoopF G 61 ⟨88334647706594732739201315081229548006321587514106130278363373951981241387014, 115243981314074888238284345965951459267944359415748488030603531845455338747397⟩ 115147110001289010403514818485785457376814379004858583777783239906084641570816 =
      Point.mulLoopF G 60 ⟨92123862401515803930008633804906970887493318561594019918928865307599549019052, 95772655878277473616690979321330901118659803787646310502638624322875055619805⟩ 114502130765261825383458651962883006900358773344076603516108895804256153501696 :=
    mulLoopF_step 60 ⟨88334647706594732739201315081229548006321587514106130278363373951981241387014, 115243981314074888238284345965951459267944359415748488030603531845455338747397⟩ ⟨92123862401515803930008633804906970887493318561594019918928865307599549019052, 95772655878277473616690979321330901118659803787646310502638624322875055619805⟩ 115147110001289010403514818485785457376814379004858583777783239906084641570816 114502130765261825383458651962883006900358773344076603516108895804256153501696
      (by
      rw [(by decide : Nat.testBit 115147110001289010403514818485785457376814379004858583777783239906084641570816 255 = true), if_pos rfl, d196]
      exact e196)
      (by decide)
  have d197 : Point.addFast ⟨92123862401515803930008633804906970887493318561594019918928865307599549019052, 95772655878277473616690979321330901118659803787646310502638624322875055619805⟩ ⟨92123862401515803930008633804906970887493318561594019918928865307599549019052, 95772655878277473616690979321330901118659803787646310502638624322875055619805⟩ = ⟨22773824603488556016140376031208199836082818929442608050299400715514014675369, 94667278644656412170892594579980318806180365363944762532515649244378937478838⟩ :=
    (addFast_dbl ⟨92123862401515803930008633804906970887493318561594019918928865307599549019052, 95772655878277473616690979321330901118659803787646310502638624322875055619805⟩
      18786235059290870522904130002747233349216012885175858219816645413488718445134
      (by decide) (by decide) (by decide) (by decide)).trans (by decide)
  have e197 : Point.addFast ⟨22773824603488556016140376031208199836082818929442608050299400715514014675369, 94667278644656412170892594579980318806180365363944762532515649244378937478838⟩ G = ⟨9213836420759506492196394081577291749939730304935348465363762340340064782205, 90985450199217513609551617437586678509384578089819016917497514672927958440977⟩ :=
    (addFast_distinct ⟨22773824603488556016140376031208199836082818929442608050299400715514014675369, 94667278644656412170892594579980318806180365363944762532515649244378937478838⟩ G
      107538380501206680483083046865515644663149453598258617014570310407083654792801
      (by decide) (by decide) (by decide) (by decide)
      (by decide) (by decide)).trans (by decide)
  have t197 : Point.mulLoopF G 60 ⟨92123862401515803930008633804906970887493318561594019918928865307599549019052, 95772655878277473616690979321330901118659803787646310502638624322875055619805⟩ 114502130765261825383458651962883006900358773344076603516108895804256153501696 =
      Point.mulLoopF G 59 ⟨9213836420759506492196394081577291749939730304935348465363762340340064782205, 90985450199217513609551617437586678509384578089819016917497514672927958440977⟩ 113212172293207455343346318917078105947447562022512642992760207600599177363456 :=
    mulLoopF_step 59 ⟨92123862401515803930008633804906970887493318561594019918928865307599549019052, 95772655878277473616690979321330901118659803787646310502638624322875055619805⟩ ⟨9213836420759506492196394081577291749939730304935348465363762340340064782205, 90985450199217513609551617437586678509384578089819016917497514672927958440977⟩ 114502130765261825383458651962883006900358773344076603516108895804256153501696 113212172293207455343346318917078105947447562022512642992760207600599177363456
      (by
      rw [(by decide : Nat.testBit 114502130765261825383458651962883006900358773344076603516108895804256153501696 255 = true), if_pos rfl, d197]
      exact e197)
      (by decide)
  have d198 : Point.addFast ⟨9213836420759506492196394081577291749939730304935348465363762340340064782205, 90985450199217513609551617437586678509384578089819016917497514672927958440977⟩ ⟨9213836420759506492196394081577291749939730304935348465363762340340064782205, 90985450199217513609551617437586678509384578089819016917497514672927958440977⟩ = ⟨64448231447377690050202484589144143701587706233842906311940341169962485054049, 104421987786607021343447412416725416530710900118219718487691549281905290583655⟩ :=
    (addFast_dbl ⟨9213836420759506492196394081577291749939730304935348465363762340340064782205, 90985450199217513609551617437586678509384578089819016917497514672927958440977⟩
      94253952496449987452812468615454648126086703629732077310470479718803368276480
      (by decide) (by decide) (by decide) (by decide)).trans (by decide)
  have e198 : Point.addFast ⟨64448231447377690050202484589144143701587706233842906311940341169962485054049, 104421987786607021343447412416725416530710900118219718487691549281905290583655⟩ G = ⟨114462533978307178198591374997671036171298603337563124522919241103501224899209, 66518267121283978765252721038260897322949894122536671821628749991872995333337⟩ :=
    (addFast_distinct ⟨64448231447377690050202484589144143701587706233842906311940341169962485054049, 104421987786607021343447412416725416530710900118219718487691549281905290583655⟩ G
      104174789020894112683220823825277564265683053720278455852338484194897988095930
      (by decide) (by decide) (by decide) (by decide)
      (by decide) (by decide)).trans (by decide)
  have t198 : Point.mulLoopF G 59 ⟨9213836420759506492196394081577291749939730304935348465363762340340064782205, 90985450199217513609551617437586678509384578089819016917497514672927958440977⟩ 113212172293207455343346318917078105947447562022512642992760207600599177363456 =
      Point.mulLoopF G 58 ⟨114462533978307178198591374997671036171298603337563124522919241103501224899209, 66518267121283978765252721038260897322949894122536671821628749991872995333337⟩ 110632255349098715263121652825468304041625139379384721946062831193285225086976 :=
    mulLoopF_step 58 ⟨9213836420759506492196394081577291749939730304935348465363762340340064782205, 90985450199217513609551617437586678509384578089819016917497514672927958440977⟩ ⟨114462533978307178198591374997671036171298603337563124522919241103501224899209, 66518267121283978765252721038260897322949894122536671821628749991872995333337⟩ 113212172293207455343346318917078105947447562022512642992760207600599177363456 110632255349098715263121652825468304041625139379384721946062831193285225086976
      (by
      rw [(by decide : Nat.testBit 113212172293207455343346318917078105947447562022512642992760207600599177363456 255 = true), if_pos rfl, d198]
      exact e198)
      (by decide)
  have d199 : Point.addFast ⟨114462533978307178198591374997671036171298603337563124522919241103501224899209, 66518267121283978765252721038260897322949894122536671821628749991872995333337⟩ ⟨114462533978307178198591374997671036171298603337563124522919241103501224899209, 66518267121283978765252721038260897322949894122536671821628749991872995333337⟩ = ⟨27702838743444406913399661457613529201659804813190480717307610489321197699681, 111939935440176858150835337415289342428827755334290743916693440249782466324273⟩ :=
    (addFast_dbl ⟨114462533978307178198591374997671036171298603337563124522919241103501224899209, 66518267121283978765252721038260897322949894122536671821628749991872995333337⟩
      8384357420197204537566674492039417857625149673393560117361671294347616964600
      (by decide) (by decide) (by decide) (by decide)).trans (by decide)
  have e199 : Point.addFast ⟨27702838743444406913399661457613529201659804813190480717307610489321197699681, 111939935440176858150835337415289342428827755334290743916693440249782466324273⟩ G = ⟨56386547745593195692062486723966307601452321296065614888666661112036273412766, 79960489824421539775164449314447522351574235959124312722191875359091187802429⟩ :=
    (addFast_distinct ⟨27702838743444406913399661457613529201659804813190480717307610489321197699681, 111939935440176858150835337415289342428827755334290743916693440249782466324273⟩ G
      52289967683298368837262694551772107286774213728508296494566811068383836361651
      (by decide) (by decide) (by decide) (by decide)
      (by decide) (by decide)).trans (by decide)
  have t199 : Point.mulLoopF G 58 ⟨114462533978307178198591374997671036171298603337563124522919241103501224899209, 66518267121283978765252721038260897322949894122536671821628749991872995333337⟩ 110632255349098715263121652825468304041625139379384721946062831193285225086976 =
      Point.mulLoopF G 57 ⟨56386547745593195692062486723966307601452321296065614888666661112036273412766, 79960489824421539775164449314447522351574235959124312722191875359091187802429⟩ 105472421460881235102672320642248700229980294093128879852668078378657320534016 :=
    mulLoopF_step 57 ⟨114462533978307178198591374997671036171298603337563124522919241103501224899209, 66518267121283978765252721038260897322949894122536671821628749991872995333337⟩ ⟨56386547745593195692062486723966307601452321296065614888666661112036273412766, 79960489824421539775164449314447522351574235959124312722191875359091187802429⟩ 110632255349098715263121652825468304041625139379384721946062831193285225086976 105472421460881235102672320642248700229980294093128879852668078378657320534016
      (by
      rw [(by decide : Nat.testBit 110632255349098715263121652825468304041625139379384721946062831193285225086976 255 = true), if_pos rfl, d199]
      exact e199)
      (by decide)
  have d200 : Point.addFast ⟨56386547745593195692062486723966307601452321296065614888666661112036273412766, 79960489824421539775164449314447522351574235959124312722191875359091187802429⟩ ⟨56386547745593195692062486723966307601452321296065614888666661112036273412766, 79960489824421539775164449314447522351574235959124312722191875359091187802429⟩ = ⟨95837414213032593749246701615251963161557528024565152914650295423151586211830, 42744404015191774042961443848134902083204867226397812521945831836789569394067⟩ :=
    (addFast_dbl ⟨56386547745593195692062486723966307601452321296065614888666661112036273412766, 79960489824421539775164449314447522351574235959124312722191875359091187802429⟩
      60973915372972851626496860577386990308670424115496178376665462093995511607318
      (by decide) (by decide) (by decide) (by decide)).trans (by decide)
  have e200 : Point.addFast ⟨95837414213032593749246701615251963161557528024565152914650295423151586211830, 42744404015191774042961443848134902083204867226397812521945831836789569394067⟩ G = ⟨48788246365607200252560225491463893224879874805987281897641295922840889553297, 64845759529736342328409323203478625253896728581735458077438085614840562143723⟩ :=
    (addFast_distinct ⟨95837414213032593749246701615251963161557528024565152914650295423151586211830, 42744404015191774042961443848134902083204867226397812521945831836789569394067⟩ G
      72569309822344664567700283279205656863028627143079831706215255979221552475070
      (by decide) (by decide) (by decide) (by decide)
      (by decide) (by decide)).trans (by decide)
  have t200 : Point.mulLoopF G 57 ⟨56386547745593195692062486723966307601452321296065614888666661112036273412766, 79960489824421539775164449314447522351574235959124312722191875359091187802429⟩ 105472421460881235102672320642248700229980294093128879852668078378657320534016 =
      Point.mulLoopF G 56 ⟨48788246365607200252560225491463893224879874805987281897641295922840889553297, 64845759529736342328409323203478625253896728581735458077438085614840562143723⟩ 95152753684446274781773656275809492606690603520617195665878572749401511428096 :=
    mulLoopF_step 56 ⟨56386547745593195692062486723966307601452321296065614888666661112036273412766, 79960489824421539775164449314447522351574235959124312722191875359091187802429⟩ ⟨48788246365607200252560225491463893224879874805987281897641295922840889553297, 64845759529736342328409323203478625253896728581735458077438085614840562143723⟩ 105472421460881235102672320642248700229980294093128879852668078378657320534016 95152753684446274781773656275809492606690603520617195665878572749401511428096
      (by
      rw [(by decide : Nat.testBit 105472421460881235102672320642248700229980294093128879852668078378657320534016 255 = true), if_pos rfl, d200]
      exact e200)
      (by decide)
  have d201 : Point.addFast ⟨48788246365607200252560225491463893224879874805987281897641295922840889553297, 64845759529736342328409323203478625253896728581735458077438085614840562143723⟩ ⟨48788246365607200252560225491463893224879874805987281897641295922840889553297, 64845759529736342328409323203478625253896728581735458077438085614840562143723⟩ = ⟨11150629734406317215132691705928534025889533188100541332925019883821355143852, 100407998928520006096474933916356944714228577067758334570249938480651632308296⟩ :=
    (addFast_dbl ⟨48788246365607200252560225491463893224879874805987281897641295922840889553297, 64845759529736342328409323203478625253896728581735458077438085614840562143723⟩
      62210960001059676042549195458625317385383567309277622831725538299837590577084
      (by decide) (by decide) (by decide) (by decide)).trans (by decide)
  have e201 : Point.addFast ⟨11150629734406317215132691705928534025889533188100541332925019883821355143852, 100407998928520006096474933916356944714228577067758334570249938480651632308296⟩ G = ⟨17679611130399424570183596313811079963887026481606218494676525951906565215943, 2974656957223226986956465678770411016421612192919608182863825245360452417487⟩ :=
    (addFast_distinct ⟨11150629734406317215132691705928534025889533188100541332925019883821355143852, 100407998928520006096474933916356944714228577067758334570249938480651632308296⟩ G
      66902599568216174411701411141788444242155776982455325937160449347425333314037
      (by decide) (by decide) (by decide) (by decide)
      (by decide) (by decide)).trans (by decide)
  have t201 : Point.mulLoopF G 56 ⟨48788246365607200252560225491463893224879874805987281897641295922840889553297, 64845759529736342328409323203478625253896728581735458077438085614840562143723⟩ 95152753684446274781773656275809492606690603520617195665878572749401511428096 =
      Point.mulLoopF G 55 ⟨17679611130399424570183596313811079963887026481606218494676525951906565215943, 2974656957223226986956465678770411016421612192919608182863825245360452417487⟩ 74513418131576354139976327542931077360111222375593827292299561490889893216256 :=
    mulLoopF_step 55 ⟨48788246365607200252560225491463893224879874805987281897641295922840889553297, 64845759529736342328409323203478625253896728581735458077438085614840562143723⟩ ⟨17679611130399424570183596313811079963887026481606218494676525951906565215943, 2974656957223226986956465678770411016421612192919608182863825245360452417487⟩ 95152753684446274781773656275809492606690603520617195665878572749401511428096 74513418131576354139976327542931077360111222375593827292299561490889893216256
      (by
      rw [(by decide : Nat.testBit 95152753684446274781773656275809492606690603520617195665878572749401511428096 255 = true), if_pos rfl, d201]
      exact e201)
      (by decide)
  have d202 : Point.addFast ⟨17679611130399424570183596313811079963887026481606218494676525951906565215943, 2974656957223226986956465678770411016421612192919608182863825245360452417487⟩ ⟨17679611130399424570183596313811079963887026481606218494676525951906565215943, 2974656957223226986956465678770411016421612192919608182863825245360452417487⟩ = ⟨19685667224725478059783467022965980911842973527549529678033079288628364488728, 52255881630532867500172234080446249589804819272976562157357841124979611026418⟩ :=
    (addFast_dbl ⟨17679611130399424570183596313811079963887026481606218494676525951906565215943, 2974656957223226986956465678770411016421612192919608182863825245360452417487⟩
      56090319841735973477281408947373343178239181847280546796224733149500498059783
      (by decide) (by decide) (by decide) (by decide)).trans (by decide)
  have e202 : Point.addFast ⟨19685667224725478059783467022965980911842973527549529678033079288628364488728, 52255881630532867500172234080446249589804819272976562157357841124979611026418⟩ G = ⟨7042012342838583515955569256001482674140346155509141536548489933421224629475, 27978912988365484329595083520645195351464525803298954114692658714726713448710⟩ :=
    (addFast_distinct ⟨19685667224725478059783467022965980911842973527549529678033079288628364488728, 52255881630532867500172234080446249589804819272976562157357841124979611026418⟩ G
      49738298371234210642204852024853049187212773009946621865486816858764887230835
      (by decide) (by decide) (by decide) (by decide)
      (by decide) (by decide)).trans (by decide)
  have t202 : Point.mulLoopF G 55 ⟨17679611130399424570183596313811079963887026481606218494676525951906565215943, 2974656957223226986956465678770411016421612192919608182863825245360452417487⟩ 74513418131576354139976327542931077360111222375593827292299561490889893216256 =
      Point.mulLoopF G 54 ⟨7042012342838583515955569256001482674140346155509141536548489933421224629475, 27978912988365484329595083520645195351464525803298954114692658714726713448710⟩ 33234747025836512856381670077174246866952460085547090545141538973866656792576 :=
    mulLoopF_step 54 ⟨17679611130399424570183596313811079963887026481606218494676525951906565215943, 2974656957223226986956465678770411016421612192919608182863825245360452417487⟩ ⟨7042012342838583515955569256001482674140346155509141536548489933421224629475, 27978912988365484329595083520645195351464525803298954114692658714726713448710⟩ 74513418131576354139976327542931077360111222375593827292299561490889893216256 33234747025836512856381670077174246866952460085547090545141538973866656792576
      (by
      rw [(by decide : Nat.testBit 74513418131576354139976327542931077360111222375593827292299561490889893216256 255 = true), if_pos rfl, d202]
      exact e202)
      (by decide)
  have d203 : Point.addFast ⟨7042012342838583515955569256001482674140346155509141536548489933421224629475, 27978912988365484329595083520645195351464525803298954114692658714726713448710⟩ ⟨7042012342838583515955569256001482674140346155509141536548489933421224629475, 27978912988365484329595083520645195351464525803298954114692658714726713448710⟩ = ⟨61350106459820334249128035863203353620771771910961221397000753458276143855561, 23260414069034622390608894072987180352710991105671726198973059598646706058497⟩ :=
    (addFast_dbl ⟨7042012342838583515955569256001482674140346155509141536548489933421224629475, 27978912988365484329595083520645195351464525803298954114692658714726713448710⟩
      55017881152692619128007590817547536592282036146868393659346764883742342957306
      (by decide) (by decide) (by decide) (by decide)).trans (by decide)
  have t203 : Point.mulLoopF G 54 ⟨7042012342838583515955569256001482674140346155509141536548489933421224629475, 27978912988365484329595083520645195351464525803298954114692658714726713448710⟩ 33234747025836512856381670077174246866952460085547090545141538973866656792576 =
      Point.mulLoopF G 53 ⟨61350106459820334249128035863203353620771771910961221397000753458276143855561, 23260414069034622390608894072987180352710991105671726198973059598646706058497⟩ 66469494051673025712763340154348493733904920171094181090283077947733313585152 :=
    mulLoopF_step 53 ⟨7042012342838583515955569256001482674140346155509141536548489933421224629475, 27978912988365484329595083520645195351464525803298954114692658714726713448710⟩ ⟨61350106459820334249128035863203353620771771910961221397000753458276143855561, 23260414069034622390608894072987180352710991105671726198973059598646706058497⟩ 33234747025836512856381670077174246866952460085547090545141538973866656792576 66469494051673025712763340154348493733904920171094181090283077947733313585152
      (by
      rw [(by decide : Nat.testBit 33234747025836512856381670077174246866952460085547090545141538973866656792576 255 = false), if_neg Bool.false_ne_true]
      exact d203)
      (by decide)
  have d204 : Point.addFast ⟨61350106459820334249128035863203353620771771910961221397000753458276143855561, 23260414069034622390608894072987180352710991105671726198973059598646706058497⟩ ⟨61350106459820334249128035863203353620771771910961221397000753458276143855561, 23260414069034622390608894072987180352710991105671726198973059598646706058497⟩ = ⟨91021079756275407076946601402439231461798271930740372332360630175471524275215, 97503309841535284288343733143915458795232499323674201151600123062024571976272⟩ :=
    (addFast_dbl ⟨61350106459820334249128035863203353620771771910961221397000753458276143855561, 23260414069034622390608894072987180352710991105671726198973059598646706058497⟩
      35536452924421092566617155474449053845141599629396998588460433648367855794405
      (by decide) (by decide) (by decide) (by decide)).trans (by decide)
  have e204 : Point.addFast ⟨91021079756275407076946601402439231461798271930740372332360630175471524275215, 97503309841535284288343733143915458795232499323674201151600123062024571976272⟩ G = ⟨18860495990359543692907689158486692952236762718165193526063836559206205443456, 25089369089195310657095262413024159032168171027747290781991201012458246248019⟩ :=
    (addFast_distinct ⟨91021079756275407076946601402439231461798271930740372332360630175471524275215, 97503309841535284288343733143915458795232499323674201151600123062024571976272⟩ G
      55380162002937689703921634656391204737300353274134173195874284818373392496380
      (by decide) (by decide) (by decide) (by decide)
      (by decide) (by decide)).trans (by decide)
  have t204 : Point.mulLoopF G 53 ⟨61350106459820334249128035863203353620771771910961221397000753458276143855561, 23260414069034622390608894072987180352710991105671726198973059598646706058497⟩ 66469494051673025712763340154348493733904920171094181090283077947733313585152 =
      Point.mulLoopF G 52 ⟨18860495990359543692907689158486692952236762718165193526063836559206205443456, 25089369089195310657095262413024159032168171027747290781991201012458246248019⟩ 17146898866029856001955695300009079614539855676547798141108571887553497530368 :=
    mulLoopF_step 52 ⟨61350106459820334249128035863203353620771771910961221397000753458276143855561, 23260414069034622390608894072987180352710991105671726198973059598646706058497⟩ ⟨18860495990359543692907689158486692952236762718165193526063836559206205443456, 25089369089195310657095262413024159032168171027747290781991201012458246248019⟩ 66469494051673025712763340154348493733904920171094181090283077947733313585152 17146898866029856001955695300009079614539855676547798141108571887553497530368
      (by
      rw [(by decide : Nat.testBit 66469494051673025712763340154348493733904920171094181090283077947733313585152 255 = true), if_pos rfl, d204]
      exact e204)
      (by decide)
  have d205 : Point.addFast ⟨18860495990359543692907689158486692952236762718165193526063836559206205443456, 25089369089195310657095262413024159032168171027747290781991201012458246248019⟩ ⟨18860495990359543692907689158486692952236762718165193526063836559206205443456, 25089369089195310657095262413024159032168171027747290781991201012458246248019⟩ = ⟨55079000257970023648141998397000214138352401798748047647211843574111210698155, 82144301141788368339010628709103181845466816323322162376763957719737063827106⟩ :=
    (addFast_dbl ⟨18860495990359543692907689158486692952236762718165193526063836559206205443456, 25089369089195310657095262413024159032168171027747290781991201012458246248019⟩
      45126136782183458254250144440685210969966143538369932002962350937235534171547
      (by decide) (by decide) (by decide) (by decide)).trans (by decide)
  have t205 : Point.mulLoopF G 52 ⟨18860495990359543692907689158486692952236762718165193526063836559206205443456, 25089369089195310657095262413024159032168171027747290781991201012458246248019⟩ 17146898866029856001955695300009079614539855676547798141108571887553497530368 =
      Point.mulLoopF G 51 ⟨55079000257970023648141998397000214138352401798748047647211843574111210698155, 82144301141788368339010628709103181845466816323322162376763957719737063827106⟩ 34293797732059712003911390600018159229079711353095596282217143775106995060736 :=
    mulLoopF_step 51 ⟨18860495990359543692907689158486692952236762718165193526063836559206205443456, 25089369089195310657095262413024159032168171027747290781991201012458246248019⟩ ⟨55079000257970023648141998397000214138352401798748047647211843574111210698155, 82144301141788368339010628709103181845466816323322162376763957719737063827106⟩ 17146898866029856001955695300009079614539855676547798141108571887553497530368 34293797732059712003911390600018159229079711353095596282217143775106995060736
      (by
      rw [(by decide : Nat.testBit 17146898866029856001955695300009079614539855676547798141108571887553497530368 255 = false), if_neg Bool.false_ne_true]
      exact d205)
      (by decide)
  have d206 : Point.addFast ⟨55079000257970023648141998397000214138352401798748047647211843574111210698155, 82144301141788368339010628709103181845466816323322162376763957719737063827106⟩ ⟨55079000257970023648141998397000214138352401798748047647211843574111210698155, 82144301141788368339010628709103181845466816323322162376763957719737063827106⟩ = ⟨19562880357564461668405094125210845355800877659897165177572733643520825271078, 2853748921548736925074530904844485949071609712486050366012353153813093746711⟩ :=
    (addFast_dbl ⟨55079000257970023648141998397000214138352401798748047647211843574111210698155, 82144301141788368339010628709103181845466816323322162376763957719737063827106⟩
      90188374311058579520664338818107767176868575993137467386236593106340340441072
      (by decide) (by decide) (by decide) (by decide)).trans (by decide)
  have t206 : Point.mulLoopF G 51 ⟨55079000257970023648141998397000214138352401798748047647211843574111210698155, 82144301141788368339010628709103181845466816323322162376763957719737063827106⟩ 34293797732059712003911390600018159229079711353095596282217143775106995060736 =
      Point.mulLoopF G 50 ⟨19562880357564461668405094125210845355800877659897165177572733643520825271078, 2853748921548736925074530904844485949071609712486050366012353153813093746711⟩ 68587595464119424007822781200036318458159422706191192564434287550213990121472 :=
    mulLoopF_step 50 ⟨55079000257970023648141998397000214138352401798748047647211843574111210698155, 82144301141788368339010628709103181845466816323322162376763957719737063827106⟩ ⟨19562880357564461668405094125210845355800877659897165177572733643520825271078, 2853748921548736925074530904844485949071609712486050366012353153813093746711⟩ 34293797732059712003911390600018159229079711353095596282217143775106995060736 68587595464119424007822781200036318458159422706191192564434287550213990121472
      (by
      rw [(by decide : Nat.testBit 34293797732059712003911390600018159229079711353095596282217143775106995060736 255 = false), if_neg Bool.false_ne_true]
      exact d206)
      (by decide)
  have d207 : Point.addFast ⟨19562880357564461668405094125210845355800877659897165177572733643520825271078, 2853748921548736925074530904844485949071609712486050366012353153813093746711⟩ ⟨19562880357564461668405094125210845355800877659897165177572733643520825271078, 2853748921548736925074530904844485949071609712486050366012353153813093746711⟩ = ⟨90587778346877475876596485103373974222331451487516273186228156162264478271757, 2495834548301063506554910358097795454267043265022169137983172416559605338755⟩ :=
    (addFast_dbl ⟨19562880357564461668405094125210845355800877659897165177572733643520825271078, 2853748921548736925074530904844485949071609712486050366012353153813093746711⟩
      37437979032538729231475512506030902239911491690200096323605390030971313169887
      (by decide) (by decide) (by decide) (by decide)).trans (by decide)
  have e207 : Point.addFast ⟨90587778346877475876596485103373974222331451487516273186228156162264478271757, 2495834548301063506554910358097795454267043265022169137983172416559605338755⟩ G = ⟨107463535590878737793600273898323789798334971102462364870926133379251324229771, 67696904489445619952072054599992706950951052990040675248735894307746726267178⟩ :=
    (addFast_distinct ⟨90587778346877475876596485103373974222331451487516273186228156162264478271757, 2495834548301063506554910358097795454267043265022169137983172416559605338755⟩ G
      57341802267002278054278386552802068400700013338165221035112792936905590208042
      (by decide) (by decide) (by decide) (by decide)
      (by decide) (by decide)).trans (by decide)
  have t207 : Point.mulLoopF G 50 ⟨19562880357564461668405094125210845355800877659897165177572733643520825271078, 2853748921548736925074530904844485949071609712486050366012353153813093746711⟩ 68587595464119424007822781200036318458159422706191192564434287550213990121472 =
      Point.mulLoopF G 49 ⟨107463535590878737793600273898323789798334971102462364870926133379251324229771, 67696904489445619952072054599992706950951052990040675248735894307746726267178⟩ 21383101690922652592074577391384729063048860746741821089410991092514850603008 :=
    mulLoopF_step 49 ⟨19562880357564461668405094125210845355800877659897165177572733643520825271078, 2853748921548736925074530904844485949071609712486050366012353153813093746711⟩ ⟨107463535590878737793600273898323789798334971102462364870926133379251324229771, 67696904489445619952072054599992706950951052990040675248735894307746726267178⟩ 68587595464119424007822781200036318458159422706191192564434287550213990121472 21383101690922652592074577391384729063048860746741821089410991092514850603008
      (by
      rw [(by decide : Nat.testBit 68587595464119424007822781200036318458159422706191192564434287550213990121472 255 = true), if_pos rfl, d207]
      exact e207)
      (by decide)
  have d208 : Point.addFast ⟨107463535590878737793600273898323789798334971102462364870926133379251324229771, 67696904489445619952072054599992706950951052990040675248735894307746726267178⟩ ⟨107463535590878737793600273898323789798334971102462364870926133379251324229771, 67696904489445619952072054599992706950951052990040675248735894307746726267178⟩ = ⟨111981189532162353124821108747812109249789867368555539885752276725523994523838, 104942328410533545697194267087618539634370377516224339825365724418906779069353⟩ :=
    (addFast_dbl ⟨107463535590878737793600273898323789798334971102462364870926133379251324229771, 67696904489445619952072054599992706950951052990040675248735894307746726267178⟩
      40037974705411315781574323765868100825785464347823702253312839151534068487309
      (by decide) (by decide) (by decide) (by decide)).trans (by decide)
  have t208 : Point.mulLoopF G 49 ⟨107463535590878737793600273898323789798334971102462364870926133379251324229771, 67696904489445619952072054599992706950951052990040675248735894307746726267178⟩ 21383101690922652592074577391384729063048860746741821089410991092514850603008 =
      Point.mulLoopF G 48 ⟨111981189532162353124821108747812109249789867368555539885752276725523994523838, 104942328410533545697194267087618539634370377516224339825365724418906779069353⟩ 42766203381845305184149154782769458126097721493483642178821982185029701206016 :=
    mulLoopF_step 48 ⟨107463535590878737793600273898323789798334971102462364870926133379251324229771, 67696904489445619952072054599992706950951052990040675248735894307746726267178⟩ ⟨111981189532162353124821108747812109249789867368555539885752276725523994523838, 104942328410533545697194267087618539634370377516224339825365724418906779069353⟩ 21383101690922652592074577391384729063048860746741821089410991092514850603008 42766203381845305184149154782769458126097721493483642178821982185029701206016
      (by
      rw [(by decide : Nat.testBit 21383101690922652592074577391384729063048860746741821089410991092514850603008 255 = false), if_neg Bool.false_ne_true]
      exact d208)
      (by decide)
  rw [t193, t194, t195, t196, t197, t198, t199, t200, t201, t202, t203, t204, t205, t206, t207, t208]

set_option maxHeartbeats 1600000 in
/-- Segment 14 of the certified double-and-add trace of the generator
multiplied by the group order: iterations 209 to 224, each point
addition discharged through a precomputed modular-inverse certificate. -/
theorem mulG_seg14 : Point.mulLoopF G 48 ⟨111981189532162353124821108747812109249789867368555539885752276725523994523838, 104942328410533545697194267087618539634370377516224339825365724418906779069353⟩ 42766203381845305184149154782769458126097721493483642178821982185029701206016 =
    Point.mulLoopF G 32 ⟨52950113734379978834285708195116877708433501691498224564508740991752088246881, 107755904324268202193378651250843500936777087902814227553908609307377266828915⟩ 94176932612726516286886693297086071393566949779761820246061150577108432453632 := by
  have d209 : Point.addFast ⟨111981189532162353124821108747812109249789867368555539885752276725523994523838, 104942328410533545697194267087618539634370377516224339825365724418906779069353⟩ ⟨111981189532162353124821108747812109249789867368555539885752276725523994523838, 104942328410533545697194267087618539634370377516224339825365724418906779069353⟩ = ⟨40941405005245717745305955533898556349110572679964314296027121860715015422341, 82020298814356923679204358664799961885665454454718511644290787124837473116866⟩ :=
    (addFast_dbl ⟨111981189532162353124821108747812109249789867368555539885752276725523994523838, 104942328410533545697194267087618539634370377516224339825365724418906779069353⟩
      37356092136258490466344719278226054860462360961173053888610229571787083981272
      (by decide) (by decide) (by decide) (by decide)).trans (by decide)
  have t209 : Point.mulLoopF G 48 ⟨111981189532162353124821108747812109249789867368555539885752276725523994523838, 104942328410533545697194267087618539634370377516224339825365724418906779069353⟩ 42766203381845305184149154782769458126097721493483642178821982185029701206016 =
      Point.mulLoopF G 47 ⟨40941405005245717745305955533898556349110572679964314296027121860715015422341, 82020298814356923679204358664799961885665454454718511644290787124837473116866⟩ 85532406763690610368298309565538916252195442986967284357643964370059402412032 :=
    mulLoopF_step 47 ⟨111981189532162353124821108747812109249789867368555539885752276725523994523838, 104942328410533545697194267087618539634370377516224339825365724418906779069353⟩ ⟨40941405005245717745305955533898556349110572679964314296027121860715015422341, 82020298814356923679204358664799961885665454454718511644290787124837473116866⟩ 42766203381845305184149154782769458126097721493483642178821982185029701206016 85532406763690610368298309565538916252195442986967284357643964370059402412032
      (by
      rw [(by decide : Nat.testBit 42766203381845305184149154782769458126097721493483642178821982185029701206016 255 = false), if_neg Bool.false_ne_true]
      exact d209)
      (by decide)
  have d210 : Point.addFast ⟨40941405005245717745305955533898556349110572679964314296027121860715015422341, 82020298814356923679204358664799961885665454454718511644290787124837473116866⟩ ⟨40941405005245717745305955533898556349110572679964314296027121860715015422341, 82020298814356923679204358664799961885665454454718511644290787124837473116866⟩ = ⟨48221859860016704139550549290673014244402934957707103686754890086764943131406, 53805983531142997690803121238697301812511802650127501865992067289526704202476⟩ :=
    (addFast_dbl ⟨40941405005245717745305955533898556349110572679964314296027121860715015422341, 82020298814356923679204358664799961885665454454718511644290787124837473116866⟩
      49608690731652274012532832695298470979549779060870149048395733300116344126015
      (by decide) (by decide) (by decide) (by decide)).trans (by decide)
  have e210 : Point.addFast ⟨48221859860016704139550549290673014244402934957707103686754890086764943131406, 53805983531142997690803121238697301812511802650127501865992067289526704202476⟩ G = ⟨101212450342155729029116680600365298382189496916624539188646344821689942013067, 68303656815147633722873951817707189711486768681260987747629071684000906872462⟩ :=
    (addFast_distinct ⟨48221859860016704139550549290673014244402934957707103686754890086764943131406, 53805983531142997690803121238697301812511802650127501865992067289526704202476⟩ G
      84711863377559190177873656906061890780892442778763014589866657357492311301934
      (by decide) (by decide) (by decide) (by decide)
      (by decide) (by decide)).trans (by decide)
  have t210 : Point.mulLoopF G 47 ⟨40941405005245717745305955533898556349110572679964314296027121860715015422341, 82020298814356923679204358664799961885665454454718511644290787124837473116866⟩ 85532406763690610368298309565538916252195442986967284357643964370059402412032 =
      Point.mulLoopF G 46 ⟨101212450342155729029116680600365298382189496916624539188646344821689942013067, 68303656815147633722873951817707189711486768681260987747629071684000906872462⟩ 55272724290065025313025634122389924651120901308294004675830344732205675184128 :=
    mulLoopF_step 46 ⟨40941405005245717745305955533898556349110572679964314296027121860715015422341, 82020298814356923679204358664799961885665454454718511644290787124837473116866⟩ ⟨101212450342155729029116680600365298382189496916624539188646344821689942013067, 68303656815147633722873951817707189711486768681260987747629071684000906872462⟩ 85532406763690610368298309565538916252195442986967284357643964370059402412032 55272724290065025313025634122389924651120901308294004675830344732205675184128
      (by
      rw [(by decide : Nat.testBit 85532406763690610368298309565538916252195442986967284357643964370059402412032 255 = true), if_pos rfl, d210]
      exact e210)
      (by decide)
  have d211 : Point.addFast ⟨101212450342155729029116680600365298382189496916624539188646344821689942013067, 68303656815147633722873951817707189711486768681260987747629071684000906872462⟩ ⟨101212450342155729029116680600365298382189496916624539188646344821689942013067, 68303656815147633722873951817707189711486768681260987747629071684000906872462⟩ = ⟨75762833393077434885852772224759022299604498615531029024695911981742801829007, 63305008733620262256831292985035668895621565618310033185714077066141493749435⟩ :=
    (addFast_dbl ⟨101212450342155729029116680600365298382189496916624539188646344821689942013067, 68303656815147633722873951817707189711486768681260987747629071684000906872462⟩
      100256049807079354441441026530566302273103127279227120861342966160782434066643
      (by decide) (by decide) (by decide) (by decide)).trans (by decide)
  have t211 : Point.mulLoopF G 46 ⟨101212450342155729029116680600365298382189496916624539188646344821689942013067, 68303656815147633722873951817707189711486768681260987747629071684000906872462⟩ 55272724290065025313025634122389924651120901308294004675830344732205675184128 =
      Point.mulLoopF G 45 ⟨75762833393077434885852772224759022299604498615531029024695911981742801829007, 63305008733620262256831292985035668895621565618310033185714077066141493749435⟩ 110545448580130050626051268244779849302241802616588009351660689464411350368256 :=
    mulLoopF_step 45 ⟨101212450342155729029116680600365298382189496916624539188646344821689942013067, 68303656815147633722873951817707189711486768681260987747629071684000906872462⟩ ⟨75762833393077434885852772224759022299604498615531029024695911981742801829007, 63305008733620262256831292985035668895621565618310033185714077066141493749435⟩ 55272724290065025313025634122389924651120901308294004675830344732205675184128 110545448580130050626051268244779849302241802616588009351660689464411350368256
      (by
      rw [(by decide : Nat.testBit 55272724290065025313025634122389924651120901308294004675830344732205675184128 255 = false), if_neg Bool.false_ne_true]
      exact d211)
      (by decide)
  have d212 : Point.addFast ⟨75762833393077434885852772224759022299604498615531029024695911981742801829007, 63305008733620262256831292985035668895621565618310033185714077066141493749435⟩ ⟨75762833393077434885852772224759022299604498615531029024695911981742801829007, 63305008733620262256831292985035668895621565618310033185714077066141493749435⟩ = ⟨79619643900872687519062114637562189043658386428367032398595272943855244702589, 109066803751532867935748353057381362802566224942173387300409287398811571775864⟩ :=
    (addFast_dbl ⟨75762833393077434885852772224759022299604498615531029024695911981742801829007, 63305008733620262256831292985035668895621565618310033185714077066141493749435⟩
      34596324314834767326699180395703753360046186130313316903688562914370893495816
      (by decide) (by decide) (by decide) (by decide)).trans (by decide)
  have e212 : Point.addFast ⟨79619643900872687519062114637562189043658386428367032398595272943855244702589, 109066803751532867935748353057381362802566224942173387300409287398811571775864⟩ G = ⟨115556241228382723473598234509559469739529680783104880014903960830358111820629, 82882752966735949440865702469888000329238185380026978553146043436509169942144⟩ :=
    (addFast_distinct ⟨79619643900872687519062114637562189043658386428367032398595272943855244702589, 109066803751532867935748353057381362802566224942173387300409287398811571775864⟩ G
      29225927311439701121657912220808336266937829855228290266921909158927645408469
      (by decide) (by decide) (by decide) (by decide)
      (by decide) (by decide)).trans (by decide)
  have t212 : Point.mulLoopF G 45 ⟨75762833393077434885852772224759022299604498615531029024695911981742801829007, 63305008733620262256831292985035668895621565618310033185714077066141493749435⟩ 110545448580130050626051268244779849302241802616588009351660689464411350368256 =
      Point.mulLoopF G 44 ⟨115556241228382723473598234509559469739529680783104880014903960830358111820629, 82882752966735949440865702469888000329238185380026978553146043436509169942144⟩ 105298807922943905828531551480871790751213620567535454663863794920909571096576 :=
    mulLoopF_step 44 ⟨75762833393077434885852772224759022299604498615531029024695911981742801829007, 63305008733620262256831292985035668895621565618310033185714077066141493749435⟩ ⟨115556241228382723473598234509559469739529680783104880014903960830358111820629, 82882752966735949440865702469888000329238185380026978553146043436509169942144⟩ 110545448580130050626051268244779849302241802616588009351660689464411350368256 105298807922943905828531551480871790751213620567535454663863794920909571096576
      (by
      rw [(by decide : Nat.testBit 110545448580130050626051268244779849302241802616588009351660689464411350368256 255 = true), if_pos rfl, d212]
      exact e212)
      (by decide)
  have d213 : Point.addFast ⟨115556241228382723473598234509559469739529680783104880014903960830358111820629, 82882752966735949440865702469888000329238185380026978553146043436509169942144⟩ ⟨115556241228382723473598234509559469739529680783104880014903960830358111820629, 82882752966735949440865702469888000329238185380026978553146043436509169942144⟩ = ⟨12513693848772409608696086535679389148999924894507114638674333423298021032115, 13611204098679465609271061769633609432260936629013267174238301899763127680251⟩ :=
    (addFast_dbl ⟨115556241228382723473598234509559469739529680783104880014903960830358111820629, 82882752966735949440865702469888000329238185380026978553146043436509169942144⟩
      27196096946256236953038102545635455401468098325917932778140254832706554095306
      (by decide) (by decide) (by decide) (by decide)).trans (by decide)
  have e213 : Point.addFast ⟨12513693848772409608696086535679389148999924894507114638674333423298021032115, 13611204098679465609271061769633609432260936629013267174238301899763127680251⟩ G = ⟨32900217104470831315793676192354682904635042591433634560701708453157885086002, 85278168065174131320466719057455912576149657774146952106784069129439181953724⟩ :=
    (addFast_distinct ⟨12513693848772409608696086535679389148999924894507114638674333423298021032115, 13611204098679465609271061769633609432260936629013267174238301899763127680251⟩ G
      36070320731082961411637260390515715361773729810644497892686230420930300298629
      (by decide) (by decide) (by decide) (by decide)
      (by decide) (by decide)).trans (by decide)
  have t213 : Point.mulLoopF G 44 ⟨115556241228382723473598234509559469739529680783104880014903960830358111820629, 82882752966735949440865702469888000329238185380026978553146043436509169942144⟩ 105298807922943905828531551480871790751213620567535454663863794920909571096576 =
      Point.mulLoopF G 43 ⟨32900217104470831315793676192354682904635042591433634560701708453157885086002, 85278168065174131320466719057455912576149657774146952106784069129439181953724⟩ 94805526608571616233492117953055673649157256469430345288270005833906012553216 :=
    mulLoopF_step 43 ⟨115556241228382723473598234509559469739529680783104880014903960830358111820629, 82882752966735949440865702469888000329238185380026978553146043436509169942144⟩ ⟨32900217104470831315793676192354682904635042591433634560701708453157885086002, 85278168065174131320466719057455912576149657774146952106784069129439181953724⟩ 105298807922943905828531551480871790751213620567535454663863794920909571096576 94805526608571616233492117953055673649157256469430345288270005833906012553216
      (by
      rw [(by decide : Nat.testBit 105298807922943905828531551480871790751213620567535454663863794920909571096576 255 = true), if_pos rfl, d213]
      exact e213)
      (by decide)
  have d214 : Point.addFast ⟨32900217104470831315793676192354682904635042591433634560701708453157885086002, 85278168065174131320466719057455912576149657774146952106784069129439181953724⟩ ⟨32900217104470831315793676192354682904635042591433634560701708453157885086002, 85278168065174131320466719057455912576149657774146952106784069129439181953724⟩ = ⟨108872971634493088367584624860910153733190109614064412710054156405988148788387, 106741302893652501912272934665633472838927293750163368931377008411193134035099⟩ :=
    (addFast_dbl ⟨32900217104470831315793676192354682904635042591433634560701708453157885086002, 85278168065174131320466719057455912576149657774146952106784069129439181953724⟩
      106919604783382051685577288297011461941437313930017172248610811050462512735504
      (by decide) (by decide) (by decide) (by decide)).trans (by decide)
  have e214 : Point.addFast ⟨108872971634493088367584624860910153733190109614064412710054156405988148788387, 106741302893652501912272934665633472838927293750163368931377008411193134035099⟩ G = ⟨106600912180329681386629667631378467017386927311728048068187447841885564684547, 101130476397765278456945556127697535947199030380416182593917429776981523868326⟩ :=
    (addFast_distinct ⟨108872971634493088367584624860910153733190109614064412710054156405988148788387, 106741302893652501912272934665633472838927293750163368931377008411193134035099⟩ G
      74943260786510686657665156154457191686573064198407225260760358157015542560852
      (by decide) (by decide) (by decide) (by decide)
      (by decide) (by decide)).trans (by decide)
  have t214 : Point.mulLoopF G 43 ⟨32900217104470831315793676192354682904635042591433634560701708453157885086002, 85278168065174131320466719057455912576149657774146952106784069129439181953724⟩ 94805526608571616233492117953055673649157256469430345288270005833906012553216 =
      Point.mulLoopF G 42 ⟨106600912180329681386629667631378467017386927311728048068187447841885564684547, 101130476397765278456945556127697535947199030380416182593917429776981523868326⟩ 73818963979827037043413250897423439445044528273220126537082427659898895466496 :=
    mulLoopF_step 42 ⟨32900217104470831315793676192354682904635042591433634560701708453157885086002, 85278168065174131320466719057455912576149657774146952106784069129439181953724⟩ ⟨106600912180329681386629667631378467017386927311728048068187447841885564684547, 101130476397765278456945556127697535947199030380416182593917429776981523868326⟩ 94805526608571616233492117953055673649157256469430345288270005833906012553216 73818963979827037043413250897423439445044528273220126537082427659898895466496
      (by
      rw [(by decide : Nat.testBit 94805526608571616233492117953055673649157256469430345288270005833906012553216 255 = true), if_pos rfl, d214]
      exact e214)
      (by decide)
  have d215 : Point.addFast ⟨106600912180329681386629667631378467017386927311728048068187447841885564684547, 101130476397765278456945556127697535947199030380416182593917429776981523868326⟩ ⟨106600912180329681386629667631378467017386927311728048068187447841885564684547, 101130476397765278456945556127697535947199030380416182593917429776981523868326⟩ = ⟨8070486188150402878477948397743999487175025320624524858229681766775070558523, 84970500343721104006682486081962043173503437765658937443117665535856677001866⟩ :=
    (addFast_dbl ⟨106600912180329681386629667631378467017386927311728048068187447841885564684547, 101130476397765278456945556127697535947199030380416182593917429776981523868326⟩
      9492703513948234093911820678466762276974636213372255884243851176483361978993
      (by decide) (by decide) (by decide) (by decide)).trans (by decide)
  have e215 : Point.addFast ⟨8070486188150402878477948397743999487175025320624524858229681766775070558523, 84970500343721104006682486081962043173503437765658937443117665535856677001866⟩ G = ⟨1432435922191628441439927208936477771747173540968091458490657880413232265674, 44376203370175184098602367608700318623658109082461882108155552192521662218317⟩ :=
    (addFast_distinct ⟨8070486188150402878477948397743999487175025320624524858229681766775070558523, 84970500343721104006682486081962043173503437765658937443117665535856677001866⟩ G
      91792087221295042216916444487099597890948647407156580713332470562978409362185
      (by decide) (by decide) (by decide) (by decide)
      (by decide) (by decide)).trans (by decide)
  have t215 : Point.mulLoopF G 42 ⟨106600912180329681386629667631378467017386927311728048068187447841885564684547, 101130476397765278456945556127697535947199030380416182593917429776981523868326⟩ 73818963979827037043413250897423439445044528273220126537082427659898895466496 =
      Point.mulLoopF G 41 ⟨1432435922191628441439927208936477771747173540968091458490657880413232265674, 44376203370175184098602367608700318623658109082461882108155552192521662218317⟩ 31845838722337878663255516786158971036819071880799689034707271311884661293056 :=
    mulLoopF_step 41 ⟨106600912180329681386629667631378467017386927311728048068187447841885564684547, 101130476397765278456945556127697535947199030380416182593917429776981523868326⟩ ⟨1432435922191628441439927208936477771747173540968091458490657880413232265674, 44376203370175184098602367608700318623658109082461882108155552192521662218317⟩ 73818963979827037043413250897423439445044528273220126537082427659898895466496 31845838722337878663255516786158971036819071880799689034707271311884661293056
      (by
      rw [(by decide : Nat.testBit 73818963979827037043413250897423439445044528273220126537082427659898895466496 255 = true), if_pos rfl, d215]
      exact e215)
      (by decide)
  have d216 : Point.addFast ⟨1432435922191628441439927208936477771747173540968091458490657880413232265674, 44376203370175184098602367608700318623658109082461882108155552192521662218317⟩ ⟨1432435922191628441439927208936477771747173540968091458490657880413232265674, 44376203370175184098602367608700318623658109082461882108155552192521662218317⟩ = ⟨68767323252525989285442623759883128600043375380431368050047815095147376753424, 13618304609848439202123143871544034744741388227688727342095650882191752745504⟩ :=
    (addFast_dbl ⟨1432435922191628441439927208936477771747173540968091458490657880413232265674, 44376203370175184098602367608700318623658109082461882108155552192521662218317⟩
      1592943930453141702656666047766207255474647009268116885860769372530261841518
      (by decide) (by decide) (by decide) (by decide)).trans (by decide)
  have t216 : Point.mulLoopF G 41 ⟨1432435922191628441439927208936477771747173540968091458490657880413232265674, 44376203370175184098602367608700318623658109082461882108155552192521662218317⟩ 31845838722337878663255516786158971036819071880799689034707271311884661293056 =
      Point.mulLoopF G 40 ⟨68767323252525989285442623759883128600043375380431368050047815095147376753424, 13618304609848439202123143871544034744741388227688727342095650882191752745504⟩ 63691677444675757326511033572317942073638143761599378069414542623769322586112 :=
    mulLoopF_step 40 ⟨1432435922191628441439927208936477771747173540968091458490657880413232265674, 44376203370175184098602367608700318623658109082461882108155552192521662218317⟩ ⟨68767323252525989285442623759883128600043375380431368050047815095147376753424, 13618304609848439202123143871544034744741388227688727342095650882191752745504⟩ 31845838722337878663255516786158971036819071880799689034707271311884661293056 63691677444675757326511033572317942073638143761599378069414542623769322586112
      (by
      rw [(by decide : Nat.testBit 31845838722337878663255516786158971036819071880799689034707271311884661293056 255 = false), if_neg Bool.false_ne_true]
      exact d216)
      (by decide)
  have d217 : Point.addFast ⟨68767323252525989285442623759883128600043375380431368050047815095147376753424, 13618304609848439202123143871544034744741388227688727342095650882191752745504⟩ ⟨68767323252525989285442623759883128600043375380431368050047815095147376753424, 13618304609848439202123143871544034744741388227688727342095650882191752745504⟩ = ⟨114619889838596224402058945888185293441062453821974630133280807718796756352585, 63054872010475237423886871625795652775001066084186545469012981572617188008833⟩ :=
    (addFast_dbl ⟨68767323252525989285442623759883128600043375380431368050047815095147376753424, 13618304609848439202123143871544034744741388227688727342095650882191752745504⟩
      73801444427021215169398779988372584092251013475214598351033507460018729878248
      (by decide) (by decide) (by decide) (by decide)).trans (by decide)
  have e217 : Point.addFast ⟨114619889838596224402058945888185293441062453821974630133280807718796756352585, 63054872010475237423886871625795652775001066084186545469012981572617188008833⟩ G = ⟨21031055935967706759870504672876090487050540149921556642412179495682493380375, 108161964508628899777651840451257950284487095836317515373670292743416562412436⟩ :=
    (addFast_distinct ⟨114619889838596224402058945888185293441062453821974630133280807718796756352585, 63054872010475237423886871625795652775001066084186545469012981572617188008833⟩ G
      69520823820001514252015887932337734753073697152328012713347676989523295218172
      (by decide) (by decide) (by decide) (by decide)
      (by decide) (by decide)).trans (by decide)
  have t217 : Point.mulLoopF G 40 ⟨68767323252525989285442623759883128600043375380431368050047815095147376753424, 13618304609848439202123143871544034744741388227688727342095650882191752745504⟩ 63691677444675757326511033572317942073638143761599378069414542623769322586112 =
      Point.mulLoopF G 39 ⟨21031055935967706759870504672876090487050540149921556642412179495682493380375, 108161964508628899777651840451257950284487095836317515373670292743416562412436⟩ 11591265652035319229451082135947976294006302857558192099371501239625515532288 :=
    mulLoopF_step 39 ⟨68767323252525989285442623759883128600043375380431368050047815095147376753424, 13618304609848439202123143871544034744741388227688727342095650882191752745504⟩ ⟨21031055935967706759870504672876090487050540149921556642412179495682493380375, 108161964508628899777651840451257950284487095836317515373670292743416562412436⟩ 63691677444675757326511033572317942073638143761599378069414542623769322586112 11591265652035319229451082135947976294006302857558192099371501239625515532288
      (by
      rw [(by decide : Nat.testBit 63691677444675757326511033572317942073638143761599378069414542623769322586112 255 = true), if_pos rfl, d217]
      exact e217)
      (by decide)
  have d218 : Point.addFast ⟨21031055935967706759870504672876090487050540149921556642412179495682493380375, 108161964508628899777651840451257950284487095836317515373670292743416562412436⟩ ⟨21031055935967706759870504672876090487050540149921556642412179495682493380375, 108161964508628899777651840451257950284487095836317515373670292743416562412436⟩ = ⟨63123243396192826919155756638861043148832194893176354376125433130862500595098, 99373573484077936781211886624441647580332534876535725820186905059265501147958⟩ :=
    (addFast_dbl ⟨21031055935967706759870504672876090487050540149921556642412179495682493380375, 108161964508628899777651840451257950284487095836317515373670292743416562412436⟩
      46044088287436412947840292856454641869863885594504072305753857807697140305281
      (by decide) (by decide) (by decide) (by decide)).trans (by decide)
  have t218 : Point.mulLoopF G 39 ⟨21031055935967706759870504672876090487050540149921556642412179495682493380375, 108161964508628899777651840451257950284487095836317515373670292743416562412436⟩ 11591265652035319229451082135947976294006302857558192099371501239625515532288 =
      Point.mulLoopF G 38 ⟨63123243396192826919155756638861043148832194893176354376125433130862500595098, 99373573484077936781211886624441647580332534876535725820186905059265501147958⟩ 23182531304070638458902164271895952588012605715116384198743002479251031064576 :=
    mulLoopF_step 38 ⟨21031055935967706759870504672876090487050540149921556642412179495682493380375, 108161964508628899777651840451257950284487095836317515373670292743416562412436⟩ ⟨63123243396192826919155756638861043148832194893176354376125433130862500595098, 99373573484077936781211886624441647580332534876535725820186905059265501147958⟩ 11591265652035319229451082135947976294006302857558192099371501239625515532288 23182531304070638458902164271895952588012605715116384198743002479251031064576
      (by
      rw [(by decide : Nat.testBit 11591265652035319229451082135947976294006302857558192099371501239625515532288 255 = false), if_neg Bool.false_ne_true]
      exact d218)
      (by decide)
  have d219 : Point.addFast ⟨63123243396192826919155756638861043148832194893176354376125433130862500595098, 99373573484077936781211886624441647580332534876535725820186905059265501147958⟩ ⟨63123243396192826919155756638861043148832194893176354376125433130862500595098, 99373573484077936781211886624441647580332534876535725820186905059265501147958⟩ = ⟨13161423481157291169910211699767678875920418015682487910374987771823395127906, 26761102001975719697423562341127293073306894072739185700706862527338258423991⟩ :=
    (addFast_dbl ⟨63123243396192826919155756638861043148832194893176354376125433130862500595098, 99373573484077936781211886624441647580332534876535725820186905059265501147958⟩
      33298268514926016836549618765826223326195254259416831399537687661807158772265
      (by decide) (by decide) (by decide) (by decide)).trans (by decide)
  have t219 : Point.mulLoopF G 38 ⟨63123243396192826919155756638861043148832194893176354376125433130862500595098, 99373573484077936781211886624441647580332534876535725820186905059265501147958⟩ 23182531304070638458902164271895952588012605715116384198743002479251031064576 =
      Point.mulLoopF G 37 ⟨13161423481157291169910211699767678875920418015682487910374987771823395127906, 26761102001975719697423562341127293073306894072739185700706862527338258423991⟩ 46365062608141276917804328543791905176025211430232768397486004958502062129152 :=
    mulLoopF_step 37 ⟨63123243396192826919155756638861043148832194893176354376125433130862500595098, 99373573484077936781211886624441647580332534876535725820186905059265501147958⟩ ⟨13161423481157291169910211699767678875920418015682487910374987771823395127906, 26761102001975719697423562341127293073306894072739185700706862527338258423991⟩ 23182531304070638458902164271895952588012605715116384198743002479251031064576 46365062608141276917804328543791905176025211430232768397486004958502062129152
      (by
      rw [(by decide : Nat.testBit 23182531304070638458902164271895952588012605715116384198743002479251031064576 255 = false), if_neg Bool.false_ne_true]
      exact d219)
      (by decide)
  have d220 : Point.addFast ⟨13161423481157291169910211699767678875920418015682487910374987771823395127906, 26761102001975719697423562341127293073306894072739185700706862527338258423991⟩ ⟨13161423481157291169910211699767678875920418015682487910374987771823395127906, 26761102001975719697423562341127293073306894072739185700706862527338258423991⟩ = ⟨83159464364241793626490677492345151534297885586080204975256714687403632211045, 18397296792668741617687407593400629615388153093027969905492099881466410701521⟩ :=
    (addFast_dbl ⟨13161423481157291169910211699767678875920418015682487910374987771823395127906, 26761102001975719697423562341127293073306894072739185700706862527338258423991⟩
      67060967068308354929030373305323965207713870893872290174096183778855422299545
      (by decide) (by decide) (by decide) (by decide)).trans (by decide)
  have t220 : Point.mulLoopF G 37 ⟨13161423481157291169910211699767678875920418015682487910374987771823395127906, 26761102001975719697423562341127293073306894072739185700706862527338258423991⟩ 46365062608141276917804328543791905176025211430232768397486004958502062129152 =
      Point.mulLoopF G 36 ⟨83159464364241793626490677492345151534297885586080204975256714687403632211045, 18397296792668741617687407593400629615388153093027969905492099881466410701521⟩ 92730125216282553835608657087583810352050422860465536794972009917004124258304 :=
    mulLoopF_step 36 ⟨13161423481157291169910211699767678875920418015682487910374987771823395127906, 26761102001975719697423562341127293073306894072739185700706862527338258423991⟩ ⟨83159464364241793626490677492345151534297885586080204975256714687403632211045, 18397296792668741617687407593400629615388153093027969905492099881466410701521⟩ 46365062608141276917804328543791905176025211430232768397486004958502062129152 92730125216282553835608657087583810352050422860465536794972009917004124258304
      (by
      rw [(by decide : Nat.testBit 46365062608141276917804328543791905176025211430232768397486004958502062129152 255 = false), if_neg Bool.false_ne_true]
      exact d220)
      (by decide)
  have d221 : Point.addFast ⟨83159464364241793626490677492345151534297885586080204975256714687403632211045, 18397296792668741617687407593400629615388153093027969905492099881466410701521⟩ ⟨83159464364241793626490677492345151534297885586080204975256714687403632211045, 18397296792668741617687407593400629615388153093027969905492099881466410701521⟩ = ⟨6356915968335490873658867269148409157419202765729154301206251971618386530566, 71017370800857788829050144390089091054906359946994036196797601108827982887607⟩ :=
    (addFast_dbl ⟨83159464364241793626490677492345151534297885586080204975256714687403632211045, 18397296792668741617687407593400629615388153093027969905492099881466410701521⟩
      78835484112492325659714547623158453651423534345463313061733367372396196340685
      (by decide) (by decide) (by decide) (by decide)).trans (by decide)
  have e221 : Point.addFast ⟨6356915968335490873658867269148409157419202765729154301206251971618386530566, 71017370800857788829050144390089091054906359946994036196797601108827982887607⟩ G = ⟨69802861379663274156883918247549209165702025022768899821899608077870135173796, 4779111672625503603264269955231860866024275923650799049393178691067292367865⟩ :=
    (addFast_distinct ⟨6356915968335490873658867269148409157419202765729154301206251971618386530566, 71017370800857788829050144390089091054906359946994036196797601108827982887607⟩ G
      48368455914020457466057702534950856176505613618172745914328293218220777345644
      (by decide) (by decide) (by decide) (by decide)
      (by decide) (by decide)).trans (by decide)
  have t221 : Point.mulLoopF G 36 ⟨83159464364241793626490677492345151534297885586080204975256714687403632211045, 18397296792668741617687407593400629615388153093027969905492099881466410701521⟩ 92730125216282553835608657087583810352050422860465536794972009917004124258304 =
      Point.mulLoopF G 35 ⟨69802861379663274156883918247549209165702025022768899821899608077870135173796, 4779111672625503603264269955231860866024275923650799049393178691067292367865⟩ 69668161195248912247646329166479712850830861055290509550486435826095118876672 :=
    mulLoopF_step 35 ⟨83159464364241793626490677492345151534297885586080204975256714687403632211045, 18397296792668741617687407593400629615388153093027969905492099881466410701521⟩ ⟨69802861379663274156883918247549209165702025022768899821899608077870135173796, 4779111672625503603264269955231860866024275923650799049393178691067292367865⟩ 92730125216282553835608657087583810352050422860465536794972009917004124258304 69668161195248912247646329166479712850830861055290509550486435826095118876672
      (by
      rw [(by decide : Nat.testBit 92730125216282553835608657087583810352050422860465536794972009917004124258304 255 = true), if_pos rfl, d221]
      exact e221)
      (by decide)
  have d222 : Point.addFast ⟨69802861379663274156883918247549209165702025022768899821899608077870135173796, 4779111672625503603264269955231860866024275923650799049393178691067292367865⟩ ⟨69802861379663274156883918247549209165702025022768899821899608077870135173796, 4779111672625503603264269955231860866024275923650799049393178691067292367865⟩ = ⟨63238994063520635512635448493188136684444791799077083877384106804659472392802, 22466551545141115398073286679328164347460105770294946761846112439042650523228⟩ :=
    (addFast_dbl ⟨69802861379663274156883918247549209165702025022768899821899608077870135173796, 4779111672625503603264269955231860866024275923650799049393178691067292367865⟩
      77164808467628880920438337099124118279646124192532180711212703240660277906813
      (by decide) (by decide) (by decide) (by decide)).trans (by decide)
  have e222 : Point.addFast ⟨63238994063520635512635448493188136684444791799077083877384106804659472392802, 22466551545141115398073286679328164347460105770294946761846112439042650523228⟩ G = ⟨53941131544381399538593460932962560097756644837955424994546500058598606494474, 63394061225666798359149887109446608681433089858195532635264203341963375877759⟩ :=
    (addFast_distinct ⟨63238994063520635512635448493188136684444791799077083877384106804659472392802, 22466551545141115398073286679328164347460105770294946761846112439042650523228⟩ G
      51000641836008851311569538836839866316203679950191106391729240596851810942768
      (by decide) (by decide) (by decide) (by decide)
      (by decide) (by decide)).trans (by decide)
  have t222 : Point.mulLoopF G 35 ⟨69802861379663274156883918247549209165702025022768899821899608077870135173796, 4779111672625503603264269955231860866024275923650799049393178691067292367865⟩ 69668161195248912247646329166479712850830861055290509550486435826095118876672 =
      Point.mulLoopF G 34 ⟨53941131544381399538593460932962560097756644837955424994546500058598606494474, 63394061225666798359149887109446608681433089858195532635264203341963375877759⟩ 23544233153181629071721673324271517848391737444940455061515287644277108113408 :=
    mulLoopF_step 34 ⟨69802861379663274156883918247549209165702025022768899821899608077870135173796, 4779111672625503603264269955231860866024275923650799049393178691067292367865⟩ ⟨53941131544381399538593460932962560097756644837955424994546500058598606494474, 63394061225666798359149887109446608681433089858195532635264203341963375877759⟩ 69668161195248912247646329166479712850830861055290509550486435826095118876672 23544233153181629071721673324271517848391737444940455061515287644277108113408
      (by
      rw [(by decide : Nat.testBit 69668161195248912247646329166479712850830861055290509550486435826095118876672 255 = true), if_pos rfl, d222]
      exact e222)
      (by decide)
  have d223 : Point.addFast ⟨53941131544381399538593460932962560097756644837955424994546500058598606494474, 63394061225666798359149887109446608681433089858195532635264203341963375877759⟩ ⟨53941131544381399538593460932962560097756644837955424994546500058598606494474, 63394061225666798359149887109446608681433089858195532635264203341963375877759⟩ = ⟨84079735884178049247985623522779886027050672082517017912498225762088634399237, 20664942847917396229158067902884869489453089176487814335876771752356378318902⟩ :=
    (addFast_dbl ⟨53941131544381399538593460932962560097756644837955424994546500058598606494474, 63394061225666798359149887109446608681433089858195532635264203341963375877759⟩
      61804006584596958606264499674839120641091034463973131290070870822744542529722
      (by decide) (by decide) (by decide) (by decide)).trans (by decide)
  have t223 : Point.mulLoopF G 34 ⟨53941131544381399538593460932962560097756644837955424994546500058598606494474, 63394061225666798359149887109446608681433089858195532635264203341963375877759⟩ 23544233153181629071721673324271517848391737444940455061515287644277108113408 =
      Point.mulLoopF G 33 ⟨84079735884178049247985623522779886027050672082517017912498225762088634399237, 20664942847917396229158067902884869489453089176487814335876771752356378318902⟩ 47088466306363258143443346648543035696783474889880910123030575288554216226816 :=
    mulLoopF_step 33 ⟨53941131544381399538593460932962560097756644837955424994546500058598606494474, 63394061225666798359149887109446608681433089858195532635264203341963375877759⟩ ⟨84079735884178049247985623522779886027050672082517017912498225762088634399237, 20664942847917396229158067902884869489453089176487814335876771752356378318902⟩ 23544233153181629071721673324271517848391737444940455061515287644277108113408 47088466306363258143443346648543035696783474889880910123030575288554216226816
      (by
      rw [(by decide : Nat.testBit 23544233153181629071721673324271517848391737444940455061515287644277108113408 255 = false), if_neg Bool.false_ne_true]
      exact d223)
      (by decide)
  have d224 : Point.addFast ⟨84079735884178049247985623522779886027050672082517017912498225762088634399237, 20664942847917396229158067902884869489453089176487814335876771752356378318902⟩ ⟨84079735884178049247985623522779886027050672082517017912498225762088634399237, 20664942847917396229158067902884869489453089176487814335876771752356378318902⟩ = ⟨52950113734379978834285708195116877708433501691498224564508740991752088246881, 107755904324268202193378651250843500936777087902814227553908609307377266828915⟩ :=
    (addFast_dbl ⟨84079735884178049247985623522779886027050672082517017912498225762088634399237, 20664942847917396229158067902884869489453089176487814335876771752356378318902⟩
      5471981054966596929026527046562221160805858723764526186324034874395573983480
      (by decide) (by decide) (by decide) (by decide)).trans (by decide)
  have t224 : Point.mulLoopF G 33 ⟨84079735884178049247985623522779886027050672082517017912498225762088634399237, 20664942847917396229158067902884869489453089176487814335876771752356378318902⟩ 47088466306363258143443346648543035696783474889880910123030575288554216226816 =
      Point.mulLoopF G 32 ⟨52950113734379978834285708195116877708433501691498224564508740991752088246881, 107755904324268202193378651250843500936777087902814227553908609307377266828915⟩ 94176932612726516286886693297086071393566949779761820246061150577108432453632 :=
    mulLoopF_step 32 ⟨84079735884178049247985623522779886027050672082517017912498225762088634399237, 20664942847917396229158067902884869489453089176487814335876771752356378318902⟩ ⟨52950113734379978834285708195116877708433501691498224564508740991752088246881, 107755904324268202193378651250843500936777087902814227553908609307377266828915⟩ 47088466306363258143443346648543035696783474889880910123030575288554216226816 94176932612726516286886693297086071393566949779761820246061150577108432453632
      (by
      rw [(by decide : Nat.testBit 47088466306363258143443346648543035696783474889880910123030575288554216226816 255 = false), if_neg Bool.false_ne_true]
      exact d224)
      (by decide)
  rw [t209, t210, t211, t212, t213, t214, t215, t216, t217, t218, t219, t220, t221, t222, t223, t224]

set_option maxHeartbeats 1600000 in
/-- Segment 15 of the certified double-and-add trace of the generator
multiplied by the group order: iterations 225 to 240, each point
addition discharged through a precomputed modular-inverse certificate. -/
theorem mulG_seg15 : Point.mulLoopF G 32 ⟨52950113734379978834285708195116877708433501691498224564508740991752088246881, 107755904324268202193378651250843500936777087902814227553908609307377266828915⟩ 94176932612726516286886693297086071393566949779761820246061150577108432453632 =
    Point.mulLoopF G 16 ⟨59391522668249385334376009645687768472252124611035097846394708269882073284523, 106808109526191560568067197676741812315022724890485712949545067320012236917940⟩ 29515180217122910225688984749910453806898118497307214695421431592593213358080 := by
  have d225 : Point.addFast ⟨52950113734379978834285708195116877708433501691498224564508740991752088246881, 107755904324268202193378651250843500936777087902814227553908609307377266828915⟩ ⟨52950113734379978834285708195116877708433501691498224564508740991752088246881, 107755904324268202193378651250843500936777087902814227553908609307377266828915⟩ = ⟨34105462489112171867687027986657578316510313413302065282178263994411164223867, 15854370468919778129559104916320600332032043902529577849934725295783073234980⟩ :=
    (addFast_dbl ⟨52950113734379978834285708195116877708433501691498224564508740991752088246881, 107755904324268202193378651250843500936777087902814227553908609307377266828915⟩
      55973866342409371341947398599693232831698370170476959353421579035514133547849
      (by decide) (by decide) (by decide) (by decide)).trans (by decide)
  have e225 : Point.addFast ⟨34105462489112171867687027986657578316510313413302065282178263994411164223867, 15854370468919778129559104916320600332032043902529577849934725295783073234980⟩ G = ⟨82849136141271926305773342742596379822168667019446781418604039134997183856068, 10392837810165250340841071359326597358703060866121249557488568873726473157566⟩ :=
    (addFast_distinct ⟨34105462489112171867687027986657578316510313413302065282178263994411164223867, 15854370468919778129559104916320600332032043902529577849934725295783073234980⟩ G
      32781355505567329419864817546607430830926046356055123265047576764941201912743
      (by decide) (by decide) (by decide) (by decide)
      (by decide) (by decide)).trans (by decide)
  have t225 : Point.mulLoopF G 32 ⟨52950113734379978834285708195116877708433501691498224564508740991752088246881, 107755904324268202193378651250843500936777087902814227553908609307377266828915⟩ 94176932612726516286886693297086071393566949779761820246061150577108432453632 =
      Point.mulLoopF G 31 ⟨82849136141271926305773342742596379822168667019446781418604039134997183856068, 10392837810165250340841071359326597358703060866121249557488568873726473157566⟩ 72561775988136837150202401585484234933863914893883076452664717146303735267328 :=
    mulLoopF_step 31 ⟨52950113734379978834285708195116877708433501691498224564508740991752088246881, 107755904324268202193378651250843500936777087902814227553908609307377266828915⟩ ⟨82849136141271926305773342742596379822168667019446781418604039134997183856068, 10392837810165250340841071359326597358703060866121249557488568873726473157566⟩ 94176932612726516286886693297086071393566949779761820246061150577108432453632 72561775988136837150202401585484234933863914893883076452664717146303735267328
      (by
      rw [(by decide : Nat.testBit 94176932612726516286886693297086071393566949779761820246061150577108432453632 255 = true), if_pos rfl, d225]
      exact e225)
      (by decide)
  have d226 : Point.addFast ⟨82849136141271926305773342742596379822168667019446781418604039134997183856068, 10392837810165250340841071359326597358703060866121249557488568873726473157566⟩ ⟨82849136141271926305773342742596379822168667019446781418604039134997183856068, 10392837810165250340841071359326597358703060866121249557488568873726473157566⟩ = ⟨14991680676499089325647865488593908420906174368898702429212004545254801238838, 48331042272430529242500638772990468649126524722588973124650282210681390340662⟩ :=
    (addFast_dbl ⟨82849136141271926305773342742596379822168667019446781418604039134997183856068, 10392837810165250340841071359326597358703060866121249557488568873726473157566⟩
      90982743748750385528524815353827110244015414511484514597219408708952058326773
      (by decide) (by decide) (by decide) (by decide)).trans (by decide)
  have e226 : Point.addFast ⟨14991680676499089325647865488593908420906174368898702429212004545254801238838, 48331042272430529242500638772990468649126524722588973124650282210681390340662⟩ G = ⟨112059775288665436729153200160042885990251140582387076060024400994722750403557, 93705592453836940053918968854659444613728660538750876148427673706435244964500⟩ :=
    (addFast_distinct ⟨14991680676499089325647865488593908420906174368898702429212004545254801238838, 48331042272430529242500638772990468649126524722588973124650282210681390340662⟩ G
      62439994016320587927540612670054992878279268867678298059215337004392132794161
      (by decide) (by decide) (by decide) (by decide)
      (by decide) (by decide)).trans (by decide)
  have t226 : Point.mulLoopF G 31 ⟨82849136141271926305773342742596379822168667019446781418604039134997183856068, 10392837810165250340841071359326597358703060866121249557488568873726473157566⟩ 72561775988136837150202401585484234933863914893883076452664717146303735267328 =
      Point.mulLoopF G 30 ⟨112059775288665436729153200160042885990251140582387076060024400994722750403557, 93705592453836940053918968854659444613728660538750876148427673706435244964500⟩ 29331462738957478876833818162280562014457845122125588865871850284694340894720 :=
    mulLoopF_step 30 ⟨82849136141271926305773342742596379822168667019446781418604039134997183856068, 10392837810165250340841071359326597358703060866121249557488568873726473157566⟩ ⟨112059775288665436729153200160042885990251140582387076060024400994722750403557, 93705592453836940053918968854659444613728660538750876148427673706435244964500⟩ 72561775988136837150202401585484234933863914893883076452664717146303735267328 29331462738957478876833818162280562014457845122125588865871850284694340894720
      (by
      rw [(by decide : Nat.testBit 72561775988136837150202401585484234933863914893883076452664717146303735267328 255 = true), if_pos rfl, d226]
      exact e226)
      (by decide)
  have d227 : Point.addFast ⟨112059775288665436729153200160042885990251140582387076060024400994722750403557, 93705592453836940053918968854659444613728660538750876148427673706435244964500⟩ ⟨112059775288665436729153200160042885990251140582387076060024400994722750403557, 93705592453836940053918968854659444613728660538750876148427673706435244964500⟩ = ⟨17396091751216814903872725253762263328577448003805540757621856656117857773055, 83039044243844949675986547076434369029063926137452826070513965167429789001208⟩ :=
    (addFast_dbl ⟨112059775288665436729153200160042885990251140582387076060024400994722750403557, 93705592453836940053918968854659444613728660538750876148427673706435244964500⟩
      59388947233074782786450064876151907154109661748053128752204237702225825415721
      (by decide) (by decide) (by decide) (by decide)).trans (by decide)
  have t227 : Point.mulLoopF G 30 ⟨112059775288665436729153200160042885990251140582387076060024400994722750403557, 93705592453836940053918968854659444613728660538750876148427673706435244964500⟩ 29331462738957478876833818162280562014457845122125588865871850284694340894720 =
      Point.mulLoopF G 29 ⟨17396091751216814903872725253762263328577448003805540757621856656117857773055, 83039044243844949675986547076434369029063926137452826070513965167429789001208⟩ 58662925477914957753667636324561124028915690244251177731743700569388681789440 :=
    mulLoopF_step 29 ⟨112059775288665436729153200160042885990251140582387076060024400994722750403557, 93705592453836940053918968854659444613728660538750876148427673706435244964500⟩ ⟨17396091751216814903872725253762263328577448003805540757621856656117857773055, 83039044243844949675986547076434369029063926137452826070513965167429789001208⟩ 29331462738957478876833818162280562014457845122125588865871850284694340894720 58662925477914957753667636324561124028915690244251177731743700569388681789440
      (by
      rw [(by decide : Nat.testBit 29331462738957478876833818162280562014457845122125588865871850284694340894720 255 = false), if_neg Bool.false_ne_true]
      exact d227)
      (by decide)
  have d228 : Point.addFast ⟨17396091751216814903872725253762263328577448003805540757621856656117857773055, 83039044243844949675986547076434369029063926137452826070513965167429789001208⟩ ⟨17396091751216814903872725253762263328577448003805540757621856656117857773055, 83039044243844949675986547076434369029063926137452826070513965167429789001208⟩ = ⟨34746933840354883238115121087799493158865325352569234360694046922716440970437, 78031891100743157511699313770163929973855181706609429202996479810131933970574⟩ :=
    (addFast_dbl ⟨17396091751216814903872725253762263328577448003805540757621856656117857773055, 83039044243844949675986547076434369029063926137452826070513965167429789001208⟩
      94067023886789079623762535064189536135272320710270357920310805236268228154189
      (by decide) (by decide) (by decide) (by decide)).trans (by decide)
  have e228 : Point.addFast ⟨34746933840354883238115121087799493158865325352569234360694046922716440970437, 78031891100743157511699313770163929973855181706609429202996479810131933970574⟩ G = ⟨5804709883914192370778410396889141702011119010407804009627019914154075469504, 5409403574623460125388445051564230661713621798149808610078116338120665713777⟩ :=
    (addFast_distinct ⟨34746933840354883238115121087799493158865325352569234360694046922716440970437, 78031891100743157511699313770163929973855181706609429202996479810131933970574⟩ G
      3387060903098466958616684529045171273490954807977711147082482890763616529542
      (by decide) (by decide) (by decide) (by decide)
      (by decide) (by decide)).trans (by decide)
  have t228 : Point.mulLoopF G 29 ⟨17396091751216814903872725253762263328577448003805540757621856656117857773055, 83039044243844949675986547076434369029063926137452826070513965167429789001208⟩ 58662925477914957753667636324561124028915690244251177731743700569388681789440 =
      Point.mulLoopF G 28 ⟨5804709883914192370778410396889141702011119010407804009627019914154075469504, 5409403574623460125388445051564230661713621798149808610078116338120665713777⟩ 1533761718513720083764287640434340204561395822861791424029817130864233938944 :=
    mulLoopF_step 28 ⟨17396091751216814903872725253762263328577448003805540757621856656117857773055, 83039044243844949675986547076434369029063926137452826070513965167429789001208⟩ ⟨5804709883914192370778410396889141702011119010407804009627019914154075469504, 5409403574623460125388445051564230661713621798149808610078116338120665713777⟩ 58662925477914957753667636324561124028915690244251177731743700569388681789440 1533761718513720083764287640434340204561395822861791424029817130864233938944
      (by
      rw [(by decide : Nat.testBit 58662925477914957753667636324561124028915690244251177731743700569388681789440 255 = true), if_pos rfl, d228]
      exact e228)
      (by decide)
  have d229 : Point.addFast ⟨5804709883914192370778410396889141702011119010407804009627019914154075469504, 5409403574623460125388445051564230661713621798149808610078116338120665713777⟩ ⟨5804709883914192370778410396889141702011119010407804009627019914154075469504, 5409403574623460125388445051564230661713621798149808610078116338120665713777⟩ = ⟨51336160558839349837474591732330749102866037350371194898205755851778803002782, 76342430522743943193407615919970424164765339537756667050307509898681857771746⟩ :=
    (addFast_dbl ⟨5804709883914192370778410396889141702011119010407804009627019914154075469504, 5409403574623460125388445051564230661713621798149808610078116338120665713777⟩
      28745848227388524861273097940965892529325919964826854792622890569044181752911
      (by decide) (by decide) (by decide) (by decide)).trans (by decide)
  have t229 : Point.mulLoopF G 28 ⟨5804709883914192370778410396889141702011119010407804009627019914154075469504, 5409403574623460125388445051564230661713621798149808610078116338120665713777⟩ 1533761718513720083764287640434340204561395822861791424029817130864233938944 =
      Point.mulLoopF G 27 ⟨51336160558839349837474591732330749102866037350371194898205755851778803002782, 76342430522743943193407615919970424164765339537756667050307509898681857771746⟩ 3067523437027440167528575280868680409122791645723582848059634261728467877888 :=
    mulLoopF_step 27 ⟨5804709883914192370778410396889141702011119010407804009627019914154075469504, 5409403574623460125388445051564230661713621798149808610078116338120665713777⟩ ⟨51336160558839349837474591732330749102866037350371194898205755851778803002782, 76342430522743943193407615919970424164765339537756667050307509898681857771746⟩ 1533761718513720083764287640434340204561395822861791424029817130864233938944 3067523437027440167528575280868680409122791645723582848059634261728467877888
      (by
      rw [(by decide : Nat.testBit 1533761718513720083764287640434340204561395822861791424029817130864233938944 255 = false), if_neg Bool.false_ne_true]
      exact d229)
      (by decide)
  have d230 : Point.addFast ⟨51336160558839349837474591732330749102866037350371194898205755851778803002782, 76342430522743943193407615919970424164765339537756667050307509898681857771746⟩ ⟨51336160558839349837474591732330749102866037350371194898205755851778803002782, 76342430522743943193407615919970424164765339537756667050307509898681857771746⟩ = ⟨54175458185633904999638639945804265990409207070103192887854426491777346816427, 62410503854165716423110605270756927205721079515593939261908493722995697816209⟩ :=
    (addFast_dbl ⟨51336160558839349837474591732330749102866037350371194898205755851778803002782, 76342430522743943193407615919970424164765339537756667050307509898681857771746⟩
      16785064922834900530426312369172186814351186755992231561574701124756634791579
      (by decide) (by decide) (by decide) (by decide)).trans (by decide)
  have t230 : Point.mulLoopF G 27 ⟨51336160558839349837474591732330749102866037350371194898205755851778803002782, 76342430522743943193407615919970424164765339537756667050307509898681857771746⟩ 3067523437027440167528575280868680409122791645723582848059634261728467877888 =
      Point.mulLoopF G 26 ⟨54175458185633904999638639945804265990409207070103192887854426491777346816427, 62410503854165716423110605270756927205721079515593939261908493722995697816209⟩ 6135046874054880335057150561737360818245583291447165696119268523456935755776 :=
    mulLoopF_step 26 ⟨51336160558839349837474591732330749102866037350371194898205755851778803002782, 76342430522743943193407615919970424164765339537756667050307509898681857771746⟩ ⟨54175458185633904999638639945804265990409207070103192887854426491777346816427, 62410503854165716423110605270756927205721079515593939261908493722995697816209⟩ 3067523437027440167528575280868680409122791645723582848059634261728467877888 6135046874054880335057150561737360818245583291447165696119268523456935755776
      (by
      rw [(by decide : Nat.testBit 3067523437027440167528575280868680409122791645723582848059634261728467877888 255 = false), if_neg Bool.false_ne_true]
      exact d230)
      (by decide)
  have d231 : Point.addFast ⟨54175458185633904999638639945804265990409207070103192887854426491777346816427, 62410503854165716423110605270756927205721079515593939261908493722995697816209⟩ ⟨54175458185633904999638639945804265990409207070103192887854426491777346816427, 62410503854165716423110605270756927205721079515593939261908493722995697816209⟩ = ⟨39877150169646613301122484586511764534950211157666558605306807245277997682101, 36712547501092396196800138788043006279947354785246403736577098656409710870527⟩ :=
    (addFast_dbl ⟨54175458185633904999638639945804265990409207070103192887854426491777346816427, 62410503854165716423110605270756927205721079515593939261908493722995697816209⟩
      43004030865392800491087520611120256037861034896444647789863967901811346968759
      (by decide) (by decide) (by decide) (by decide)).trans (by decide)
  have t231 : Point.mulLoopF G 26 ⟨54175458185633904999638639945804265990409207070103192887854426491777346816427, 62410503854165716423110605270756927205721079515593939261908493722995697816209⟩ 6135046874054880335057150561737360818245583291447165696119268523456935755776 =
      Point.mulLoopF G 25 ⟨39877150169646613301122484586511764534950211157666558605306807245277997682101, 36712547501092396196800138788043006279947354785246403736577098656409710870527⟩ 12270093748109760670114301123474721636491166582894331392238537046913871511552 :=
    mulLoopF_step 25 ⟨54175458185633904999638639945804265990409207070103192887854426491777346816427, 62410503854165716423110605270756927205721079515593939261908493722995697816209⟩ ⟨39877150169646613301122484586511764534950211157666558605306807245277997682101, 36712547501092396196800138788043006279947354785246403736577098656409710870527⟩ 6135046874054880335057150561737360818245583291447165696119268523456935755776 12270093748109760670114301123474721636491166582894331392238537046913871511552
      (by
      rw [(by decide : Nat.testBit 6135046874054880335057150561737360818245583291447165696119268523456935755776 255 = false), if_neg Bool.false_ne_true]
      exact d231)
      (by decide)
  have d232 : Point.addFast ⟨39877150169646613301122484586511764534950211157666558605306807245277997682101, 36712547501092396196800138788043006279947354785246403736577098656409710870527⟩ ⟨39877150169646613301122484586511764534950211157666558605306807245277997682101, 36712547501092396196800138788043006279947354785246403736577098656409710870527⟩ = ⟨7893201664640008920806582252367587035964015976935389231079284945791945067475, 4095719920293782198332212114043502749486248048593439897750911835779110736224⟩ :=
    (addFast_dbl ⟨39877150169646613301122484586511764534950211157666558605306807245277997682101, 36712547501092396196800138788043006279947354785246403736577098656409710870527⟩
      91519951224512300329987842181884707245613148114220856195142214193316589449105
      (by decide) (by decide) (by decide) (by decide)).trans (by decide)
  have t232 : Point.mulLoopF G 25 ⟨39877150169646613301122484586511764534950211157666558605306807245277997682101, 36712547501092396196800138788043006279947354785246403736577098656409710870527⟩ 12270093748109760670114301123474721636491166582894331392238537046913871511552 =
      Point.mulLoopF G 24 ⟨7893201664640008920806582252367587035964015976935389231079284945791945067475, 4095719920293782198332212114043502749486248048593439897750911835779110736224⟩ 24540187496219521340228602246949443272982333165788662784477074093827743023104 :=
    mulLoopF_step 24 ⟨39877150169646613301122484586511764534950211157666558605306807245277997682101, 36712547501092396196800138788043006279947354785246403736577098656409710870527⟩ ⟨7893201664640008920806582252367587035964015976935389231079284945791945067475, 4095719920293782198332212114043502749486248048593439897750911835779110736224⟩ 12270093748109760670114301123474721636491166582894331392238537046913871511552 24540187496219521340228602246949443272982333165788662784477074093827743023104
      (by
      rw [(by decide : Nat.testBit 12270093748109760670114301123474721636491166582894331392238537046913871511552 255 = false), if_neg Bool.false_ne_true]
      exact d232)
      (by decide)
  have d233 : Point.addFast ⟨7893201664640008920806582252367587035964015976935389231079284945791945067475, 4095719920293782198332212114043502749486248048593439897750911835779110736224⟩ ⟨7893201664640008920806582252367587035964015976935389231079284945791945067475, 4095719920293782198332212114043502749486248048593439897750911835779110736224⟩ = ⟨27295057852023188178352509698839114322816164634544383227010367796461654093338, 108811885871862978406669613319217401722595954727904476679075581034284041707329⟩ :=
    (addFast_dbl ⟨7893201664640008920806582252367587035964015976935389231079284945791945067475, 4095719920293782198332212114043502749486248048593439897750911835779110736224⟩
      69495459205244811209926123159178457533731451512026048322302348717905967918709
      (by decide) (by decide) (by decide) (by decide)).trans (by decide)
  have t233 : Point.mulLoopF G 24 ⟨7893201664640008920806582252367587035964015976935389231079284945791945067475, 4095719920293782198332212114043502749486248048593439897750911835779110736224⟩ 24540187496219521340228602246949443272982333165788662784477074093827743023104 =
      Point.mulLoopF G 23 ⟨27295057852023188178352509698839114322816164634544383227010367796461654093338, 108811885871862978406669613319217401722595954727904476679075581034284041707329⟩ 49080374992439042680457204493898886545964666331577325568954148187655486046208 :=
    mulLoopF_step 23 ⟨7893201664640008920806582252367587035964015976935389231079284945791945067475, 4095719920293782198332212114043502749486248048593439897750911835779110736224⟩ ⟨27295057852023188178352509698839114322816164634544383227010367796461654093338, 108811885871862978406669613319217401722595954727904476679075581034284041707329⟩ 24540187496219521340228602246949443272982333165788662784477074093827743023104 49080374992439042680457204493898886545964666331577325568954148187655486046208
      (by
      rw [(by decide : Nat.testBit 24540187496219521340228602246949443272982333165788662784477074093827743023104 255 = false), if_neg Bool.false_ne_true]
      exact d233)
      (by decide)
  have d234 : Point.addFast ⟨27295057852023188178352509698839114322816164634544383227010367796461654093338, 108811885871862978406669613319217401722595954727904476679075581034284041707329⟩ ⟨27295057852023188178352509698839114322816164634544383227010367796461654093338, 108811885871862978406669613319217401722595954727904476679075581034284041707329⟩ = ⟨64295065559459868511055323816026745869108175724754320247996764619262287771215, 53113262924638100309927716640535683417350527070043493541428128824336825906626⟩ :=
    (addFast_dbl ⟨27295057852023188178352509698839114322816164634544383227010367796461654093338, 108811885871862978406669613319217401722595954727904476679075581034284041707329⟩
      88609127148678360276298185170087818176910121066853157055584522873472445047644
      (by decide) (by decide) (by decide) (by decide)).trans (by decide)
  have t234 : Point.mulLoopF G 23 ⟨27295057852023188178352509698839114322816164634544383227010367796461654093338, 108811885871862978406669613319217401722595954727904476679075581034284041707329⟩ 49080374992439042680457204493898886545964666331577325568954148187655486046208 =
      Point.mulLoopF G 22 ⟨64295065559459868511055323816026745869108175724754320247996764619262287771215, 53113262924638100309927716640535683417350527070043493541428128824336825906626⟩ 98160749984878085360914408987797773091929332663154651137908296375310972092416 :=
    mulLoopF_step 22 ⟨27295057852023188178352509698839114322816164634544383227010367796461654093338, 108811885871862978406669613319217401722595954727904476679075581034284041707329⟩ ⟨64295065559459868511055323816026745869108175724754320247996764619262287771215, 53113262924638100309927716640535683417350527070043493541428128824336825906626⟩ 49080374992439042680457204493898886545964666331577325568954148187655486046208 98160749984878085360914408987797773091929332663154651137908296375310972092416
      (by
      rw [(by decide : Nat.testBit 49080374992439042680457204493898886545964666331577325568954148187655486046208 255 = false), if_neg Bool.false_ne_true]
      exact d234)
      (by decide)
  have d235 : Point.addFast ⟨64295065559459868511055323816026745869108175724754320247996764619262287771215, 53113262924638100309927716640535683417350527070043493541428128824336825906626⟩ ⟨64295065559459868511055323816026745869108175724754320247996764619262287771215, 53113262924638100309927716640535683417350527070043493541428128824336825906626⟩ = ⟨111726416561113566907889784550974779345686051991019232633724893156168499774187, 115653438913195307237484473110883901650960178010984293778674319858612096892537⟩ :=
    (addFast_dbl ⟨64295065559459868511055323816026745869108175724754320247996764619262287771215, 53113262924638100309927716640535683417350527070043493541428128824336825906626⟩
      108267447211914096607932271018767557685064354616655950869491354138524165798002
      (by decide) (by decide) (by decide) (by decide)).trans (by decide)
  have e235 : Point.addFast ⟨111726416561113566907889784550974779345686051991019232633724893156168499774187, 115653438913195307237484473110883901650960178010984293778674319858612096892537⟩ G = ⟨15862838356950539754383087983557406982604668697913126974635649627236514952699, 15691285949066730367392885378710572182910814541058793317746651950549109278464⟩ :=
    (addFast_distinct ⟨111726416561113566907889784550974779345686051991019232633724893156168499774187, 115653438913195307237484473110883901650960178010984293778674319858612096892537⟩ G
      73962202764085648463715991548533332114907040117810004883106422905929863100412
      (by decide) (by decide) (by decide) (by decide)
      (by decide) (by decide)).trans (by decide)
  have t235 : Point.mulLoopF G 22 ⟨64295065559459868511055323816026745869108175724754320247996764619262287771215, 53113262924638100309927716640535683417350527070043493541428128824336825906626⟩ 98160749984878085360914408987797773091929332663154651137908296375310972092416 =
      Point.mulLoopF G 21 ⟨15862838356950539754383087983557406982604668697913126974635649627236514952699, 15691285949066730367392885378710572182910814541058793317746651950549109278464⟩ 80529410732439975298257832966907638330588680660668738236359008742708814544896 :=
    mulLoopF_step 21 ⟨64295065559459868511055323816026745869108175724754320247996764619262287771215, 53113262924638100309927716640535683417350527070043493541428128824336825906626⟩ ⟨15862838356950539754383087983557406982604668697913126974635649627236514952699, 15691285949066730367392885378710572182910814541058793317746651950549109278464⟩ 98160749984878085360914408987797773091929332663154651137908296375310972092416 80529410732439975298257832966907638330588680660668738236359008742708814544896
      (by
      rw [(by decide : Nat.testBit 98160749984878085360914408987797773091929332663154651137908296375310972092416 255 = true), if_pos rfl, d235]
      exact e235)
      (by decide)
  have d236 : Point.addFast ⟨15862838356950539754383087983557406982604668697913126974635649627236514952699, 15691285949066730367392885378710572182910814541058793317746651950549109278464⟩ ⟨15862838356950539754383087983557406982604668697913126974635649627236514952699, 15691285949066730367392885378710572182910814541058793317746651950549109278464⟩ = ⟨110904189467635711112812007672148107326239248831735147157863997220118030663524, 31635766649653011188951587435435293852854655389095272309500577378987397960176⟩ :=
    (addFast_dbl ⟨15862838356950539754383087983557406982604668697913126974635649627236514952699, 15691285949066730367392885378710572182910814541058793317746651950549109278464⟩
      25022959542126850699449361148578902949720330699346624861159261120105984503657
      (by decide) (by decide) (by decide) (by decide)).trans (by decide)
  have e236 : Point.addFast ⟨110904189467635711112812007672148107326239248831735147157863997220118030663524, 31635766649653011188951587435435293852854655389095272309500577378987397960176⟩ G = ⟨20878860472193544838611047466727475479302360019537929857912410209536306429400, 113399120394279196440398736963830384214771855864306564226164315989700079204885⟩ :=
    (addFast_distinct ⟨110904189467635711112812007672148107326239248831735147157863997220118030663524, 31635766649653011188951587435435293852854655389095272309500577378987397960176⟩ G
      34944456751295807981812203663344615116123777253277109279839849473321689865972
      (by decide) (by decide) (by decide) (by decide)
      (by decide) (by decide)).trans (by decide)
  have t236 : Point.mulLoopF G 21 ⟨15862838356950539754383087983557406982604668697913126974635649627236514952699, 15691285949066730367392885378710572182910814541058793317746651950549109278464⟩ 80529410732439975298257832966907638330588680660668738236359008742708814544896 =
      Point.mulLoopF G 20 ⟨20878860472193544838611047466727475479302360019537929857912410209536306429400, 113399120394279196440398736963830384214771855864306564226164315989700079204885⟩ 45266732227563755172944680925127368807907376655696912433260433477504499449856 :=
    mulLoopF_step 20 ⟨15862838356950539754383087983557406982604668697913126974635649627236514952699, 15691285949066730367392885378710572182910814541058793317746651950549109278464⟩ ⟨20878860472193544838611047466727475479302360019537929857912410209536306429400, 113399120394279196440398736963830384214771855864306564226164315989700079204885⟩ 80529410732439975298257832966907638330588680660668738236359008742708814544896 45266732227563755172944680925127368807907376655696912433260433477504499449856
      (by
      rw [(by decide : Nat.testBit 80529410732439975298257832966907638330588680660668738236359008742708814544896 255 = true), if_pos rfl, d236]
      exact e236)
      (by decide)
  have d237 : Point.addFast ⟨20878860472193544838611047466727475479302360019537929857912410209536306429400, 113399120394279196440398736963830384214771855864306564226164315989700079204885⟩ ⟨20878860472193544838611047466727475479302360019537929857912410209536306429400, 113399120394279196440398736963830384214771855864306564226164315989700079204885⟩ = ⟨101277527878409677057824313770305853359458296217563959277667182086037892796448, 83217589894951384687370727650723579095723126082181991345223172637376229330379⟩ :=
    (addFast_dbl ⟨20878860472193544838611047466727475479302360019537929857912410209536306429400, 113399120394279196440398736963830384214771855864306564226164315989700079204885⟩
      62204437297208309036983414698472653153489785433602915231382339958979052996720
      (by decide) (by decide) (by decide) (by decide)).trans (by decide)
  have t237 : Point.mulLoopF G 20 ⟨20878860472193544838611047466727475479302360019537929857912410209536306429400, 113399120394279196440398736963830384214771855864306564226164315989700079204885⟩ 45266732227563755172944680925127368807907376655696912433260433477504499449856 =
      Point.mulLoopF G 19 ⟨101277527878409677057824313770305853359458296217563959277667182086037892796448, 83217589894951384687370727650723579095723126082181991345223172637376229330379⟩ 90533464455127510345889361850254737615814753311393824866520866955008998899712 :=
    mulLoopF_step 19 ⟨20878860472193544838611047466727475479302360019537929857912410209536306429400, 113399120394279196440398736963830384214771855864306564226164315989700079204885⟩ ⟨101277527878409677057824313770305853359458296217563959277667182086037892796448, 83217589894951384687370727650723579095723126082181991345223172637376229330379⟩ 45266732227563755172944680925127368807907376655696912433260433477504499449856 90533464455127510345889361850254737615814753311393824866520866955008998899712
      (by
      rw [(by decide : Nat.testBit 45266732227563755172944680925127368807907376655696912433260433477504499449856 255 = false), if_neg Bool.false_ne_true]
      exact d237)
      (by decide)
  have d238 : Point.addFast ⟨101277527878409677057824313770305853359458296217563959277667182086037892796448, 83217589894951384687370727650723579095723126082181991345223172637376229330379⟩ ⟨101277527878409677057824313770305853359458296217563959277667182086037892796448, 83217589894951384687370727650723579095723126082181991345223172637376229330379⟩ = ⟨112174927492451968580869332692695083041862446811380525680309896979690694310265, 87767468075371741843026707478972014045819800403139752996708973962530916543472⟩ :=
    (addFast_dbl ⟨101277527878409677057824313770305853359458296217563959277667182086037892796448, 83217589894951384687370727650723579095723126082181991345223172637376229330379⟩
      109331039294387930661299700243142289567183547415318426766319249097641943216224
      (by decide) (by decide) (by decide) (by decide)).trans (by decide)
  have e238 : Point.addFast ⟨112174927492451968580869332692695083041862446811380525680309896979690694310265, 87767468075371741843026707478972014045819800403139752996708973962530916543472⟩ G = ⟨50128597015436506323880135878500753532367204250916475169201672060516291379040, 94859944951475537710461582738248592378688122334492404803773899157744857409433⟩ :=
    (addFast_distinct ⟨112174927492451968580869332692695083041862446811380525680309896979690694310265, 87767468075371741843026707478972014045819800403139752996708973962530916543472⟩ G
      51480961070160481729693591533311949276801424413290709162880822025056317846733
      (by decide) (by decide) (by decide) (by decide)
      (by decide) (by decide)).trans (by decide)
  have t238 : Point.mulLoopF G 19 ⟨101277527878409677057824313770305853359458296217563959277667182086037892796448, 83217589894951384687370727650723579095723126082181991345223172637376229330379⟩ 90533464455127510345889361850254737615814753311393824866520866955008998899712 =
      Point.mulLoopF G 18 ⟨50128597015436506323880135878500753532367204250916475169201672060516291379040, 94859944951475537710461582738248592378688122334492404803773899157744857409433⟩ 65274839672938825268207738691821567378359521957147085693584149902104868159488 :=
    mulLoopF_step 18 ⟨101277527878409677057824313770305853359458296217563959277667182086037892796448, 83217589894951384687370727650723579095723126082181991345223172637376229330379⟩ ⟨50128597015436506323880135878500753532367204250916475169201672060516291379040, 94859944951475537710461582738248592378688122334492404803773899157744857409433⟩ 90533464455127510345889361850254737615814753311393824866520866955008998899712 65274839672938825268207738691821567378359521957147085693584149902104868159488
      (by
      rw [(by decide : Nat.testBit 90533464455127510345889361850254737615814753311393824866520866955008998899712 255 = true), if_pos rfl, d238]
      exact e238)
      (by decide)
  have d239 : Point.addFast ⟨50128597015436506323880135878500753532367204250916475169201672060516291379040, 94859944951475537710461582738248592378688122334492404803773899157744857409433⟩ ⟨50128597015436506323880135878500753532367204250916475169201672060516291379040, 94859944951475537710461582738248592378688122334492404803773899157744857409433⟩ = ⟨108248465668173008801517088653610273659406123462774231766797663797033183151792, 49572135844739421763014527736660958539396321316208383948982098039368686001653⟩ :=
    (addFast_dbl ⟨50128597015436506323880135878500753532367204250916475169201672060516291379040, 94859944951475537710461582738248592378688122334492404803773899157744857409433⟩
      107992695566924455109417806522081696427488164648763532146308523169474852692719
      (by decide) (by decide) (by decide) (by decide)).trans (by decide)
  have e239 : Point.addFast ⟨108248465668173008801517088653610273659406123462774231766797663797033183151792, 49572135844739421763014527736660958539396321316208383948982098039368686001653⟩ G = ⟨97861445442402600255152598988235049945166663649835115007956029179272160852555, 99738524973994974040884625665421839024079072915878351179940356792358859281648⟩ :=
    (addFast_distinct ⟨108248465668173008801517088653610273659406123462774231766797663797033183151792, 49572135844739421763014527736660958539396321316208383948982098039368686001653⟩ G
      43367646321686623315810262215945299268363632597537818566618932534094001680766
      (by decide) (by decide) (by decide) (by decide)
      (by decide) (by decide)).trans (by decide)
  have t239 : Point.mulLoopF G 18 ⟨50128597015436506323880135878500753532367204250916475169201672060516291379040, 94859944951475537710461582738248592378688122334492404803773899157744857409433⟩ 65274839672938825268207738691821567378359521957147085693584149902104868159488 =
      Point.mulLoopF G 17 ⟨97861445442402600255152598988235049945166663649835115007956029179272160852555, 99738524973994974040884625665421839024079072915878351179940356792358859281648⟩ 14757590108561455112844492374955226903449059248653607347710715796296606679040 :=
    mulLoopF_step 17 ⟨50128597015436506323880135878500753532367204250916475169201672060516291379040, 94859944951475537710461582738248592378688122334492404803773899157744857409433⟩ ⟨97861445442402600255152598988235049945166663649835115007956029179272160852555, 99738524973994974040884625665421839024079072915878351179940356792358859281648⟩ 65274839672938825268207738691821567378359521957147085693584149902104868159488 14757590108561455112844492374955226903449059248653607347710715796296606679040
      (by
      rw [(by decide : Nat.testBit 65274839672938825268207738691821567378359521957147085693584149902104868159488 255 = true), if_pos rfl, d239]
      exact e239)
      (by decide)
  have d240 : Point.addFast ⟨97861445442402600255152598988235049945166663649835115007956029179272160852555, 99738524973994974040884625665421839024079072915878351179940356792358859281648⟩ ⟨97861445442402600255152598988235049945166663649835115007956029179272160852555, 99738524973994974040884625665421839024079072915878351179940356792358859281648⟩ = ⟨59391522668249385334376009645687768472252124611035097846394708269882073284523, 106808109526191560568067197676741812315022724890485712949545067320012236917940⟩ :=
    (addFast_dbl ⟨97861445442402600255152598988235049945166663649835115007956029179272160852555, 99738524973994974040884625665421839024079072915878351179940356792358859281648⟩
      104340949095294509976502450432091473114843425917663369797723328191696452742597
      (by decide) (by decide) (by decide) (by decide)).trans (by decide)
  have t240 : Point.mulLoopF G 17 ⟨97861445442402600255152598988235049945166663649835115007956029179272160852555, 99738524973994974040884625665421839024079072915878351179940356792358859281648⟩ 14757590108561455112844492374955226903449059248653607347710715796296606679040 =
      Point.mulLoopF G 16 ⟨59391522668249385334376009645687768472252124611035097846394708269882073284523, 106808109526191560568067197676741812315022724890485712949545067320012236917940⟩ 29515180217122910225688984749910453806898118497307214695421431592593213358080 :=
    mulLoopF_step 16 ⟨97861445442402600255152598988235049945166663649835115007956029179272160852555, 99738524973994974040884625665421839024079072915878351179940356792358859281648⟩ ⟨59391522668249385334376009645687768472252124611035097846394708269882073284523, 106808109526191560568067197676741812315022724890485712949545067320012236917940⟩ 14757590108561455112844492374955226903449059248653607347710715796296606679040 29515180217122910225688984749910453806898118497307214695421431592593213358080
      (by
      rw [(by decide : Nat.testBit 14757590108561455112844492374955226903449059248653607347710715796296606679040 255 = false), if_neg Bool.false_ne_true]
      exact d240)
      (by decide)
  rw [t225, t226, t227, t228, t229, t230, t231, t232, t233, t234, t235, t236, t237, t238, t239, t240]

set_option maxHeartbeats 1600000 in
/-- Segment 16 of the certified double-and-add trace of the generator
multiplied by the group order: iterations 241 to 256, each point
addition discharged through a precomputed modular-inverse certificate. -/
theorem mulG_seg16 : Point.mulLoopF G 16 ⟨59391522668249385334376009645687768472252124611035097846394708269882073284523, 106808109526191560568067197676741812315022724890485712949545067320012236917940⟩ 29515180217122910225688984749910453806898118497307214695421431592593213358080 =
    Point.mulLoopF G 0 Point.AT_INFINITY 0 := by
  have d241 : Point.addFast ⟨59391522668249385334376009645687768472252124611035097846394708269882073284523, 106808109526191560568067197676741812315022724890485712949545067320012236917940⟩ ⟨59391522668249385334376009645687768472252124611035097846394708269882073284523, 106808109526191560568067197676741812315022724890485712949545067320012236917940⟩ = ⟨69592302969180992467309301503499417124941891865979129402920579834307866878829, 7346024151117804201244492339787858520112294056942496904431909633408897913873⟩ :=
    (addFast_dbl ⟨59391522668249385334376009645687768472252124611035097846394708269882073284523, 106808109526191560568067197676741812315022724890485712949545067320012236917940⟩
      1715919815088368773658330668901462522059724017385153276928775807967290014374
      (by decide) (by decide) (by decide) (by decide)).trans (by decide)
  have t241 : Point.mulLoopF G 16 ⟨59391522668249385334376009645687768472252124611035097846394708269882073284523, 106808109526191560568067197676741812315022724890485712949545067320012236917940⟩ 29515180217122910225688984749910453806898118497307214695421431592593213358080 =
      Point.mulLoopF G 15 ⟨69592302969180992467309301503499417124941891865979129402920579834307866878829, 7346024151117804201244492339787858520112294056942496904431909633408897913873⟩ 59030360434245820451377969499820907613796236994614429390842863185186426716160 :=
    mulLoopF_step 15 ⟨59391522668249385334376009645687768472252124611035097846394708269882073284523, 106808109526191560568067197676741812315022724890485712949545067320012236917940⟩ ⟨69592302969180992467309301503499417124941891865979129402920579834307866878829, 7346024151117804201244492339787858520112294056942496904431909633408897913873⟩ 29515180217122910225688984749910453806898118497307214695421431592593213358080 59030360434245820451377969499820907613796236994614429390842863185186426716160
      (by
      rw [(by decide : Nat.testBit 29515180217122910225688984749910453806898118497307214695421431592593213358080 255 = false), if_neg Bool.false_ne_true]
      exact d241)
      (by decide)
  have d242 : Point.addFast ⟨69592302969180992467309301503499417124941891865979129402920579834307866878829, 7346024151117804201244492339787858520112294056942496904431909633408897913873⟩ ⟨69592302969180992467309301503499417124941891865979129402920579834307866878829, 7346024151117804201244492339787858520112294056942496904431909633408897913873⟩ = ⟨72434307680486767767792012734640794099651267777436528504332807300936581975574, 97017882324638877020480578225007737531487609484691293967258626016947303529563⟩ :=
    (addFast_dbl ⟨69592302969180992467309301503499417124941891865979129402920579834307866878829, 7346024151117804201244492339787858520112294056942496904431909633408897913873⟩
      60595859180051209435309232176881884389234260789004655559033190122023817871574
      (by decide) (by decide) (by decide) (by decide)).trans (by decide)
  have e242 : Point.addFast ⟨72434307680486767767792012734640794099651267777436528504332807300936581975574, 97017882324638877020480578225007737531487609484691293967258626016947303529563⟩ G = ⟨110437429609366795961518081129801158273039555977823262926416896374637742837561, 21680155284479200798883642127554003723069012559830693846805355283483765703013⟩ :=
    (addFast_distinct ⟨72434307680486767767792012734640794099651267777436528504332807300936581975574, 97017882324638877020480578225007737531487609484691293967258626016947303529563⟩ G
      71230311042352823952667147627415957393588556799875927892016710501384978288153
      (by decide) (by decide) (by decide) (by decide)
      (by decide) (by decide)).trans (by decide)
  have t242 : Point.mulLoopF G 15 ⟨69592302969180992467309301503499417124941891865979129402920579834307866878829, 7346024151117804201244492339787858520112294056942496904431909633408897913873⟩ 59030360434245820451377969499820907613796236994614429390842863185186426716160 =
      Point.mulLoopF G 14 ⟨110437429609366795961518081129801158273039555977823262926416896374637742837561, 21680155284479200798883642127554003723069012559830693846805355283483765703013⟩ 2268631631175445479184953990953907374322489323588294742228142362459723792384 :=
    mulLoopF_step 14 ⟨69592302969180992467309301503499417124941891865979129402920579834307866878829, 7346024151117804201244492339787858520112294056942496904431909633408897913873⟩ ⟨110437429609366795961518081129801158273039555977823262926416896374637742837561, 21680155284479200798883642127554003723069012559830693846805355283483765703013⟩ 59030360434245820451377969499820907613796236994614429390842863185186426716160 2268631631175445479184953990953907374322489323588294742228142362459723792384
      (by
      rw [(by decide : Nat.testBit 59030360434245820451377969499820907613796236994614429390842863185186426716160 255 = true), if_pos rfl, d242]
      exact e242)
      (by decide)
  have d243 : Point.addFast ⟨110437429609366795961518081129801158273039555977823262926416896374637742837561, 21680155284479200798883642127554003723069012559830693846805355283483765703013⟩ ⟨110437429609366795961518081129801158273039555977823262926416896374637742837561, 21680155284479200798883642127554003723069012559830693846805355283483765703013⟩ = ⟨78164015944777638834319480217803113921930706290681283395949422776130412801409, 100646258335384375599961401048218805335508087685224651768479683869008353231906⟩ :=
    (addFast_dbl ⟨110437429609366795961518081129801158273039555977823262926416896374637742837561, 21680155284479200798883642127554003723069012559830693846805355283483765703013⟩
      76630983047010188450361094023673164452213555957672512335243057515910628553321
      (by decide) (by decide) (by decide) (by decide)).trans (by decide)
  have t243 : Point.mulLoopF G 14 ⟨110437429609366795961518081129801158273039555977823262926416896374637742837561, 21680155284479200798883642127554003723069012559830693846805355283483765703013⟩ 2268631631175445479184953990953907374322489323588294742228142362459723792384 =
      Point.mulLoopF G 13 ⟨78164015944777638834319480217803113921930706290681283395949422776130412801409, 100646258335384375599961401048218805335508087685224651768479683869008353231906⟩ 4537263262350890958369907981907814748644978647176589484456284724919447584768 :=
    mulLoopF_step 13 ⟨110437429609366795961518081129801158273039555977823262926416896374637742837561, 21680155284479200798883642127554003723069012559830693846805355283483765703013⟩ ⟨78164015944777638834319480217803113921930706290681283395949422776130412801409, 100646258335384375599961401048218805335508087685224651768479683869008353231906⟩ 2268631631175445479184953990953907374322489323588294742228142362459723792384 4537263262350890958369907981907814748644978647176589484456284724919447584768
      (by
      rw [(by decide : Nat.testBit 2268631631175445479184953990953907374322489323588294742228142362459723792384 255 = false), if_neg Bool.false_ne_true]
      exact d243)
      (by decide)
  have d244 : Point.addFast ⟨78164015944777638834319480217803113921930706290681283395949422776130412801409, 100646258335384375599961401048218805335508087685224651768479683869008353231906⟩ ⟨78164015944777638834319480217803113921930706290681283395949422776130412801409, 100646258335384375599961401048218805335508087685224651768479683869008353231906⟩ = ⟨62929253125932293305085909287512759984784465343241193424108029486358722109703, 113138709165993985620879376686854616346655120401997980567310892873133012587886⟩ :=
    (addFast_dbl ⟨78164015944777638834319480217803113921930706290681283395949422776130412801409, 100646258335384375599961401048218805335508087685224651768479683869008353231906⟩
      100773281796354053395011504784139108875150034679736963941587420812388139110152
      (by decide) (by decide) (by decide) (by decide)).trans (by decide)
  have t244 : Point.mulLoopF G 13 ⟨78164015944777638834319480217803113921930706290681283395949422776130412801409, 100646258335384375599961401048218805335508087685224651768479683869008353231906⟩ 4537263262350890958369907981907814748644978647176589484456284724919447584768 =
      Point.mulLoopF G 12 ⟨62929253125932293305085909287512759984784465343241193424108029486358722109703, 113138709165993985620879376686854616346655120401997980567310892873133012587886⟩ 9074526524701781916739815963815629497289957294353178968912569449838895169536 :=
    mulLoopF_step 12 ⟨78164015944777638834319480217803113921930706290681283395949422776130412801409, 100646258335384375599961401048218805335508087685224651768479683869008353231906⟩ ⟨62929253125932293305085909287512759984784465343241193424108029486358722109703, 113138709165993985620879376686854616346655120401997980567310892873133012587886⟩ 4537263262350890958369907981907814748644978647176589484456284724919447584768 9074526524701781916739815963815629497289957294353178968912569449838895169536
      (by
      rw [(by decide : Nat.testBit 4537263262350890958369907981907814748644978647176589484456284724919447584768 255 = false), if_neg Bool.false_ne_true]
      exact d244)
      (by decide)
  have d245 : Point.addFast ⟨62929253125932293305085909287512759984784465343241193424108029486358722109703, 113138709165993985620879376686854616346655120401997980567310892873133012587886⟩ ⟨62929253125932293305085909287512759984784465343241193424108029486358722109703, 113138709165993985620879376686854616346655120401997980567310892873133012587886⟩ = ⟨106050432517862033003794768725841664363695084372341318911307834580777045500123, 66258697076292479776060001748874600124648630795185355893209870676642176466885⟩ :=
    (addFast_dbl ⟨62929253125932293305085909287512759984784465343241193424108029486358722109703, 113138709165993985620879376686854616346655120401997980567310892873133012587886⟩
      86699023382375421493321175338023785020409244592718641276909999556541685903488
      (by decide) (by decide) (by decide) (by decide)).trans (by decide)
  have t245 : Point.mulLoopF G 12 ⟨62929253125932293305085909287512759984784465343241193424108029486358722109703, 113138709165993985620879376686854616346655120401997980567310892873133012587886⟩ 9074526524701781916739815963815629497289957294353178968912569449838895169536 =
      Point.mulLoopF G 11 ⟨106050432517862033003794768725841664363695084372341318911307834580777045500123, 66258697076292479776060001748874600124648630795185355893209870676642176466885⟩ 18149053049403563833479631927631258994579914588706357937825138899677790339072 :=
    mulLoopF_step 11 ⟨62929253125932293305085909287512759984784465343241193424108029486358722109703, 113138709165993985620879376686854616346655120401997980567310892873133012587886⟩ ⟨106050432517862033003794768725841664363695084372341318911307834580777045500123, 66258697076292479776060001748874600124648630795185355893209870676642176466885⟩ 9074526524701781916739815963815629497289957294353178968912569449838895169536 18149053049403563833479631927631258994579914588706357937825138899677790339072
      (by
      rw [(by decide : Nat.testBit 9074526524701781916739815963815629497289957294353178968912569449838895169536 255 = false), if_neg Bool.false_ne_true]
      exact d245)
      (by decide)
  have d246 : Point.addFast ⟨106050432517862033003794768725841664363695084372341318911307834580777045500123, 66258697076292479776060001748874600124648630795185355893209870676642176466885⟩ ⟨106050432517862033003794768725841664363695084372341318911307834580777045500123, 66258697076292479776060001748874600124648630795185355893209870676642176466885⟩ = ⟨7931288658701477188283378979983525071752828752346416149058424678847513344700, 79766372818313010591503121991231911001120448853481094787913620798194151397431⟩ :=
    (addFast_dbl ⟨106050432517862033003794768725841664363695084372341318911307834580777045500123, 66258697076292479776060001748874600124648630795185355893209870676642176466885⟩
      104181865035681344078604613622182217593385848402722301900181952223379851801685
      (by decide) (by decide) (by decide) (by decide)).trans (by decide)
  have t246 : Point.mulLoopF G 11 ⟨106050432517862033003794768725841664363695084372341318911307834580777045500123, 66258697076292479776060001748874600124648630795185355893209870676642176466885⟩ 18149053049403563833479631927631258994579914588706357937825138899677790339072 =
      Point.mulLoopF G 10 ⟨7931288658701477188283378979983525071752828752346416149058424678847513344700, 79766372818313010591503121991231911001120448853481094787913620798194151397431⟩ 36298106098807127666959263855262517989159829177412715875650277799355580678144 :=
    mulLoopF_step 10 ⟨106050432517862033003794768725841664363695084372341318911307834580777045500123, 66258697076292479776060001748874600124648630795185355893209870676642176466885⟩ ⟨7931288658701477188283378979983525071752828752346416149058424678847513344700, 79766372818313010591503121991231911001120448853481094787913620798194151397431⟩ 18149053049403563833479631927631258994579914588706357937825138899677790339072 36298106098807127666959263855262517989159829177412715875650277799355580678144
      (by
      rw [(by decide : Nat.testBit 18149053049403563833479631927631258994579914588706357937825138899677790339072 255 = false), if_neg Bool.false_ne_true]
      exact d246)
      (by decide)
  have d247 : Point.addFast ⟨7931288658701477188283378979983525071752828752346416149058424678847513344700, 79766372818313010591503121991231911001120448853481094787913620798194151397431⟩ ⟨7931288658701477188283378979983525071752828752346416149058424678847513344700, 79766372818313010591503121991231911001120448853481094787913620798194151397431⟩ = ⟨41976352824336635170107746163247862151514970729533299982255786806596259049947, 70175066530458261036795851946447968061844485680990427881219454413308894032432⟩ :=
    (addFast_dbl ⟨7931288658701477188283378979983525071752828752346416149058424678847513344700, 79766372818313010591503121991231911001120448853481094787913620798194151397431⟩
      29824503302080764975532608534307122808219339492246921800226558361414228039096
      (by decide) (by decide) (by decide) (by decide)).trans (by decide)
  have t247 : Point.mulLoopF G 10 ⟨7931288658701477188283378979983525071752828752346416149058424678847513344700, 79766372818313010591503121991231911001120448853481094787913620798194151397431⟩ 36298106098807127666959263855262517989159829177412715875650277799355580678144 =
      Point.mulLoopF G 9 ⟨41976352824336635170107746163247862151514970729533299982255786806596259049947, 70175066530458261036795851946447968061844485680990427881219454413308894032432⟩ 72596212197614255333918527710525035978319658354825431751300555598711161356288 :=
    mulLoopF_step 9 ⟨7931288658701477188283378979983525071752828752346416149058424678847513344700, 79766372818313010591503121991231911001120448853481094787913620798194151397431⟩ ⟨41976352824336635170107746163247862151514970729533299982255786806596259049947, 70175066530458261036795851946447968061844485680990427881219454413308894032432⟩ 36298106098807127666959263855262517989159829177412715875650277799355580678144 72596212197614255333918527710525035978319658354825431751300555598711161356288
      (by
      rw [(by decide : Nat.testBit 36298106098807127666959263855262517989159829177412715875650277799355580678144 255 = false), if_neg Bool.false_ne_true]
      exact d247)
      (by decide)
  have d248 : Point.addFast ⟨41976352824336635170107746163247862151514970729533299982255786806596259049947, 70175066530458261036795851946447968061844485680990427881219454413308894032432⟩ ⟨41976352824336635170107746163247862151514970729533299982255786806596259049947, 70175066530458261036795851946447968061844485680990427881219454413308894032432⟩ = ⟨83499942608586934155156092862186738963163073904586076596382520955370118547031, 57955880679448588302626290836743106365690454253496451864107256830844327622381⟩ :=
    (addFast_dbl ⟨41976352824336635170107746163247862151514970729533299982255786806596259049947, 70175066530458261036795851946447968061844485680990427881219454413308894032432⟩
      17042345211246893401460614623019220034096183500482642469547923802723360717554
      (by decide) (by decide) (by decide) (by decide)).trans (by decide)
  have e248 : Point.addFast ⟨83499942608586934155156092862186738963163073904586076596382520955370118547031, 57955880679448588302626290836743106365690454253496451864107256830844327622381⟩ G = ⟨52942308695625731948425767743651775434415211775777857896939345663136915289715, 11303820511970585737970021402097521800506845197213002405890782779840324778246⟩ :=
    (addFast_distinct ⟨83499942608586934155156092862186738963163073904586076596382520955370118547031, 57955880679448588302626290836743106365690454253496451864107256830844327622381⟩ G
      111640572948997205946901770058917814612504502490538748762685658933609696620526
      (by decide) (by decide) (by decide) (by decide)
      (by decide) (by decide)).trans (by decide)
  have t248 : Point.mulLoopF G 9 ⟨41976352824336635170107746163247862151514970729533299982255786806596259049947, 70175066530458261036795851946447968061844485680990427881219454413308894032432⟩ 72596212197614255333918527710525035978319658354825431751300555598711161356288 =
      Point.mulLoopF G 8 ⟨52942308695625731948425767743651775434415211775777857896939345663136915289715, 11303820511970585737970021402097521800506845197213002405890782779840324778246⟩ 29400335157912315244266070412362164103369332044010299463143527189509193072640 :=
    mulLoopF_step 8 ⟨41976352824336635170107746163247862151514970729533299982255786806596259049947, 70175066530458261036795851946447968061844485680990427881219454413308894032432⟩ ⟨52942308695625731948425767743651775434415211775777857896939345663136915289715, 11303820511970585737970021402097521800506845197213002405890782779840324778246⟩ 72596212197614255333918527710525035978319658354825431751300555598711161356288 29400335157912315244266070412362164103369332044010299463143527189509193072640
      (by
      rw [(by decide : Nat.testBit 72596212197614255333918527710525035978319658354825431751300555598711161356288 255 = true), if_pos rfl, d248]
      exact e248)
      (by decide)
  have d249 : Point.addFast ⟨52942308695625731948425767743651775434415211775777857896939345663136915289715, 11303820511970585737970021402097521800506845197213002405890782779840324778246⟩ ⟨52942308695625731948425767743651775434415211775777857896939345663136915289715, 11303820511970585737970021402097521800506845197213002405890782779840324778246⟩ = ⟨80930162898664460249121342976928052968631685754930205986049359771563933952200, 34978851231021614280594004669584477897419854475056008251063172587519422285112⟩ :=
    (addFast_dbl ⟨52942308695625731948425767743651775434415211775777857896939345663136915289715, 11303820511970585737970021402097521800506845197213002405890782779840324778246⟩
      20629099818904879853894873353406332569404105383788065174322980423360717261848
      (by decide) (by decide) (by decide) (by decide)).trans (by decide)
  have t249 : Point.mulLoopF G 8 ⟨52942308695625731948425767743651775434415211775777857896939345663136915289715, 11303820511970585737970021402097521800506845197213002405890782779840324778246⟩ 29400335157912315244266070412362164103369332044010299463143527189509193072640 =
      Point.mulLoopF G 7 ⟨80930162898664460249121342976928052968631685754930205986049359771563933952200, 34978851231021614280594004669584477897419854475056008251063172587519422285112⟩ 58800670315824630488532140824724328206738664088020598926287054379018386145280 :=
    mulLoopF_step 7 ⟨52942308695625731948425767743651775434415211775777857896939345663136915289715, 11303820511970585737970021402097521800506845197213002405890782779840324778246⟩ ⟨80930162898664460249121342976928052968631685754930205986049359771563933952200, 34978851231021614280594004669584477897419854475056008251063172587519422285112⟩ 29400335157912315244266070412362164103369332044010299463143527189509193072640 58800670315824630488532140824724328206738664088020598926287054379018386145280
      (by
      rw [(by decide : Nat.testBit 29400335157912315244266070412362164103369332044010299463143527189509193072640 255 = false), if_neg Bool.false_ne_true]
      exact d249)
      (by decide)
  have d250 : Point.addFast ⟨80930162898664460249121342976928052968631685754930205986049359771563933952200, 34978851231021614280594004669584477897419854475056008251063172587519422285112⟩ ⟨80930162898664460249121342976928052968631685754930205986049359771563933952200, 34978851231021614280594004669584477897419854475056008251063172587519422285112⟩ = ⟨51803211423479368560521169388533234909293634243098000720575250092487057112204, 31802339389234022653284756754865684598953551373449810462371665858880939389416⟩ :=
    (addFast_dbl ⟨80930162898664460249121342976928052968631685754930205986049359771563933952200, 34978851231021614280594004669584477897419854475056008251063172587519422285112⟩
      46658777066060398334242633642083193031865024656599532853875543484321961990377
      (by decide) (by decide) (by decide) (by decide)).trans (by decide)
  have e250 : Point.addFast ⟨51803211423479368560521169388533234909293634243098000720575250092487057112204, 31802339389234022653284756754865684598953551373449810462371665858880939389416⟩ G = ⟨110797270718717713930106986467755591525380337883468629733153285312838244170195, 56216216227778204017389609900189580717931561557241616302043254022237862807340⟩ :=
    (addFast_distinct ⟨51803211423479368560521169388533234909293634243098000720575250092487057112204, 31802339389234022653284756754865684598953551373449810462371665858880939389416⟩ G
      49969692228279855438808098029078355154548372451528806545241935485841283510049
      (by decide) (by decide) (by decide) (by decide)
      (by decide) (by decide)).trans (by decide)
  have t250 : Point.mulLoopF G 7 ⟨80930162898664460249121342976928052968631685754930205986049359771563933952200, 34978851231021614280594004669584477897419854475056008251063172587519422285112⟩ 58800670315824630488532140824724328206738664088020598926287054379018386145280 =
      Point.mulLoopF G 6 ⟨110797270718717713930106986467755591525380337883468629733153285312838244170195, 56216216227778204017389609900189580717931561557241616302043254022237862807340⟩ 1809251394333065553493296640760748560207343510400633813116524750123642650624 :=
    mulLoopF_step 6 ⟨80930162898664460249121342976928052968631685754930205986049359771563933952200, 34978851231021614280594004669584477897419854475056008251063172587519422285112⟩ ⟨110797270718717713930106986467755591525380337883468629733153285312838244170195, 56216216227778204017389609900189580717931561557241616302043254022237862807340⟩ 58800670315824630488532140824724328206738664088020598926287054379018386145280 1809251394333065553493296640760748560207343510400633813116524750123642650624
      (by
      rw [(by decide : Nat.testBit 58800670315824630488532140824724328206738664088020598926287054379018386145280 255 = true), if_pos rfl, d250]
      exact e250)
      (by decide)
  have d251 : Point.addFast ⟨110797270718717713930106986467755591525380337883468629733153285312838244170195, 56216216227778204017389609900189580717931561557241616302043254022237862807340⟩ ⟨110797270718717713930106986467755591525380337883468629733153285312838244170195, 56216216227778204017389609900189580717931561557241616302043254022237862807340⟩ = ⟨84642857268339869727564516904922319555850247518954080446874590480634344123463, 64241166637791051017643778517059322507131070991449172667120525485497263996380⟩ :=
    (addFast_dbl ⟨110797270718717713930106986467755591525380337883468629733153285312838244170195, 56216216227778204017389609900189580717931561557241616302043254022237862807340⟩
      25316948198317147729035650783217421126076845000177088706702597882262093456168
      (by decide) (by decide) (by decide) (by decide)).trans (by decide)
  have t251 : Point.mulLoopF G 6 ⟨110797270718717713930106986467755591525380337883468629733153285312838244170195, 56216216227778204017389609900189580717931561557241616302043254022237862807340⟩ 1809251394333065553493296640760748560207343510400633813116524750123642650624 =
      Point.mulLoopF G 5 ⟨84642857268339869727564516904922319555850247518954080446874590480634344123463, 64241166637791051017643778517059322507131070991449172667120525485497263996380⟩ 3618502788666131106986593281521497120414687020801267626233049500247285301248 :=
    mulLoopF_step 5 ⟨110797270718717713930106986467755591525380337883468629733153285312838244170195, 56216216227778204017389609900189580717931561557241616302043254022237862807340⟩ ⟨84642857268339869727564516904922319555850247518954080446874590480634344123463, 64241166637791051017643778517059322507131070991449172667120525485497263996380⟩ 1809251394333065553493296640760748560207343510400633813116524750123642650624 3618502788666131106986593281521497120414687020801267626233049500247285301248
      (by
      rw [(by decide : Nat.testBit 1809251394333065553493296640760748560207343510400633813116524750123642650624 255 = false), if_neg Bool.false_ne_true]
      exact d251)
      (by decide)
  have d252 : Point.addFast ⟨84642857268339869727564516904922319555850247518954080446874590480634344123463, 64241166637791051017643778517059322507131070991449172667120525485497263996380⟩ ⟨84642857268339869727564516904922319555850247518954080446874590480634344123463, 64241166637791051017643778517059322507131070991449172667120525485497263996380⟩ = ⟨112839188495024393875613997466401352049882793377525588507800512281722343576419, 30630822197029742857447680855476168249489005013897222626921407650960832718276⟩ :=
    (addFast_dbl ⟨84642857268339869727564516904922319555850247518954080446874590480634344123463, 64241166637791051017643778517059322507131070991449172667120525485497263996380⟩
      7055103085532538462584656468367765935863408505761752631214891199048076410741
      (by decide) (by decide) (by decide) (by decide)).trans (by decide)
  have t252 : Point.mulLoopF G 5 ⟨84642857268339869727564516904922319555850247518954080446874590480634344123463, 64241166637791051017643778517059322507131070991449172667120525485497263996380⟩ 3618502788666131106986593281521497120414687020801267626233049500247285301248 =
      Point.mulLoopF G 4 ⟨112839188495024393875613997466401352049882793377525588507800512281722343576419, 30630822197029742857447680855476168249489005013897222626921407650960832718276⟩ 7237005577332262213973186563042994240829374041602535252466099000494570602496 :=
    mulLoopF_step 4 ⟨84642857268339869727564516904922319555850247518954080446874590480634344123463, 64241166637791051017643778517059322507131070991449172667120525485497263996380⟩ ⟨112839188495024393875613997466401352049882793377525588507800512281722343576419, 30630822197029742857447680855476168249489005013897222626921407650960832718276⟩ 3618502788666131106986593281521497120414687020801267626233049500247285301248 7237005577332262213973186563042994240829374041602535252466099000494570602496
      (by
      rw [(by decide : Nat.testBit 3618502788666131106986593281521497120414687020801267626233049500247285301248 255 = false), if_neg Bool.false_ne_true]
      exact d252)
      (by decide)
  have d253 : Point.addFast ⟨112839188495024393875613997466401352049882793377525588507800512281722343576419, 30630822197029742857447680855476168249489005013897222626921407650960832718276⟩ ⟨112839188495024393875613997466401352049882793377525588507800512281722343576419, 30630822197029742857447680855476168249489005013897222626921407650960832718276⟩ = ⟨10391991325606944208174258751455365170433116985737046503271282614823041311303, 26029484258878886523952200863127179315177598431280982924446788149129935759875⟩ :=
    (addFast_dbl ⟨112839188495024393875613997466401352049882793377525588507800512281722343576419, 30630822197029742857447680855476168249489005013897222626921407650960832718276⟩
      91152878965363539470268797626581258232131233560394071841840984748904029783005
      (by decide) (by decide) (by decide) (by decide)).trans (by decide)
  have t253 : Point.mulLoopF G 4 ⟨112839188495024393875613997466401352049882793377525588507800512281722343576419, 30630822197029742857447680855476168249489005013897222626921407650960832718276⟩ 7237005577332262213973186563042994240829374041602535252466099000494570602496 =
      Point.mulLoopF G 3 ⟨10391991325606944208174258751455365170433116985737046503271282614823041311303, 26029484258878886523952200863127179315177598431280982924446788149129935759875⟩ 14474011154664524427946373126085988481658748083205070504932198000989141204992 :=
    mulLoopF_step 3 ⟨112839188495024393875613997466401352049882793377525588507800512281722343576419, 30630822197029742857447680855476168249489005013897222626921407650960832718276⟩ ⟨10391991325606944208174258751455365170433116985737046503271282614823041311303, 26029484258878886523952200863127179315177598431280982924446788149129935759875⟩ 7237005577332262213973186563042994240829374041602535252466099000494570602496 14474011154664524427946373126085988481658748083205070504932198000989141204992
      (by
      rw [(by decide : Nat.testBit 7237005577332262213973186563042994240829374041602535252466099000494570602496 255 = false), if_neg Bool.false_ne_true]
      exact d253)
      (by decide)
  have d254 : Point.addFast ⟨10391991325606944208174258751455365170433116985737046503271282614823041311303, 26029484258878886523952200863127179315177598431280982924446788149129935759875⟩ ⟨10391991325606944208174258751455365170433116985737046503271282614823041311303, 26029484258878886523952200863127179315177598431280982924446788149129935759875⟩ = ⟨75404758482970552478342687949548602789701733940509850780379145804275702033212, 51231939447366605701190019263228486011330128519473004560491454193878655241557⟩ :=
    (addFast_dbl ⟨10391991325606944208174258751455365170433116985737046503271282614823041311303, 26029484258878886523952200863127179315177598431280982924446788149129935759875⟩
      99031576443402799324963744267393808913291605903596307641481061723956145256913
      (by decide) (by decide) (by decide) (by decide)).trans (by decide)
  have t254 : Point.mulLoopF G 3 ⟨10391991325606944208174258751455365170433116985737046503271282614823041311303, 26029484258878886523952200863127179315177598431280982924446788149129935759875⟩ 14474011154664524427946373126085988481658748083205070504932198000989141204992 =
      Point.mulLoopF G 2 ⟨75404758482970552478342687949548602789701733940509850780379145804275702033212, 51231939447366605701190019263228486011330128519473004560491454193878655241557⟩ 28948022309329048855892746252171976963317496166410141009864396001978282409984 :=
    mulLoopF_step 2 ⟨10391991325606944208174258751455365170433116985737046503271282614823041311303, 26029484258878886523952200863127179315177598431280982924446788149129935759875⟩ ⟨75404758482970552478342687949548602789701733940509850780379145804275702033212, 51231939447366605701190019263228486011330128519473004560491454193878655241557⟩ 14474011154664524427946373126085988481658748083205070504932198000989141204992 28948022309329048855892746252171976963317496166410141009864396001978282409984
      (by
      rw [(by decide : Nat.testBit 14474011154664524427946373126085988481658748083205070504932198000989141204992 255 = false), if_neg Bool.false_ne_true]
      exact d254)
      (by decide)
  have d255 : Point.addFast ⟨75404758482970552478342687949548602789701733940509850780379145804275702033212, 51231939447366605701190019263228486011330128519473004560491454193878655241557⟩ ⟨75404758482970552478342687949548602789701733940509850780379145804275702033212, 51231939447366605701190019263228486011330128519473004560491454193878655241557⟩ = ⟨86918276961810349294276103416548851884759982251107, 28597260016173315074988046521176122746119865902901063272803125467328307387891⟩ :=
    (addFast_dbl ⟨75404758482970552478342687949548602789701733940509850780379145804275702033212, 51231939447366605701190019263228486011330128519473004560491454193878655241557⟩
      83621551375360268785991612106238617862395851758707142006136182320061949969029
      (by decide) (by decide) (by decide) (by decide)).trans (by decide)
  have t255 : Point.mulLoopF G 2 ⟨75404758482970552478342687949548602789701733940509850780379145804275702033212, 51231939447366605701190019263228486011330128519473004560491454193878655241557⟩ 28948022309329048855892746252171976963317496166410141009864396001978282409984 =
      Point.mulLoopF G 1 ⟨86918276961810349294276103416548851884759982251107, 28597260016173315074988046521176122746119865902901063272803125467328307387891⟩ 57896044618658097711785492504343953926634992332820282019728792003956564819968 :=
    mulLoopF_step 1 ⟨75404758482970552478342687949548602789701733940509850780379145804275702033212, 51231939447366605701190019263228486011330128519473004560491454193878655241557⟩ ⟨86918276961810349294276103416548851884759982251107, 28597260016173315074988046521176122746119865902901063272803125467328307387891⟩ 28948022309329048855892746252171976963317496166410141009864396001978282409984 57896044618658097711785492504343953926634992332820282019728792003956564819968
      (by
      rw [(by decide : Nat.testBit 28948022309329048855892746252171976963317496166410141009864396001978282409984 255 = false), if_neg Bool.false_ne_true]
      exact d255)
      (by decide)
  have d256 : Point.addFast ⟨86918276961810349294276103416548851884759982251107, 28597260016173315074988046521176122746119865902901063272803125467328307387891⟩ ⟨86918276961810349294276103416548851884759982251107, 28597260016173315074988046521176122746119865902901063272803125467328307387891⟩ = ⟨55066263022277343669578718895168534326250603453777594175500187360389116729240, 83121579216557378445487899878180864668798711284981320763518679672151497189239⟩ :=
    (addFast_dbl ⟨86918276961810349294276103416548851884759982251107, 28597260016173315074988046521176122746119865902901063272803125467328307387891⟩
      9464686479934302762255540268874086369372918401883431106254162390241432797719
      (by decide) (by decide) (by decide) (by decide)).trans (by decide)
  have e256 : Point.addFast ⟨55066263022277343669578718895168534326250603453777594175500187360389116729240, 83121579216557378445487899878180864668798711284981320763518679672151497189239⟩ G = Point.AT_INFINITY :=
    addFast_neg_case ⟨55066263022277343669578718895168534326250603453777594175500187360389116729240, 83121579216557378445487899878180864668798711284981320763518679672151497189239⟩ G (by decide) (by decide) (by decide)
  have t256 : Point.mulLoopF G 1 ⟨86918276961810349294276103416548851884759982251107, 28597260016173315074988046521176122746119865902901063272803125467328307387891⟩ 57896044618658097711785492504343953926634992332820282019728792003956564819968 =
      Point.mulLoopF G 0 Point.AT_INFINITY 0 :=
    mulLoopF_step 0 ⟨86918276961810349294276103416548851884759982251107, 28597260016173315074988046521176122746119865902901063272803125467328307387891⟩ Point.AT_INFINITY 57896044618658097711785492504343953926634992332820282019728792003956564819968 0
      (by
      rw [(by decide : Nat.testBit 57896044618658097711785492504343953926634992332820282019728792003956564819968 255 = true), if_pos rfl, d256]
      exact e256)
      (by decide)
  rw [t241, t242, t243, t244, t245, t246, t247, t248, t249, t250, t251, t252, t253, t254, t255, t256]

/-- The generator multiplied by the published group order lands on the
sentinel, established by chaining the certified trace segments. -/
theorem mulG_order : Point.mulU256 G SECP256K1_GROUP_ORDER = Point.AT_INFINITY := by
  rw [Point.mulU256_fast G ⟨by decide, by decide⟩,
    (by decide : SECP256K1_GROUP_ORDER =
      115792089237316195423570985008687907852837564279074904382605163141518161494337),
    mulG_seg1, mulG_seg2, mulG_seg3, mulG_seg4, mulG_seg5, mulG_seg6, mulG_seg7, mulG_seg8, mulG_seg9, mulG_seg10, mulG_seg11, mulG_seg12, mulG_seg13, mulG_seg14, mulG_seg15, mulG_seg16]
  rfl

/-! ### The claims -/

/-- C7: field addition and subtraction are exact and canonical-form
preserving: on canonical inputs, addition returns `(a + b) % P`, subtraction
returns the canonical residue of `a - b` (as integers), both results are
canonical, and addition is commutative and associative. -/
theorem claim_C7_add_sub_exact (a b c : Nat) (ha : a < P) (hb : b < P) (hc : c < P) :
    Zp.add a b = (a + b) % P ∧ Zp.add a b < P ∧
      ((Zp.sub a b : Nat) : Int) = ((a : Int) - (b : Int)) % (P : Int) ∧ Zp.sub a b < P ∧
      Zp.add a b = Zp.add b a ∧
      Zp.add (Zp.add a b) c = Zp.add a (Zp.add b c) := by
  refine ⟨Zp.add_eq a b ha hb, Zp.add_lt a b ha hb, ?_, Zp.sub_lt a b ha hb, ?_, ?_⟩
  · rw [Zp.sub_eq a b ha hb]
    rw [P_val] at ha hb ⊢
    omega
  · rw [Zp.add_eq a b ha hb, Zp.add_eq b a hb ha, Nat.add_comm]
  · rw [Zp.add_eq a b ha hb, Zp.add_eq b c hb hc,
      Zp.add_eq _ c (Nat.mod_lt _ P_pos) hc, Zp.add_eq a _ ha (Nat.mod_lt _ P_pos)]
    rw [P_val]
    omega

/-- C8: the wrapping constructor fully reduces every 256-bit value modulo `P`,
although it only performs one conditional subtraction. -/
theorem claim_C8_wrapping_from (v : Nat) (hv : v < U256.size) :
    Zp.wrapping_from v = v % P :=
  Zp.wrapping_from_eq v hv

/-- C6: the 256-iteration double-and-add field multiplication computes
exactly the canonical residue of the product. -/
theorem claim_C6_mul_refines (a k : Nat) (ha : a < P) (hk : k < U256.size) :
    Zp.mulU256 a k = a * k % P :=
  Zp.mulU256_eq a k ha hk

/-- C9: division by a nonzero canonical divisor round-trips under
multiplication, and division is unconditionally multiplication by the
extended-Euclidean inverse (no zero-divisor check is performed). -/
theorem claim_C9_div_roundtrip (a d : Nat) (ha : a < P) (hd : d < P) (hd0 : d ≠ 0) :
    Zp.mul (Zp.div a d) d = a ∧
      Zp.div a d = Zp.mul a (Zp.multiplicative_inverse d) := by
  refine ⟨?_, rfl⟩
  have h1 : ((Zp.mul (Zp.div a d) d : Nat) : ZMod P) = (a : ZMod P) := by
    rw [zp_mul_cast _ d (Zp.div_lt a d ha) hd, zp_div_cast a d ha hd hd0]
    exact div_mul_cancel₀ _ (natCast_ne_zero d (Nat.pos_of_ne_zero hd0) hd)
  exact cast_inj_of_lt (Zp.mul_lt _ _ (Zp.div_lt a d ha) hd) ha h1

/-- C2: point addition and point negation preserve the validity invariant. -/
theorem claim_C2_validity_preserved (p q : Point) (hp : p.Valid) (hq : q.Valid) :
    (Point.add p q).Valid ∧ (Point.neg p).Valid :=
  ⟨(toEC_add p q hp hq).2, (toEC_neg p hp).2⟩

/-- C10: point addition is commutative on valid points, despite the
asymmetric treatment of the operands in the implementation. -/
theorem claim_C10_add_comm (p q : Point) (hp : p.Valid) (hq : q.Valid) :
    Point.add p q = Point.add q p := by
  apply toEC_inj (toEC_add p q hp hq).2 (toEC_add q p hq hp).2
  rw [(toEC_add p q hp hq).1, (toEC_add q p hq hp).1, add_comm]

/-- C5: scalar multiplication of the generator distributes over scalar
addition, for scalars whose sum fits in 256 bits. -/
theorem claim_C5_distributive (a b : Nat) (h : a + b < U256.size) :
    Point.mulU256 G (a + b) = Point.add (Point.mulU256 G a) (Point.mulU256 G b) := by
  have ha : a < U256.size := by omega
  have hb : b < U256.size := by omega
  obtain ⟨hab, hvab⟩ := toEC_mulU256 G G_valid (a + b) h
  obtain ⟨hA, hvA⟩ := toEC_mulU256 G G_valid a ha
  obtain ⟨hB, hvB⟩ := toEC_mulU256 G G_valid b hb
  apply toEC_inj hvab (toEC_add _ _ hvA hvB).2
  rw [hab, (toEC_add _ _ hvA hvB).1, hA, hB, add_nsmul]

/-- C3: the generator times the published group order is the point at
infinity. -/
theorem claim_C3_group_order : Point.mulU256 G SECP256K1_GROUP_ORDER = Point.AT_INFINITY :=
  mulG_order

/-- C4: for a scalar coprime to the group order, the scalar inverse is the
multiplicative inverse modulo the order (not modulo `P`), and the round trip
`(G * s) * inverse(s) = G` holds. -/
theorem claim_C4_scalar_inverse (s : Nat) (hs : s < U256.size)
    (hcop : Nat.gcd s SECP256K1_GROUP_ORDER = 1) :
    s * Point.scalar_multiplicative_inverse s % SECP256K1_GROUP_ORDER = 1 ∧
      Point.scalar_multiplicative_inverse s < SECP256K1_GROUP_ORDER ∧
      Point.mulU256 (Point.mulU256 G s) (Point.scalar_multiplicative_inverse s) = G := by
  have hn1 : 1 < SECP256K1_GROUP_ORDER := by rw [order_val]; norm_num
  have hinv := mod_inverse_spec s SECP256K1_GROUP_ORDER hn1
    (by rw [Nat.gcd_comm]; exact hcop)
  have hlt := mod_inverse_lt s SECP256K1_GROUP_ORDER (by omega)
  refine ⟨hinv, hlt, ?_⟩
  show Point.mulU256 (Point.mulU256 G s) (mod_inverse s SECP256K1_GROUP_ORDER) = G
  have ht_size : mod_inverse s SECP256K1_GROUP_ORDER < U256.size :=
    lt_trans hlt (by rw [order_val, size_val]; norm_num)
  obtain ⟨hGs, hvGs⟩ := toEC_mulU256 G G_valid s hs
  obtain ⟨hGst, hvGst⟩ := toEC_mulU256 (Point.mulU256 G s) hvGs
    (mod_inverse s SECP256K1_GROUP_ORDER) ht_size
  have hord : SECP256K1_GROUP_ORDER • toEC G = 0 := by
    obtain ⟨hm, _⟩ := toEC_mulU256 G G_valid SECP256K1_GROUP_ORDER
      (by rw [order_val, size_val]; norm_num)
    rw [← hm, mulG_order, toEC_infinity]
  apply toEC_inj hvGst G_valid
  rw [hGst, hGs, ← mul_nsmul]
  have hdm := Nat.div_add_mod (s * mod_inverse s SECP256K1_GROUP_ORDER) SECP256K1_GROUP_ORDER
  calc (s * mod_inverse s SECP256K1_GROUP_ORDER) • toEC G
      = (SECP256K1_GROUP_ORDER * (s * mod_inverse s SECP256K1_GROUP_ORDER / SECP256K1_GROUP_ORDER)
          + s * mod_inverse s SECP256K1_GROUP_ORDER % SECP256K1_GROUP_ORDER) • toEC G := by
        rw [hdm]
    _ = (s * mod_inverse s SECP256K1_GROUP_ORDER / SECP256K1_GROUP_ORDER)
          • (SECP256K1_GROUP_ORDER • toEC G)
          + (s * mod_inverse s SECP256K1_GROUP_ORDER % SECP256K1_GROUP_ORDER) • toEC G := by
        rw [add_nsmul, mul_nsmul]
    _ = toEC G := by
        rw [hord, nsmul_zero, zero_add, hinv, one_nsmul]

/-- Modelled from the spec: the group-law slope exactly as the specification
words it, with the claim's `p` bound to `self` and `q` to `rhs`:
`λ = 3·x²/(2·y)` for doubling and `λ = (q.y − p.y)/(q.x − p.x)` otherwise,
computed in the field `ZMod P`. -/
noncomputable def specLambda (self rhs : Point) : ZMod P :=
  if (self.x : ZMod P) = (rhs.x : ZMod P) ∧ (self.y : ZMod P) = (rhs.y : ZMod P) then
    3 * (self.x : ZMod P) ^ 2 / (2 * (self.y : ZMod P))
  else
    ((rhs.y : ZMod P) - (self.y : ZMod P)) / ((rhs.x : ZMod P) - (self.x : ZMod P))

/-- C1: point addition follows the short-Weierstrass group law: the neutral
cases, the inverse case, and otherwise the slope/chord formulas of the
specification, all read in the field `ZMod P`. -/
theorem claim_C1_group_law (self rhs : Point) (hs : self.Valid) (hr : rhs.Valid) :
    (self = Point.AT_INFINITY → Point.add self rhs = rhs) ∧
      (rhs = Point.AT_INFINITY → Point.add self rhs = self) ∧
      (self ≠ Point.AT_INFINITY → rhs ≠ Point.AT_INFINITY →
        ((self.x : ZMod P) = (rhs.x : ZMod P) ∧ (self.y : ZMod P) = -(rhs.y : ZMod P)) →
        Point.add self rhs = Point.AT_INFINITY) ∧
      (self ≠ Point.AT_INFINITY → rhs ≠ Point.AT_INFINITY →
        ¬ ((self.x : ZMod P) = (rhs.x : ZMod P) ∧ (self.y : ZMod P) = -(rhs.y : ZMod P)) →
        (((Point.add self rhs).x : ZMod P)
            = specLambda self rhs ^ 2 - (self.x : ZMod P) - (rhs.x : ZMod P) ∧
          ((Point.add self rhs).y : ZMod P)
            = specLambda self rhs * ((self.x : ZMod P) - ((Point.add self rhs).x : ZMod P))
                - (self.y : ZMod P))) := by
  obtain ⟨hsx, hsy, hscase⟩ := hs
  obtain ⟨hrx, hry, hrcase⟩ := hr
  refine ⟨?_, ?_, ?_, ?_⟩
  · intro h
    have hb : self.is_at_infinity = true :=
      (is_at_infinity_iff self).mpr (by rw [h]; exact ⟨rfl, rfl⟩)
    simp only [Point.add, hb, if_true]
  · intro h
    have hb : rhs.is_at_infinity = true :=
      (is_at_infinity_iff rhs).mpr (by rw [h]; exact ⟨rfl, rfl⟩)
    by_cases hb1 : self.is_at_infinity = true
    · have h1 := (is_at_infinity_iff self).mp hb1
      simp only [Point.add, hb1, if_true]
      rw [h, point_eta self, h1.1, h1.2]
      rfl
    · simp only [Point.add, hb, if_true]
      rw [if_neg hb1]
  · intro hne1 hne2 ⟨hxeq, hyeq⟩
    have hb1 : ¬ self.is_at_infinity = true := fun hb =>
      (ne_infinity_iff self).mp hne1 ((is_at_infinity_iff self).mp hb)
    have hb2 : ¬ rhs.is_at_infinity = true := fun hb =>
      (ne_infinity_iff rhs).mp hne2 ((is_at_infinity_iff rhs).mp hb)
    have hneg : self = Point.neg rhs := by
      have hq1 : (Point.neg rhs).x < P := hrx
      have hq2 : (Point.neg rhs).y < P := Zp.neg_lt rhs.y hry
      apply point_eq_of_cast hsx hsy hq1 hq2 hxeq
      show (self.y : ZMod P) = ((Zp.neg rhs.y : Nat) : ZMod P)
      rw [zp_neg_cast rhs.y hry]
      exact hyeq
    simp only [Point.add]
    rw [if_neg hb1, if_neg hb2, if_pos hneg]
  · intro hne1 hne2 hnneg
    have hsent_s := (ne_infinity_iff self).mp hne1
    have hsent_r := (ne_infinity_iff rhs).mp hne2
    obtain ⟨hw1, he1⟩ := toEC_some self ⟨hsx, hsy, hscase⟩ hsent_s
    obtain ⟨hw2, he2⟩ := toEC_some rhs ⟨hrx, hry, hrcase⟩ hsent_r
    have hxy : (self.x : ZMod P) = (rhs.x : ZMod P) →
        (self.y : ZMod P) ≠ W.negY (rhs.x : ZMod P) (rhs.y : ZMod P) := by
      intro hx hy
      rw [W_negY] at hy
      exact hnneg ⟨hx, hy⟩
    obtain ⟨hsum, hvres⟩ := toEC_add self rhs ⟨hsx, hsy, hscase⟩ ⟨hrx, hry, hrcase⟩
    rw [he1, he2, WeierstrassCurve.Affine.Point.add_of_imp hxy] at hsum
    by_cases hres : W.Nonsingular (((Point.add self rhs).x : Nat) : ZMod P)
        (((Point.add self rhs).y : Nat) : ZMod P)
    · rw [toEC_of_nonsingular _ hres] at hsum
      injection hsum with hxcoord hycoord
      have hL : W.slope (self.x : ZMod P) (rhs.x : ZMod P) (self.y : ZMod P) (rhs.y : ZMod P)
          = specLambda self rhs := by
        unfold specLambda
        by_cases hco : (self.x : ZMod P) = (rhs.x : ZMod P) ∧ (self.y : ZMod P) = (rhs.y : ZMod P)
        · rw [if_pos hco]
          rw [WeierstrassCurve.Affine.slope_of_Y_ne hco.1 (hxy hco.1)]
          rw [W_negY]
          rw [show (3 : ZMod P) * (self.x : ZMod P) ^ 2 + 2 * W.a₂ * (self.x : ZMod P) + W.a₄
              - W.a₁ * (self.y : ZMod P) = 3 * (self.x : ZMod P) ^ 2 from by
            linear_combination 2 * (self.x : ZMod P) * W_a2 + W_a4 - (self.y : ZMod P) * W_a1]
          rw [show (self.y : ZMod P) - -(self.y : ZMod P) = 2 * (self.y : ZMod P) from by ring]
        · rw [if_neg hco]
          have hxne : (self.x : ZMod P) ≠ (rhs.x : ZMod P) := by
            intro hx
            rcases WeierstrassCurve.Affine.Y_eq_of_X_eq hw1.1 hw2.1 hx with hyy | hyy
            · exact hco ⟨hx, hyy⟩
            · rw [W_negY] at hyy
              exact hnneg ⟨hx, hyy⟩
          rw [WeierstrassCurve.Affine.slope_of_X_ne hxne]
          rw [show ((rhs.y : ZMod P) - (self.y : ZMod P)) = -((self.y : ZMod P) - (rhs.y : ZMod P))
              from by ring,
            show ((rhs.x : ZMod P) - (self.x : ZMod P)) = -((self.x : ZMod P) - (rhs.x : ZMod P))
              from by ring, neg_div_neg_eq]
      constructor
      · rw [hxcoord, ← hL]
        show W.addX _ _ _ = _
        rw [WeierstrassCurve.Affine.addX]
        linear_combination
          W.slope (self.x : ZMod P) (rhs.x : ZMod P) (self.y : ZMod P) (rhs.y : ZMod P) * W_a1
          - W_a2
      · rw [hycoord, hxcoord, ← hL]
        show W.addY _ _ _ _ = _
        rw [WeierstrassCurve.Affine.addY, WeierstrassCurve.Affine.negAddY, W_negY]
        ring
    · exfalso
      rw [show toEC (Point.add self rhs) = 0 from by unfold toEC; exact dif_neg hres] at hsum
      exact WeierstrassCurve.Affine.Point.some_ne_zero _ hsum.symm

/-! ### Witnesses: the claims applied at concrete inputs -/

/-- The point `2·G`, from the repository's own test vector. -/
def P2 : Point :=
  ⟨wordsToNat 0xABAC09B95C709EE5 0x5C778E4B8CEF3CA7 0x3045406E95C07CD8 0xC6047F9441ED7D6D,
   wordsToNat 0x236431A950CFE52A 0xF7F632653266D0E1 0xA3C58419466CEAEE 0x1AE168FEA63DC339⟩

theorem P2_valid : P2.Valid := by
  refine ⟨by decide, by decide, Or.inr ?_⟩
  exact (curve_check_iff _ _ (by decide) (by decide)).mpr (by decide)

theorem claim_C1_group_law_witness :
    G.Valid ∧ P2.Valid ∧
      ((G = Point.AT_INFINITY → Point.add G P2 = P2) ∧
        (P2 = Point.AT_INFINITY → Point.add G P2 = G) ∧
        (G ≠ Point.AT_INFINITY → P2 ≠ Point.AT_INFINITY →
          ((G.x : ZMod P) = (P2.x : ZMod P) ∧ (G.y : ZMod P) = -(P2.y : ZMod P)) →
          Point.add G P2 = Point.AT_INFINITY) ∧
        (G ≠ Point.AT_INFINITY → P2 ≠ Point.AT_INFINITY →
          ¬ ((G.x : ZMod P) = (P2.x : ZMod P) ∧ (G.y : ZMod P) = -(P2.y : ZMod P)) →
          (((Point.add G P2).x : ZMod P)
              = specLambda G P2 ^ 2 - (G.x : ZMod P) - (P2.x : ZMod P) ∧
            ((Point.add G P2).y : ZMod P)
              = specLambda G P2 * ((G.x : ZMod P) - ((Point.add G P2).x : ZMod P))
                  - (G.y : ZMod P)))) :=
  ⟨G_valid, P2_valid, claim_C1_group_law G P2 G_valid P2_valid⟩

theorem claim_C2_validity_preserved_witness :
    G.Valid ∧ P2.Valid ∧ ((Point.add G P2).Valid ∧ (Point.neg G).Valid) :=
  ⟨G_valid, P2_valid, claim_C2_validity_preserved G P2 G_valid P2_valid⟩

theorem claim_C4_scalar_inverse_witness :
    42 < U256.size ∧ Nat.gcd 42 SECP256K1_GROUP_ORDER = 1 ∧
      (42 * Point.scalar_multiplicative_inverse 42 % SECP256K1_GROUP_ORDER = 1 ∧
        Point.scalar_multiplicative_inverse 42 < SECP256K1_GROUP_ORDER ∧
        Point.mulU256 (Point.mulU256 G 42) (Point.scalar_multiplicative_inverse 42) = G) :=
  ⟨by decide, by decide, claim_C4_scalar_inverse 42 (by decide) (by decide)⟩

theorem claim_C5_distributive_witness :
    42 + 47 < U256.size ∧
      Point.mulU256 G (42 + 47) = Point.add (Point.mulU256 G 42) (Point.mulU256 G 47) :=
  ⟨by decide, claim_C5_distributive 42 47 (by decide)⟩

theorem claim_C6_mul_refines_witness :
    3 < P ∧ 5 < U256.size ∧ Zp.mulU256 3 5 = 3 * 5 % P :=
  ⟨by decide, by decide, claim_C6_mul_refines 3 5 (by decide) (by decide)⟩

theorem claim_C7_add_sub_exact_witness :
    1 < P ∧ 2 < P ∧ 3 < P ∧
      (Zp.add 1 2 = (1 + 2) % P ∧ Zp.add 1 2 < P ∧
        ((Zp.sub 1 2 : Nat) : Int) = ((1 : Int) - (2 : Int)) % (P : Int) ∧ Zp.sub 1 2 < P ∧
        Zp.add 1 2 = Zp.add 2 1 ∧
        Zp.add (Zp.add 1 2) 3 = Zp.add 1 (Zp.add 2 3)) :=
  ⟨by decide, by decide, by decide,
    claim_C7_add_sub_exact 1 2 3 (by decide) (by decide) (by decide)⟩

theorem claim_C8_wrapping_from_witness :
    P + 1 < U256.size ∧ Zp.wrapping_from (P + 1) = (P + 1) % P :=
  ⟨by decide, claim_C8_wrapping_from (P + 1) (by decide)⟩

theorem claim_C9_div_roundtrip_witness :
    5 < P ∧ 3 < P ∧ (3 : Nat) ≠ 0 ∧
      (Zp.mul (Zp.div 5 3) 3 = 5 ∧
        Zp.div 5 3 = Zp.mul 5 (Zp.multiplicative_inverse 3)) :=
  ⟨by decide, by decide, by decide,
    claim_C9_div_roundtrip 5 3 (by decide) (by decide) (by decide)⟩

theorem claim_C10_add_comm_witness :
    P2.Valid ∧ G.Valid ∧ Point.add P2 G = Point.add G P2 :=
  ⟨P2_valid, G_valid, claim_C10_add_comm P2 G P2_valid G_valid⟩

end Secp
